import Mathlib

/-!
# libnice ICE agent: a shallow embedding of `agent/agent.c` and `agent/discovery.c`

The definitions below are translated from the C sources.  C strings are lists of
characters, unsigned machine integers are natural numbers (reduced modulo the
width where the source relies on it), pointers to heap objects are replaced by
the objects themselves or, where pointer identity matters, by numeric handles.
Lists (`GSList`/`GList`) are Lean lists in the same order.
-/

namespace Nice

/-! ## Data model -/

/-- A C string (`gchar *`), without its terminating NUL. -/
abbrev CString := List Char

/-- The address family tag of the `sockaddr` union in `struct _NiceAddress`
(`address.h`).  `nice_address_init` sets `AF_UNSPEC`. -/
inductive AddrFamily
  | AF_UNSPEC
  | AF_INET
  | AF_INET6
  deriving DecidableEq, Repr

/-- The `struct _NiceAddress` of `address.h`: a family tag, the IP address bits and the
16-bit port. -/
structure NiceAddress where
  family : AddrFamily
  ip : Nat
  port : Nat
  deriving DecidableEq, Repr

/-- The `nice_address_init` inline function of `address.h`, applied to zeroed storage
(candidates are allocated zeroed). -/
def nice_address_init : NiceAddress := ⟨AddrFamily.AF_UNSPEC, 0, 0⟩

/-- Modelled from the spec: `nice_address_is_valid` lives in `address.c`, a file of the
library that is outside `agent.c` and `discovery.c`.  An address is valid when it is IPv4
or IPv6. -/
def nice_address_is_valid (a : NiceAddress) : Bool :=
  a.family != AddrFamily.AF_UNSPEC

/-- Modelled from the spec: `nice_address_equal` (`address.c`): "Equality is bitwise on
the address and port". -/
def nice_address_equal (a b : NiceAddress) : Bool :=
  decide (a = b)

/-- Modelled from the spec: `nice_address_equal_no_port` (`address.c`): "Equal ignoring
port" compares the family and the address bits only. -/
def nice_address_equal_no_port (a b : NiceAddress) : Bool :=
  decide (a.family = b.family) && decide (a.ip = b.ip)

/-- Modelled from the spec: `nice_address_set_port` (`address.c`) stores a 16-bit port. -/
def nice_address_set_port (a : NiceAddress) (port : Nat) : NiceAddress :=
  { a with port := port % 65536 }

/-- Modelled from the spec: `nice_address_get_port` (`address.c`). -/
def nice_address_get_port (a : NiceAddress) : Nat := a.port

/-- Candidate types, `NiceCandidateType`, in the order of the C enum (the index into
`type_names` of the SDP reader relies on it). -/
inductive NiceCandidateType
  | HOST
  | SERVER_REFLEXIVE
  | PEER_REFLEXIVE
  | RELAYED
  deriving DecidableEq, Repr

/-- Candidate transports, `NiceCandidateTransport`. -/
inductive NiceCandidateTransport
  | UDP
  | TCP_ACTIVE
  | TCP_PASSIVE
  | TCP_SO
  deriving DecidableEq, Repr

/-- The `NiceCompatibility` enum. -/
inductive NiceCompatibility
  | RFC5245
  | GOOGLE
  | MSN
  | WLM2009
  | OC2007
  | OC2007R2
  deriving DecidableEq, Repr

/-- The `NiceNominationMode` enum. -/
inductive NiceNominationMode
  | REGULAR
  | AGGRESSIVE
  deriving DecidableEq, Repr

/-- The `NiceComponentState` enum, in declaration order, with its end marker
`NICE_COMPONENT_STATE_LAST`. -/
inductive NiceComponentState
  | DISCONNECTED
  | GATHERING
  | CONNECTING
  | CONNECTED
  | READY
  | FAILED
  | LAST
  deriving DecidableEq, Repr

/-- The numeric value of a component state in the C enum. -/
def NiceComponentState.toNat : NiceComponentState → Nat
  | .DISCONNECTED => 0
  | .GATHERING => 1
  | .CONNECTING => 2
  | .CONNECTED => 3
  | .READY => 4
  | .FAILED => 5
  | .LAST => 6

/-- Socket kinds, `NiceSocketType`. -/
inductive NiceSocketType
  | UDP_BSD
  | TCP_BSD
  | PSEUDOSSL
  | HTTP
  | SOCKS5
  | UDP_TURN
  | UDP_TURN_OVER_TCP
  | TCP_ACTIVE
  | TCP_PASSIVE
  | TCP_SO
  deriving DecidableEq, Repr

/-- A `NiceSocket`, reduced to what the agent code reads: a handle standing for the
pointer, the socket kind, the bound address and whether the transport is reliable
(`nice_socket_is_reliable`). -/
structure NiceSocket where
  handle : Nat
  type : NiceSocketType
  addr : NiceAddress
  reliable : Bool
  deriving DecidableEq, Repr

/-- The `NiceRelayType` enum. -/
inductive NiceRelayType
  | TURN_UDP
  | TURN_TCP
  | TURN_TLS
  deriving DecidableEq, Repr

/-- A `TurnServer`.  `handle` stands for the pointer (the code compares TURN servers by
pointer), `server` is the resolved address, `server_port` the port given when the server
was added and `preference` its position in the list at that time. -/
structure TurnServer where
  handle : Nat
  server : NiceAddress
  resolution_failed : Bool
  type : NiceRelayType := .TURN_UDP
  server_port : Nat := 0
  preference : Nat := 0
  deriving DecidableEq, Repr

/-- A `NiceCandidateImpl`: the public `NiceCandidate` fields followed by the private
`turn` and `sockptr` members. -/
structure NiceCandidate where
  type : NiceCandidateType
  transport : NiceCandidateTransport
  addr : NiceAddress
  base_addr : NiceAddress
  priority : Nat
  stream_id : Nat
  component_id : Nat
  foundation : CString
  username : Option CString
  password : Option CString
  turn : Option TurnServer
  sockptr : Option NiceSocket
  deriving DecidableEq, Repr

/-- The `nice_candidate_new` constructor: zeroed storage with the type set. -/
def nice_candidate_new (type : NiceCandidateType) : NiceCandidate :=
  { type := type, transport := NiceCandidateTransport.UDP,
    addr := nice_address_init, base_addr := nice_address_init,
    priority := 0, stream_id := 0, component_id := 0, foundation := [],
    username := none, password := none, turn := none, sockptr := none }

/-- Signals queued by `agent_queue_signal` while the agent lock is held. -/
inductive Signal
  | COMPONENT_STATE_CHANGED (stream_id component_id : Nat) (state : NiceComponentState)
  | NEW_CANDIDATE_FULL (candidate : NiceCandidate)
  | NEW_CANDIDATE (stream_id component_id : Nat) (foundation : CString)
  | NEW_REMOTE_CANDIDATE_FULL (candidate : NiceCandidate)
  | NEW_REMOTE_CANDIDATE (stream_id component_id : Nat) (foundation : CString)
  | CANDIDATE_GATHERING_DONE (stream_id : Nat)
  deriving DecidableEq, Repr

/-- The members of `NiceComponent` that the modelled functions read or write. -/
structure NiceComponent where
  id : Nat
  state : NiceComponentState
  local_candidates : List NiceCandidate
  remote_candidates : List NiceCandidate
  turn_servers : List TurnServer
  turn_candidate : Option NiceCandidate
  min_port : Nat
  max_port : Nat
  selected_pair_local : Option NiceCandidate := none
  rfc4571_remote_addr : NiceAddress := nice_address_init
  selected_pair_remote : Option NiceCandidate := none
  remote_consent_have : Bool := false
  deriving DecidableEq, Repr

/-- The members of `NiceStream` that the modelled functions read or write. -/
structure NiceStream where
  id : Nat
  n_components : Nat
  components : List NiceComponent
  gathering : Bool
  gathering_started : Bool
  deriving DecidableEq, Repr

/-- A `CandidateDiscovery` item of the agent's discovery list.  `stun_message_buffer`
tells whether `stun_message.buffer` is set (not NULL); `next_tick` is in microseconds. -/
structure CandidateDiscovery where
  type : NiceCandidateType
  nicesock : Option NiceSocket
  server : NiceAddress
  turn : Option TurnServer
  stream_id : Nat
  component_id : Nat
  pending : Bool := false
  done : Bool := false
  stun_message_buffer : Bool := false
  next_tick : Int := 0
  deriving DecidableEq, Repr

/-- The members of `NiceAgent` that the modelled functions read or write.  `signals` is
the deferred signal queue, oldest first; `stun_resolving_list` holds the stream ids of
the pending STUN server name resolutions; `discovery_timer_source` tells whether the
discovery timer is installed; `next_stream_id` is a 32-bit counter. -/
structure NiceAgent where
  streams : List NiceStream
  compatibility : NiceCompatibility
  full_mode : Bool
  reliable : Bool
  force_relay : Bool
  use_ice_udp : Bool
  use_ice_tcp : Bool
  controlling_mode : Bool
  nomination_mode : NiceNominationMode
  next_candidate_id : Nat
  signals : List Signal
  local_addresses : List NiceAddress := []
  stun_server_ip : Option CString := none
  discovery_list : List CandidateDiscovery := []
  discovery_unsched_items : Nat := 0
  stun_resolving_list : List Nat := []
  discovery_timer_source : Bool := false
  saved_controlling_mode : Bool := true
  next_stream_id : Nat := 1
  deriving DecidableEq, Repr

/-! ## Lookup (`agent.c`) -/

/-- The function `agent_find_stream`: the first stream of the agent with the given id. -/
def agent_find_stream (agent : NiceAgent) (stream_id : Nat) : Option NiceStream :=
  agent.streams.find? (fun s => s.id == stream_id)

/-- Modelled from the spec: `nice_stream_find_component_by_id` lives in `stream.c`.  A component is identified within its stream by its
id; the first component of the stream with that id is returned. -/
def nice_stream_find_component_by_id (stream : NiceStream) (component_id : Nat) :
    Option NiceComponent :=
  stream.components.find? (fun c => c.id == component_id)

/-- The function `agent_find_component`: the stream and the component, or nothing when
either is missing. -/
def agent_find_component (agent : NiceAgent) (stream_id component_id : Nat) :
    Option (NiceStream × NiceComponent) :=
  match agent_find_stream agent stream_id with
  | none => none
  | some s =>
    match nice_stream_find_component_by_id s component_id with
    | none => none
    | some c => some (s, c)

/-- Replace the first element satisfying `p` by its image under `f`: what a write through
the pointer returned by a list search does to the list. -/
def update_first {α : Type} (p : α → Bool) (f : α → α) : List α → List α
  | [] => []
  | x :: xs => if p x then f x :: xs else x :: update_first p f xs

/-- A write through the `NiceComponent *` that `agent_find_component` returned. -/
def agent_update_component (agent : NiceAgent) (stream_id component_id : Nat)
    (f : NiceComponent → NiceComponent) : NiceAgent :=
  let in_stream : NiceStream → NiceStream := fun s =>
    { s with components := update_first (fun c => c.id == component_id) f s.components }
  { agent with streams := update_first (fun s => s.id == stream_id) in_stream agent.streams }

/-- The function `agent_queue_signal`: append to the deferred signal queue. -/
def agent_queue_signal (agent : NiceAgent) (sig : Signal) : NiceAgent :=
  { agent with signals := agent.signals ++ [sig] }

/-! ## Component state changes (`agent.c`, `agent_signal_component_state_change`) -/

/-- The condition of the `g_assert` in `agent_signal_component_state_change`, one
disjunct per line of the source. -/
def valid_state_transition (old_state new_state : NiceComponentState) : Bool :=
  (new_state == .FAILED) ||
  (old_state == .DISCONNECTED && new_state == .GATHERING) ||
  (old_state == .GATHERING && new_state == .CONNECTING) ||
  (old_state == .CONNECTING && new_state == .CONNECTED) ||
  (old_state == .CONNECTED && new_state == .READY) ||
  (old_state == .READY && new_state == .CONNECTED) ||
  (old_state == .FAILED && new_state == .CONNECTING) ||
  (old_state == .FAILED && new_state == .GATHERING) ||
  (old_state == .DISCONNECTED && new_state == .CONNECTING) ||
  (old_state == .CONNECTED && new_state == .CONNECTING) ||
  (new_state == .GATHERING)

/-- The function `agent_signal_component_state_change`.  The result is `none` when the
`g_assert` fails (the process aborts); otherwise it is the agent afterwards.  The call
of `process_queued_tcp_packets` in reliable mode only feeds queued packets to
pseudo-TCP, which this model does not carry. -/
def agent_signal_component_state_change (agent : NiceAgent)
    (stream_id component_id : Nat) (new_state : NiceComponentState) : Option NiceAgent :=
  if ¬ (new_state.toNat < NiceComponentState.LAST.toNat) then some agent
  else
    match agent_find_component agent stream_id component_id with
    | none => some agent
    | some (_, component) =>
      let old_state := component.state
      if new_state = old_state then some agent
      else if valid_state_transition old_state new_state then
        some (agent_queue_signal
          (agent_update_component agent stream_id component_id
            (fun c => { c with state := new_state }))
          (Signal.COMPONENT_STATE_CHANGED stream_id component_id new_state))
      else none

/-- A state change is accepted when the component exists, the new state is a real state
different from the current one, and the assertion passes: the component's state is then
written and a signal queued. -/
def state_change_accepted (agent : NiceAgent) (stream_id component_id : Nat)
    (new_state : NiceComponentState) : Prop :=
  ∃ s c, agent_find_component agent stream_id component_id = some (s, c) ∧
    new_state.toNat < NiceComponentState.LAST.toNat ∧
    new_state ≠ c.state ∧
    agent_signal_component_state_change agent stream_id component_id new_state =
      some (agent_queue_signal
        (agent_update_component agent stream_id component_id
          (fun c => { c with state := new_state }))
        (Signal.COMPONENT_STATE_CHANGED stream_id component_id new_state))

/-! ## Concrete inputs -/

/-- An agent with one stream holding one component in the given state. -/
def agent_one_component (state : NiceComponentState) : NiceAgent :=
  { streams := [{ id := 1, n_components := 1, gathering := false, gathering_started := false,
                  components := [{ id := 1, state := state, local_candidates := [],
                                   remote_candidates := [], turn_servers := [],
                                   turn_candidate := none, min_port := 0, max_port := 0 }] }],
    compatibility := .RFC5245, full_mode := true, reliable := false, force_relay := false,
    use_ice_udp := true, use_ice_tcp := true, controlling_mode := true,
    nomination_mode := .AGGRESSIVE, next_candidate_id := 1, signals := [] }

/-! ## RFC 4571 framing on send (`agent.c`, `nice_agent_send_messages_nonblocking_internal`) -/

/-- A `GOutputVector`: the address of the first byte and the number of bytes. -/
structure GOutputVector where
  buffer : Nat
  size : Nat
  deriving DecidableEq, Repr

/-- A `NiceOutputMessage` is its array of buffers (`n_buffers` is the length of the list;
the NULL-terminated form with `n_buffers == -1` is the same list). -/
abbrev NiceOutputMessage := List GOutputVector

/-- The function `output_message_get_size`: the sum of the buffer sizes. -/
def output_message_get_size (message : NiceOutputMessage) : Nat :=
  (message.map (fun b => b.size)).sum

/-- What one iteration of the framing loop hands to the socket: `local_bufs[0]` is the
two-byte variable `rfc4571_frame` holding `htons (packet_len)`, `bufs` are
`local_bufs[1 .. n_buffers-1]`, and `reliable_send` tells whether
`nice_socket_send_messages_reliable` was used instead of `nice_socket_send_messages`. -/
structure Rfc4571Frame where
  packet_len : Nat
  bufs : List GOutputVector
  reliable_send : Bool
  deriving DecidableEq, Repr

/-- The first inner `for` loop of the framing code ("find which buffer to start copying
from and our offset within that buffer").  The argument list is `message->buffers[j ..]`;
the result is the buffers from the position where the loop stopped, `offset_in_buffer`
and `current_offset`. -/
def rfc4571_find_start (offset : Nat) :
    List GOutputVector → Nat → List GOutputVector × Nat × Nat
  | [], current_offset => ([], 0, current_offset)
  | b :: rest, current_offset =>
    if b.size < offset - current_offset then
      rfc4571_find_start offset rest (current_offset + b.size)
    else
      (b :: rest, offset - current_offset, offset)

/-- The second inner `for` loop ("keep j position in array and start copying from
there"): one local vector per remaining buffer, starting `offset_in_buffer` bytes into
the first one, each of size `MIN (message->buffers[j].size, packet_len)`. -/
def rfc4571_copy_bufs : List GOutputVector → Nat → Nat → List GOutputVector
  | [], _, _ => []
  | b :: rest, offset_in_buffer, packet_len =>
    let size := min b.size packet_len
    { buffer := b.buffer + offset_in_buffer, size := size } ::
      rfc4571_copy_bufs rest 0 (packet_len - size)

/-- The `while (message_len > 0)` loop for one message.  `sock_send` is the socket's
answer `n_sent_framed` for a frame; the state is `message_len`, `offset` and `n_sent`;
the result is the frames handed to the socket, in order, and `n_sent`.  Every iteration
lowers `message_len` by `packet_len > 0`, so `fuel = message_len` iterations are enough. -/
def rfc4571_send_loop (agent_reliable : Bool) (sock_send : Rfc4571Frame → Int)
    (message : NiceOutputMessage) :
    Nat → Nat → Nat → Int → List Rfc4571Frame × Int
  | 0, _, _, n_sent => ([], n_sent)
  | fuel + 1, message_len, offset, n_sent =>
    if message_len = 0 then ([], n_sent)
    else
      let packet_len := if message_len > 0xF800 then 0xF800 else message_len
      let message_len := message_len - packet_len
      let start := rfc4571_find_start offset message 0
      let bufs := rfc4571_copy_bufs start.1 start.2.1 packet_len
      let offset := offset + (bufs.map (fun b => b.size)).sum
      let frame : Rfc4571Frame :=
        { packet_len := packet_len, bufs := bufs,
          reliable_send := !(start.2.2 == 0 && !agent_reliable) }
      let n_sent_framed := sock_send frame
      let n_sent := if n_sent_framed < 0 ∧ n_sent = 0 then n_sent_framed else n_sent
      if n_sent_framed ≠ 1 then ([frame], n_sent)
      else
        let n_sent := if message_len = 0 then n_sent + 1 else n_sent
        let more := rfc4571_send_loop agent_reliable sock_send message fuel message_len offset n_sent
        (frame :: more.1, more.2)

/-- The ICE-TCP branch (`nice_socket_is_reliable (sock)`) for one message of the
`for (i = 0; i < n_messages; i++)` loop, entered with the running `n_sent`. -/
def rfc4571_send_message (agent_reliable : Bool) (sock_send : Rfc4571Frame → Int)
    (message : NiceOutputMessage) (n_sent : Int) : List Rfc4571Frame × Int :=
  rfc4571_send_loop agent_reliable sock_send message
    (output_message_get_size message) (output_message_get_size message) 0 n_sent

/-- The ICE-TCP branch for all messages: frames handed to the socket and `n_sent`. -/
def rfc4571_send_messages (agent_reliable : Bool) (sock_send : Rfc4571Frame → Int) :
    List NiceOutputMessage → Int → List Rfc4571Frame × Int
  | [], n_sent => ([], n_sent)
  | message :: rest, n_sent =>
    let first := rfc4571_send_message agent_reliable sock_send message n_sent
    let more := rfc4571_send_messages agent_reliable sock_send rest first.2
    (first.1 ++ more.1, more.2)

/-- Process memory: the byte stored at each address. -/
abbrev Memory := Nat → Nat

/-- The bytes a vector designates: `size` bytes starting at `buffer`. -/
def vector_bytes (mem : Memory) (v : GOutputVector) : List Nat :=
  (List.range v.size).map (fun i => mem (v.buffer + i))

/-- The two bytes of `rfc4571_frame = htons (packet_len)` as they lie in memory. -/
def rfc4571_header_bytes (f : Rfc4571Frame) : List Nat :=
  [f.packet_len / 256 % 256, f.packet_len % 256]

/-- The payload bytes of a frame: what the socket reads after the two-byte header. -/
def rfc4571_payload (mem : Memory) (f : Rfc4571Frame) : List Nat :=
  (f.bufs.map (vector_bytes mem)).flatten

/-- The bytes of a message: the concatenation of its buffers. -/
def message_bytes (mem : Memory) (message : NiceOutputMessage) : List Nat :=
  (message.map (vector_bytes mem)).flatten

/-- An address lies inside one of the message's buffers. -/
def in_message_buffers (message : NiceOutputMessage) (a : Nat) : Prop :=
  ∃ b ∈ message, b.buffer ≤ a ∧ a < b.buffer + b.size

/-- A message of two buffers: 0xF800 bytes at address 1000 and 5 bytes at address
200000. -/
def two_buffer_message : NiceOutputMessage :=
  [{ buffer := 1000, size := 0xF800 }, { buffer := 200000, size := 5 }]

/-- A memory holding 0 everywhere except in the second buffer of `two_buffer_message`,
which holds 1. -/
def two_buffer_memory : Memory :=
  fun a => if 200000 ≤ a ∧ a < 200005 then 1 else 0

/-! ## SDP candidate lines (`agent.c`, `_generate_candidate_sdp` and
`nice_agent_parse_remote_candidate_sdp`) -/

/-- The C library's `printf` conversion `%u` of an unsigned value: decimal digits, most
significant first. -/
def fmt_u (v : Nat) : CString := Nat.toDigits 10 v

/-- The C library's `printf` conversion `%d` applied to a 32-bit argument: the bits are
read as a two's complement `int`, so values from 2^31 on print with a minus sign. -/
def fmt_d (v : Nat) : CString :=
  let v := v % 2 ^ 32
  if v < 2 ^ 31 then fmt_u v else '-' :: fmt_u (2 ^ 32 - v)

/-- GLib's `g_ascii_isspace`. -/
def g_ascii_isspace (c : Char) : Bool :=
  c == ' ' || c == '\t' || c == '\n' || c == '\r' || c.toNat == 11 || c.toNat == 12

/-- The value of a run of decimal digits. -/
def decimal_value (digits : CString) : Nat :=
  digits.foldl (fun acc c => acc * 10 + (c.toNat - 48)) 0

/-- The optional sign in front of the digits read by `g_ascii_strtoull`: whether it is a
minus, and the text after it. -/
def strtoull_sign : CString → Bool × CString
  | '-' :: t => (true, t)
  | '+' :: t => (false, t)
  | s => (false, s)

/-- GLib's `g_ascii_strtoull (nptr, NULL, 10)`: leading white space is skipped, an optional
sign is read, then the longest run of decimal digits; a value that does not fit 64 bits
gives `G_MAXUINT64`; with a minus sign the result is negated as an unsigned 64-bit
number. -/
def g_ascii_strtoull (nptr : CString) : Nat :=
  let signed := strtoull_sign (nptr.dropWhile g_ascii_isspace)
  let v := decimal_value (signed.2.takeWhile Char.isDigit)
  let v := if v > 2 ^ 64 - 1 then 2 ^ 64 - 1 else v
  if signed.1 then (2 ^ 64 - v) % 2 ^ 64 else v

/-- GLib's `g_ascii_tolower`. -/
def g_ascii_tolower (c : Char) : Char :=
  if 'A' ≤ c ∧ c ≤ 'Z' then Char.ofNat (c.toNat + 32) else c

/-- GLib's `g_ascii_strcasecmp (s1, s2) == 0`.  With a NULL first argument the
precondition check of GLib returns 0, that is, "equal". -/
def g_ascii_strcasecmp_eq (s1 : Option CString) (s2 : CString) : Bool :=
  match s1 with
  | none => true
  | some s => s.map g_ascii_tolower == s2.map g_ascii_tolower

/-- GLib's `g_strlcpy (dest, src, dest_size)`: at most `dest_size - 1` characters are
copied. -/
def g_strlcpy (src : CString) (dest_size : Nat) : CString :=
  src.take (dest_size - 1)

/-- GLib's `g_strsplit (string, " ", 0)`: the pieces between single spaces; the empty
string gives the empty vector. -/
def g_strsplit (s : CString) : List CString :=
  if s = [] then [] else s.splitOn ' '

/-- The function `_cand_type_to_sdp`. -/
def _cand_type_to_sdp : NiceCandidateType → CString
  | .SERVER_REFLEXIVE => "srflx".toList
  | .PEER_REFLEXIVE => "prflx".toList
  | .RELAYED => "relay".toList
  | .HOST => "host".toList

/-- The function `_transport_to_sdp`. -/
def _transport_to_sdp : NiceCandidateTransport → CString
  | .UDP => "UDP".toList
  | .TCP_ACTIVE => "TCP".toList
  | .TCP_PASSIVE => "TCP".toList
  | .TCP_SO => "TCP".toList

/-- The function `_transport_to_sdp_tcptype`. -/
def _transport_to_sdp_tcptype : NiceCandidateTransport → CString
  | .UDP => "".toList
  | .TCP_ACTIVE => "active".toList
  | .TCP_PASSIVE => "passive".toList
  | .TCP_SO => "so".toList

/-- The function `_generate_candidate_sdp`, as the text appended to `sdp`.
`max_foundation` is the constant `NICE_CANDIDATE_MAX_FOUNDATION` of `candidate.h` and
`to_string` is `nice_address_to_string` of `address.c` (the IP address without the
port). -/
def _generate_candidate_sdp (max_foundation : Nat) (to_string : NiceAddress → CString)
    (candidate : NiceCandidate) : CString :=
  let ip4 := to_string candidate.addr
  let port := nice_address_get_port candidate.addr
  let sdp : CString :=
    "a=candidate:".toList ++ candidate.foundation.take max_foundation ++
    " ".toList ++ fmt_d candidate.component_id ++
    " ".toList ++ _transport_to_sdp candidate.transport ++
    " ".toList ++ fmt_d candidate.priority ++
    " ".toList ++ ip4 ++
    " ".toList ++ fmt_d (if port = 0 then 9 else port)
  let sdp := sdp ++ " typ ".toList ++ _cand_type_to_sdp candidate.type
  let sdp :=
    if nice_address_is_valid candidate.base_addr ∧
        ¬ nice_address_equal candidate.addr candidate.base_addr then
      let port := nice_address_get_port candidate.base_addr
      let ip4 := to_string candidate.base_addr
      sdp ++ " raddr ".toList ++ ip4 ++ " rport ".toList ++ fmt_d (if port = 0 then 9 else port)
    else sdp
  if candidate.transport ≠ NiceCandidateTransport.UDP then
    sdp ++ " tcptype ".toList ++ _transport_to_sdp_tcptype candidate.transport
  else sdp

/-- The local variables that the token loop of `nice_agent_parse_remote_candidate_sdp`
fills in (`none` is the NULL pointer). -/
structure SdpTokens where
  foundation : Option CString
  component_id : Nat
  transport : Option CString
  priority : Nat
  addr : Option CString
  port : Nat
  type : Option CString
  tcptype : Option CString
  raddr : Option CString
  rport : Nat
  deriving DecidableEq, Repr

/-- The initial values of the local variables. -/
def SdpTokens.init : SdpTokens :=
  { foundation := none, component_id := 0, transport := none, priority := 0, addr := none,
    port := 0, type := none, tcptype := none, raddr := none, rport := 0 }

/-- The `default:` case of the token loop for the pair `tokens[i]`, `tokens[i + 1]`. -/
def sdp_attribute (key value : CString) (v : SdpTokens) : SdpTokens :=
  if key = "typ".toList then { v with type := some value }
  else if key = "raddr".toList then { v with raddr := some value }
  else if key = "rport".toList then { v with rport := g_ascii_strtoull value % 2 ^ 16 }
  else if key = "tcptype".toList then { v with tcptype := some value }
  else v

/-- The token loop `for (i = 0; tokens && tokens[i]; i++) switch (i)`.  The list is
`tokens[i ..]`; `none` is the `goto done` taken when an attribute name is the last
token. -/
def sdp_token_loop : Nat → List CString → SdpTokens → Option SdpTokens
  | _, [], v => some v
  | 0, t :: rest, v => sdp_token_loop 1 rest { v with foundation := some t }
  | 1, t :: rest, v =>
    sdp_token_loop 2 rest { v with component_id := g_ascii_strtoull t % 2 ^ 32 }
  | 2, t :: rest, v => sdp_token_loop 3 rest { v with transport := some t }
  | 3, t :: rest, v =>
    sdp_token_loop 4 rest { v with priority := g_ascii_strtoull t % 2 ^ 32 }
  | 4, t :: rest, v => sdp_token_loop 5 rest { v with addr := some t }
  | 5, t :: rest, v =>
    sdp_token_loop 6 rest { v with port := g_ascii_strtoull t % 2 ^ 16 }
  | _ + 6, [_], _ => none
  | i + 6, key :: value :: rest, v => sdp_token_loop (i + 8) rest (sdp_attribute key value v)

/-- The lookup of `type` in `type_names`; the index is the candidate type. -/
def sdp_type_of_name (type : CString) : Option NiceCandidateType :=
  if type = "host".toList then some .HOST
  else if type = "srflx".toList then some .SERVER_REFLEXIVE
  else if type = "prflx".toList then some .PEER_REFLEXIVE
  else if type = "relay".toList then some .RELAYED
  else none

/-- The chain of `g_ascii_strcasecmp` tests that turns the transport token and the
`tcptype` attribute into a transport. -/
def sdp_transport_of_name (transport tcptype : Option CString) :
    Option NiceCandidateTransport :=
  if g_ascii_strcasecmp_eq transport "UDP".toList then some .UDP
  else if g_ascii_strcasecmp_eq transport "TCP-SO".toList then some .TCP_SO
  else if g_ascii_strcasecmp_eq transport "TCP-ACT".toList then some .TCP_ACTIVE
  else if g_ascii_strcasecmp_eq transport "TCP-PASS".toList then some .TCP_PASSIVE
  else if g_ascii_strcasecmp_eq transport "TCP".toList then
    if g_ascii_strcasecmp_eq tcptype "so".toList then some .TCP_SO
    else if g_ascii_strcasecmp_eq tcptype "active".toList then some .TCP_ACTIVE
    else if g_ascii_strcasecmp_eq tcptype "passive".toList then some .TCP_PASSIVE
    else none
  else none

/-- The function `nice_agent_parse_remote_candidate_sdp`; `none` is the NULL result, also
the one of `g_return_val_if_fail (stream_id >= 1, NULL)`.
`from_string` is `nice_address_set_from_string` of `address.c`: the address a string
denotes, or nothing when the string is not an address.  A line that reaches the
construction of the candidate has at least eight tokens, so `foundation` and `addr` are
set there. -/
def nice_agent_parse_remote_candidate_sdp (max_foundation : Nat)
    (from_string : CString → Option NiceAddress) (stream_id : Nat) (sdp : CString) :
    Option NiceCandidate :=
  if ¬ (stream_id ≥ 1) then none
  else if ¬ ("a=candidate:".toList).isPrefixOf sdp then none
  else
    match sdp_token_loop 0 (g_strsplit (sdp.drop 12)) SdpTokens.init with
    | none => none
    | some v =>
      match v.type with
      | none => none
      | some type =>
        match sdp_type_of_name type with
        | none => none
        | some ntype =>
          match sdp_transport_of_name v.transport v.tcptype with
          | none => none
          | some ctransport =>
            match v.foundation, v.addr with
            | some foundation, some addr =>
              let candidate : NiceCandidate :=
                { nice_candidate_new ntype with
                  component_id := v.component_id
                  stream_id := stream_id
                  transport := ctransport
                  foundation := g_strlcpy foundation max_foundation
                  priority := v.priority }
              match from_string addr with
              | none => none
              | some a =>
                let candidate := { candidate with addr := nice_address_set_port a v.port }
                match v.raddr with
                | some raddr =>
                  if v.rport ≠ 0 then
                    match from_string raddr with
                    | none => none
                    | some b =>
                      some { candidate with base_addr := nice_address_set_port b v.rport }
                  else some candidate
                | none => some candidate
            | _, _ => none

/-- The space-separated fields that `_generate_candidate_sdp` writes after
`a=candidate:`, in order. -/
def sdp_line_tokens (max_foundation : Nat) (to_string : NiceAddress → CString)
    (c : NiceCandidate) : List CString :=
  [c.foundation.take max_foundation, fmt_d c.component_id, _transport_to_sdp c.transport,
   fmt_d c.priority, to_string c.addr,
   fmt_d (if nice_address_get_port c.addr = 0 then 9 else nice_address_get_port c.addr),
   "typ".toList, _cand_type_to_sdp c.type] ++
  (if nice_address_is_valid c.base_addr ∧ ¬ nice_address_equal c.addr c.base_addr then
    ["raddr".toList, to_string c.base_addr, "rport".toList,
     fmt_d (if nice_address_get_port c.base_addr = 0 then 9
            else nice_address_get_port c.base_addr)]
   else []) ++
  (if c.transport ≠ NiceCandidateTransport.UDP then
    ["tcptype".toList, _transport_to_sdp_tcptype c.transport]
   else [])

/-- A concrete `to_string` for the SDP functions: the dotted-quad text of an IPv4
address. -/
def ipv4_to_string (a : NiceAddress) : CString :=
  fmt_u (a.ip / 2 ^ 24 % 256) ++ '.' :: fmt_u (a.ip / 2 ^ 16 % 256) ++
    '.' :: fmt_u (a.ip / 2 ^ 8 % 256) ++ '.' :: fmt_u (a.ip % 256)

/-- A concrete `from_string` for the SDP functions: reads a dotted quad into an IPv4
address with port 0. -/
def ipv4_from_string (s : CString) : Option NiceAddress :=
  match s.splitOn '.' with
  | [a, b, c, d] =>
    if [a, b, c, d].all (fun t => t ≠ [] ∧ t.all Char.isDigit ∧ decimal_value t < 256) then
      some { family := .AF_INET,
             ip := ((decimal_value a * 256 + decimal_value b) * 256 + decimal_value c) * 256
                    + decimal_value d,
             port := 0 }
    else none
  | _ => none

/-- A UDP host candidate 192.168.1.1:5000 (address and base address equal), foundation
"1", component 1 of stream 1. -/
def host_candidate_udp : NiceCandidate :=
  { nice_candidate_new .HOST with
    transport := .UDP, addr := ⟨.AF_INET, 3232235777, 5000⟩,
    base_addr := ⟨.AF_INET, 3232235777, 5000⟩,
    priority := 2015363327, stream_id := 1, component_id := 1, foundation := "1".toList }

/-- A TCP-passive server-reflexive candidate 203.0.113.7:40000 with base
192.168.1.1:5000 and a priority above 2^31. -/
def srflx_candidate_tcp : NiceCandidate :=
  { nice_candidate_new .SERVER_REFLEXIVE with
    transport := .TCP_PASSIVE, addr := ⟨.AF_INET, 3405803783, 40000⟩,
    base_addr := ⟨.AF_INET, 3232235777, 5000⟩,
    priority := 4000000000, stream_id := 1, component_id := 1, foundation := "2".toList }

/-! ## Remote candidates (`agent.c`, `priv_add_remote_candidate`,
`_set_remote_candidates_locked`, `nice_agent_set_remote_candidates`) -/

/-- The answers of the connectivity-check engine (`conncheck.c`) that
`priv_add_remote_candidate` branches on: `conn_check_stun_transactions_count (agent)` and
the result of `conn_check_add_for_candidate` for a new remote candidate.  The engine's own
state (pair lists, selected pair) is not part of the modelled agent. -/
structure ConnCheck where
  stun_transactions_count : NiceAgent → Nat
  add_for_candidate : NiceAgent → Nat → Nat → NiceCandidate → Int

/-- Modelled from the spec: `nice_component_find_remote_candidate` lives in `component.c`.
It is given the component, an address and a transport, and returns the first remote
candidate of the component with that address and transport. -/
def nice_component_find_remote_candidate (component : NiceComponent) (addr : NiceAddress)
    (transport : NiceCandidateTransport) : Option NiceCandidate :=
  component.remote_candidates.find?
    (fun c => nice_address_equal c.addr addr && decide (c.transport = transport))

/-- The macro `NICE_AGENT_IS_COMPATIBLE_WITH_RFC5245_OR_OC2007R2`. -/
def NICE_AGENT_IS_COMPATIBLE_WITH_RFC5245_OR_OC2007R2 (agent : NiceAgent) : Bool :=
  agent.compatibility == .RFC5245 || agent.compatibility == .OC2007R2

/-- The writes of `priv_add_remote_candidate` to the candidate that
`nice_component_find_remote_candidate` returned: the peer-reflexive update
(`type`, `sockptr`) followed by "case 1: an existing candidate, update the attributes". -/
def update_remote_candidate (max_foundation : Nat) (type : NiceCandidateType)
    (base_addr : Option NiceAddress) (priority : Nat) (username password : Option CString)
    (foundation : Option CString) (candidate : NiceCandidate) : NiceCandidate :=
  let candidate :=
    if candidate.type = .PEER_REFLEXIVE then { candidate with type := type, sockptr := none }
    else candidate
  let candidate :=
    match base_addr with
    | some b => { candidate with base_addr := b }
    | none => candidate
  let candidate := { candidate with priority := priority }
  let candidate :=
    match foundation with
    | some f => { candidate with foundation := g_strlcpy f max_foundation }
    | none => candidate
  let candidate :=
    match username, candidate.username with
    | some u, none => { candidate with username := some u }
    | _, _ => candidate
  match password, candidate.password with
  | some p, none => { candidate with password := some p }
  | _, _ => candidate

/-- The function `priv_add_remote_candidate`: its result and the agent afterwards.
`addr` is never NULL at its only call site. -/
def priv_add_remote_candidate (max_foundation : Nat) (cc : ConnCheck) (agent : NiceAgent)
    (stream_id component_id : Nat) (type : NiceCandidateType) (addr : NiceAddress)
    (base_addr : Option NiceAddress) (transport : NiceCandidateTransport) (priority : Nat)
    (username password : Option CString) (foundation : Option CString) :
    Bool × NiceAgent :=
  if type = .PEER_REFLEXIVE then (false, agent)
  else if transport = .UDP ∧ ¬ agent.use_ice_udp then (false, agent)
  else if transport ≠ .UDP ∧ ¬ agent.use_ice_tcp then (false, agent)
  else if priority = 0 then (false, agent)
  else
    match agent_find_component agent stream_id component_id with
    | none => (false, agent)
    | some (_, component) =>
      let found := nice_component_find_remote_candidate component addr transport
      let existing : Bool :=
        match found with
        | some candidate => candidate.type = .PEER_REFLEXIVE ∨ candidate.type = type
        | none => false
      if existing then
        -- case 1: an existing candidate, update the attributes
        let update := update_remote_candidate max_foundation type base_addr priority username
          password foundation
        let is_found : NiceCandidate → Bool :=
          fun c => nice_address_equal c.addr addr && decide (c.transport = transport)
        (true, agent_update_component agent stream_id component_id (fun comp =>
          { comp with remote_candidates := update_first is_found update comp.remote_candidates }))
      else
        -- case 2: add a new candidate
        let candidate : NiceCandidate :=
          { nice_candidate_new type with
            stream_id := stream_id, component_id := component_id, addr := addr }
        let switch_mode : Bool :=
          NICE_AGENT_IS_COMPATIBLE_WITH_RFC5245_OR_OC2007R2 agent &&
          agent.controlling_mode && agent.nomination_mode == .AGGRESSIVE &&
          transport != .UDP
        if switch_mode ∧ cc.stun_transactions_count agent > 0 then (false, agent)
        else
          let agent :=
            if switch_mode then { agent with nomination_mode := .REGULAR } else agent
          let candidate :=
            match base_addr with
            | some b => { candidate with base_addr := b }
            | none => candidate
          let candidate :=
            { candidate with
              transport := transport, priority := priority,
              username := username, password := password }
          let candidate :=
            match foundation with
            | some f => { candidate with foundation := g_strlcpy f max_foundation }
            | none => candidate
          if cc.add_for_candidate agent stream_id component_id candidate < 0 then
            (false, agent)
          else
            (true, agent_update_component agent stream_id component_id (fun comp =>
              { comp with remote_candidates := comp.remote_candidates ++ [candidate] }))

/-- The function `_set_remote_candidates_locked` for the stream and component with the
given ids: `added` and the agent afterwards.  The list is the rest of `candidates`; the
argument `added` is the running count. -/
def _set_remote_candidates_locked (max_foundation : Nat) (cc : ConnCheck)
    (stream_id component_id : Nat) :
    List NiceCandidate → NiceAgent → Int → Int × NiceAgent
  | [], agent, added => (added, agent)
  | d :: rest, agent, added =>
    if added < 0 then (added, agent)
    else if nice_address_is_valid d.addr then
      let res := priv_add_remote_candidate max_foundation cc agent stream_id component_id
        d.type d.addr (some d.base_addr) d.transport d.priority d.username d.password
        (some d.foundation)
      _set_remote_candidates_locked max_foundation cc stream_id component_id rest res.2
        (if res.1 then added + 1 else added)
    else
      _set_remote_candidates_locked max_foundation cc stream_id component_id rest agent added

/-- The function `nice_agent_set_remote_candidates`: the number of candidates added (or
-1, or 0 for the argument checks) and the agent afterwards. -/
def nice_agent_set_remote_candidates (max_foundation : Nat) (cc : ConnCheck)
    (agent : NiceAgent) (stream_id component_id : Nat) (candidates : List NiceCandidate) :
    Int × NiceAgent :=
  if ¬ (stream_id ≥ 1) then (0, agent)
  else if ¬ (component_id ≥ 1) then (0, agent)
  else
    match agent_find_component agent stream_id component_id with
    | none => (-1, agent)
    | some (stream, component) =>
      _set_remote_candidates_locked max_foundation cc stream.id component.id candidates agent 0

/-- The remote candidate list of a component of the agent (empty when it does not
exist). -/
def remote_candidates_of (agent : NiceAgent) (stream_id component_id : Nat) :
    List NiceCandidate :=
  match agent_find_component agent stream_id component_id with
  | none => []
  | some (_, component) => component.remote_candidates

/-- A connectivity-check engine with no transaction in flight that accepts every
candidate. -/
def conncheck_idle : ConnCheck :=
  { stun_transactions_count := fun _ => 0, add_for_candidate := fun _ _ _ _ => 0 }

/-- A remote candidate list with a host and a server-reflexive candidate that share the
address 198.51.100.1:6000 and the UDP transport. -/
def remote_host_and_srflx : List NiceCandidate :=
  [{ nice_candidate_new .HOST with
      transport := .UDP, addr := ⟨.AF_INET, 3325256705, 6000⟩,
      base_addr := ⟨.AF_INET, 3325256705, 6000⟩, priority := 2015363327,
      stream_id := 1, component_id := 1, foundation := "1".toList },
   { nice_candidate_new .SERVER_REFLEXIVE with
      transport := .UDP, addr := ⟨.AF_INET, 3325256705, 6000⟩,
      base_addr := ⟨.AF_INET, 167772161, 6000⟩, priority := 1679819007,
      stream_id := 1, component_id := 1, foundation := "2".toList }]

/-- The first call of `nice_agent_set_remote_candidates` with `remote_host_and_srflx` on a
component without remote candidates. -/
def set_remote_once : Int × NiceAgent :=
  nice_agent_set_remote_candidates 33 conncheck_idle (agent_one_component .DISCONNECTED) 1 1
    remote_host_and_srflx

/-- The second call with the same list, on the agent the first call left. -/
def set_remote_twice : Int × NiceAgent :=
  nice_agent_set_remote_candidates 33 conncheck_idle set_remote_once.2 1 1
    remote_host_and_srflx

/-! ## Local candidates: pruning and foundations (`discovery.c`) -/

/-- The function `priv_add_local_candidate_pruned`, on the component it is given: whether
the candidate was appended, and the component afterwards.  (The call of
`conn_check_add_for_local_candidate` touches only the connectivity-check engine.) -/
def priv_add_local_candidate_pruned (component : NiceComponent) (candidate : NiceCandidate) :
    Bool × NiceComponent :=
  let redundant : NiceCandidate → Bool := fun c =>
    (nice_address_equal c.base_addr candidate.base_addr &&
      nice_address_equal c.addr candidate.addr &&
      decide (c.transport = candidate.transport)) ||
    (decide (c.type = .RELAYED) && decide (candidate.type = .RELAYED) &&
      decide (c.transport = candidate.transport) &&
      nice_address_equal_no_port c.addr candidate.addr) ||
    (decide (c.type = .SERVER_REFLEXIVE) && decide (candidate.type = .SERVER_REFLEXIVE) &&
      decide (c.transport = candidate.transport) &&
      nice_address_equal_no_port c.addr candidate.addr)
  if component.local_candidates.any redundant then (false, component)
  else (true, { component with local_candidates := component.local_candidates ++ [candidate] })

/-- The function `priv_compare_turn_servers`.  The pointer test `turn1 == turn2` holds for
two NULL pointers and for the same server object. -/
def priv_compare_turn_servers (turn1 turn2 : Option TurnServer) : Bool :=
  if turn1 = turn2 then true
  else
    match turn1, turn2 with
    | some t1, some t2 => nice_address_equal_no_port t1.server t2.server
    | _, _ => false

/-- The body of the innermost loop of `priv_assign_foundation` for the new `candidate` and
the existing candidate `n`: true when none of the `continue` statements is taken, so that
the foundation of `n` is copied. -/
def priv_foundation_matches (agent : NiceAgent) (candidate n : NiceCandidate) : Bool :=
  if candidate.type ≠ n.type then false
  else if candidate.transport ≠ n.transport then false
  else if candidate.type = .RELAYED ∧ ¬ nice_address_equal_no_port candidate.addr n.addr then
    false
  else if candidate.type ≠ .RELAYED ∧
      ¬ nice_address_equal_no_port candidate.base_addr n.base_addr then false
  else if candidate.type = .RELAYED ∧ ¬ priv_compare_turn_servers candidate.turn n.turn then
    false
  else if candidate.type = .RELAYED ∧ agent.compatibility = .GOOGLE then false
  else true

/-- All local candidates of the agent in the order of the three nested loops: streams,
then components, then candidates. -/
def agent_local_candidates (agent : NiceAgent) : List NiceCandidate :=
  agent.streams.flatMap (fun s => s.components.flatMap (fun c => c.local_candidates))

/-- GLib's `g_snprintf (dest, n, ...)`: the formatted text cut to `n - 1` characters. -/
def g_snprintf (n : Nat) (text : CString) : CString := text.take (n - 1)

/-- The function `priv_assign_foundation`: the candidate with its foundation (and
credentials, when the matching candidate has some) and the agent afterwards.  The counter
`next_candidate_id` is a `guint`. -/
def priv_assign_foundation (max_foundation : Nat) (agent : NiceAgent)
    (candidate : NiceCandidate) : NiceCandidate × NiceAgent :=
  match (agent_local_candidates agent).find? (priv_foundation_matches agent candidate) with
  | some n =>
    let candidate := { candidate with foundation := g_strlcpy n.foundation max_foundation }
    let candidate :=
      match n.username with
      | some u => { candidate with username := some u }
      | none => candidate
    let candidate :=
      match n.password with
      | some p => { candidate with password := some p }
      | none => candidate
    (candidate, agent)
  | none =>
    ({ candidate with
        foundation := g_snprintf max_foundation (fmt_u agent.next_candidate_id) },
     { agent with next_candidate_id := (agent.next_candidate_id + 1) % 2 ^ 32 })

/-- The relation of the foundation rule as the specification states it: same type, same
transport, base addresses equal ignoring the port and, when both are relayed, TURN
servers with the same address (`priv_compare_turn_servers`). -/
def spec_same_foundation_class (a b : NiceCandidate) : Prop :=
  a.type = b.type ∧ a.transport = b.transport ∧
  nice_address_equal_no_port a.base_addr b.base_addr = true ∧
  (a.type = .RELAYED → b.type = .RELAYED → priv_compare_turn_servers a.turn b.turn = true)

/-- The predicate of the specification: any two local candidates of the agent have the
same foundation if and only if they are in the same class. -/
def spec_foundation_invariant (agent : NiceAgent) : Prop :=
  (agent_local_candidates agent).Pairwise
    (fun a b => a.foundation = b.foundation ↔ spec_same_foundation_class a b)

/-- The predicate that the code maintains: any two local candidates of the agent have the
same foundation if and only if `priv_assign_foundation` matches them. -/
def code_foundation_invariant (agent : NiceAgent) : Prop :=
  (agent_local_candidates agent).Pairwise
    (fun a b => a.foundation = b.foundation ↔ priv_foundation_matches agent a b = true)

/-- Every foundation in use is the decimal text of a number below `next_candidate_id`. -/
def foundations_below_counter (agent : NiceAgent) : Prop :=
  ∀ m ∈ agent_local_candidates agent, ∃ k, k < agent.next_candidate_id ∧ m.foundation = fmt_u k

/-- The step of the `discovery_add_*` functions that C5 is about: the candidate is given
its foundation by `priv_assign_foundation` and handed to `priv_add_local_candidate_pruned`
for the component with the given ids. -/
def assign_foundation_and_add (max_foundation : Nat) (agent : NiceAgent)
    (stream_id component_id : Nat) (candidate : NiceCandidate) : NiceAgent :=
  let assigned := priv_assign_foundation max_foundation agent candidate
  agent_update_component assigned.2 stream_id component_id
    (fun component => (priv_add_local_candidate_pruned component assigned.1).2)

/-- A TURN server at 192.0.2.10:3478. -/
def turn_server_a : TurnServer :=
  { handle := 1, server := ⟨.AF_INET, 3221225994, 3478⟩, resolution_failed := false }

/-- A relayed UDP candidate of component 1 of stream 1: relayed address 203.0.113.1:50000
allocated by `turn_server_a` from the host socket 192.168.1.1:5000; foundation "1". -/
def relay_candidate_one : NiceCandidate :=
  { nice_candidate_new .RELAYED with
    transport := .UDP, addr := ⟨.AF_INET, 3405803777, 50000⟩,
    base_addr := ⟨.AF_INET, 3232235777, 5000⟩,
    priority := 16777215, stream_id := 1, component_id := 1, foundation := "1".toList,
    turn := some turn_server_a }

/-- A relayed UDP candidate for component 2 of stream 1, before its foundation is
assigned: relayed address 203.0.113.1:50002 allocated by the same TURN server from the
host socket 192.168.1.1:5002. -/
def relay_candidate_two : NiceCandidate :=
  { nice_candidate_new .RELAYED with
    transport := .UDP, addr := ⟨.AF_INET, 3405803777, 50002⟩,
    base_addr := ⟨.AF_INET, 3232235777, 5002⟩,
    priority := 16777214, stream_id := 1, component_id := 2,
    turn := some turn_server_a }

/-- An agent of the given compatibility mode with one stream of two components; component
1 holds `relay_candidate_one` and the candidate counter stands at 2. -/
def agent_with_relay (compatibility : NiceCompatibility) : NiceAgent :=
  { streams := [{ id := 1, n_components := 2, gathering := true, gathering_started := true,
                  components :=
                    [{ id := 1, state := .GATHERING, local_candidates := [relay_candidate_one],
                       remote_candidates := [], turn_servers := [turn_server_a],
                       turn_candidate := none, min_port := 0, max_port := 0 },
                     { id := 2, state := .GATHERING, local_candidates := [],
                       remote_candidates := [], turn_servers := [turn_server_a],
                       turn_candidate := none, min_port := 0, max_port := 0 }] }],
    compatibility := compatibility, full_mode := true, reliable := false,
    force_relay := false, use_ice_udp := true, use_ice_tcp := true, controlling_mode := true,
    nomination_mode := .AGGRESSIVE, next_candidate_id := 2, signals := [] }

/-- The changes that the agent code makes to a component's `local_candidates` list: every
`discovery_add_*` function inserts through `priv_add_local_candidate_pruned`;
`agent_gathering_done` unlinks one candidate with `g_slist_remove` (OC2007R2 mode); the
error path of `nice_agent_gather_candidates` frees the whole list. -/
inductive LocalCandidatesStep : NiceComponent → NiceComponent → Prop
  | add (component : NiceComponent) (candidate : NiceCandidate) :
      LocalCandidatesStep component (priv_add_local_candidate_pruned component candidate).2
  | remove (component : NiceComponent) (i : Nat) :
      LocalCandidatesStep component
        { component with local_candidates := component.local_candidates.eraseIdx i }
  | clear (component : NiceComponent) :
      LocalCandidatesStep component { component with local_candidates := [] }

/-- The component states reachable from a new component, which has no local candidate. -/
inductive LocalCandidatesReachable : NiceComponent → Prop
  | init (component : NiceComponent) (h : component.local_candidates = []) :
      LocalCandidatesReachable component
  | step (component component' : NiceComponent) (h : LocalCandidatesReachable component)
      (s : LocalCandidatesStep component component') : LocalCandidatesReachable component'

/-- Two candidates have equal (type, transport, addr, base_addr). -/
def same_local_candidate (a b : NiceCandidate) : Prop :=
  a.type = b.type ∧ a.transport = b.transport ∧ a.addr = b.addr ∧ a.base_addr = b.base_addr

/-- An empty component with id 1. -/
def empty_component : NiceComponent :=
  { id := 1, state := .DISCONNECTED, local_candidates := [], remote_candidates := [],
    turn_servers := [], turn_candidate := none, min_port := 0, max_port := 0 }

/-! ## Remote peer-reflexive candidates (`discovery.c`) -/

/-- The search loop of `priv_highest_remote_foundation` from the value `highest` on: the
first number whose text "remote<number>" is not the foundation of a remote candidate of
the component.  A component with `n` remote candidates has a free number among any
`n + 1` consecutive ones, so `fuel = n + 1` iterations are enough. -/
def priv_highest_remote_foundation_loop (max_foundation : Nat) (component : NiceComponent) :
    Nat → Nat → Nat
  | 0, highest => highest
  | fuel + 1, highest =>
    let foundation := g_snprintf max_foundation ("remote".toList ++ fmt_u highest)
    -- strncmp (foundation, cand->foundation, NICE_CANDIDATE_MAX_FOUNDATION) == 0
    let taken := component.remote_candidates.any
      (fun cand => foundation.take max_foundation == cand.foundation.take max_foundation)
    if ¬ taken then highest
    else priv_highest_remote_foundation_loop max_foundation component fuel (highest + 1)

/-- The function `priv_highest_remote_foundation`. -/
def priv_highest_remote_foundation (max_foundation : Nat) (component : NiceComponent) : Nat :=
  priv_highest_remote_foundation_loop max_foundation component
    (component.remote_candidates.length + 1) 1

/-- All components of the agent in the order of the two outer loops of
`priv_assign_remote_foundation`: streams, then components. -/
def agent_components (agent : NiceAgent) : List NiceComponent :=
  agent.streams.flatMap (fun s => s.components)

/-- The test of the innermost loop of `priv_assign_remote_foundation`. -/
def priv_remote_foundation_matches (candidate n : NiceCandidate) : Bool :=
  decide (candidate.type = n.type) && decide (candidate.transport = n.transport) &&
  decide (candidate.stream_id = n.stream_id) &&
  nice_address_equal_no_port candidate.addr n.addr

/-- The function `priv_assign_remote_foundation`.  The loops return at the first matching
remote candidate; when there is none, `component` is the last component, over all
streams, whose id equals `candidate->component_id` (the assignment
`if (c->id == candidate->component_id) component = c;` does not look at the stream). -/
def priv_assign_remote_foundation (max_foundation : Nat) (agent : NiceAgent)
    (candidate : NiceCandidate) : NiceCandidate :=
  match ((agent_components agent).flatMap (fun c => c.remote_candidates)).find?
      (priv_remote_foundation_matches candidate) with
  | some n =>
    let candidate := { candidate with foundation := g_strlcpy n.foundation max_foundation }
    let candidate :=
      match n.username with
      | some u => { candidate with username := some u }
      | none => candidate
    match n.password with
    | some p => { candidate with password := some p }
    | none => candidate
  | none =>
    match ((agent_components agent).filter
        (fun c => c.id == candidate.component_id)).getLast? with
    | some component =>
      let next_remote_id := priv_highest_remote_foundation max_foundation component
      { candidate with
        foundation := g_snprintf max_foundation ("remote".toList ++ fmt_u next_remote_id) }
    | none => candidate

/-- Functions of `candidate.c` and `conncheck.c` that
`discovery_learn_remote_peer_reflexive_candidate` calls: the priority formulas, the
transport that pairs with a given one, and the user name that the MSN and OC2007 modes
build from the remote and local user names. -/
structure CandidateHelpers where
  nice_candidate_jingle_priority : NiceCandidate → Nat
  nice_candidate_msn_priority : NiceCandidate → Nat
  nice_candidate_ms_ice_priority : NiceCandidate → Bool → Bool → Nat
  nice_candidate_ice_priority : NiceCandidate → Bool → Bool → Nat
  conn_check_match_transport : NiceCandidateTransport → NiceCandidateTransport
  msn_username : Option CString → Option CString → Option CString

/-- The function `discovery_learn_remote_peer_reflexive_candidate`: the candidate it
returns and the agent afterwards.  `stream_id` and `component_id` are the ids of the
stream and component it is given. -/
def discovery_learn_remote_peer_reflexive_candidate (max_foundation : Nat)
    (lib : CandidateHelpers) (agent : NiceAgent) (stream_id component_id : Nat)
    (priority : Nat) (remote_address : NiceAddress) (nicesock : NiceSocket)
    (local_cand remote : Option NiceCandidate) : NiceCandidate × NiceAgent :=
  let candidate := nice_candidate_new .PEER_REFLEXIVE
  let candidate := { candidate with addr := remote_address, base_addr := remote_address }
  let transport : NiceCandidateTransport :=
    match remote, local_cand with
    | some r, _ => r.transport
    | none, some l => lib.conn_check_match_transport l.transport
    | none, none =>
      if nicesock.type = .UDP_BSD ∨ nicesock.type = .UDP_TURN then .UDP else .TCP_ACTIVE
  let candidate :=
    { candidate with
      transport := transport, sockptr := some nicesock,
      stream_id := stream_id, component_id := component_id }
  let candidate :=
    { candidate with
      priority :=
        if priority ≠ 0 then priority
        else if agent.compatibility = .GOOGLE then lib.nice_candidate_jingle_priority candidate
        else if agent.compatibility = .MSN ∨ agent.compatibility = .OC2007 then
          lib.nice_candidate_msn_priority candidate
        else if agent.compatibility = .OC2007R2 then
          lib.nice_candidate_ms_ice_priority candidate agent.reliable false
        else lib.nice_candidate_ice_priority candidate agent.reliable false }
  let candidate := priv_assign_remote_foundation max_foundation agent candidate
  let candidate :=
    match remote, local_cand with
    | some r, some l =>
      if agent.compatibility = .MSN ∨ agent.compatibility = .OC2007 then
        { candidate with
          username := lib.msn_username r.username l.username, password := r.password }
      else { candidate with username := r.username, password := r.password }
    | some r, none => { candidate with username := r.username, password := r.password }
    | none, _ => candidate
  let agent := agent_update_component agent stream_id component_id (fun component =>
    { component with remote_candidates := component.remote_candidates ++ [candidate] })
  let agent := agent_queue_signal agent (Signal.NEW_REMOTE_CANDIDATE_FULL candidate)
  let agent := agent_queue_signal agent
    (Signal.NEW_REMOTE_CANDIDATE candidate.stream_id candidate.component_id
      candidate.foundation)
  (candidate, agent)

/-- An agent with two streams (ids 1 and 2) of one component each, without candidates. -/
def agent_two_streams : NiceAgent :=
  { streams :=
      [{ id := 1, n_components := 1, gathering := false, gathering_started := true,
         components := [{ empty_component with state := .CONNECTING }] },
       { id := 2, n_components := 1, gathering := false, gathering_started := true,
         components := [{ empty_component with state := .CONNECTING }] }],
    compatibility := .RFC5245, full_mode := true, reliable := false, force_relay := false,
    use_ice_udp := true, use_ice_tcp := true, controlling_mode := true,
    nomination_mode := .AGGRESSIVE, next_candidate_id := 1, signals := [] }

/-- Helper functions with fixed answers, for inputs where they are not called or their
answers do not matter. -/
def candidate_helpers_fixed : CandidateHelpers :=
  { nice_candidate_jingle_priority := fun _ => 1
    nice_candidate_msn_priority := fun _ => 1
    nice_candidate_ms_ice_priority := fun _ _ _ => 1
    nice_candidate_ice_priority := fun _ _ _ => 1
    conn_check_match_transport := fun t => t
    msn_username := fun r _ => r }

/-- A UDP socket bound to 192.168.1.1:5000. -/
def udp_socket : NiceSocket :=
  { handle := 1, type := .UDP_BSD, addr := ⟨.AF_INET, 3232235777, 5000⟩, reliable := false }

/-- The agent after a peer-reflexive candidate from 10.0.0.1:1000 has been learned on
component 1 of stream 1 of `agent_two_streams`. -/
def learn_first : NiceCandidate × NiceAgent :=
  discovery_learn_remote_peer_reflexive_candidate 33 candidate_helpers_fixed
    agent_two_streams 1 1 1853693695 ⟨.AF_INET, 167772161, 1000⟩ udp_socket none none

/-- The agent after a second peer-reflexive candidate, from 10.0.0.2:2000, has been learned
on the same component. -/
def learn_second : NiceCandidate × NiceAgent :=
  discovery_learn_remote_peer_reflexive_candidate 33 candidate_helpers_fixed
    learn_first.2 1 1 1853693695 ⟨.AF_INET, 167772162, 2000⟩ udp_socket none none

/-! ## Reading the local candidates (`agent.c`, `nice_agent_get_local_candidates`) -/

/-- The `for` loop of `nice_agent_get_local_candidates` over the rest of
`component->local_candidates`, with the list `ret` built so far.  `copy` is
`nice_candidate_copy` of `candidate.c`. -/
def get_local_candidates_loop (copy : NiceCandidate → NiceCandidate) (force_relay : Bool) :
    List NiceCandidate → List NiceCandidate → List NiceCandidate
  | [], ret => ret
  | cand :: rest, ret =>
    if force_relay ∧ cand.type ≠ .RELAYED then
      get_local_candidates_loop copy force_relay rest ret
    else
      get_local_candidates_loop copy force_relay rest (ret ++ [copy cand])

/-- The function `nice_agent_get_local_candidates`. -/
def nice_agent_get_local_candidates (copy : NiceCandidate → NiceCandidate)
    (agent : NiceAgent) (stream_id component_id : Nat) : List NiceCandidate :=
  if ¬ (stream_id ≥ 1) then []
  else if ¬ (component_id ≥ 1) then []
  else
    match agent_find_component agent stream_id component_id with
    | none => []
    | some (_, component) =>
      get_local_candidates_loop copy agent.force_relay component.local_candidates []

/-- A UDP host candidate 192.168.1.1:5000 of component 1 of stream 1 with its socket. -/
def host_candidate_with_socket : NiceCandidate :=
  { host_candidate_udp with sockptr := some udp_socket }

/-- A component holding a host candidate followed by a relayed candidate, with one TURN
server configured. -/
def component_host_and_relay : NiceComponent :=
  { empty_component with
    state := .GATHERING
    local_candidates := [host_candidate_with_socket, relay_candidate_one]
    turn_servers := [turn_server_a] }

/-- The stream with id 1 that holds `component_host_and_relay`. -/
def stream_host_and_relay : NiceStream :=
  { id := 1, n_components := 1, gathering := false, gathering_started := true,
    components := [component_host_and_relay] }

/-- An agent with force-relay set or not, whose single component holds a host candidate
followed by a relayed candidate. -/
def agent_host_and_relay (force_relay : Bool) : NiceAgent :=
  { streams := [stream_host_and_relay],
    compatibility := .RFC5245, full_mode := true, reliable := false,
    force_relay := force_relay, use_ice_udp := true, use_ice_tcp := true,
    controlling_mode := true, nomination_mode := .AGGRESSIVE, next_candidate_id := 3,
    signals := [] }

/-! ## Receiving one message (`agent.c`, `_agent_recv_turn_message_unlocked` and
`agent_recv_message_unlocked`) -/

/-- The `RecvStatus` enum. -/
inductive RecvStatus
  | RECV_ERROR
  | RECV_WOULD_BLOCK
  | RECV_OOB
  | RECV_SUCCESS
  deriving DecidableEq, Repr

/-- What `agent_recv_message_unlocked` hands on while it runs, in order: a call of
`nice_udp_turn_socket_parse_recv_message`, a call of `conn_check_handle_inbound_stun`, a
packet pushed on `queued_tcp_packets`, a call of `pseudo_tcp_socket_notify_message`, and
the final `agent_consume_next_rfc4571_chunk`, which copies the frame into the caller's
message when `to_user` is true and only discards it otherwise. -/
inductive RecvEvent
  | turn_parse (turn_socket : NiceSocket)
  | stun_handler (length : Nat) (source : NiceAddress)
  | tcp_queued (length : Nat)
  | tcp_notify (length : Nat)
  | rfc4571_consume (to_user : Bool)
  deriving DecidableEq, Repr

/-- The message as `agent_recv_message_unlocked` sees it after the read: the socket's
return value, the socket (replaced by the relay socket on TURN transports), the message
length, the source address, and whether `message` points to the local `rfc4571_message`. -/
structure ReceivedMessage where
  sockret : Int
  nicesock : NiceSocket
  length : Nat
  source : NiceAddress
  is_rfc4571_message : Bool
  deriving DecidableEq, Repr

/-- The answers of the socket layer, the STUN codec, the connectivity-check engine and
pseudo-TCP that `agent_recv_message_unlocked` branches on.
`recv` is `nice_socket_recv_messages` into the caller's message (return value, length,
source); `recv_framed` is the same call with the two-byte `rfc4571_frame` in front
(return value, `local_message.length`, the frame value in host order, source);
`rfc4571_read` is the outcome of the buffered read of a real ICE-TCP socket (the value
of `sockret` before the frame test, and `component->rfc4571_frame_size` and `headroom`
after it); `turn_parse` is `nice_udp_turn_socket_parse_recv_message` (status, socket,
length and source afterwards). -/
structure RecvEnv where
  recv : NiceSocket → Int × Nat × NiceAddress
  recv_framed : NiceSocket → Int × Nat × Nat × NiceAddress
  rfc4571_read : NiceComponent → NiceSocket → Int × Nat × Nat
  nice_socket_is_based_on : NiceSocket → NiceSocket → Bool
  turn_parse : NiceSocket → ReceivedMessage → RecvStatus × ReceivedMessage
  stun_message_validate_buffer_length_fast : ReceivedMessage → Bool
  stun_message_validate_buffer_length : ReceivedMessage → Bool
  conn_check_handle_inbound_stun : ReceivedMessage → Bool
  nice_component_verify_remote_candidate : NiceComponent → NiceAddress → NiceSocket → Bool
  pseudo_tcp_socket_is_closed : NiceComponent → Bool

/-- The read at the start of `agent_recv_message_unlocked` (up to the test of `sockret`).
`provided_length` is `message->length` as the caller left it. -/
def recv_read_message (env : RecvEnv) (stream : NiceStream) (component : NiceComponent)
    (nicesock : NiceSocket) (provided_length : Nat) : ReceivedMessage :=
  if nicesock.reliable then
    if nicesock.type = .UDP_TURN_OVER_TCP ∨ nicesock.type = .UDP_TURN then
      -- replace the socket by the topmost relay socket based on it
      let found := component.local_candidates.find? (fun cand =>
        decide (cand.type = .RELAYED) && decide (cand.stream_id = stream.id) &&
        decide (cand.component_id = component.id) &&
        (match cand.sockptr with
         | some s => env.nice_socket_is_based_on s nicesock
         | none => false))
      let nicesock :=
        match found with
        | some cand => cand.sockptr.getD nicesock
        | none => nicesock
      let r := env.recv_framed nicesock
      { sockret := r.1, nicesock := nicesock,
        length := if r.1 = 1 ∧ r.2.1 ≥ 2 then r.2.2.1 % 65536 else provided_length,
        source := r.2.2.2, is_rfc4571_message := false }
    else if nicesock.type = .TCP_PASSIVE then
      { sockret := 0, nicesock := nicesock, length := provided_length,
        source := nice_address_init, is_rfc4571_message := false }
    else
      let r := env.rfc4571_read component nicesock
      let frame_size := r.2.1
      let headroom := r.2.2
      let have_whole_frame : Bool := frame_size ≠ 0 ∧ headroom ≥ frame_size
      if have_whole_frame then
        { sockret := 1, nicesock := nicesock, length := frame_size - 2,
          source := component.rfc4571_remote_addr, is_rfc4571_message := true }
      else
        { sockret := if r.1 = 1 then 0 else r.1, nicesock := nicesock, length := 0,
          source := nice_address_init, is_rfc4571_message := false }
  else
    let r := env.recv nicesock
    { sockret := r.1, nicesock := nicesock, length := r.2.1, source := r.2.2,
      is_rfc4571_message := false }

/-- The second test of `_agent_recv_turn_message_unlocked`: the socket of
`component->turn_candidate` when that socket is based on the receiving socket and the
message comes from the candidate's TURN server. -/
def turn_candidate_socket (env : RecvEnv) (component : NiceComponent)
    (message : ReceivedMessage) : Option NiceSocket :=
  match component.turn_candidate with
  | none => none
  | some tc =>
    match tc.sockptr with
    | none => none
    | some s =>
      match tc.turn with
      | none => none
      | some turn =>
        if env.nice_socket_is_based_on s message.nicesock ∧
            nice_address_equal message.source turn.server then some s
        else none

/-- The inner loop of `_agent_recv_turn_message_unlocked` for one TURN server: the socket
of the first relayed local candidate of this stream that uses this server and whose
socket is based on the receiving socket. -/
def turn_server_socket (env : RecvEnv) (stream : NiceStream) (component : NiceComponent)
    (message : ReceivedMessage) (turn : TurnServer) : Option NiceSocket :=
  (component.local_candidates.find? (fun cand =>
    decide (cand.type = .RELAYED) && decide (cand.turn = some turn) &&
    decide (cand.stream_id = stream.id) &&
    (match cand.sockptr with
     | some s => env.nice_socket_is_based_on s message.nicesock
     | none => false))).bind (fun cand => cand.sockptr)

/-- The function `_agent_recv_turn_message_unlocked`: its result `is_turn`, the message
and `*recv_status` afterwards, and the TURN socket whose parser was called, if any. -/
def _agent_recv_turn_message_unlocked (env : RecvEnv) (stream : NiceStream)
    (component : NiceComponent) (message : ReceivedMessage) (recv_status : RecvStatus) :
    Bool × ReceivedMessage × RecvStatus × Option NiceSocket :=
  if message.nicesock.type = .UDP_TURN then (true, message, recv_status, none)
  else
    match turn_candidate_socket env component message with
    | some s =>
      let r := env.turn_parse s message
      (true, r.2, r.1, some s)
    | none =>
      -- the TURN servers of the component that the message comes from
      let from_turn := component.turn_servers.filter
        (fun turn => nice_address_equal message.source turn.server)
      match from_turn.findSome? (turn_server_socket env stream component message) with
      | some s =>
        let r := env.turn_parse s message
        (true, r.2, r.1, some s)
      | none => (!from_turn.isEmpty, message, recv_status, none)

/-- The function `agent_recv_message_unlocked`: the status it returns and what it handed
on.  A return of `RECV_SUCCESS` means that the message is left in the caller's buffers
(for an RFC 4571 frame: copied there by the final `rfc4571_consume true`). -/
def agent_recv_message_unlocked (env : RecvEnv) (agent : NiceAgent) (stream : NiceStream)
    (component : NiceComponent) (nicesock : NiceSocket) (provided_length : Nat) :
    RecvStatus × List RecvEvent :=
  let message := recv_read_message env stream component nicesock provided_length
  -- the code at the label `done`
  let done : ReceivedMessage → RecvStatus → List RecvEvent → RecvStatus × List RecvEvent :=
    fun m retval events =>
      if m.is_rfc4571_message then
        (retval, events ++ [RecvEvent.rfc4571_consume (decide (retval = .RECV_SUCCESS))])
      else (retval, events)
  if message.sockret = 0 then done message .RECV_WOULD_BLOCK []
  else if message.sockret < 0 then done message .RECV_ERROR []
  else if message.length = 0 then done message .RECV_OOB []
  else
    let t := _agent_recv_turn_message_unlocked env stream component message .RECV_SUCCESS
    let is_turn := t.1
    let message := t.2.1
    let retval := t.2.2.1
    let events : List RecvEvent :=
      match t.2.2.2 with
      | some s => [RecvEvent.turn_parse s]
      | none => []
    if agent.force_relay ∧ ¬ is_turn then done message .RECV_WOULD_BLOCK events
    else if retval = .RECV_OOB then done message retval events
    else
      let stun : Bool × List RecvEvent :=
        if env.stun_message_validate_buffer_length_fast message then
          if env.stun_message_validate_buffer_length message then
            (env.conn_check_handle_inbound_stun message,
             events ++ [RecvEvent.stun_handler message.length message.source])
          else (false, events)
        else (false, events)
      let events := stun.2
      if stun.1 then done message .RECV_OOB events
      else if ¬ env.nice_component_verify_remote_candidate component message.source
          message.nicesock then done message .RECV_OOB events
      else if message.length > 0 ∧ agent.reliable then
        if ¬ message.nicesock.reliable ∧ ¬ env.pseudo_tcp_socket_is_closed component then
          if component.selected_pair_local = none then
            (.RECV_OOB, events ++ [RecvEvent.tcp_queued message.length])
          else done message .RECV_OOB (events ++ [RecvEvent.tcp_notify message.length])
        else if env.pseudo_tcp_socket_is_closed component then done message .RECV_OOB events
        else done message retval events
      else done message retval events

/-- An event that hands the message to the STUN handler, to pseudo-TCP or to the user. -/
def RecvEvent.delivers : RecvEvent → Bool
  | .stun_handler _ _ => true
  | .tcp_queued _ => true
  | .tcp_notify _ => true
  | .rfc4571_consume to_user => to_user
  | .turn_parse _ => false

/-- A socket layer on which the UDP socket has received an empty datagram from
198.51.100.1:6000; nothing else answers. -/
def recv_env_empty_datagram : RecvEnv :=
  { recv := fun _ => (1, 0, ⟨.AF_INET, 3325256705, 6000⟩)
    recv_framed := fun _ => (0, 0, 0, nice_address_init)
    rfc4571_read := fun _ _ => (0, 0, 0)
    nice_socket_is_based_on := fun _ _ => false
    turn_parse := fun _ m => (.RECV_OOB, m)
    stun_message_validate_buffer_length_fast := fun _ => false
    stun_message_validate_buffer_length := fun _ => false
    conn_check_handle_inbound_stun := fun _ => false
    nice_component_verify_remote_candidate := fun _ _ _ => true
    pseudo_tcp_socket_is_closed := fun _ => true }

/-- The same socket layer with a datagram of 100 bytes from 198.51.100.1:6000 that
passes both STUN length checks and that the STUN handler would accept. -/
def recv_env_stun_datagram : RecvEnv :=
  { recv_env_empty_datagram with
    recv := fun _ => (1, 100, ⟨.AF_INET, 3325256705, 6000⟩)
    stun_message_validate_buffer_length_fast := fun _ => true
    stun_message_validate_buffer_length := fun _ => true
    conn_check_handle_inbound_stun := fun _ => true }

/-! ## Gathering (`discovery.c`, `discovery_add_local_host_candidate`; `agent.c`,
`nice_agent_gather_candidates`) -/

/-- The `HostCandidateResult` enum. -/
inductive HostCandidateResult
  | HOST_CANDIDATE_SUCCESS
  | HOST_CANDIDATE_FAILED
  | HOST_CANDIDATE_CANT_CREATE_SOCKET
  | HOST_CANDIDATE_REDUNDANT
  | HOST_CANDIDATE_DUPLICATE_PORT
  deriving DecidableEq, Repr

/-- Why a socket could not be created: `G_IO_ERROR_ADDRESS_IN_USE` or anything else. -/
inductive SocketError
  | ADDRESS_IN_USE
  | OTHER
  deriving DecidableEq, Repr

/-- The surroundings of gathering: the helper functions of `candidate.c`, the local
interface addresses (`nice_interfaces_get_local_ips`, already parsed), the socket
constructors for host candidates, the random number generator, the random credentials of
`priv_generate_candidate_credentials`, `nice_address_is_linklocal`, the sockets that
`priv_add_new_candidate_discovery_turn` opens, `nice_component_resolving_turn`, and the
outcome of the first discovery tick run by `discovery_schedule` (the discovery list, the
count of unscheduled items, and whether every item is finished). -/
structure GatherEnv where
  lib : CandidateHelpers
  nice_interfaces_get_local_ips : List NiceAddress
  socket_new : NiceAddress → NiceCandidateTransport → Except SocketError NiceSocket
  nice_rng_generate_int : Nat → Nat → Nat
  random_username : CString
  random_password : CString
  nice_address_is_linklocal : NiceAddress → Bool
  udp_socket_for_google_turn : NiceAddress → Option NiceSocket
  agent_create_tcp_turn_socket : NiceSocket → TurnServer → Bool → Option NiceSocket
  nice_component_resolving_turn : NiceComponent → Bool
  discovery_tick : NiceAgent → List CandidateDiscovery × Nat × Bool

/-- Modelled from the spec: `nice_address_ip_version` (`address.c`), the "ip-version"
query of an address: 4, 6, or 0 for an unset address. -/
def nice_address_ip_version (a : NiceAddress) : Nat :=
  match a.family with
  | .AF_INET => 4
  | .AF_INET6 => 6
  | .AF_UNSPEC => 0

/-- The priority of a new local candidate, chosen by compatibility mode as in every
`discovery_add_*` function. -/
def local_candidate_priority (lib : CandidateHelpers) (agent : NiceAgent)
    (candidate : NiceCandidate) (nat_assisted : Bool) : Nat :=
  if agent.compatibility = .GOOGLE then lib.nice_candidate_jingle_priority candidate
  else if agent.compatibility = .MSN ∨ agent.compatibility = .OC2007 then
    lib.nice_candidate_msn_priority candidate
  else if agent.compatibility = .OC2007R2 then
    lib.nice_candidate_ms_ice_priority candidate agent.reliable nat_assisted
  else lib.nice_candidate_ice_priority candidate agent.reliable nat_assisted

/-- The function `priv_generate_candidate_credentials`. -/
def priv_generate_candidate_credentials (env : GatherEnv) (agent : NiceAgent)
    (candidate : NiceCandidate) : NiceCandidate :=
  if agent.compatibility = .MSN ∨ agent.compatibility = .OC2007 then
    { candidate with
      username := some env.random_username, password := some env.random_password }
  else if agent.compatibility = .GOOGLE then
    { candidate with username := some env.random_username, password := none }
  else candidate

/-- The local candidates of the agent, each with the ids of the stream and component
that hold it, in the order of the loops of `priv_local_host_candidate_duplicate_port`. -/
def agent_local_candidates_with_ids (agent : NiceAgent) : List (Nat × Nat × NiceCandidate) :=
  agent.streams.flatMap (fun s =>
    s.components.flatMap (fun comp => comp.local_candidates.map (fun c => (s.id, comp.id, c))))

/-- The function `priv_local_host_candidate_duplicate_port`: the loops return at the
first local candidate with the same transport, IP version and port. -/
def priv_local_host_candidate_duplicate_port (agent : NiceAgent) (candidate : NiceCandidate)
    (accept_duplicate : Bool) : Bool :=
  if candidate.transport = .TCP_ACTIVE then false
  else
    match (agent_local_candidates_with_ids agent).find? (fun e =>
        decide (candidate.transport = e.2.2.transport) &&
        decide (nice_address_ip_version candidate.addr = nice_address_ip_version e.2.2.addr) &&
        decide (nice_address_get_port candidate.addr = nice_address_get_port e.2.2.addr)) with
    | none => false
    | some e =>
      if accept_duplicate ∧ candidate.stream_id = e.1 ∧ candidate.component_id = e.2.1 then
        false
      else true

/-- The socket constructor that `discovery_add_local_host_candidate` calls for the
transport.  TCP-SO has no constructor; the active TCP constructor reports no error code. -/
def host_socket_new (env : GatherEnv) (address : NiceAddress)
    (transport : NiceCandidateTransport) : Except SocketError NiceSocket :=
  match transport with
  | .UDP => env.socket_new address .UDP
  | .TCP_ACTIVE =>
    match env.socket_new address .TCP_ACTIVE with
    | .ok s => .ok s
    | .error _ => .error .OTHER
  | .TCP_PASSIVE => env.socket_new address .TCP_PASSIVE
  | .TCP_SO => .error .OTHER

/-- The end of `discovery_add_local_host_candidate`, once the socket exists: the
candidate takes the socket and its address, then passes the duplicate-port test and the
pruning. -/
def host_candidate_store (agent : NiceAgent) (stream_id component_id : Nat)
    (candidate : NiceCandidate) (nicesock : NiceSocket) (accept_duplicate : Bool) :
    HostCandidateResult × Option NiceCandidate × NiceAgent :=
  let candidate :=
    { candidate with
      sockptr := some nicesock, addr := nicesock.addr, base_addr := nicesock.addr }
  if priv_local_host_candidate_duplicate_port agent candidate accept_duplicate then
    (.HOST_CANDIDATE_DUPLICATE_PORT, none, agent)
  else
    match agent_find_component agent stream_id component_id with
    | none => (.HOST_CANDIDATE_FAILED, none, agent)
    | some (_, component) =>
      if (priv_add_local_candidate_pruned component candidate).1 then
        (.HOST_CANDIDATE_SUCCESS, some candidate,
          agent_update_component agent stream_id component_id
            (fun comp => (priv_add_local_candidate_pruned comp candidate).2))
      else (.HOST_CANDIDATE_REDUNDANT, none, agent)

/-- The candidate that `discovery_add_local_host_candidate` builds before it creates the
socket: a host candidate on `address` with its priority and credentials. -/
def host_candidate_new (env : GatherEnv) (agent : NiceAgent) (stream_id component_id : Nat)
    (address : NiceAddress) (transport : NiceCandidateTransport) : NiceCandidate :=
  let candidate : NiceCandidate :=
    { nice_candidate_new .HOST with
      transport := transport, stream_id := stream_id, component_id := component_id,
      addr := address, base_addr := address }
  let candidate :=
    { candidate with priority := local_candidate_priority env.lib agent candidate false }
  priv_generate_candidate_credentials env agent candidate

/-- The function `discovery_add_local_host_candidate`: its result, `*outcandidate`, and
the agent afterwards. -/
def discovery_add_local_host_candidate (max_foundation : Nat) (env : GatherEnv)
    (agent : NiceAgent) (stream_id component_id : Nat) (address : NiceAddress)
    (transport : NiceCandidateTransport) (accept_duplicate : Bool) :
    HostCandidateResult × Option NiceCandidate × NiceAgent :=
  match agent_find_component agent stream_id component_id with
  | none => (.HOST_CANDIDATE_FAILED, none, agent)
  | some _ =>
    let assigned := priv_assign_foundation max_foundation agent
      (host_candidate_new env agent stream_id component_id address transport)
    match host_socket_new env address transport with
    | .error .ADDRESS_IN_USE => (.HOST_CANDIDATE_DUPLICATE_PORT, none, assigned.2)
    | .error .OTHER => (.HOST_CANDIDATE_CANT_CREATE_SOCKET, none, assigned.2)
    | .ok nicesock =>
      host_candidate_store assigned.2 stream_id component_id assigned.1 nicesock
        accept_duplicate

/-- The agent of `agent_one_component` in state Disconnected with force-relay set. -/
def agent_force_relay : NiceAgent :=
  { agent_one_component .DISCONNECTED with force_relay := true }

/-- Surroundings with one local interface address 192.168.1.1, on which every UDP socket
can be created and no TCP socket, and where nothing else is ever asked. -/
def gather_env_udp : GatherEnv :=
  { lib := candidate_helpers_fixed
    nice_interfaces_get_local_ips := [⟨.AF_INET, 3232235777, 0⟩]
    socket_new := fun a t =>
      if t = .UDP then
        .ok { handle := 1, type := .UDP_BSD,
              addr := { a with port := if a.port = 0 then 5000 else a.port },
              reliable := false }
      else .error .OTHER
    nice_rng_generate_int := fun lo _ => lo
    random_username := []
    random_password := []
    nice_address_is_linklocal := fun _ => false
    udp_socket_for_google_turn := fun _ => none
    agent_create_tcp_turn_socket := fun _ _ _ => none
    nice_component_resolving_turn := fun _ => false
    discovery_tick := fun a => (a.discovery_list, 0, false) }

/-- The function `priv_add_new_candidate_discovery_turn`; `nicesock` is the socket of the
host candidate.  Attaching sockets to the component is outside the modelled state. -/
def priv_add_new_candidate_discovery_turn (env : GatherEnv) (agent : NiceAgent)
    (nicesock : NiceSocket) (turn : TurnServer) (stream_id component_id : Nat)
    (turn_tcp : Bool) : NiceAgent :=
  let socket : Option NiceSocket :=
    if turn.type = .TURN_UDP then
      if agent.use_ice_udp = false ∨ turn_tcp = true then none
      else if agent.compatibility = .GOOGLE then
        match env.udp_socket_for_google_turn (nice_address_set_port nicesock.addr 0) with
        | some new_socket => some new_socket
        | none => some nicesock
      else some nicesock
    else
      let reliable_tcp : Bool :=
        turn_tcp && (agent.compatibility == .OC2007 || agent.compatibility == .OC2007R2)
      if agent.use_ice_tcp = false ∧ reliable_tcp = true then none
      else env.agent_create_tcp_turn_socket nicesock turn reliable_tcp
  match socket with
  | none => agent
  | some s =>
    let cdisco : CandidateDiscovery :=
      { type := .RELAYED, nicesock := some s, server := turn.server, turn := some turn,
        stream_id := stream_id, component_id := component_id }
    { agent with
      discovery_list := agent.discovery_list ++ [cdisco]
      discovery_unsched_items := agent.discovery_unsched_items + 1 }

/-- What the loops of `nice_agent_gather_candidates` carry: the agent, the flags
`found_local_address` and `resolving_turn`, and whether `goto error` was taken. -/
structure GatherState where
  agent : NiceAgent
  found_local_address : Bool
  resolving_turn : Bool
  failed : Bool

/-- The loop of `nice_agent_gather_candidates` over `component->turn_servers` for one new
host candidate. -/
def gather_turn_servers (env : GatherEnv) (stream_id cid : Nat)
    (host_candidate : NiceCandidate) (nicesock : NiceSocket) :
    List TurnServer → GatherState → GatherState
  | [], st => st
  | turn :: rest, st =>
    if ¬ nice_address_is_valid turn.server then
      gather_turn_servers env stream_id cid host_candidate nicesock rest
        (if ¬ turn.resolution_failed then { st with resolving_turn := true } else st)
    else if nice_address_ip_version host_candidate.addr ≠
        nice_address_ip_version turn.server then
      gather_turn_servers env stream_id cid host_candidate nicesock rest st
    else
      let agent := priv_add_new_candidate_discovery_turn env st.agent nicesock turn
        stream_id cid (host_candidate.transport != .UDP)
      gather_turn_servers env stream_id cid host_candidate nicesock rest
        { st with agent := agent }

/-- The `while` loop of `nice_agent_gather_candidates` that tries ports until a host
candidate is created.  The state is the agent, `current_port` (a `guint`) and
`accept_duplicate`; the result is the last answer of `discovery_add_local_host_candidate`,
or nothing when `fuel` iterations were not enough. -/
def gather_port_loop (max_foundation : Nat) (env : GatherEnv) (stream_id cid : Nat)
    (addr : NiceAddress) (transport : NiceCandidateTransport)
    (min_port max_port start_port : Nat) :
    Nat → NiceAgent → Nat → Bool →
      Option (HostCandidateResult × Option NiceCandidate × NiceAgent)
  | 0, _, _, _ => none
  | fuel + 1, agent, current_port, accept_duplicate =>
    let r := discovery_add_local_host_candidate max_foundation env agent stream_id cid
      (nice_address_set_port addr current_port) transport accept_duplicate
    let current_port := if current_port > 0 then (current_port + 1) % 2 ^ 32 else current_port
    let current_port := if current_port > max_port then min_port else current_port
    if current_port = start_port ∧ accept_duplicate = true then some r
    else
      let accept_duplicate := accept_duplicate || decide (current_port = start_port)
      if current_port = 0 ∧ r.1 ≠ .HOST_CANDIDATE_DUPLICATE_PORT then some r
      else if r.1 = .HOST_CANDIDATE_CANT_CREATE_SOCKET ∨
          r.1 = .HOST_CANDIDATE_DUPLICATE_PORT then
        gather_port_loop max_foundation env stream_id cid addr transport min_port max_port
          start_port fuel r.2.2 current_port accept_duplicate
      else some r

/-- The body of the `for (add_type ...)` loop for one transport, after the test of
`use_ice_udp` and `use_ice_tcp`. -/
def gather_host_candidate (max_foundation : Nat) (env : GatherEnv) (fuel : Nat)
    (stream_id cid : Nat) (addr : NiceAddress) (transport : NiceCandidateTransport)
    (st : GatherState) : Option GatherState :=
  match agent_find_component st.agent stream_id cid with
  | none => some st
  | some (_, component) =>
    let start_port :=
      if component.min_port ≠ 0 then
        env.nice_rng_generate_int component.min_port (component.max_port + 1)
      else component.min_port
    match gather_port_loop max_foundation env stream_id cid addr transport
        component.min_port component.max_port start_port fuel st.agent start_port false with
    | none => none
    | some r =>
      let st := { st with agent := r.2.2 }
      if r.1 = .HOST_CANDIDATE_REDUNDANT ∨ r.1 = .HOST_CANDIDATE_FAILED ∨
          r.1 = .HOST_CANDIDATE_CANT_CREATE_SOCKET then some st
      else if r.1 = .HOST_CANDIDATE_DUPLICATE_PORT then some { st with failed := true }
      else
        let st := { st with found_local_address := true }
        match r.2.1 with
        | none => some st
        | some host_candidate =>
          match host_candidate.sockptr, agent_find_component st.agent stream_id cid with
          | some nicesock, some (_, component) =>
            if st.agent.full_mode ∧ ¬ env.nice_address_is_linklocal addr ∧
                transport ≠ .TCP_PASSIVE then
              some (gather_turn_servers env stream_id cid host_candidate nicesock
                component.turn_servers st)
            else some st
          | _, _ => some st

/-- The `for (add_type = ADD_HOST_MIN; add_type <= ADD_HOST_MAX; add_type++)` loop over
the transports that are left to try. -/
def gather_add_types (max_foundation : Nat) (env : GatherEnv) (fuel : Nat)
    (stream_id cid : Nat) (addr : NiceAddress) :
    List NiceCandidateTransport → GatherState → Option GatherState
  | [], st => some st
  | transport :: rest, st =>
    if st.failed then some st
    else if (st.agent.use_ice_udp = false ∧ transport = .UDP) ∨
        (st.agent.use_ice_tcp = false ∧ transport ≠ .UDP) then
      gather_add_types max_foundation env fuel stream_id cid addr rest st
    else
      match gather_host_candidate max_foundation env fuel stream_id cid addr transport st with
      | none => none
      | some st => gather_add_types max_foundation env fuel stream_id cid addr rest st

/-- The loop over `local_addresses`, limited to `NICE_CANDIDATE_MAX_LOCAL_ADDRESSES`
(`max_local_addresses`) entries; `length` counts the addresses visited. -/
def gather_addresses (max_foundation max_local_addresses : Nat) (env : GatherEnv)
    (fuel : Nat) (stream_id cid : Nat) :
    List NiceAddress → Nat → GatherState → Option GatherState
  | [], _, st => some st
  | addr :: rest, length, st =>
    if st.failed then some st
    else if ¬ (length < max_local_addresses) then some st
    else
      match gather_add_types max_foundation env fuel stream_id cid addr
          [.UDP, .TCP_ACTIVE, .TCP_PASSIVE] st with
      | none => none
      | some st =>
        gather_addresses max_foundation max_local_addresses env fuel stream_id cid rest
          (length + 1) st

/-- The `for (cid = 1; cid <= stream->n_components; cid++)` loop that creates the host
candidates, over the component ids that are left. -/
def gather_components (max_foundation max_local_addresses : Nat) (env : GatherEnv)
    (fuel : Nat) (stream_id : Nat) (local_addresses : List NiceAddress) :
    List Nat → GatherState → Option GatherState
  | [], st => some st
  | cid :: rest, st =>
    if st.failed then some st
    else
      match agent_find_component st.agent stream_id cid with
      | none =>
        gather_components max_foundation max_local_addresses env fuel stream_id
          local_addresses rest st
      | some _ =>
        match gather_addresses max_foundation max_local_addresses env fuel stream_id cid
            local_addresses 0 { st with found_local_address := false } with
        | none => none
        | some st =>
          if st.failed then some st
          else if ¬ st.found_local_address then some { st with failed := true }
          else
            match agent_find_component st.agent stream_id cid with
            | none => some st
            | some (_, component) =>
              if component.state = .DISCONNECTED ∨ component.state = .FAILED then
                match agent_signal_component_state_change st.agent stream_id cid
                    .GATHERING with
                | none => none
                | some agent =>
                  gather_components max_foundation max_local_addresses env fuel stream_id
                    local_addresses rest { st with agent := agent }
              else
                gather_components max_foundation max_local_addresses env fuel stream_id
                  local_addresses rest st

/-- A write through the `NiceStream *` that `agent_find_stream` returned. -/
def agent_update_stream (agent : NiceAgent) (stream_id : Nat)
    (f : NiceStream → NiceStream) : NiceAgent :=
  { agent with streams := update_first (fun s => s.id == stream_id) f agent.streams }

/-- The function `agent_signal_new_candidate`. -/
def agent_signal_new_candidate (agent : NiceAgent) (candidate : NiceCandidate) : NiceAgent :=
  agent_queue_signal
    (agent_queue_signal agent (Signal.NEW_CANDIDATE_FULL candidate))
    (Signal.NEW_CANDIDATE candidate.stream_id candidate.component_id candidate.foundation)

/-- The inner loop of the signalling code of `nice_agent_gather_candidates` ("only signal
the new candidates after we're sure that the gathering was successful"). -/
def gather_signal_candidates : List NiceCandidate → NiceAgent → NiceAgent
  | [], agent => agent
  | candidate :: rest, agent =>
    if agent.force_relay ∧ candidate.type ≠ .RELAYED then
      gather_signal_candidates rest agent
    else gather_signal_candidates rest (agent_signal_new_candidate agent candidate)

/-- The outer loop of the signalling code over the component ids `1 .. n_components`. -/
def gather_signal_components (stream_id : Nat) : List Nat → NiceAgent → NiceAgent
  | [], agent => agent
  | cid :: rest, agent =>
    match agent_find_component agent stream_id cid with
    | none => gather_signal_components stream_id rest agent
    | some (_, component) =>
      gather_signal_components stream_id rest
        (gather_signal_candidates component.local_candidates agent)

/-- The function `agent_signal_gathering_done`. -/
def agent_signal_gathering_done (agent : NiceAgent) : NiceAgent :=
  { agent with
    streams := agent.streams.map (fun s => { s with gathering := false })
    signals := agent.signals ++
      (agent.streams.filter (fun s => s.gathering)).map
        (fun s => Signal.CANDIDATE_GATHERING_DONE s.id) }

/-- The function `agent_gathering_done`.  In every gathering stream, every component that
is not resolving a TURN server name loses its server-reflexive local candidates in
OC2007R2 mode (candidates that force-relay hides are skipped before that); pairs are
added to the connectivity-check engine; then `agent_signal_gathering_done` is called
unless the discovery timer is installed or a name resolution is running. -/
def agent_gathering_done (env : GatherEnv) (agent : NiceAgent) : NiceAgent :=
  let removed : NiceCandidate → Bool := fun c =>
    !(agent.force_relay && c.type != .RELAYED) &&
    (agent.compatibility == .OC2007R2 && c.type == .SERVER_REFLEXIVE)
  let in_component : NiceComponent → NiceComponent := fun comp =>
    if env.nice_component_resolving_turn comp then comp
    else { comp with local_candidates := comp.local_candidates.filter (fun c => !removed c) }
  let in_stream : NiceStream → NiceStream := fun s =>
    if s.gathering then { s with components := s.components.map in_component } else s
  let dns_resolution_ongoing : Bool :=
    agent.streams.any (fun s =>
      s.gathering && s.components.any env.nice_component_resolving_turn)
  let agent := { agent with streams := agent.streams.map in_stream }
  if agent.discovery_timer_source = false ∧ dns_resolution_ongoing = false then
    agent_signal_gathering_done agent
  else agent

/-- The function `discovery_free`. -/
def discovery_free (agent : NiceAgent) : NiceAgent :=
  { agent with
    discovery_list := [], discovery_unsched_items := 0, discovery_timer_source := false }

/-- The function `discovery_schedule`; nothing is returned when its assertion
`agent->discovery_list != NULL` fails.  The first tick is summarised by
`env.discovery_tick`: when it finds every item finished it frees the discovery list,
calls `agent_gathering_done` and leaves the timer off; otherwise the timer is installed. -/
def discovery_schedule (env : GatherEnv) (agent : NiceAgent) : Option NiceAgent :=
  if agent.discovery_list = [] then none
  else if agent.discovery_unsched_items > 0 ∧ agent.discovery_timer_source = false then
    let tick := env.discovery_tick agent
    let agent :=
      { agent with discovery_list := tick.1, discovery_unsched_items := tick.2.1 }
    if tick.2.2 then some (agent_gathering_done env (discovery_free agent))
    else some { agent with discovery_timer_source := true }
  else some agent

/-- The function `discovery_prune_stream`. -/
def discovery_prune_stream (agent : NiceAgent) (stream_id : Nat) : NiceAgent :=
  let agent :=
    { agent with
      discovery_list := agent.discovery_list.filter (fun d => d.stream_id != stream_id) }
  if agent.discovery_list = [] then discovery_free agent else agent

/-- The clean-up loop after the label `error` when `ret == FALSE`: the local candidates
of every component `1 .. n_components` of the stream are freed. -/
def gather_free_candidates (stream_id : Nat) : List Nat → NiceAgent → NiceAgent
  | [], agent => agent
  | cid :: rest, agent =>
    gather_free_candidates stream_id rest
      (agent_update_component agent stream_id cid
        (fun comp => { comp with local_candidates := [] }))

/-- The function `nice_agent_gather_candidates`: its result and the agent afterwards, or
nothing when `fuel` iterations of a port loop were not enough or an assertion failed.
`max_local_addresses` is `NICE_CANDIDATE_MAX_LOCAL_ADDRESSES`. -/
def nice_agent_gather_candidates (max_foundation max_local_addresses : Nat)
    (env : GatherEnv) (fuel : Nat) (agent : NiceAgent) (stream_id : Nat) :
    Option (Bool × NiceAgent) :=
  if ¬ (stream_id ≥ 1) then some (false, agent)
  else
    match agent_find_stream agent stream_id with
    | none => some (false, agent)
    | some stream =>
      if stream.gathering_started then some (true, agent)
      else
        let local_addresses :=
          if agent.local_addresses = [] then env.nice_interfaces_get_local_ips
          else agent.local_addresses
        let agent :=
          if agent.full_mode ∧ agent.stun_server_ip ≠ none ∧ ¬ agent.force_relay then
            { agent with stun_resolving_list := stream_id :: agent.stun_resolving_list }
          else agent
        let cids := (List.range stream.n_components).map (fun i => i + 1)
        match gather_components max_foundation max_local_addresses env fuel stream.id
            local_addresses cids
            { agent := agent, found_local_address := false, resolving_turn := false,
              failed := false } with
        | none => none
        | some st =>
          if st.failed then
            some (false,
              discovery_prune_stream (gather_free_candidates stream.id cids st.agent) stream_id)
          else
            let agent := agent_update_stream st.agent stream.id
              (fun s => { s with gathering := true, gathering_started := true })
            let agent := gather_signal_components stream.id cids agent
            if agent.discovery_unsched_items = 0 ∧ agent.stun_resolving_list = [] ∧
                st.resolving_turn = false then
              some (true, agent_gathering_done env agent)
            else if agent.discovery_unsched_items ≠ 0 then
              match discovery_schedule env agent with
              | none => none
              | some agent => some (true, agent)
            else some (true, agent)

/-- The new-candidate signals that a call appended: the candidates carried by the
`NEW_CANDIDATE_FULL` signals of `after` beyond the signals of `before`. -/
def new_candidate_signals (before after : NiceAgent) : List NiceCandidate :=
  (after.signals.drop before.signals.length).filterMap
    (fun s => match s with
      | Signal.NEW_CANDIDATE_FULL c => some c
      | _ => none)

/-- What every part of gathering does to the agent `a`, giving `b`: force-relay is kept,
signals are only appended, a new-candidate signal appended while force-relay is set
carries a relayed candidate, and every local candidate of `b` is a local candidate of `a`
or a host candidate. -/
def GatherStep (a b : NiceAgent) : Prop :=
  b.force_relay = a.force_relay ∧
  (∃ extra, b.signals = a.signals ++ extra ∧
    ∀ c, Signal.NEW_CANDIDATE_FULL c ∈ extra → a.force_relay = true → c.type = .RELAYED) ∧
  (∀ c ∈ agent_local_candidates b, c ∈ agent_local_candidates a ∨ c.type = .HOST)

/-! ## Construction and properties (`agent.c`, `nice_agent_init`,
`nice_agent_set_property`, `nice_agent_get_property`) -/

/-- The function `nice_agent_init` applied to the zeroed object: the members it assigns
hold the assigned values, the other modelled members are zero. -/
def nice_agent_init : NiceAgent :=
  { streams := [], compatibility := .RFC5245, full_mode := false, reliable := false,
    force_relay := false, use_ice_udp := true, use_ice_tcp := true,
    controlling_mode := true, nomination_mode := .AGGRESSIVE, next_candidate_id := 1,
    signals := [], discovery_list := [], discovery_unsched_items := 0,
    discovery_timer_source := false, saved_controlling_mode := true, next_stream_id := 1 }

/-- A property of the agent together with the value to set, for the properties whose
member is part of the model (the `case` labels of `nice_agent_set_property`). -/
inductive AgentProperty
  | COMPATIBILITY (value : NiceCompatibility)
  | STUN_SERVER (value : Option CString)
  | CONTROLLING_MODE (value : Bool)
  | FULL_MODE (value : Bool)
  | NOMINATION_MODE (value : NiceNominationMode)
  | RELIABLE (value : Bool)
  | ICE_UDP (value : Bool)
  | ICE_TCP (value : Bool)
  | FORCE_RELAY (value : Bool)
  deriving DecidableEq, Repr

/-- The function `priv_update_controlling_mode`.  The two nested loops stop at the first
component with `state > NICE_COMPONENT_STATE_DISCONNECTED`; the flag they compute is
"no component of any stream has such a state". -/
def priv_update_controlling_mode (agent : NiceAgent) (value : Bool) : NiceAgent :=
  let agent := { agent with saved_controlling_mode := value }
  if agent.controlling_mode ≠ agent.saved_controlling_mode then
    let update_controlling_mode : Bool :=
      agent.streams.all (fun stream =>
        stream.components.all (fun component =>
          !decide (component.state.toNat > NiceComponentState.DISCONNECTED.toNat)))
    if update_controlling_mode then
      { agent with controlling_mode := agent.saved_controlling_mode }
    else agent
  else agent

/-- The function `nice_agent_set_property`, for the properties of `AgentProperty`. -/
def nice_agent_set_property (agent : NiceAgent) : AgentProperty → NiceAgent
  | .COMPATIBILITY value =>
    let agent := { agent with compatibility := value }
    if agent.compatibility = .GOOGLE ∨ agent.compatibility = .MSN ∨
        agent.compatibility = .WLM2009 then
      { agent with use_ice_tcp := false }
    else agent
  | .STUN_SERVER value => { agent with stun_server_ip := value }
  | .CONTROLLING_MODE value => priv_update_controlling_mode agent value
  | .FULL_MODE value => { agent with full_mode := value }
  | .NOMINATION_MODE value => { agent with nomination_mode := value }
  | .RELIABLE value => { agent with reliable := value }
  | .ICE_UDP value =>
    if agent.use_ice_tcp = true ∨ value = true then { agent with use_ice_udp := value }
    else agent
  | .ICE_TCP value =>
    if (agent.compatibility = .RFC5245 ∨ agent.compatibility = .OC2007 ∨
          agent.compatibility = .OC2007R2) ∧
        (agent.use_ice_udp = true ∨ value = true) then
      { agent with use_ice_tcp := value }
    else agent
  | .FORCE_RELAY value => { agent with force_relay := value }

/-- The `PROP_CONTROLLING_MODE` case of `nice_agent_get_property`. -/
def nice_agent_get_controlling_mode (agent : NiceAgent) : Bool :=
  agent.saved_controlling_mode

/-- The `PROP_ICE_UDP` and `PROP_ICE_TCP` cases of `nice_agent_get_property`. -/
def nice_agent_get_ice_flags (agent : NiceAgent) : Bool × Bool :=
  (agent.use_ice_udp, agent.use_ice_tcp)

/-- The agents reachable from construction by property sets: `nice_agent_init`, then the
construct-only property "compatibility" (set once, while the object is constructed),
then any number of sets of "ice-udp" and "ice-tcp". -/
inductive IceFlagsReachable : NiceAgent → Prop
  | constructed (compat : NiceCompatibility) :
      IceFlagsReachable (nice_agent_set_property nice_agent_init (.COMPATIBILITY compat))
  | set_ice_udp (agent : NiceAgent) (value : Bool) :
      IceFlagsReachable agent →
      IceFlagsReachable (nice_agent_set_property agent (.ICE_UDP value))
  | set_ice_tcp (agent : NiceAgent) (value : Bool) :
      IceFlagsReachable agent →
      IceFlagsReachable (nice_agent_set_property agent (.ICE_TCP value))

/-! ## Streams (`agent.c`, `nice_agent_add_stream`) -/

/-- Modelled from the spec: `nice_component_new` and `nice_stream_new` live in
`component.c` and `stream.c`.  "Stream has a unique id allocated from a counter;
component ids run 1..n within a stream": the new stream has the given id and
`n_components` components with ids 1 to `n_components`, each Disconnected with empty
lists, and has not started gathering. -/
def nice_stream_new (stream_id n_components : Nat) : NiceStream :=
  { id := stream_id, n_components := n_components,
    components := (List.range n_components).map (fun i =>
      { id := i + 1, state := .DISCONNECTED, local_candidates := [],
        remote_candidates := [], turn_servers := [], turn_candidate := none,
        min_port := 0, max_port := 0 }),
    gathering := false, gathering_started := false }

/-- The function `nice_agent_add_stream`: the returned id and the agent afterwards.
`agent->next_stream_id++` is a 32-bit increment; the pseudo-TCP sockets of reliable mode
and the stream credentials are outside the modelled state. -/
def nice_agent_add_stream (agent : NiceAgent) (n_components : Nat) : Nat × NiceAgent :=
  if ¬ (n_components ≥ 1) then (0, agent)
  else
    let stream := nice_stream_new agent.next_stream_id n_components
    let next := (agent.next_stream_id + 1) % 2 ^ 32
    (stream.id, { agent with next_stream_id := next, streams := agent.streams ++ [stream] })

/-- The agents reachable from `nice_agent_init` while the stream-id counter has not
wrapped: by `nice_agent_add_stream` below the last counter value, and by any operation
that leaves the counter alone and adds no stream id (removing a stream, or changing
streams in place). -/
inductive StreamIdsReachable : NiceAgent → Prop
  | init : StreamIdsReachable nice_agent_init
  | add_stream (agent : NiceAgent) (n_components : Nat) :
      StreamIdsReachable agent → agent.next_stream_id + 1 < 2 ^ 32 →
      StreamIdsReachable (nice_agent_add_stream agent n_components).2
  | other (agent after : NiceAgent) :
      StreamIdsReachable agent → after.next_stream_id = agent.next_stream_id →
      (∀ s ∈ after.streams, ∃ t ∈ agent.streams, t.id = s.id) →
      StreamIdsReachable after

/-! ## Pair priority (`agent.c`, `agent_candidate_pair_priority`) -/

/-- Modelled from the spec: `nice_candidate_pair_priority` lives in `candidate.c`.
"For each side G = controlling, D = controlled, the pair priority is
(2^32) * min(G,D) + 2 * max(G,D) + (G>D ? 1 : 0)"; the first argument is the controlling
side's priority. -/
def nice_candidate_pair_priority (o_prio a_prio : Nat) : Nat :=
  2 ^ 32 * min o_prio a_prio + 2 * max o_prio a_prio + (if o_prio > a_prio then 1 else 0)

/-- The function `agent_candidate_pair_priority`. -/
def agent_candidate_pair_priority (agent : NiceAgent) (loc remote : NiceCandidate) : Nat :=
  if agent.controlling_mode then nice_candidate_pair_priority loc.priority remote.priority
  else nice_candidate_pair_priority remote.priority loc.priority

/-! ## Sending (`agent.c`, `pseudo_tcp_socket_send_messages`,
`nice_agent_send_messages_nonblocking_internal`, `nice_agent_send_messages_nonblocking`,
`nice_agent_send`) -/

/-- The conversion of an integer to `gint`: the value modulo 2^32, read as a signed
32-bit number. -/
def to_gint (x : Int) : Int := (x + 2 ^ 31) % 2 ^ 32 - 2 ^ 31

/-- The `G_IO_ERROR` codes that the send functions set. -/
inductive GIOErrorEnum
  | BROKEN_PIPE
  | PERMISSION_DENIED
  | WOULD_BLOCK
  | FAILED
  | CANCELLED
  deriving DecidableEq, Repr

/-- The answers of `pseudo_tcp_socket_get_error` that `pseudo_tcp_socket_send_messages`
tells apart. -/
inductive PseudoTcpErrno
  | EWOULDBLOCK
  | ENOTCONN
  | EPIPE
  | OTHER
  deriving DecidableEq, Repr

/-- What a send hands to the layers below the agent: a buffer to `pseudo_tcp_socket_send`,
messages to `nice_socket_send_messages`, or one RFC 4571 frame to the socket. -/
inductive SendEvent
  | PSEUDO_TCP_SEND (buffer : GOutputVector)
  | SOCKET_SEND (sock : NiceSocket) (dest : NiceAddress) (messages : List NiceOutputMessage)
  | SOCKET_SEND_FRAME (sock : NiceSocket) (dest : NiceAddress) (frame : Rfc4571Frame)
  deriving DecidableEq, Repr

/-- The surroundings of a send: the pseudo-TCP socket of a component (`component->tcp`,
a number standing for its state) with the functions of `pseudotcp.c` on it, and the
answers of the sockets (`nice_socket_send_messages`, and for a frame the function named
by its `reliable_send`). -/
structure SendEnv where
  component_tcp : NiceComponent → Nat
  pseudo_tcp_socket_is_closed : Nat → Bool
  pseudo_tcp_socket_get_available_send_space : Nat → Nat
  pseudo_tcp_socket_send : Nat → GOutputVector → Int × Nat
  pseudo_tcp_socket_get_error : Nat → PseudoTcpErrno
  nice_socket_send_messages : NiceSocket → NiceAddress → List NiceOutputMessage → Int
  nice_socket_send_frame : NiceSocket → NiceAddress → Rfc4571Frame → Int

/-- How the buffer loop of `pseudo_tcp_socket_send_messages` ends: at the end of the
message, by `goto out`, or by `return -1` with an error set. -/
inductive PseudoTcpExit
  | DONE
  | OUT
  | FAILED (error : GIOErrorEnum)
  deriving DecidableEq, Repr

/-- The inner loop of `pseudo_tcp_socket_send_messages` over the buffers of one message:
how it ended, the socket state, `bytes_sent` and the buffers handed to pseudo-TCP. -/
def pseudo_tcp_send_buffers (env : SendEnv) :
    List GOutputVector → Nat → Int → List SendEvent →
      PseudoTcpExit × Nat × Int × List SendEvent
  | [], tcp, bytes_sent, events => (.DONE, tcp, bytes_sent, events)
  | buffer :: rest, tcp, bytes_sent, events =>
    let r := env.pseudo_tcp_socket_send tcp buffer
    let events := events ++ [SendEvent.PSEUDO_TCP_SEND buffer]
    if r.1 < 0 then
      if env.pseudo_tcp_socket_get_error r.2 = .EWOULDBLOCK then
        (.OUT, r.2, bytes_sent, events)
      else if env.pseudo_tcp_socket_get_error r.2 = .ENOTCONN ∨
          env.pseudo_tcp_socket_get_error r.2 = .EPIPE then
        (.FAILED .WOULD_BLOCK, r.2, bytes_sent, events)
      else (.FAILED .FAILED, r.2, bytes_sent, events)
    else pseudo_tcp_send_buffers env rest r.2 (to_gint (bytes_sent + r.1)) events

/-- The outer loop of `pseudo_tcp_socket_send_messages` from message `i` on: the value
returned, the error set, the socket state and the buffers handed to pseudo-TCP. -/
def pseudo_tcp_send_loop (env : SendEnv) ( allow_partial : Bool) :
    List NiceOutputMessage → Nat → Nat → Int → List SendEvent →
      Int × Option GIOErrorEnum × Nat × List SendEvent
  | [], i, tcp, bytes_sent, events =>
    (if allow_partial then bytes_sent else to_gint i, none, tcp, events)
  | message :: rest, i, tcp, bytes_sent, events =>
    if allow_partial = false ∧
        output_message_get_size message >
          env.pseudo_tcp_socket_get_available_send_space tcp then
      (to_gint i, none, tcp, events)
    else
      let r := pseudo_tcp_send_buffers env message tcp bytes_sent events
      match r.1 with
      | .DONE => pseudo_tcp_send_loop env allow_partial rest (i + 1) r.2.1 r.2.2.1 r.2.2.2
      | .OUT => (if allow_partial then r.2.2.1 else to_gint i, none, r.2.1, r.2.2.2)
      | .FAILED error => (-1, some error, r.2.1, r.2.2.2)

/-- The function `pseudo_tcp_socket_send_messages`. -/
def pseudo_tcp_socket_send_messages (env : SendEnv) (tcp : Nat)
    (messages : List NiceOutputMessage) ( allow_partial : Bool) :
    Int × Option GIOErrorEnum × Nat × List SendEvent :=
  pseudo_tcp_send_loop env allow_partial messages 0 tcp 0 []

/-- The result of a send: the value returned, the error set (`child_error`), what was
handed to the layers below, and the agent afterwards. -/
structure SendResult where
  n_sent : Int
  error : Option GIOErrorEnum
  events : List SendEvent
  agent : NiceAgent
  deriving DecidableEq, Repr

/-- The function `priv_pseudo_tcp_error` on a component whose `tcp` is set: the component
is signalled Failed (the cancellable, the sockets and the clock are outside the modelled
state). -/
def priv_pseudo_tcp_error (agent : NiceAgent) (stream_id component_id : Nat) :
    Option NiceAgent :=
  agent_signal_component_state_change agent stream_id component_id .FAILED

/-- The part of `nice_agent_send_messages_nonblocking_internal` that sends on the
selected pair (`if (component->selected_pair.local != NULL)` with its `else`), before
"Handle errors and cancellations".  Nothing is returned when a NULL pointer would be
dereferenced or an assertion fails. -/
def send_on_selected_pair (env : SendEnv) (agent : NiceAgent) (stream : NiceStream)
    (component : NiceComponent) (messages : List NiceOutputMessage)
    ( allow_partial : Bool) : Option SendResult :=
  match component.selected_pair_local with
  | none => some { n_sent := 0, error := none, events := [], agent := agent }
  | some loc =>
    match loc.sockptr, component.selected_pair_remote with
    | some sock, some remote =>
      if agent.reliable = true ∧ sock.reliable = false then
        let tcp := env.component_tcp component
        if env.pseudo_tcp_socket_is_closed tcp = false then
          let r := pseudo_tcp_socket_send_messages env tcp messages allow_partial
          if r.1 < 0 ∧ r.2.1 ≠ some .WOULD_BLOCK then
            match priv_pseudo_tcp_error agent stream.id component.id with
            | none => none
            | some after =>
              some { n_sent := r.1, error := r.2.1, events := r.2.2.2, agent := after }
          else some { n_sent := r.1, error := r.2.1, events := r.2.2.2, agent := agent }
        else some { n_sent := -1, error := some .FAILED, events := [], agent := agent }
      else
        let sent : Int × List SendEvent :=
          if sock.reliable = true then
            let framed := rfc4571_send_messages agent.reliable
              (env.nice_socket_send_frame sock remote.addr) messages 0
            (framed.2, framed.1.map (SendEvent.SOCKET_SEND_FRAME sock remote.addr))
          else
            (env.nice_socket_send_messages sock remote.addr messages,
              [SendEvent.SOCKET_SEND sock remote.addr messages])
        if sent.1 < 0 then
          some { n_sent := sent.1, error := some .FAILED, events := sent.2, agent := agent }
        else if sent.1 > 0 ∧ allow_partial = true then
          match messages with
          | [message] =>
            some { n_sent := to_gint (output_message_get_size message), error := none,
                   events := sent.2, agent := agent }
          | _ => none
        else some { n_sent := sent.1, error := none, events := sent.2, agent := agent }
    | _, _ => none

/-- The three assertions after the label `done` of
`nice_agent_send_messages_nonblocking_internal`. -/
def send_assertions (messages : List NiceOutputMessage) ( allow_partial : Bool)
    (r : SendResult) : Bool :=
  (r.error.isSome == decide (r.n_sent = -1)) &&
  decide (r.n_sent ≠ 0) &&
  (decide (r.n_sent < 0) ||
   (! allow_partial && decide (r.n_sent % 2 ^ 32 ≤ (messages.length : Int))) ||
   ( allow_partial && decide (messages.length = 1) &&
     decide (r.n_sent % 2 ^ 64 ≤ (output_message_get_size (messages.headD []) : Int))))

/-- The function `nice_agent_send_messages_nonblocking_internal`; `n_messages` is the
length of `messages`.  Nothing is returned when an assertion fails. -/
def nice_agent_send_messages_nonblocking_internal (env : SendEnv) (agent : NiceAgent)
    (stream_id component_id : Nat) (messages : List NiceOutputMessage)
    ( allow_partial : Bool) : Option SendResult :=
  if ¬ (messages.length = 1 ∨ allow_partial = false) then none
  else
    let result : Option SendResult :=
      match agent_find_component agent stream_id component_id with
      | none =>
        some { n_sent := -1, error := some .BROKEN_PIPE, events := [], agent := agent }
      | some (stream, component) =>
        if component.selected_pair_local ≠ none ∧ component.remote_consent_have = false then
          some { n_sent := -1, error := some .PERMISSION_DENIED, events := [], agent := agent }
        else
          match send_on_selected_pair env agent stream component messages allow_partial with
          | none => none
          | some r =>
            if r.n_sent = 0 then some { r with n_sent := -1, error := some .WOULD_BLOCK }
            else some r
    match result with
    | none => none
    | some r => if send_assertions messages allow_partial r then some r else none

/-- The function `nice_agent_send_messages_nonblocking`.  `cancelled` tells whether the
cancellable is set and cancelled; a failed argument check returns -1 with no error set.
The messages pointer is NULL only for an empty list, which the check accepts. -/
def nice_agent_send_messages_nonblocking (env : SendEnv) (agent : NiceAgent)
    (stream_id component_id : Nat) (messages : List NiceOutputMessage)
    (cancelled : Bool) : Option SendResult :=
  if ¬ (stream_id ≥ 1) then
    some { n_sent := -1, error := none, events := [], agent := agent }
  else if ¬ (component_id ≥ 1) then
    some { n_sent := -1, error := none, events := [], agent := agent }
  else if cancelled then
    some { n_sent := -1, error := some .CANCELLED, events := [], agent := agent }
  else
    nice_agent_send_messages_nonblocking_internal env agent stream_id component_id messages
      false

/-- The function `nice_agent_send`; `buf` is the address of the data (0 for NULL).  The
error pointer passed on is NULL, so the caller sees only the returned value; `error` is
the error that was set inside. -/
def nice_agent_send (env : SendEnv) (agent : NiceAgent) (stream_id component_id : Nat)
    (len : Nat) (buf : Nat) : Option SendResult :=
  if ¬ (stream_id ≥ 1) then
    some { n_sent := -1, error := none, events := [], agent := agent }
  else if ¬ (component_id ≥ 1) then
    some { n_sent := -1, error := none, events := [], agent := agent }
  else if buf = 0 then
    some { n_sent := -1, error := none, events := [], agent := agent }
  else
    nice_agent_send_messages_nonblocking_internal env agent stream_id component_id
      [[{ buffer := buf, size := len }]] true

/-! ## TURN servers (`agent.c`, `nice_agent_set_relay_info`, `turn_server_resolved_cb`) -/

/-- The surroundings of the TURN server functions: those of gathering, and the
constructors `turn_server_new` (server text, port, user name, password, type) and
`turn_server_copy` of `component.c`, which return a server under a new pointer. -/
structure RelayEnv where
  gather : GatherEnv
  turn_server_new : CString → Nat → CString → CString → NiceRelayType → TurnServer
  turn_server_copy : TurnServer → TurnServer

/-- The loop of `nice_agent_set_relay_info` over `component->local_candidates`: one relay
discovery per host candidate that is not TCP-passive and has the IP version of the
server.  Host candidates always carry their socket. -/
def relay_info_add_discoveries (env : GatherEnv) (turn : TurnServer)
    (stream_id component_id : Nat) : List NiceCandidate → NiceAgent → NiceAgent
  | [], agent => agent
  | c :: rest, agent =>
    if c.type = .HOST ∧ c.transport ≠ .TCP_PASSIVE ∧
        nice_address_ip_version c.addr = nice_address_ip_version turn.server then
      match c.sockptr with
      | some sock =>
        relay_info_add_discoveries env turn stream_id component_id rest
          (priv_add_new_candidate_discovery_turn env agent sock turn stream_id component_id
            (c.transport != .UDP))
      | none => relay_info_add_discoveries env turn stream_id component_id rest agent
    else relay_info_add_discoveries env turn stream_id component_id rest agent

/-- The function `nice_agent_set_relay_info`: its result and the agent afterwards.
`max_turn_servers` is `NICE_CANDIDATE_MAX_TURN_SERVERS`; a NULL string is `none`.  The
timeout that starts the name resolution of an unresolved server is outside the modelled
state (its callback is `turn_server_resolved_cb`).  Nothing is returned when the
assertion of `discovery_schedule` fails. -/
def nice_agent_set_relay_info (max_turn_servers : Nat) (env : RelayEnv) (agent : NiceAgent)
    (stream_id component_id : Nat) (server_ip : Option CString) (server_port : Nat)
    (username password : Option CString) (type : NiceRelayType) :
    Option (Bool × NiceAgent) :=
  if ¬ (stream_id ≥ 1) then some (false, agent)
  else if ¬ (component_id ≥ 1) then some (false, agent)
  else
    match server_ip, username, password with
    | some ip, some user, some pass =>
      if server_port = 0 then some (false, agent)
      else
        match agent_find_component agent stream_id component_id with
        | none => some (false, agent)
        | some (stream, component) =>
          let length := component.turn_servers.length
          if length = max_turn_servers then some (false, agent)
          else
            let turn := { env.turn_server_new ip server_port user pass type with
                          preference := length }
            let agent := agent_update_component agent stream_id component_id
              (fun c => { c with turn_servers := c.turn_servers ++ [turn] })
            if stream.gathering_started then
              let agent := agent_update_stream agent stream.id
                (fun s => { s with gathering := true })
              if nice_address_is_valid turn.server then
                let agent := relay_info_add_discoveries env.gather turn stream.id
                  component_id component.local_candidates agent
                if agent.discovery_unsched_items ≠ 0 then
                  match discovery_schedule env.gather agent with
                  | none => none
                  | some agent => some (true, agent)
                else some (true, agent)
              else some (true, agent)
            else some (true, agent)
    | _, _, _ => some (false, agent)

/-- One address of the list that `g_resolver_lookup_by_name_finish` returns, by family. -/
inductive ResolvedAddress
  | IPV4 (ip : Nat)
  | IPV6 (ip : Nat)
  | OTHER
  deriving DecidableEq, Repr

/-- The loop of `turn_server_resolved_cb` over `component->local_candidates` for one
resolved address. -/
def resolved_add_discoveries (env : GatherEnv) (turn : TurnServer)
    (stream_id component_id : Nat) : List NiceCandidate → NiceAgent → NiceAgent
  | [], agent => agent
  | host_candidate :: rest, agent =>
    if host_candidate.type ≠ .HOST then
      resolved_add_discoveries env turn stream_id component_id rest agent
    else if env.nice_address_is_linklocal host_candidate.addr then
      resolved_add_discoveries env turn stream_id component_id rest agent
    else if host_candidate.transport = .TCP_PASSIVE then
      resolved_add_discoveries env turn stream_id component_id rest agent
    else if nice_address_ip_version host_candidate.addr ≠
        nice_address_ip_version turn.server then
      resolved_add_discoveries env turn stream_id component_id rest agent
    else
      match host_candidate.sockptr with
      | some sock =>
        resolved_add_discoveries env turn stream_id component_id rest
          (priv_add_new_candidate_discovery_turn env agent sock turn stream_id component_id
            (host_candidate.transport != .UDP))
      | none => resolved_add_discoveries env turn stream_id component_id rest agent

/-- What `turn_server_resolved_cb` does with one address that has a known family: the
address and the port are written into the current server (the entry of the list with
its handle), and relay discoveries are queued when the stream has started gathering. -/
def resolved_fill_address (env : RelayEnv) (stream_id component_id : Nat)
    (turn : TurnServer) (address : NiceAddress) (agent : NiceAgent) :
    TurnServer × NiceAgent :=
  let turn := { turn with server := nice_address_set_port address turn.server_port }
  let agent := agent_update_component agent stream_id component_id
    (fun c =>
      { c with
        turn_servers := update_first (fun t => t.handle == turn.handle) (fun _ => turn)
          c.turn_servers })
  match agent_find_component agent stream_id component_id with
  | some (stream, component) =>
    if stream.gathering_started then
      (turn, resolved_add_discoveries env.gather turn stream.id component_id
        component.local_candidates agent)
    else (turn, agent)
  | none => (turn, agent)

/-- The loop of `turn_server_resolved_cb` over the resolved addresses; the state is the
current server `turn`, `first_filled` and the agent.  "If there is already one resolved,
duplicate it": the copy is appended to `component->turn_servers` before the family of
the address is looked at. -/
def turn_server_resolved_loop (env : RelayEnv) (stream_id component_id : Nat) :
    List ResolvedAddress → TurnServer → Bool → NiceAgent → NiceAgent
  | [], _, _, agent => agent
  | addr :: rest, turn, first_filled, agent =>
    let copy := env.turn_server_copy turn
    let turn := if first_filled then copy else turn
    let agent :=
      if first_filled then
        agent_update_component agent stream_id component_id
          (fun c => { c with turn_servers := c.turn_servers ++ [copy] })
      else agent
    match addr with
    | .OTHER => turn_server_resolved_loop env stream_id component_id rest turn first_filled agent
    | .IPV4 ip =>
      let r := resolved_fill_address env stream_id component_id turn ⟨.AF_INET, ip, 0⟩ agent
      turn_server_resolved_loop env stream_id component_id rest r.1 true r.2
    | .IPV6 ip =>
      let r := resolved_fill_address env stream_id component_id turn ⟨.AF_INET6, ip, 0⟩ agent
      turn_server_resolved_loop env stream_id component_id rest r.1 true r.2

/-- The function `turn_server_resolved_cb` for the component `component_id` of stream
`stream_id` (the weak reference of the callback) and the server with the handle
`turn_handle`; an empty address list is the failed lookup.  Nothing is returned when the
assertion of `discovery_schedule` fails. -/
def turn_server_resolved_cb (env : RelayEnv) (agent : NiceAgent)
    (stream_id component_id : Nat) (turn_handle : Nat) (addresses : List ResolvedAddress) :
    Option NiceAgent :=
  match agent_find_component agent stream_id component_id with
  | none => some agent
  | some (_, component) =>
    match component.turn_servers.find? (fun t => t.handle == turn_handle) with
    | none => some agent
    | some turn =>
      if addresses = [] then
        some (agent_update_component agent stream_id component_id
          (fun c =>
            { c with
              turn_servers := update_first (fun t => t.handle == turn_handle)
                (fun t => { t with resolution_failed := true }) c.turn_servers }))
      else
        let agent := turn_server_resolved_loop env stream_id component_id addresses turn
          false agent
        if agent.discovery_unsched_items ≠ 0 then discovery_schedule env.gather agent
        else some (agent_gathering_done env.gather agent)

/-- The TURN server list of a component of the agent (empty when it does not exist). -/
def turn_servers_of (agent : NiceAgent) (stream_id component_id : Nat) : List TurnServer :=
  match agent_find_component agent stream_id component_id with
  | none => []
  | some (_, component) => component.turn_servers

/-- Surroundings in which a TURN server given by name is created unresolved under the
handle of its port, and a copy gets the handle plus 1000. -/
def relay_env_names : RelayEnv :=
  { gather := gather_env_udp
    turn_server_new := fun _ port _ _ type =>
      { handle := port, server := nice_address_init, resolution_failed := false,
        type := type, server_port := port }
    turn_server_copy := fun t => { t with handle := t.handle + 1000 } }

/-- Successive calls of `nice_agent_set_relay_info` on component 1 of stream 1, one per
port of the list, for a UDP TURN server given by the name "t": the results in order and
the agent afterwards. -/
def set_relay_info_ports (max_turn_servers : Nat) (env : RelayEnv) :
    List Nat → NiceAgent → Option (List Bool × NiceAgent)
  | [], agent => some ([], agent)
  | port :: rest, agent =>
    match nice_agent_set_relay_info max_turn_servers env agent 1 1 (some ['t']) port
        (some ['u']) (some ['p']) .TURN_UDP with
    | none => none
    | some r =>
      match set_relay_info_ports max_turn_servers env rest r.2 with
      | none => none
      | some more => some (r.1 :: more.1, more.2)

/-- The agent of `agent_one_component` after eight TURN servers (ports 1 to 8) were
added to its component with the cap 8. -/
def agent_eight_turn_servers : NiceAgent :=
  ((set_relay_info_ports 8 relay_env_names [1, 2, 3, 4, 5, 6, 7, 8]
    (agent_one_component .DISCONNECTED)).map (fun r => r.2)).getD
    (agent_one_component .DISCONNECTED)

/-- Surroundings of a send in which every socket and the pseudo-TCP socket accept all
they are given. -/
def send_env_accepting : SendEnv :=
  { component_tcp := fun _ => 0
    pseudo_tcp_socket_is_closed := fun _ => false
    pseudo_tcp_socket_get_available_send_space := fun _ => 65536
    pseudo_tcp_socket_send := fun tcp buffer => (buffer.size, tcp)
    pseudo_tcp_socket_get_error := fun _ => .EWOULDBLOCK
    nice_socket_send_messages := fun _ _ messages => messages.length
    nice_socket_send_frame := fun _ _ _ => 1 }

/-- An agent whose only component is Ready with a selected pair (the UDP host candidate
with its socket, towards a remote host candidate) and the given remote consent. -/
def agent_selected_pair (consent : Bool) : NiceAgent :=
  { agent_one_component .READY with
    streams := [{ id := 1, n_components := 1, gathering := false, gathering_started := false,
                  components := [{ id := 1, state := .READY,
                                   local_candidates := [host_candidate_with_socket],
                                   remote_candidates := [host_candidate_udp],
                                   turn_servers := [], turn_candidate := none,
                                   min_port := 0, max_port := 0,
                                   selected_pair_local := some host_candidate_with_socket,
                                   selected_pair_remote := some host_candidate_udp,
                                   remote_consent_have := consent }] }] }

/-- What gathering keeps and what it may add, from the agent `a` to the agent `b`: the
flags `use_ice_udp` and `use_ice_tcp` and the ids of the streams are kept, and every
local candidate of `b` is a local candidate of `a` or satisfies `Q`. -/
def GatherAdds (Q : NiceCandidate → Prop) (a b : NiceAgent) : Prop :=
  b.use_ice_udp = a.use_ice_udp ∧ b.use_ice_tcp = a.use_ice_tcp ∧
  b.streams.map (fun s => s.id) = a.streams.map (fun s => s.id) ∧
  (∀ c ∈ agent_local_candidates b, c ∈ agent_local_candidates a ∨ Q c)

/-- The id of every stream of the agent with its `gathering_started` flag, in order. -/
def stream_keys (agent : NiceAgent) : List (Nat × Bool) :=
  agent.streams.map (fun s => (s.id, s.gathering_started))

/-- The surroundings `env` with another function in place of the socket constructors. -/
def gather_env_with_sockets (env : GatherEnv)
    (socket_new : NiceAddress → NiceCandidateTransport → Except SocketError NiceSocket) :
    GatherEnv :=
  { env with socket_new := socket_new }

/-- The agent of `agent_one_component` in state Disconnected with ICE-UDP off (and
ICE-TCP on). -/
def agent_tcp_only : NiceAgent :=
  { agent_one_component .DISCONNECTED with use_ice_udp := false }

/-- Surroundings with one local interface address 192.168.1.1 on which every socket can
be created. -/
def gather_env_all_sockets : GatherEnv :=
  gather_env_with_sockets gather_env_udp (fun a t =>
    .ok { handle := 1, type := if t = .UDP then .UDP_BSD else .TCP_BSD,
          addr := { a with port := if a.port = 0 then 5000 else a.port },
          reliable := t != .UDP })

/-- The agent of `agent_one_component` in state Disconnected after a call of
`nice_agent_gather_candidates` on stream 1 with one local address. -/
def agent_after_gathering : NiceAgent :=
  ((nice_agent_gather_candidates 33 64 gather_env_udp 10 (agent_one_component .DISCONNECTED)
    1).map (fun r => r.2)).getD (agent_one_component .DISCONNECTED)

/-! ## Server-reflexive candidates (`discovery.c`,
`discovery_add_server_reflexive_candidate`) -/

/-- The candidate that `discovery_add_server_reflexive_candidate` builds before the
foundation is assigned: server-reflexive, on the mapped `address`, linked to the base
socket, with its priority and credentials.  (The copy of `server_address` kept in
`stun_server` is outside the modelled state.) -/
def server_reflexive_candidate_new (env : GatherEnv) (agent : NiceAgent)
    (stream_id component_id : Nat) (address : NiceAddress)
    (transport : NiceCandidateTransport) (base_socket : NiceSocket) (nat_assisted : Bool) :
    NiceCandidate :=
  let candidate : NiceCandidate :=
    { nice_candidate_new .SERVER_REFLEXIVE with
      transport := transport, stream_id := stream_id, component_id := component_id,
      addr := address, sockptr := some base_socket, base_addr := base_socket.addr }
  let candidate :=
    { candidate with
      priority := local_candidate_priority env.lib agent candidate nat_assisted }
  priv_generate_candidate_credentials env agent candidate

/-- The function `discovery_add_server_reflexive_candidate`: the agent afterwards. -/
def discovery_add_server_reflexive_candidate (max_foundation : Nat) (env : GatherEnv)
    (agent : NiceAgent) (stream_id component_id : Nat) (address : NiceAddress)
    (transport : NiceCandidateTransport) (base_socket : NiceSocket) (nat_assisted : Bool) :
    NiceAgent :=
  match agent_find_component agent stream_id component_id with
  | none => agent
  | some (_, component) =>
    let assigned := priv_assign_foundation max_foundation agent
      (server_reflexive_candidate_new env agent stream_id component_id address transport
        base_socket nat_assisted)
    if (priv_add_local_candidate_pruned component assigned.1).1 then
      agent_signal_new_candidate
        (agent_update_component assigned.2 stream_id component_id
          (fun comp => (priv_add_local_candidate_pruned comp assigned.1).2))
        assigned.1
    else assigned.2

/-- An agent whose only component holds the UDP host candidate 192.168.1.1:5000 with its
socket. -/
def agent_with_host_candidate : NiceAgent :=
  { agent_one_component .GATHERING with
    streams := [{ id := 1, n_components := 1, gathering := true, gathering_started := true,
                  components := [{ id := 1, state := .GATHERING,
                                   local_candidates := [host_candidate_with_socket],
                                   remote_candidates := [], turn_servers := [],
                                   turn_candidate := none, min_port := 0, max_port := 0 }] }] }

/-! ## Input messages (`agent.c`, `memcpy_buffer_to_input_message` and friends) -/

/-- A `GInputVector`: `buffer` is the memory the vector points to, as the list of its
`size` bytes.  Every vector owns its memory (the caller's buffers do not overlap). -/
structure GInputVector where
  buffer : List Nat
  deriving DecidableEq, Repr

/-- The member `size` of a `GInputVector`. -/
def GInputVector.size (v : GInputVector) : Nat := v.buffer.length

/-- A `NiceInputMessage`: its array of buffers (`n_buffers` is the length of the list; the
NULL-terminated form with `n_buffers == -1` is the same list) and `length`. -/
structure NiceInputMessage where
  buffers : List GInputVector
  length : Nat
  deriving DecidableEq, Repr

/-- The bytes of a message's buffers one after the other. -/
def buffers_bytes : List GInputVector → List Nat
  | [] => []
  | v :: rest => v.buffer ++ buffers_bytes rest

/-- The call `memcpy (dst + offset, src, len)` on a destination region `dst`. -/
def memcpy_at (dst : List Nat) (offset : Nat) (src : List Nat) (len : Nat) : List Nat :=
  dst.take offset ++ src.take len ++ dst.drop (offset + len)

/-- The function `input_message_get_size`: the sum of the buffer sizes. -/
def input_message_get_size (message : NiceInputMessage) : Nat :=
  (message.buffers.map (fun b => b.size)).sum

/-- The `for` loop of `memcpy_buffer_to_input_message` over `message->buffers[i ..]`;
`buffer` is what is left of the source and `length` is `message->length`.  The result is
the buffers after the copies and `message->length`. -/
def memcpy_buffer_loop : List GInputVector → List Nat → Nat → List GInputVector × Nat
  | [], _, length => ([], length)
  | v :: rest, buffer, length =>
    if buffer.length > 0 then
      let len := min v.size buffer.length
      let more := memcpy_buffer_loop rest (buffer.drop len) (length + len)
      (⟨memcpy_at v.buffer 0 buffer len⟩ :: more.1, more.2)
    else (v :: rest, length)

/-- The function `memcpy_buffer_to_input_message`; `buffer` holds the `buffer_length`
bytes of the source.  The result is the return value and the message afterwards. -/
def memcpy_buffer_to_input_message (message : NiceInputMessage) (buffer : List Nat) :
    Nat × NiceInputMessage :=
  let copied := memcpy_buffer_loop message.buffers buffer 0
  (copied.2, { buffers := copied.1, length := copied.2 })

/-- The `for` loop of `compact_message` over `message->buffers[i ..]`; `out` holds the
bytes written so far to the new buffer, so `offset` is its length. -/
def compact_message_loop (buffer_length : Nat) : List GInputVector → List Nat → List Nat
  | [], out => out
  | v :: rest, out =>
    compact_message_loop buffer_length rest
      (out ++ v.buffer.take (min (buffer_length - out.length) v.size))

/-- The function `compact_message` on the buffers of a message: the bytes written to the
newly allocated buffer of `buffer_length` bytes, from its start. -/
def compact_message (buffers : List GInputVector) (buffer_length : Nat) : List Nat :=
  compact_message_loop buffer_length buffers []

/-- The function `compact_input_message`: the new buffer and `*buffer_length`. -/
def compact_input_message (message : NiceInputMessage) : List Nat × Nat :=
  (compact_message message.buffers message.length, message.length)

/-! ## The calls of the port loop (`agent.c`, `nice_agent_gather_candidates`) -/

/-- The answers of `stun_timer_refresh`, `StunUsageTimerReturn`. -/
inductive StunUsageTimerReturn
  | SUCCESS
  | RETRANSMIT
  | TIMEOUT
  deriving DecidableEq, Repr

/-- What a discovery tick asks of the STUN library, the sockets and the clock, per
discovery item: the length returned by `stun_usage_bind_create` and by
`stun_usage_turn_create` (given the agent's compatibility), the value of
`agent_socket_send` for the first request, `g_get_monotonic_time` in microseconds,
`stun_timer_refresh` and `stun_timer_remainder` in milliseconds. -/
structure TickEnv where
  stun_usage_bind_create : CandidateDiscovery → Nat
  stun_usage_turn_create : NiceCompatibility → CandidateDiscovery → Nat
  agent_socket_send : CandidateDiscovery → Int
  g_get_monotonic_time : CandidateDiscovery → Int
  stun_timer_refresh : CandidateDiscovery → StunUsageTimerReturn
  stun_timer_remainder : CandidateDiscovery → Nat

/-- A call of `agent_socket_send` made by the tick for the item at position `index` of the
discovery list: the first request of the item, with whether the call succeeded
(returned `>= 0`), or a retransmission. -/
inductive TickEvent
  | first_request (index : Nat) (sent : Bool)
  | retransmission (index : Nat)
  deriving DecidableEq, Repr

/-- The position in the discovery list of the item a call was made for. -/
def TickEvent.index : TickEvent → Nat
  | .first_request index _ => index
  | .retransmission index => index

/-- Whether the call is a first request that was sent with success. -/
def TickEvent.first_sent : TickEvent → Bool
  | .first_request _ sent => sent
  | .retransmission _ => false

/-- Whether the call is a retransmission. -/
def TickEvent.retransmitted : TickEvent → Bool
  | .first_request _ _ => false
  | .retransmission _ => true

/-- Whether a call put a message on the wire as far as the tick goes: a first request
sent with success, or a retransmission. -/
def TickEvent.transmitted (e : TickEvent) : Bool :=
  e.first_sent || e.retransmitted

/-- The variables of `priv_discovery_tick_unlocked` that change while the list is walked,
and the calls of `agent_socket_send` made so far. -/
structure TickState where
  discovery_unsched_items : Nat
  not_done : Nat
  need_pacing : Nat
  events : List TickEvent
  deriving DecidableEq, Repr

/-- The second part of the loop body, from `if (cand->done != TRUE)` on: the item and the
state afterwards. -/
def discovery_tick_running (env : TickEnv) (index : Nat) (cand : CandidateDiscovery)
    (st : TickState) : CandidateDiscovery × TickState :=
  if cand.done != true then
    let now := env.g_get_monotonic_time cand
    if cand.stun_message_buffer = false then ({ cand with done := true }, st)
    else if now ≥ cand.next_tick then
      match env.stun_timer_refresh cand with
      | .TIMEOUT => ({ cand with done := true, stun_message_buffer := false }, st)
      | .RETRANSMIT =>
        let timeout := env.stun_timer_remainder cand
        ({ cand with next_tick := now + ((timeout * 1000) % 2 ^ 32 : Nat) },
          { st with not_done := st.not_done + 1, need_pacing := st.need_pacing + 1,
                    events := st.events ++ [.retransmission index] })
      | .SUCCESS =>
        let timeout := env.stun_timer_remainder cand
        ({ cand with next_tick := now + ((timeout * 1000) % 2 ^ 32 : Nat) },
          { st with not_done := st.not_done + 1 })
    else (cand, { st with not_done := st.not_done + 1 })
  else (cand, st)

/-- The statement `if (agent->discovery_unsched_items) --agent->discovery_unsched_items;`. -/
def tick_item_scheduled (st : TickState) : TickState :=
  { st with
    discovery_unsched_items :=
      if st.discovery_unsched_items ≠ 0 then st.discovery_unsched_items - 1
      else st.discovery_unsched_items }

/-- The value of `buffer_len` after the request of an item was created, with
`stun_usage_bind_create` for a server-reflexive item and `stun_usage_turn_create` for a
relayed one. -/
def tick_request_length (env : TickEnv) (compatibility : NiceCompatibility)
    (cand : CandidateDiscovery) : Nat :=
  if cand.type = .SERVER_REFLEXIVE then env.stun_usage_bind_create cand
  else env.stun_usage_turn_create compatibility cand

/-- The `for` loop of `priv_discovery_tick_unlocked` over the items from position `index`
on.  The result is these items afterwards (the ones behind a `break` are untouched) and
the state; nothing is returned when `g_assert_not_reached` is hit.  A request created with
a length above zero leaves `stun_message.buffer` set. -/
def discovery_tick_loop (env : TickEnv) (compatibility : NiceCompatibility) :
    List CandidateDiscovery → Nat → TickState → Option (List CandidateDiscovery × TickState)
  | [], _, st => some ([], st)
  | cand :: rest, index, st =>
    if cand.pending != true then
      let cand := { cand with pending := true }
      let st := tick_item_scheduled st
      if nice_address_is_valid cand.server ∧
          (cand.type = .SERVER_REFLEXIVE ∨ cand.type = .RELAYED) then
        if tick_request_length env compatibility cand > 0 then
          if env.agent_socket_send cand ≥ 0 then
            let cand :=
              { cand with next_tick := env.g_get_monotonic_time cand,
                          stun_message_buffer := true }
            let st :=
              { st with need_pacing := st.need_pacing + 1, not_done := st.not_done + 1,
                        events := st.events ++ [.first_request index true] }
            some (cand :: rest, st)
          else
            (discovery_tick_loop env compatibility rest (index + 1)
              { st with events := st.events ++ [.first_request index false] }).map
              (fun r => ({ cand with done := true, stun_message_buffer := false } :: r.1, r.2))
        else
          (discovery_tick_loop env compatibility rest (index + 1) st).map
            (fun r => ({ cand with done := true, stun_message_buffer := false } :: r.1, r.2))
      else none
    else if st.need_pacing ≠ 0 then some (cand :: rest, st)
    else
      let r := discovery_tick_running env index cand st
      if r.2.need_pacing ≠ 0 then some (r.1 :: rest, r.2)
      else
        (discovery_tick_loop env compatibility rest (index + 1) r.2).map
          (fun more => (r.1 :: more.1, more.2))

/-- The state in which `priv_discovery_tick_unlocked` enters its loop. -/
def tick_state_init (agent : NiceAgent) : TickState :=
  { discovery_unsched_items := agent.discovery_unsched_items, not_done := 0,
    need_pacing := 0, events := [] }

/-- The agent when the loop of `priv_discovery_tick_unlocked` has left the discovery list
as `list` and the state as `st`. -/
def agent_after_tick_loop (agent : NiceAgent) (list : List CandidateDiscovery)
    (st : TickState) : NiceAgent :=
  { agent with discovery_list := list, discovery_unsched_items := st.discovery_unsched_items }

/-- The function `priv_discovery_tick_unlocked`: its return value, the agent afterwards
and the calls of `agent_socket_send` it made. -/
def priv_discovery_tick_unlocked (tick : TickEnv) (env : GatherEnv) (agent : NiceAgent) :
    Option (Bool × NiceAgent × List TickEvent) :=
  match discovery_tick_loop tick agent.compatibility agent.discovery_list 0
      (tick_state_init agent) with
  | none => none
  | some (list, st) =>
    if st.not_done = 0 then
      some (false,
        agent_gathering_done env (discovery_free (agent_after_tick_loop agent list st)),
        st.events)
    else some (true, agent_after_tick_loop agent list st, st.events)

/-- Whether the tick can schedule the item: it is pending already, or its server address
is valid and its type is server-reflexive or relayed. -/
def discovery_item_schedulable (cand : CandidateDiscovery) : Bool :=
  cand.pending || (nice_address_is_valid cand.server &&
    (cand.type == .SERVER_REFLEXIVE || cand.type == .RELAYED))

/-- The item once the tick has set `pending`. -/
def discovery_item_pending (cand : CandidateDiscovery) : CandidateDiscovery :=
  { cand with pending := true }

/-- The item after a first request that could not be created or sent: pending, done, and
`stun_message.buffer` cleared. -/
def discovery_item_failed (cand : CandidateDiscovery) : CandidateDiscovery :=
  { cand with pending := true, done := true, stun_message_buffer := false }

/-- The item after its timer reported a timeout: done, and `stun_message.buffer` cleared. -/
def discovery_item_timed_out (cand : CandidateDiscovery) : CandidateDiscovery :=
  { cand with done := true, stun_message_buffer := false }

/-- Surroundings of a tick in which every request is created with 20 bytes and sent, the
clock stands at 1000 and every timer asks for a retransmission with 500 ms left. -/
def tick_env_sending : TickEnv :=
  { stun_usage_bind_create := fun _ => 20
    stun_usage_turn_create := fun _ _ => 20
    agent_socket_send := fun _ => 20
    g_get_monotonic_time := fun _ => 1000
    stun_timer_refresh := fun _ => .RETRANSMIT
    stun_timer_remainder := fun _ => 500 }

/-- Surroundings like `tick_env_sending` in which no send succeeds. -/
def tick_env_failing : TickEnv :=
  { tick_env_sending with agent_socket_send := fun _ => -1 }

/-- A fresh server-reflexive discovery item of stream 1, component 1, for the STUN server
8.8.8.8:3478 on the socket `udp_socket`. -/
def discovery_item_stun : CandidateDiscovery :=
  { type := .SERVER_REFLEXIVE, nicesock := some udp_socket,
    server := ⟨.AF_INET, 134744072, 3478⟩, turn := none, stream_id := 1, component_id := 1 }

/-- The agent of `agent_with_host_candidate` with two fresh discovery items queued. -/
def agent_two_discoveries : NiceAgent :=
  { agent_with_host_candidate with
    discovery_list := [discovery_item_stun, discovery_item_stun],
    discovery_unsched_items := 2 }

/-- The item `discovery_item_stun` after its first request was sent at time 1000. -/
def discovery_item_sent : CandidateDiscovery :=
  { discovery_item_stun with pending := true, stun_message_buffer := true, next_tick := 1000 }

/-- The agent `agent_two_discoveries` after the first request of its first item was sent. -/
def agent_first_discovery_sent : NiceAgent :=
  { agent_two_discoveries with
    discovery_list := [discovery_item_sent, discovery_item_stun],
    discovery_unsched_items := 1 }

/-! ## Relay discoveries for link-local host candidates -/

/-- Surroundings like `gather_env_udp` whose one local interface address is the IPv4
link-local address 169.254.1.1; the addresses of 169.254.0.0/16 are link-local. -/
def gather_env_link_local : GatherEnv :=
  { gather_env_udp with
    nice_interfaces_get_local_ips := [⟨.AF_INET, 2851995905, 0⟩]
    nice_address_is_linklocal := fun a => a.family == .AF_INET && a.ip / 65536 == 43518 }

/-- Surroundings in which a TURN server is created resolved, at 10.0.0.9 and the port
given, under the handle of its port. -/
def relay_env_link_local : RelayEnv :=
  { gather := gather_env_link_local
    turn_server_new := fun _ port _ _ type =>
      { handle := port, server := ⟨.AF_INET, 167772169, port⟩, resolution_failed := false,
        type := type, server_port := port }
    turn_server_copy := fun t => { t with handle := t.handle + 1000 } }

/-- The agent of `agent_one_component` after a first TURN server (port 3478) was set on
its component and candidates were gathered on the link-local interface. -/
def agent_gathered_link_local : Option NiceAgent :=
  match nice_agent_set_relay_info 8 relay_env_link_local (agent_one_component .DISCONNECTED)
      1 1 (some ['t']) 3478 (some ['u']) (some ['p']) .TURN_UDP with
  | none => none
  | some r =>
    (nice_agent_gather_candidates 33 64 gather_env_link_local 10 r.2 1).map (fun g => g.2)

/-! ## Receiving RFC 4571 frames (`agent.c`, `agent_consume_next_rfc4571_chunk`) -/

/-- A `NiceInputMessageIter`: the index of the current message, of the current buffer in
it, and the offset in that buffer. -/
structure NiceInputMessageIter where
  message : Nat
  buffer : Nat
  offset : Nat
  deriving DecidableEq, Repr

/-- The function `nice_input_message_iter_reset`. -/
def nice_input_message_iter_reset (_iter : NiceInputMessageIter) : NiceInputMessageIter :=
  { message := 0, buffer := 0, offset := 0 }

/-- The function `nice_input_message_iter_is_at_end`. -/
def nice_input_message_iter_is_at_end (iter : NiceInputMessageIter) (n_messages : Nat) :
    Bool :=
  iter.message == n_messages && iter.buffer == 0 && iter.offset == 0

/-- The function `nice_input_message_iter_get_n_valid_messages`. -/
def nice_input_message_iter_get_n_valid_messages (iter : NiceInputMessageIter) : Nat :=
  if iter.buffer = 0 ∧ iter.offset = 0 then iter.message else iter.message + 1

/-- The function `nice_input_message_iter_get_message_capacity`; `n_messages` is the
length of `messages`.  The result is a `gsize`.  Nothing is returned when the iterator
points behind the end of the array, where the code reads outside it. -/
def nice_input_message_iter_get_message_capacity (iter : NiceInputMessageIter)
    (messages : List NiceInputMessage) : Option Nat :=
  if iter.message = messages.length then some 0
  else
    match messages.get? iter.message with
    | none => none
    | some message =>
      some ((((message.buffers.drop iter.buffer).map (fun b => b.size)).sum + 2 ^ 64 -
        iter.offset) % 2 ^ 64)

/-- The `for` loop of `append_buffer_to_input_messages` over the buffers of the message
from `iter->buffer` on.  `buffer` holds the `buffer_length` bytes of the source; the state
is `iter->buffer`, `iter->offset`, `message->length` and `buffer_offset`, and the result
is these buffers and the state afterwards. -/
def append_buffer_loop (buffer : List Nat) :
    List GInputVector → Nat → Nat → Nat → Nat → List GInputVector × Nat × Nat × Nat × Nat
  | [], iter_buffer, iter_offset, length, buffer_offset =>
    ([], iter_buffer, iter_offset, length, buffer_offset)
  | v :: rest, iter_buffer, iter_offset, length, buffer_offset =>
    let len := min (buffer.length - buffer_offset) ((v.size + 2 ^ 64 - iter_offset) % 2 ^ 64)
    let copied : GInputVector :=
      ⟨memcpy_at v.buffer iter_offset (buffer.drop buffer_offset) len⟩
    if buffer_offset + len = buffer.length then
      (copied :: rest, iter_buffer, iter_offset + len, length + len, buffer_offset + len)
    else
      let more := append_buffer_loop buffer rest (iter_buffer + 1) 0 (length + len)
        (buffer_offset + len)
      (copied :: more.1, more.2)

/-- The function `append_buffer_to_input_messages`: the return value, the messages and
the iterator afterwards.  Nothing is returned when `iter->message` is outside the array. -/
def append_buffer_to_input_messages (bytestream_tcp : Bool)
    (messages : List NiceInputMessage) (iter : NiceInputMessageIter) (buffer : List Nat) :
    Option (Nat × List NiceInputMessage × NiceInputMessageIter) :=
  match messages.get? iter.message with
  | none => none
  | some message =>
    let length := if iter.buffer = 0 ∧ iter.offset = 0 then 0 else message.length
    let r := append_buffer_loop buffer (message.buffers.drop iter.buffer) iter.buffer
      iter.offset length 0
    let message : NiceInputMessage :=
      { buffers := message.buffers.take iter.buffer ++ r.1, length := r.2.2.2.1 }
    let messages := messages.set iter.message message
    let iter : NiceInputMessageIter := { iter with buffer := r.2.1, offset := r.2.2.1 }
    match nice_input_message_iter_get_message_capacity iter messages with
    | none => none
    | some capacity =>
      if ¬ bytestream_tcp ∨ capacity = 0 then
        some (r.2.2.2.2, messages, { message := iter.message + 1, buffer := 0, offset := 0 })
      else some (r.2.2.2.2, messages, iter)

/-- The `rfc4571_*` members of a `NiceComponent`: the receive buffer (all of its
`rfc4571_buffer_size` bytes), the offset up to which it is filled, the offset and the
size of the current frame (the size counts the two bytes of the length prefix and is 0
when it is not known yet), the number of payload bytes handed out, and the wake-up
flag. -/
structure Rfc4571Reassembly where
  rfc4571_buffer : List Nat
  rfc4571_buffer_offset : Nat
  rfc4571_frame_offset : Nat
  rfc4571_frame_size : Nat
  rfc4571_consumed_size : Nat
  rfc4571_wakeup_needed : Bool
  deriving DecidableEq, Repr

/-- The expression `ntohs (*((guint16 *) (buffer + offset)))`: the big-endian value of
the two bytes at `offset`. -/
def ntohs_at (buffer : List Nat) (offset : Nat) : Nat :=
  buffer.getD offset 0 * 256 + buffer.getD (offset + 1) 0

/-- The first statements of the `if (fully_consumed)` block of
`agent_consume_next_rfc4571_chunk`: the frame offset moves behind the frame, and the
frame size and the consumed size are cleared. -/
def rfc4571_frame_done (component : Rfc4571Reassembly) : Rfc4571Reassembly :=
  { component with
    rfc4571_frame_offset := component.rfc4571_frame_offset + component.rfc4571_frame_size
    rfc4571_frame_size := 0
    rfc4571_consumed_size := 0 }

/-- The `if (fully_consumed)` block of `agent_consume_next_rfc4571_chunk`; `headroom` is
`nice_component_compute_rfc4571_headroom`. -/
def rfc4571_next_frame (headroom : Rfc4571Reassembly → Nat) (component : Rfc4571Reassembly) :
    Rfc4571Reassembly :=
  let component := rfc4571_frame_done component
  let room := headroom component
  if room ≥ 2 then
    let component :=
      { component with
        rfc4571_frame_size :=
          2 + ntohs_at component.rfc4571_buffer component.rfc4571_frame_offset }
    { component with rfc4571_wakeup_needed := decide (room ≥ component.rfc4571_frame_size) }
  else { component with rfc4571_wakeup_needed := false }

/-- The value of `bytes_unconsumed` in `agent_consume_next_rfc4571_chunk`, a `gsize`. -/
def rfc4571_bytes_unconsumed (component : Rfc4571Reassembly) : Nat :=
  (component.rfc4571_frame_size + 2 ^ 64 - 2 + 2 ^ 64 - component.rfc4571_consumed_size)
    % 2 ^ 64

/-- The bytes that `agent_consume_next_rfc4571_chunk` hands to
`append_buffer_to_input_messages`: `bytes_unconsumed` bytes from `rfc4571_buffer +
rfc4571_frame_offset + rfc4571_frame_size - bytes_unconsumed`. -/
def rfc4571_unconsumed (component : Rfc4571Reassembly) : List Nat :=
  (component.rfc4571_buffer.drop
    (component.rfc4571_frame_offset + component.rfc4571_frame_size -
      rfc4571_bytes_unconsumed component)).take (rfc4571_bytes_unconsumed component)

/-- The function `agent_consume_next_rfc4571_chunk`; `headroom` is
`nice_component_compute_rfc4571_headroom`, `messages` is `none` for NULL.  The result is
the component's members, the messages and the iterator afterwards; nothing is returned
when `append_buffer_to_input_messages` reads outside the array. -/
def agent_consume_next_rfc4571_chunk (headroom : Rfc4571Reassembly → Nat)
    (bytestream_tcp : Bool) (component : Rfc4571Reassembly)
    (messages : Option (List NiceInputMessage)) (iter : NiceInputMessageIter) :
    Option (Rfc4571Reassembly × Option (List NiceInputMessage) × NiceInputMessageIter) :=
  match messages with
  | some msgs =>
    match append_buffer_to_input_messages bytestream_tcp msgs iter
        (rfc4571_unconsumed component) with
    | none => none
    | some (bytes_copied, msgs, iter) =>
      let consumed : Rfc4571Reassembly :=
        { component with
          rfc4571_consumed_size := component.rfc4571_consumed_size + bytes_copied }
      if bytes_copied = rfc4571_bytes_unconsumed component ∨ ¬ bytestream_tcp then
        some (rfc4571_next_frame headroom consumed, some msgs, iter)
      else some ({ consumed with rfc4571_wakeup_needed := true }, some msgs, iter)
  | none => some (rfc4571_next_frame headroom component, none, iter)

/-- The function `agent_try_consume_next_rfc4571_chunk`: its return value with the
component's members, the messages and the iterator afterwards. -/
def agent_try_consume_next_rfc4571_chunk (headroom : Rfc4571Reassembly → Nat)
    (bytestream_tcp : Bool) (component : Rfc4571Reassembly)
    (messages : Option (List NiceInputMessage)) (iter : NiceInputMessageIter) :
    Option (Bool × Rfc4571Reassembly × Option (List NiceInputMessage) ×
      NiceInputMessageIter) :=
  if component.rfc4571_frame_size = 0 then some (false, component, messages, iter)
  else if headroom component < component.rfc4571_frame_size then
    some (false, component, messages, iter)
  else
    (agent_consume_next_rfc4571_chunk headroom bytestream_tcp component messages iter).map
      (fun r => (true, r))

/-- Whether the iterator's buffer index and offset lie inside the message: the index is
at most the number of buffers, and the offset is at most the size of the buffer at the
index, or 0 when the index is behind the last buffer. -/
def iter_within_message (iter : NiceInputMessageIter) (message : NiceInputMessage) : Bool :=
  decide (iter.buffer ≤ message.buffers.length) &&
    match message.buffers.drop iter.buffer with
    | [] => iter.offset == 0
    | v :: _ => decide (iter.offset ≤ v.size)

/-- The number of bytes of the message in front of the iterator. -/
def iter_position (iter : NiceInputMessageIter) (message : NiceInputMessage) : Nat :=
  ((message.buffers.take iter.buffer).map (fun b => b.size)).sum + iter.offset

/-- The number of bytes of the message from the iterator on. -/
def iter_capacity (iter : NiceInputMessageIter) (message : NiceInputMessage) : Nat :=
  ((message.buffers.drop iter.buffer).map (fun b => b.size)).sum - iter.offset

/-- The value of `message->length` that `append_buffer_to_input_messages` starts from: 0
when the iterator is at the start of the message. -/
def iter_start_length (iter : NiceInputMessageIter) (message : NiceInputMessage) : Nat :=
  if iter.buffer = 0 ∧ iter.offset = 0 then 0 else message.length

/-- The payload of the current frame: the `rfc4571_frame_size - 2` bytes behind the
two-byte length prefix at `rfc4571_frame_offset`. -/
def rfc4571_frame_payload (component : Rfc4571Reassembly) : List Nat :=
  (component.rfc4571_buffer.drop (component.rfc4571_frame_offset + 2)).take
    (component.rfc4571_frame_size - 2)

/-- The number of bytes one call of `agent_consume_next_rfc4571_chunk` can hand out: what
is left of the payload, or the room left in the message if that is less. -/
def rfc4571_chunk_length (component : Rfc4571Reassembly) (iter : NiceInputMessageIter)
    (message : NiceInputMessage) : Nat :=
  min (component.rfc4571_frame_size - 2 - component.rfc4571_consumed_size)
    (iter_capacity iter message)

/-- The bytes that a call of `append_buffer_to_input_messages` has put into the message
the iterator `iter` pointed to: the bytes of the message afterwards from the position of
the iterator up to the new `length`. -/
def bytes_appended (before after : List NiceInputMessage) (iter : NiceInputMessageIter) :
    List Nat :=
  match before.get? iter.message, after.get? iter.message with
  | some old, some new =>
    ((buffers_bytes new.buffers).drop (iter_position iter old)).take
      (new.length - iter_start_length iter old)
  | _, _ => []

/-- Successive calls of `agent_consume_next_rfc4571_chunk` in bytestream mode for one
frame, each with the messages and the iterator of its caller: the bytes the calls put
into the messages, in order, and the component's members afterwards.  The calls stop
when the frame offset has moved on, as the next call belongs to the next frame. -/
def rfc4571_consume_calls (headroom : Rfc4571Reassembly → Nat) :
    Rfc4571Reassembly → List (List NiceInputMessage × NiceInputMessageIter) →
      Option (List Nat × Rfc4571Reassembly)
  | component, [] => some ([], component)
  | component, (messages, iter) :: rest =>
    match agent_consume_next_rfc4571_chunk headroom true component (some messages) iter with
    | none => none
    | some (after, msgs, _) =>
      let delivered := bytes_appended messages (msgs.getD messages) iter
      if after.rfc4571_frame_offset ≠ component.rfc4571_frame_offset then
        some (delivered, after)
      else
        (rfc4571_consume_calls headroom after rest).map (fun r => (delivered ++ r.1, r.2))

/-- Whether a caller's messages and iterator can take a call: the iterator points to a
message of the array and lies inside it, and the message's buffers are smaller than
2^64 bytes together. -/
def recv_call_valid (call : List NiceInputMessage × NiceInputMessageIter) : Bool :=
  match call.1.get? call.2.message with
  | none => false
  | some message =>
    iter_within_message call.2 message && decide (input_message_get_size message < 2 ^ 64)

/-- Modelled from the spec: `nice_component_compute_rfc4571_headroom` lives in
`component.c`.  The reassembly state tracks the buffer offset and the frame offset; the
bytes buffered from the start of the current frame are the ones between the two. -/
def rfc4571_headroom_buffered (component : Rfc4571Reassembly) : Nat :=
  component.rfc4571_buffer_offset - component.rfc4571_frame_offset

/-- How the start of a receive call ends: the buffered-frame path is not taken (the call
goes on to the sockets), the call returns `n_valid_messages`, or an assertion at the
label `done` fails. -/
inductive RecvBuffered
  | not_taken
  | returned (n_valid_messages : Nat) (component : Rfc4571Reassembly)
      (messages : List NiceInputMessage)
  | assertion_failed (n_valid_messages : Nat)
  deriving DecidableEq, Repr

/-- The path of `nice_agent_recv_messages_blocking_or_nonblocking` through
`agent_try_consume_next_rfc4571_chunk`, for a component that is found, has no pending I/O
messages and no error: the iterator of the component is at the start, and when a frame is
consumed `n_valid_messages` is read from the iterator and control goes to `done`, where
`child_error` is NULL and `reached_eos` is FALSE. -/
def nice_agent_recv_messages_buffered (headroom : Rfc4571Reassembly → Nat)
    (bytestream_tcp : Bool) (component : Rfc4571Reassembly)
    (messages : List NiceInputMessage) : Option RecvBuffered :=
  if messages.length = 0 then some (.returned 0 component messages)
  else
    match agent_try_consume_next_rfc4571_chunk headroom bytestream_tcp component
        (some messages) { message := 0, buffer := 0, offset := 0 } with
    | none => none
    | some (false, _, _, _) => some .not_taken
    | some (true, component, msgs, iter) =>
      let n_valid_messages := nice_input_message_iter_get_n_valid_messages iter
      let reached_eos := false
      if n_valid_messages ≤ messages.length ∧ (n_valid_messages ≠ 0 ∨ reached_eos = true) then
        some (.returned n_valid_messages component (msgs.getD messages))
      else some (.assertion_failed n_valid_messages)

/-- A receive buffer that holds a frame with the one payload byte 170 followed by a
frame with an empty payload, both whole. -/
def component_two_frames : Rfc4571Reassembly :=
  { rfc4571_buffer := [0, 1, 170, 0, 0, 0, 0, 0], rfc4571_buffer_offset := 5,
    rfc4571_frame_offset := 0, rfc4571_frame_size := 3, rfc4571_consumed_size := 0,
    rfc4571_wakeup_needed := true }

/-- The receive buffer of `component_two_frames` once the first frame is consumed: the
current frame is the whole frame with the empty payload. -/
def component_empty_frame : Rfc4571Reassembly :=
  { component_two_frames with rfc4571_frame_offset := 3, rfc4571_frame_size := 2 }

/-- One message with one buffer of four bytes. -/
def one_message_four_bytes : List NiceInputMessage :=
  [{ buffers := [⟨[0, 0, 0, 0]⟩], length := 0 }]

/-- One message with one buffer of two bytes. -/
def one_message_two_bytes : List NiceInputMessage :=
  [{ buffers := [⟨[0, 0]⟩], length := 0 }]

/-- A receive buffer that holds a whole frame with the payload 1, 2, 3, 4, 5 and the
length prefix 7 of the next frame. -/
def component_frame_of_five : Rfc4571Reassembly :=
  { rfc4571_buffer := [0, 5, 1, 2, 3, 4, 5, 0, 7, 0, 0, 0], rfc4571_buffer_offset := 9,
    rfc4571_frame_offset := 0, rfc4571_frame_size := 7, rfc4571_consumed_size := 0,
    rfc4571_wakeup_needed := true }

/-! ## Pruning candidate refreshes (`discovery.c`, `refresh_prune_async`) -/

/-- A `CandidateRefresh`.  `handle` stands for the pointer; `destroy_cb_data` is the
argument of the destroy callback when `destroy_cb` is set (it is only ever set to
`on_refresh_removed`), and `destroy_source` is the interval in milliseconds of the
timeout source kept in `destroy_source`, when there is one. -/
structure CandidateRefresh where
  handle : Nat
  stream_id : Nat
  disposing : Bool := false
  destroy_cb_data : Option Nat := none
  destroy_source : Option Nat := none
  deriving DecidableEq, Repr

/-- A `RefreshPruneAsyncData` block; `handle` stands for its address and `user_data`
identifies the completion callback with its argument. -/
structure RefreshPruneAsyncData where
  handle : Nat
  user_data : Nat
  items_to_free : Nat
  deriving DecidableEq, Repr

/-- The members of a `NiceAgent` that refresh pruning works on, with the allocated
`RefreshPruneAsyncData` blocks (`next_data` is the address the next block gets) and the
invocations of completion callbacks so far, each by its `user_data`. -/
structure RefreshAgent where
  refresh_list : List CandidateRefresh
  pruning_refreshes : List Nat
  timer_ta : Nat
  prune_data : List RefreshPruneAsyncData
  next_data : Nat
  callbacks : List Nat
  deriving DecidableEq, Repr

/-- The refresh behind a pointer: the refresh of the agent's list with that handle. -/
def refresh_of (agent : RefreshAgent) (cand : Nat) : Option CandidateRefresh :=
  agent.refresh_list.find? (fun c => c.handle == cand)

/-- The function `on_refresh_removed`; nothing is returned when the block does not exist
any more. -/
def on_refresh_removed (agent : RefreshAgent) (data : Nat) : Option RefreshAgent :=
  match agent.prune_data.find? (fun d => d.handle == data) with
  | none => none
  | some d =>
    if d.items_to_free = 0 ∨ d.items_to_free - 1 = 0 then
      some { agent with
        callbacks := agent.callbacks ++ [d.user_data]
        prune_data := agent.prune_data.filter (fun x => x.handle != data) }
    else
      some { agent with
        prune_data := agent.prune_data.map (fun x =>
          if x.handle == data then { x with items_to_free := x.items_to_free - 1 } else x) }

/-- The function `refresh_free`: the refresh leaves both lists, its sources are destroyed
with it, and its destroy callback is called when set.  Nothing is returned for a pointer
that is not a refresh of the agent. -/
def refresh_free (agent : RefreshAgent) (cand : Nat) : Option RefreshAgent :=
  match refresh_of agent cand with
  | none => none
  | some c =>
    let agent :=
      { agent with
        refresh_list := agent.refresh_list.eraseP (fun x => x.handle == cand)
        pruning_refreshes := agent.pruning_refreshes.erase cand }
    match c.destroy_cb_data with
    | some data => on_refresh_removed agent data
    | none => some agent

/-- The statements of the loop body of `refresh_prune_async` that write to the refresh:
it is marked disposing, its destroy callback becomes `on_refresh_removed` with the block
`data`, and its removal is scheduled `timeout` milliseconds ahead. -/
def refresh_mark_disposing (data timeout : Nat) (cand : CandidateRefresh) :
    CandidateRefresh :=
  { cand with disposing := true, destroy_cb_data := some data, destroy_source := some timeout }

/-- The `for` loop of `refresh_prune_async` over the pointers of `refreshes`; `data` is
the address of the new block, whose `items_to_free` is carried next to `timeout` and
stored with the block after the loop (nothing reads the block in between). -/
def refresh_prune_loop (data : Nat) :
    List Nat → RefreshAgent → Nat → Nat → Option (RefreshAgent × Nat)
  | [], agent, _, items_to_free => some (agent, items_to_free)
  | cand :: rest, agent, timeout, items_to_free =>
    match refresh_of agent cand with
    | none => none
    | some c =>
      if c.disposing then refresh_prune_loop data rest agent timeout items_to_free
      else
        let timeout := (timeout + agent.timer_ta) % 2 ^ 32
        let agent :=
          { agent with
            pruning_refreshes := agent.pruning_refreshes ++ [cand]
            refresh_list := agent.refresh_list.map (fun x =>
              if x.handle == cand then refresh_mark_disposing data timeout x else x) }
        refresh_prune_loop data rest agent timeout (items_to_free + 1)

/-- The function `refresh_prune_async`; `user_data` stands for the completion callback
and its argument. -/
def refresh_prune_async (agent : RefreshAgent) (refreshes : List Nat) (user_data : Nat) :
    Option RefreshAgent :=
  let data := agent.next_data
  let agent := { agent with next_data := agent.next_data + 1 }
  match refresh_prune_loop data refreshes agent 0 0 with
  | none => none
  | some (agent, items_to_free) =>
    let agent :=
      { agent with
        prune_data := agent.prune_data ++
          [{ handle := data, user_data := user_data, items_to_free := items_to_free }] }
    if items_to_free = 0 then on_refresh_removed agent data else some agent

/-- The function `refresh_prune_agent_async`. -/
def refresh_prune_agent_async (agent : RefreshAgent) (user_data : Nat) : Option RefreshAgent :=
  refresh_prune_async agent (agent.refresh_list.map (fun c => c.handle)) user_data

/-- The function `refresh_prune_stream_async`; the stream's pointer is the callback's
argument, here the stream's id. -/
def refresh_prune_stream_async (agent : RefreshAgent) (stream_id : Nat) :
    Option RefreshAgent :=
  refresh_prune_async agent
    ((agent.refresh_list.filter (fun c => c.stream_id == stream_id)).map (fun c => c.handle))
    stream_id

/-- Calls of `refresh_free` for the refreshes of a list, in order. -/
def refresh_free_all : List Nat → RefreshAgent → Option RefreshAgent
  | [], agent => some agent
  | cand :: rest, agent =>
    match refresh_free agent cand with
    | none => none
    | some agent => refresh_free_all rest agent

/-- The refreshes of a list that are not disposing yet, in order. -/
def refreshes_to_prune (agent : RefreshAgent) (refreshes : List Nat) : List Nat :=
  refreshes.filter (fun cand =>
    match refresh_of agent cand with
    | some c => !c.disposing
    | none => false)

/-- An agent with three refreshes, the second of which is disposing already, and
`timer_ta` 20. -/
def agent_three_refreshes : RefreshAgent :=
  { refresh_list := [{ handle := 1, stream_id := 1 },
                     { handle := 2, stream_id := 1, disposing := true },
                     { handle := 3, stream_id := 1 }],
    pruning_refreshes := [2], timer_ta := 20, prune_data := [], next_data := 100,
    callbacks := [] }

/-! ## Theorems -/

/-- C1, as stated, fails: a component in state Connected accepts the change to Connecting
(the assertion lists CONNECTED to CONNECTING), which is a backward step that is neither
Failed to Gathering nor Ready to Connected. -/
theorem state_change_connected_to_connecting_accepted :
    state_change_accepted (agent_one_component .CONNECTED) 1 1 .CONNECTING ∧
    ¬ (NiceComponentState.CONNECTED.toNat < NiceComponentState.CONNECTING.toNat ∨
       (NiceComponentState.CONNECTED = NiceComponentState.FAILED ∧
          NiceComponentState.CONNECTING = NiceComponentState.GATHERING) ∨
       (NiceComponentState.CONNECTED = NiceComponentState.READY ∧
          NiceComponentState.CONNECTING = NiceComponentState.CONNECTED)) := by
  refine ⟨⟨_, _, rfl, by decide, by decide, by decide⟩, by decide⟩

/-- C1, amended: for a component holding one of the six states, every state change
accepted by `agent_signal_component_state_change` either moves forward in the order
Disconnected < Gathering < Connecting < Connected < Ready < Failed, or goes to Gathering
(from any state), or is Ready to Connected, Failed to Connecting, or Connected to
Connecting; and each of these backward changes is accepted.  No other backward change is
accepted. -/
theorem state_change_accepted_order (agent : NiceAgent) (stream_id component_id : Nat)
    (new_state : NiceComponentState) (s : NiceStream) (c : NiceComponent)
    (hfind : agent_find_component agent stream_id component_id = some (s, c))
    (hstate : c.state.toNat < NiceComponentState.LAST.toNat) :
    (state_change_accepted agent stream_id component_id new_state →
      (c.state.toNat < new_state.toNat ∨ new_state = .GATHERING ∨
       (c.state = .READY ∧ new_state = .CONNECTED) ∨
       (c.state = .FAILED ∧ new_state = .CONNECTING) ∨
       (c.state = .CONNECTED ∧ new_state = .CONNECTING))) ∧
    ((new_state ≠ c.state ∧
       (new_state = .GATHERING ∨
        (c.state = .READY ∧ new_state = .CONNECTED) ∨
        (c.state = .FAILED ∧ new_state = .CONNECTING) ∨
        (c.state = .CONNECTED ∧ new_state = .CONNECTING))) →
      state_change_accepted agent stream_id component_id new_state) := by
  constructor
  · rintro ⟨s1, c1, h1, hlast, hne, hres⟩
    rw [hfind] at h1
    obtain ⟨-, rfl⟩ := Prod.mk.inj (Option.some.inj h1)
    have hv : valid_state_transition c.state new_state = true := by
      by_contra hv
      simp [agent_signal_component_state_change, hfind, hlast, hne, hv] at hres
    revert hv hne hlast hstate
    cases c.state <;> cases new_state <;>
      simp [valid_state_transition, NiceComponentState.toNat]
  · rintro ⟨hne, hback⟩
    have hlast : new_state.toNat < NiceComponentState.LAST.toNat := by
      rcases hback with h | ⟨-, h⟩ | ⟨-, h⟩ | ⟨-, h⟩ <;> subst h <;> decide
    have hv : valid_state_transition c.state new_state = true := by
      rcases hback with h | ⟨h1, h⟩ | ⟨h1, h⟩ | ⟨h1, h⟩ <;>
        simp [valid_state_transition, *]
    refine ⟨s, c, hfind, hlast, hne, ?_⟩
    simp [agent_signal_component_state_change, hfind, hlast, hne, hv]

/-- The amended C1 at a concrete agent: Ready to Connected is accepted and is one of the
listed backward changes. -/
theorem state_change_accepted_order_witness :
    state_change_accepted (agent_one_component .READY) 1 1 .CONNECTED :=
  (state_change_accepted_order (agent_one_component .READY) 1 1 .CONNECTED _ _ rfl
    (by decide)).2 ⟨by decide, Or.inr (Or.inl ⟨rfl, rfl⟩)⟩

/-- C2 (code defect): for the message with buffers of 0xF800 and 5 bytes and a socket
that accepts every frame, the second frame handed to the socket has the right length
prefix (5) but its payload vector starts at the end of the first buffer and spans 5
bytes there, instead of the 5 bytes of the second buffer: bytes outside the message's
buffers are read and the payload differs from the message's last 5 bytes. -/
theorem rfc4571_send_reads_past_buffer :
    (rfc4571_send_message false (fun _ => 1) two_buffer_message 0).1 =
      [{ packet_len := 0xF800,
         bufs := [{ buffer := 1000, size := 0xF800 }, { buffer := 200000, size := 0 }],
         reliable_send := false },
       { packet_len := 5,
         bufs := [{ buffer := 64488, size := 5 }, { buffer := 200000, size := 0 }],
         reliable_send := true }] ∧
    ¬ in_message_buffers two_buffer_message 64488 ∧
    rfc4571_payload two_buffer_memory
      { packet_len := 5,
        bufs := [{ buffer := 64488, size := 5 }, { buffer := 200000, size := 0 }],
        reliable_send := true } = [0, 0, 0, 0, 0] ∧
    vector_bytes two_buffer_memory { buffer := 200000, size := 5 } = [1, 1, 1, 1, 1] := by
  refine ⟨by decide, ?_, by decide, by decide⟩
  rintro ⟨b, hb, h1, h2⟩
  simp [two_buffer_message] at hb
  rcases hb with rfl | rfl <;> simp at h1 h2

/-! ### Decimal text and SDP candidate lines -/

theorem digitChar_isDigit (d : Nat) (h : d < 10) :
    (Nat.digitChar d).isDigit = true ∧ (Nat.digitChar d).toNat - 48 = d := by
  interval_cases d <;> exact ⟨rfl, rfl⟩

theorem toDigitsCore_digits (fuel : Nat) : ∀ (n : Nat) (acc : CString),
    (∀ c ∈ acc, c.isDigit = true) → ∀ c ∈ Nat.toDigitsCore 10 fuel n acc, c.isDigit = true := by
  induction fuel with
  | zero => intro n acc h; simpa [Nat.toDigitsCore] using h
  | succ fuel ih =>
    intro n acc h
    have hd := (digitChar_isDigit (n % 10) (Nat.mod_lt _ (by decide))).1
    have h2 : ∀ c ∈ Nat.digitChar (n % 10) :: acc, c.isDigit = true := by
      intro c hc
      rcases List.mem_cons.1 hc with rfl | hc
      · exact hd
      · exact h c hc
    simp only [Nat.toDigitsCore]
    split
    · exact h2
    · exact ih _ _ h2

theorem toDigitsCore_ne_nil (fuel : Nat) (n : Nat) (acc : CString) :
    Nat.toDigitsCore 10 (fuel + 1) n acc ≠ [] := by
  induction fuel generalizing n acc with
  | zero => simp [Nat.toDigitsCore]
  | succ fuel ih =>
    rw [Nat.toDigitsCore]
    split
    · simp
    · exact ih _ _

theorem toDigitsCore_value (fuel : Nat) : ∀ (n : Nat) (acc : CString), n < fuel →
    decimal_value (Nat.toDigitsCore 10 fuel n acc) =
      acc.foldl (fun a c => a * 10 + (c.toNat - 48)) n := by
  induction fuel with
  | zero => intro n acc h; omega
  | succ fuel ih =>
    intro n acc h
    have hd := (digitChar_isDigit (n % 10) (Nat.mod_lt _ (by decide))).2
    simp only [Nat.toDigitsCore]
    split
    · rename_i h0
      have h10 : n % 10 = n := by omega
      rw [h10] at hd
      simp [decimal_value, h10, hd]
    · rename_i h0
      rw [ih _ _ (by omega)]
      simp only [List.foldl_cons, hd]
      congr 1
      omega

theorem fmt_u_digits (n : Nat) : ∀ c ∈ fmt_u n, c.isDigit = true :=
  toDigitsCore_digits _ _ _ (by simp)

theorem fmt_u_ne_nil (n : Nat) : fmt_u n ≠ [] := toDigitsCore_ne_nil _ _ _

theorem fmt_u_value (n : Nat) : decimal_value (fmt_u n) = n := by
  simpa using toDigitsCore_value (n + 1) n [] (by omega)

theorem fmt_u_takeWhile (n : Nat) : (fmt_u n).takeWhile Char.isDigit = fmt_u n :=
  List.takeWhile_eq_self_iff.2 (fmt_u_digits n)

theorem isDigit_toNat (c : Char) (h : c.isDigit = true) : 48 ≤ c.toNat ∧ c.toNat ≤ 57 := by
  simp only [Char.isDigit, Bool.and_eq_true, decide_eq_true_eq] at h
  obtain ⟨h1, h2⟩ := h
  have h1' : (48 : UInt32).toNat ≤ c.val.toNat := h1
  have h2' : c.val.toNat ≤ (57 : UInt32).toNat := h2
  exact ⟨h1', h2'⟩

theorem isDigit_not_space (c : Char) (h : c.isDigit = true) :
    g_ascii_isspace c = false ∧ c ≠ '-' ∧ c ≠ '+' ∧ c ≠ ' ' := by
  have hn := (isDigit_toNat c h).1
  have ne_of : ∀ d : Char, d.toNat < 48 → c ≠ d := by
    intro d hd hcd
    subst hcd
    omega
  refine ⟨?_, ne_of _ (by decide), ne_of _ (by decide), ne_of _ (by decide)⟩
  simp only [g_ascii_isspace, Bool.or_eq_false_iff, beq_eq_false_iff_ne, ne_eq]
  exact ⟨⟨⟨⟨⟨ne_of _ (by decide), ne_of _ (by decide)⟩, ne_of _ (by decide)⟩,
    ne_of _ (by decide)⟩, by omega⟩, by omega⟩

theorem fmt_u_head (n : Nat) : ∃ c t, fmt_u n = c :: t ∧ c.isDigit = true := by
  have hne := fmt_u_ne_nil n
  have hd := fmt_u_digits n
  cases hl : fmt_u n with
  | nil => exact absurd hl hne
  | cons c t => exact ⟨c, t, rfl, hd c (by simp [hl])⟩

theorem strtoull_digits (l : CString) (hne : l ≠ []) (hd : ∀ c ∈ l, c.isDigit = true) :
    g_ascii_strtoull l = if decimal_value l > 2 ^ 64 - 1 then 2 ^ 64 - 1 else decimal_value l := by
  cases l with
  | nil => exact absurd rfl hne
  | cons c t =>
    have hc := isDigit_not_space c (hd c (by simp))
    have htw : (c :: t).takeWhile Char.isDigit = c :: t := List.takeWhile_eq_self_iff.2 hd
    have hdw : (c :: t).dropWhile g_ascii_isspace = c :: t := by
      simp [List.dropWhile, hc.1]
    have hsign : strtoull_sign (c :: t) = (false, c :: t) := by
      unfold strtoull_sign
      split
      · rename_i heq; exact absurd (List.cons.inj heq).1 hc.2.1
      · rename_i heq; exact absurd (List.cons.inj heq).1 hc.2.2.1
      · rfl
    simp only [g_ascii_strtoull, hdw, hsign, htw]
    rfl

theorem strtoull_fmt_u (n : Nat) (h : n < 2 ^ 64) : g_ascii_strtoull (fmt_u n) = n := by
  rw [strtoull_digits _ (fmt_u_ne_nil n) (fmt_u_digits n), fmt_u_value]
  simp only [ite_eq_right_iff]
  omega

theorem strtoull_neg_fmt_u (n : Nat) (h : n < 2 ^ 64) :
    g_ascii_strtoull ('-' :: fmt_u n) = (2 ^ 64 - n) % 2 ^ 64 := by
  have hv : decimal_value ((fmt_u n).takeWhile Char.isDigit) = n := by
    rw [List.takeWhile_eq_self_iff.2 (fmt_u_digits n), fmt_u_value]
  have hdw : ('-' :: fmt_u n).dropWhile g_ascii_isspace = '-' :: fmt_u n := by
    simp [List.dropWhile, g_ascii_isspace]
  have hsign : strtoull_sign ('-' :: fmt_u n) = (true, fmt_u n) := rfl
  have hle : ¬ n > 2 ^ 64 - 1 := by omega
  simp only [g_ascii_strtoull, hdw, hsign, hv, if_neg hle]
  rfl

theorem strtoull_fmt_d (v : Nat) (k : Nat) (hk : k ≤ 32) (h : v < 2 ^ k) :
    g_ascii_strtoull (fmt_d v) % 2 ^ k = v := by
  have hk32 : (2:Nat) ^ k ≤ 2 ^ 32 := Nat.pow_le_pow_right (by decide) hk
  have hv : v % 2 ^ 32 = v := Nat.mod_eq_of_lt (by omega)
  unfold fmt_d
  simp only [hv]
  split
  · rw [strtoull_fmt_u _ (by omega)]
    exact Nat.mod_eq_of_lt h
  · rename_i hge
    have hkeq : k = 32 := by
      by_contra hne
      have : k ≤ 31 := by omega
      have : (2:Nat) ^ k ≤ 2 ^ 31 := Nat.pow_le_pow_right (by decide) this
      omega
    subst hkeq
    rw [strtoull_neg_fmt_u _ (by omega)]
    omega

theorem fmt_u_no_space (v : Nat) : ' ' ∉ fmt_u v := by
  intro h
  exact (isDigit_not_space _ (fmt_u_digits v _ h)).2.2.2 rfl

theorem fmt_d_no_space (v : Nat) : ' ' ∉ fmt_d v := by
  unfold fmt_d
  simp only
  split
  · exact fmt_u_no_space _
  · intro h
    rcases List.mem_cons.1 h with h | h
    · exact absurd h (by decide)
    · exact fmt_u_no_space _ h
theorem generate_eq_tokens (mf : Nat) (ts : NiceAddress → CString) (c : NiceCandidate) :
    _generate_candidate_sdp mf ts c =
      "a=candidate:".toList ++ [' '].intercalate (sdp_line_tokens mf ts c) := by
  have e1 : " typ ".toList = ' ' :: ("typ".toList ++ [' ']) := by decide
  have e2 : " raddr ".toList = ' ' :: ("raddr".toList ++ [' ']) := by decide
  have e3 : " rport ".toList = ' ' :: ("rport".toList ++ [' ']) := by decide
  have e4 : " tcptype ".toList = ' ' :: ("tcptype".toList ++ [' ']) := by decide
  have e5 : " ".toList = [' '] := by decide
  unfold _generate_candidate_sdp sdp_line_tokens
  simp only [e1, e2, e3, e4, e5]
  split_ifs <;> simp [List.intercalate, List.intersperse, List.append_assoc]

theorem cand_type_roundtrip (t : NiceCandidateType) :
    sdp_type_of_name (_cand_type_to_sdp t) = some t ∧ ' ' ∉ _cand_type_to_sdp t := by
  cases t <;> exact ⟨by decide, by decide⟩

theorem transport_roundtrip (t : NiceCandidateTransport) :
    ' ' ∉ _transport_to_sdp t ∧ ' ' ∉ _transport_to_sdp_tcptype t ∧
    (t = .UDP → ∀ tcptype, sdp_transport_of_name (some (_transport_to_sdp t)) tcptype = some t) ∧
    (t ≠ .UDP → sdp_transport_of_name (some (_transport_to_sdp t))
        (some (_transport_to_sdp_tcptype t)) = some t) := by
  cases t
  · refine ⟨by decide, by decide, ?_, by decide⟩
    intro _ tcptype
    rfl
  all_goals exact ⟨by decide, by decide, fun h => absurd h (by decide), by decide⟩

theorem sdp_line_tokens_no_space (mf : Nat) (ts : NiceAddress → CString) (c : NiceCandidate)
    (hsp : ' ' ∉ c.foundation) (ha : ' ' ∉ ts c.addr) (hb : ' ' ∉ ts c.base_addr) :
    ∀ t ∈ sdp_line_tokens mf ts c, ' ' ∉ t := by
  have hf : ' ' ∉ c.foundation.take mf := fun h => hsp (List.mem_of_mem_take h)
  have h1 := (cand_type_roundtrip c.type).2
  have h2 := (transport_roundtrip c.transport).1
  have h3 := (transport_roundtrip c.transport).2.1
  intro t ht
  unfold sdp_line_tokens at ht
  rcases List.mem_append.1 ht with ht | ht
  · rcases List.mem_append.1 ht with ht | ht
    · simp only [List.mem_cons, List.mem_singleton, List.not_mem_nil, or_false] at ht
      rcases ht with rfl | rfl | rfl | rfl | rfl | rfl | rfl | rfl
      all_goals first | assumption | exact fmt_d_no_space _ | decide
    · by_cases hc : nice_address_is_valid c.base_addr ∧ ¬ nice_address_equal c.addr c.base_addr
      · rw [if_pos hc] at ht
        simp only [List.mem_cons, List.mem_singleton, List.not_mem_nil, or_false] at ht
        rcases ht with rfl | rfl | rfl | rfl
        all_goals first | assumption | exact fmt_d_no_space _ | decide
      · rw [if_neg hc] at ht
        exact absurd ht (List.not_mem_nil _)
  · by_cases hc : c.transport ≠ NiceCandidateTransport.UDP
    · rw [if_pos hc] at ht
      simp only [List.mem_cons, List.mem_singleton, List.not_mem_nil, or_false] at ht
      rcases ht with rfl | rfl
      all_goals first | assumption | decide
    · rw [if_neg hc] at ht
      exact absurd ht (List.not_mem_nil _)

theorem strsplit_tokens (mf : Nat) (ts : NiceAddress → CString) (c : NiceCandidate)
    (hsp : ' ' ∉ c.foundation) (ha : ' ' ∉ ts c.addr) (hb : ' ' ∉ ts c.base_addr) :
    g_strsplit ([' '].intercalate (sdp_line_tokens mf ts c)) = sdp_line_tokens mf ts c := by
  have hlen : 8 ≤ (sdp_line_tokens mf ts c).length := by
    simp [sdp_line_tokens]
  have hne : sdp_line_tokens mf ts c ≠ [] := by
    intro h0
    rw [h0] at hlen
    simp at hlen
  have hs := List.splitOn_intercalate _ ' ' (sdp_line_tokens_no_space mf ts c hsp ha hb) hne
  unfold g_strsplit
  split
  · rename_i h0
    rw [h0] at hs
    rw [← hs] at hlen
    simp at hlen
  · exact hs

theorem token_loop_tokens (mf : Nat) (ts : NiceAddress → CString) (c : NiceCandidate)
    (hcid : c.component_id < 2 ^ 32) (hprio : c.priority < 2 ^ 32)
    (hport : c.addr.port < 2 ^ 16) (hbport : c.base_addr.port < 2 ^ 16) :
    sdp_token_loop 0 (sdp_line_tokens mf ts c) SdpTokens.init =
      some { foundation := some (c.foundation.take mf),
             component_id := c.component_id,
             transport := some (_transport_to_sdp c.transport),
             priority := c.priority,
             addr := some (ts c.addr),
             port := if c.addr.port = 0 then 9 else c.addr.port,
             type := some (_cand_type_to_sdp c.type),
             tcptype := if c.transport ≠ NiceCandidateTransport.UDP then
                 some (_transport_to_sdp_tcptype c.transport) else none,
             raddr := if nice_address_is_valid c.base_addr ∧
                 ¬ nice_address_equal c.addr c.base_addr then some (ts c.base_addr) else none,
             rport := if nice_address_is_valid c.base_addr ∧
                 ¬ nice_address_equal c.addr c.base_addr then
                 (if c.base_addr.port = 0 then 9 else c.base_addr.port) else 0 } := by
  have n1 := strtoull_fmt_d c.component_id 32 (le_refl _) hcid
  have n2 := strtoull_fmt_d c.priority 32 (le_refl _) hprio
  have n3 := strtoull_fmt_d (if c.addr.port = 0 then 9 else c.addr.port) 16 (by decide)
    (by split <;> omega)
  have n4 := strtoull_fmt_d (if c.base_addr.port = 0 then 9 else c.base_addr.port) 16
    (by decide) (by split <;> omega)
  have a1 : sdp_attribute "typ".toList = fun value v => { v with type := some value } := by
    funext value v; rfl
  have a2 : sdp_attribute "raddr".toList = fun value v => { v with raddr := some value } := by
    funext value v; rfl
  have a3 : sdp_attribute "rport".toList =
      fun value v => { v with rport := g_ascii_strtoull value % 2 ^ 16 } := by
    funext value v; rfl
  have a4 : sdp_attribute "tcptype".toList = fun value v => { v with tcptype := some value } := by
    funext value v; rfl
  unfold sdp_line_tokens
  by_cases hr : nice_address_is_valid c.base_addr ∧ ¬ nice_address_equal c.addr c.base_addr
  · by_cases hu : c.transport ≠ NiceCandidateTransport.UDP
    · simp only [if_pos hr, if_pos hu]
      simp only [List.cons_append, List.nil_append, List.append_nil,
        sdp_token_loop, a1, a2, a3, a4, n1, n2, n3, n4, nice_address_get_port, SdpTokens.init]
    · simp only [if_pos hr, if_neg hu]
      simp only [List.cons_append, List.nil_append, List.append_nil,
        sdp_token_loop, a1, a2, a3, a4, n1, n2, n3, n4, nice_address_get_port, SdpTokens.init]
  · by_cases hu : c.transport ≠ NiceCandidateTransport.UDP
    · simp only [if_neg hr, if_pos hu]
      simp only [List.cons_append, List.nil_append, List.append_nil,
        sdp_token_loop, a1, a2, a3, a4, n1, n2, n3, n4, nice_address_get_port, SdpTokens.init]
    · simp only [if_neg hr, if_neg hu]
      simp only [List.cons_append, List.nil_append, List.append_nil,
        sdp_token_loop, a1, a2, a3, a4, n1, n2, n3, n4, nice_address_get_port, SdpTokens.init]

/-- C3, amended: for a stream id of at least 1 and a local candidate `c` whose foundation
has no space and is shorter
than `NICE_CANDIDATE_MAX_FOUNDATION`, whose component id and priority are 32-bit and
ports 16-bit, and whose address (and base address when valid) is rendered without spaces
and read back by `nice_address_set_from_string` with the same family and address bits,
parsing the line that `_generate_candidate_sdp` writes succeeds and yields `c` with these
changes only: the stream id is the one given to the parser; port 0 of the address is read
back as 9; the base address is `c`'s (port 0 read back as 9) when it is valid and differs
from the address, and is left unset otherwise; username, password, TURN server and socket
are not carried.  Type, transport, component id, priority (all 32-bit values), address and
foundation are equal to `c`'s. -/
theorem sdp_generate_parse (mf : Nat) (ts : NiceAddress → CString)
    (fs : CString → Option NiceAddress) (stream_id : Nat) (c : NiceCandidate)
    (hstream : stream_id ≥ 1)
    (hfound : c.foundation.length < mf) (hsp : ' ' ∉ c.foundation)
    (hcid : c.component_id < 2 ^ 32) (hprio : c.priority < 2 ^ 32)
    (hport : c.addr.port < 2 ^ 16) (hbport : c.base_addr.port < 2 ^ 16)
    (ha : ' ' ∉ ts c.addr) (hb : ' ' ∉ ts c.base_addr)
    (hfs : ∀ x, x = c.addr ∨ (x = c.base_addr ∧ nice_address_is_valid x) →
      ∃ y, fs (ts x) = some y ∧ y.family = x.family ∧ y.ip = x.ip) :
    nice_agent_parse_remote_candidate_sdp mf fs stream_id (_generate_candidate_sdp mf ts c) =
      some { c with
        stream_id := stream_id
        addr := { c.addr with port := if c.addr.port = 0 then 9 else c.addr.port }
        base_addr :=
          if nice_address_is_valid c.base_addr ∧ ¬ nice_address_equal c.addr c.base_addr then
            { c.base_addr with port := if c.base_addr.port = 0 then 9 else c.base_addr.port }
          else nice_address_init
        username := none, password := none, turn := none, sockptr := none } := by
  have hpre : ("a=candidate:".toList).isPrefixOf
      ("a=candidate:".toList ++ [' '].intercalate (sdp_line_tokens mf ts c)) = true := by
    rw [List.isPrefixOf_iff_prefix]
    exact List.prefix_append _ _
  have hdrop : ("a=candidate:".toList ++ [' '].intercalate (sdp_line_tokens mf ts c)).drop 12 =
      [' '].intercalate (sdp_line_tokens mf ts c) :=
    List.drop_left' rfl
  have hfo : g_strlcpy (c.foundation.take mf) mf = c.foundation := by
    unfold g_strlcpy
    rw [List.take_take, List.take_of_length_le]
    omega
  obtain ⟨a, hfa, ha1, ha2⟩ := hfs c.addr (Or.inl rfl)
  have hp16 : ∀ p : Nat, p < 2 ^ 16 → (if p = 0 then 9 else p) % 65536 = if p = 0 then 9 else p := by
    intro p hp
    split <;> omega
  unfold nice_agent_parse_remote_candidate_sdp
  rw [if_neg (not_not.2 hstream), generate_eq_tokens]
  simp only [hpre, not_true_eq_false, if_false, hdrop, strsplit_tokens mf ts c hsp ha hb,
    token_loop_tokens mf ts c hcid hprio hport hbport, (cand_type_roundtrip c.type).1]
  have htr : sdp_transport_of_name (some (_transport_to_sdp c.transport))
      (if c.transport ≠ NiceCandidateTransport.UDP then
        some (_transport_to_sdp_tcptype c.transport) else none) = some c.transport := by
    by_cases hu : c.transport ≠ NiceCandidateTransport.UDP
    · rw [if_pos hu]; exact (transport_roundtrip c.transport).2.2.2 hu
    · rw [if_neg hu]; exact (transport_roundtrip c.transport).2.2.1 (not_not.1 hu) _
  simp only [htr, hfa, hfo]
  by_cases hr : nice_address_is_valid c.base_addr ∧ ¬ nice_address_equal c.addr c.base_addr
  · obtain ⟨b, hfb, hb1, hb2⟩ := hfs c.base_addr (Or.inr ⟨rfl, hr.1⟩)
    have hnz : (if c.base_addr.port = 0 then 9 else c.base_addr.port) ≠ 0 := by
      split <;> omega
    simp only [if_pos hr, hfb, hnz, ne_eq, not_false_eq_true, if_true, nice_address_set_port,
      nice_candidate_new, hp16 _ hport, hp16 _ hbport]
    cases c
    cases a
    cases b
    simp_all
  · simp only [if_neg hr, nice_address_set_port, nice_candidate_new, hp16 _ hport]
    cases c
    cases a
    simp_all

/-- C3, as stated, fails: for the UDP host candidate 192.168.1.1:5000, whose base address
equals its address, the generated line carries no `raddr`/`rport` and the parsed candidate
has an unset base address, not `c`'s. -/
theorem sdp_roundtrip_host_loses_base :
    nice_agent_parse_remote_candidate_sdp 33 ipv4_from_string 1
        (_generate_candidate_sdp 33 ipv4_to_string host_candidate_udp) =
      some { host_candidate_udp with base_addr := nice_address_init } ∧
    nice_address_is_valid host_candidate_udp.addr = true ∧
    nice_address_init ≠ host_candidate_udp.base_addr := by
  decide

/-- The amended C3 at a TCP-passive server-reflexive candidate with priority 4000000000
(printed by `%d` as a negative number) and a base address different from its address. -/
theorem sdp_generate_parse_witness :
    nice_agent_parse_remote_candidate_sdp 33 ipv4_from_string 7
        (_generate_candidate_sdp 33 ipv4_to_string srflx_candidate_tcp) =
      some { srflx_candidate_tcp with stream_id := 7 } :=
  sdp_generate_parse 33 ipv4_to_string ipv4_from_string 7 srflx_candidate_tcp
    (by decide) (by decide) (by decide) (by decide) (by decide) (by decide) (by decide)
    (by decide) (by decide)
    (by
      intro x hx
      rcases hx with rfl | ⟨rfl, -⟩
      · exact ⟨⟨.AF_INET, 3405803783, 0⟩, by decide, rfl, rfl⟩
      · exact ⟨⟨.AF_INET, 3232235777, 0⟩, by decide, rfl, rfl⟩)

/-- C4 (code defect): for a remote list holding a host and a server-reflexive candidate
with the same address and transport, the first call of `nice_agent_set_remote_candidates`
on an empty component stores both candidates, and the second call with the same list
stores the server-reflexive one again: the lookup by address and transport finds the host
candidate, whose type differs, so the candidate is taken as new. -/
theorem set_remote_candidates_twice_duplicates :
    set_remote_once.1 = 2 ∧
    remote_candidates_of set_remote_once.2 1 1 = remote_host_and_srflx ∧
    set_remote_twice.1 = 2 ∧
    remote_candidates_of set_remote_twice.2 1 1 =
      remote_host_and_srflx ++ remote_host_and_srflx.drop 1 ∧
    (remote_candidates_of set_remote_twice.2 1 1).length = 3 := by
  decide

/-! ### Foundations of local candidates -/

theorem fmt_u_injective (a b : Nat) (h : fmt_u a = fmt_u b) : a = b := by
  have := congrArg decimal_value h
  rwa [fmt_u_value, fmt_u_value] at this

theorem fmt_u_length (k : Nat) (h : k < 2 ^ 32) : (fmt_u k).length ≤ 10 :=
  Nat.toDigitsCore_length 10 (by decide) (k + 1) k 10 (by omega) (by decide)

theorem equal_no_port_refl (a : NiceAddress) : nice_address_equal_no_port a a = true := by
  simp [nice_address_equal_no_port]

theorem equal_no_port_symm (a b : NiceAddress) (h : nice_address_equal_no_port a b = true) :
    nice_address_equal_no_port b a = true := by
  simp only [nice_address_equal_no_port, Bool.and_eq_true, decide_eq_true_eq] at *
  exact ⟨h.1.symm, h.2.symm⟩

theorem equal_no_port_trans (a b c : NiceAddress) (h1 : nice_address_equal_no_port a b = true)
    (h2 : nice_address_equal_no_port b c = true) : nice_address_equal_no_port a c = true := by
  simp only [nice_address_equal_no_port, Bool.and_eq_true, decide_eq_true_eq] at *
  exact ⟨h1.1.trans h2.1, h1.2.trans h2.2⟩

theorem compare_turn_servers_iff (t1 t2 : Option TurnServer) :
    priv_compare_turn_servers t1 t2 = true ↔
      (t1 = none ∧ t2 = none) ∨
      ∃ a b, t1 = some a ∧ t2 = some b ∧ nice_address_equal_no_port a.server b.server = true := by
  unfold priv_compare_turn_servers
  cases t1 with
  | none => cases t2 <;> simp
  | some a =>
    cases t2 with
    | none => simp
    | some b =>
      by_cases hab : a = b
      · subst hab; simp [equal_no_port_refl]
      · simp [hab]

theorem compare_turn_servers_symm (t1 t2 : Option TurnServer)
    (h : priv_compare_turn_servers t1 t2 = true) : priv_compare_turn_servers t2 t1 = true := by
  rw [compare_turn_servers_iff] at *
  rcases h with ⟨h1, h2⟩ | ⟨a, b, h1, h2, h3⟩
  · exact Or.inl ⟨h2, h1⟩
  · exact Or.inr ⟨b, a, h2, h1, equal_no_port_symm _ _ h3⟩

theorem compare_turn_servers_trans (t1 t2 t3 : Option TurnServer)
    (h : priv_compare_turn_servers t1 t2 = true) (h' : priv_compare_turn_servers t2 t3 = true) :
    priv_compare_turn_servers t1 t3 = true := by
  rw [compare_turn_servers_iff] at *
  rcases h with ⟨h1, h2⟩ | ⟨a, b, h1, h2, h3⟩
  · rcases h' with ⟨h1', h2'⟩ | ⟨a', b', h1', h2', h3'⟩
    · exact Or.inl ⟨h1, h2'⟩
    · rw [h2] at h1'; cases h1'
  · rcases h' with ⟨h1', h2'⟩ | ⟨a', b', h1', h2', h3'⟩
    · rw [h2] at h1'; cases h1'
    · rw [h2] at h1'
      cases h1'
      exact Or.inr ⟨a, b', h1, h2', equal_no_port_trans _ _ _ h3 h3'⟩

theorem foundation_matches_iff (agent : NiceAgent) (a b : NiceCandidate) :
    priv_foundation_matches agent a b = true ↔
      a.type = b.type ∧ a.transport = b.transport ∧
      (a.type = .RELAYED → nice_address_equal_no_port a.addr b.addr = true ∧
        priv_compare_turn_servers a.turn b.turn = true ∧ agent.compatibility ≠ .GOOGLE) ∧
      (a.type ≠ .RELAYED → nice_address_equal_no_port a.base_addr b.base_addr = true) := by
  unfold priv_foundation_matches
  by_cases h1 : a.type = b.type
  · by_cases h2 : a.transport = b.transport
    · by_cases h3 : a.type = .RELAYED
      · have hb : b.type = .RELAYED := h1 ▸ h3
        simp [h2, h3, hb]
      · have hb : b.type = a.type := h1.symm
        simp [hb, h2, h3]
    · simp [h1, h2]
  · simp [h1]

theorem foundation_matches_symm (agent : NiceAgent) (a b : NiceCandidate)
    (h : priv_foundation_matches agent a b = true) : priv_foundation_matches agent b a = true := by
  rw [foundation_matches_iff] at *
  obtain ⟨h1, h2, h3, h4⟩ := h
  refine ⟨h1.symm, h2.symm, ?_, ?_⟩
  · intro hb
    obtain ⟨k1, k2, k3⟩ := h3 (h1.trans hb)
    exact ⟨equal_no_port_symm _ _ k1, compare_turn_servers_symm _ _ k2, k3⟩
  · intro hb
    exact equal_no_port_symm _ _ (h4 (fun ha => hb (h1 ▸ ha)))

theorem foundation_matches_trans (agent : NiceAgent) (a b c : NiceCandidate)
    (h : priv_foundation_matches agent a b = true)
    (h' : priv_foundation_matches agent b c = true) :
    priv_foundation_matches agent a c = true := by
  rw [foundation_matches_iff] at *
  obtain ⟨h1, h2, h3, h4⟩ := h
  obtain ⟨h1', h2', h3', h4'⟩ := h'
  refine ⟨h1.trans h1', h2.trans h2', ?_, ?_⟩
  · intro ha
    obtain ⟨k1, k2, k3⟩ := h3 ha
    obtain ⟨k1', k2', -⟩ := h3' (h1 ▸ ha)
    exact ⟨equal_no_port_trans _ _ _ k1 k1', compare_turn_servers_trans _ _ _ k2 k2', k3⟩
  · intro ha
    exact equal_no_port_trans _ _ _ (h4 ha) (h4' (fun hb => ha (h1.trans hb)))

theorem flatMap_update_first {α β : Type} (p : α → Bool) (f : α → α) (g : α → List β) (c : β)
    (h : ∀ x, g (f x) = g x ∨ (g (f x)).Perm (c :: g x)) (l : List α) :
    (update_first p f l).flatMap g = l.flatMap g ∨
      ((update_first p f l).flatMap g).Perm (c :: l.flatMap g) := by
  induction l with
  | nil => exact Or.inl rfl
  | cons x xs ih =>
    unfold update_first
    by_cases hp : p x = true
    · simp only [hp, if_true, List.flatMap_cons]
      rcases h x with h1 | h1
      · exact Or.inl (by rw [h1])
      · exact Or.inr ((h1.append_right _).trans (by simp))
    · simp only [hp, if_false, List.flatMap_cons, Bool.false_eq_true]
      rcases ih with h1 | h1
      · exact Or.inl (by rw [h1])
      · exact Or.inr ((h1.append_left _).trans List.perm_middle)

theorem pruned_local_candidates (component : NiceComponent) (c : NiceCandidate) :
    (priv_add_local_candidate_pruned component c).2.local_candidates =
        component.local_candidates ∨
    (priv_add_local_candidate_pruned component c).2.local_candidates =
        component.local_candidates ++ [c] := by
  unfold priv_add_local_candidate_pruned
  simp only
  split
  · exact Or.inl rfl
  · exact Or.inr rfl

theorem agent_local_candidates_add (agent : NiceAgent) (stream_id component_id : Nat)
    (c : NiceCandidate) :
    agent_local_candidates (agent_update_component agent stream_id component_id
        (fun component => (priv_add_local_candidate_pruned component c).2)) =
      agent_local_candidates agent ∨
    (agent_local_candidates (agent_update_component agent stream_id component_id
        (fun component => (priv_add_local_candidate_pruned component c).2))).Perm
      (c :: agent_local_candidates agent) := by
  unfold agent_local_candidates agent_update_component
  simp only
  apply flatMap_update_first
  intro s
  simp only
  apply flatMap_update_first
  intro comp
  rcases pruned_local_candidates comp c with h | h
  · exact Or.inl h
  · refine Or.inr ?_
    rw [h]
    simp

theorem assign_foundation_fields (mf : Nat) (agent : NiceAgent) (c : NiceCandidate) :
    (priv_assign_foundation mf agent c).1.type = c.type ∧
    (priv_assign_foundation mf agent c).1.transport = c.transport ∧
    (priv_assign_foundation mf agent c).1.addr = c.addr ∧
    (priv_assign_foundation mf agent c).1.base_addr = c.base_addr ∧
    (priv_assign_foundation mf agent c).1.turn = c.turn ∧
    (priv_assign_foundation mf agent c).2.streams = agent.streams ∧
    (priv_assign_foundation mf agent c).2.compatibility = agent.compatibility := by
  unfold priv_assign_foundation
  split
  · rename_i n _
    cases n.username <;> cases n.password <;> simp
  · simp

theorem assign_foundation_found (mf : Nat) (agent : NiceAgent) (c n : NiceCandidate)
    (h : (agent_local_candidates agent).find? (priv_foundation_matches agent c) = some n) :
    (priv_assign_foundation mf agent c).1.foundation = g_strlcpy n.foundation mf ∧
    (priv_assign_foundation mf agent c).2 = agent := by
  unfold priv_assign_foundation
  rw [h]
  cases hu : n.username <;> cases hp : n.password <;> simp [hu, hp]

theorem assign_foundation_fresh (mf : Nat) (agent : NiceAgent) (c : NiceCandidate)
    (h : (agent_local_candidates agent).find? (priv_foundation_matches agent c) = none) :
    (priv_assign_foundation mf agent c).1.foundation =
        g_snprintf mf (fmt_u agent.next_candidate_id) ∧
    (priv_assign_foundation mf agent c).2.next_candidate_id =
        (agent.next_candidate_id + 1) % 2 ^ 32 := by
  unfold priv_assign_foundation
  rw [h]
  simp

theorem foundation_matches_congr (agent agent' : NiceAgent) (a a' b : NiceCandidate)
    (h1 : a'.type = a.type) (h2 : a'.transport = a.transport) (h3 : a'.addr = a.addr)
    (h4 : a'.base_addr = a.base_addr) (h5 : a'.turn = a.turn)
    (h6 : agent'.compatibility = agent.compatibility) :
    priv_foundation_matches agent' a' b = priv_foundation_matches agent a b := by
  unfold priv_foundation_matches
  rw [h1, h2, h3, h4, h5, h6]

theorem assign_foundation_related (mf : Nat) (agent : NiceAgent) (c : NiceCandidate)
    (hmax : 10 < mf) (hwrap : agent.next_candidate_id + 1 < 2 ^ 32)
    (hinv : code_foundation_invariant agent) (hbelow : foundations_below_counter agent) :
    (∀ m ∈ agent_local_candidates agent,
      ((priv_assign_foundation mf agent c).1.foundation = m.foundation ↔
        priv_foundation_matches agent (priv_assign_foundation mf agent c).1 m = true)) ∧
    (∃ k, k < (priv_assign_foundation mf agent c).2.next_candidate_id ∧
      (priv_assign_foundation mf agent c).1.foundation = fmt_u k) ∧
    agent.next_candidate_id ≤ (priv_assign_foundation mf agent c).2.next_candidate_id := by
  obtain ⟨f1, f2, f3, f4, f5, -, -⟩ := assign_foundation_fields mf agent c
  have hcongr : ∀ m, priv_foundation_matches agent (priv_assign_foundation mf agent c).1 m =
      priv_foundation_matches agent c m :=
    fun m => foundation_matches_congr agent agent c _ m f1 f2 f3 f4 f5 rfl
  have hsymm : Symmetric (fun a b : NiceCandidate =>
      a.foundation = b.foundation ↔ priv_foundation_matches agent a b = true) := by
    intro a b hab
    constructor
    · intro h
      exact foundation_matches_symm _ _ _ (hab.1 h.symm)
    · intro h
      exact (hab.2 (foundation_matches_symm _ _ _ h)).symm
  cases hfind : (agent_local_candidates agent).find? (priv_foundation_matches agent c) with
  | some n =>
    obtain ⟨g1, g2⟩ := assign_foundation_found mf agent c n hfind
    have hn_mem : n ∈ agent_local_candidates agent := List.mem_of_find?_eq_some hfind
    have hn_match : priv_foundation_matches agent c n = true := List.find?_some hfind
    obtain ⟨k, hk, hkf⟩ := hbelow n hn_mem
    have hlen : n.foundation.length ≤ mf - 1 := by
      rw [hkf]
      have := fmt_u_length k (by omega)
      omega
    have hfo : (priv_assign_foundation mf agent c).1.foundation = n.foundation := by
      rw [g1, g_strlcpy, List.take_of_length_le hlen]
    refine ⟨?_, ⟨k, by rw [g2]; exact hk, by rw [hfo, hkf]⟩, by rw [g2]⟩
    intro m hm
    rw [hfo, hcongr]
    by_cases hnm : n = m
    · subst hnm
      simp [hn_match]
    · have hR := hinv.forall hsymm hn_mem hm hnm
      constructor
      · intro h
        exact foundation_matches_trans _ _ _ _ hn_match (hR.1 h)
      · intro h
        exact hR.2 (foundation_matches_trans _ _ _ _ (foundation_matches_symm _ _ _ hn_match) h)
  | none =>
    obtain ⟨g1, g2⟩ := assign_foundation_fresh mf agent c hfind
    have hlen : (fmt_u agent.next_candidate_id).length ≤ mf - 1 := by
      have := fmt_u_length agent.next_candidate_id (by omega)
      omega
    have hfo : (priv_assign_foundation mf agent c).1.foundation =
        fmt_u agent.next_candidate_id := by
      rw [g1, g_snprintf, List.take_of_length_le hlen]
    have hnext : (priv_assign_foundation mf agent c).2.next_candidate_id =
        agent.next_candidate_id + 1 := by
      rw [g2, Nat.mod_eq_of_lt hwrap]
    refine ⟨?_, ⟨agent.next_candidate_id, by omega, hfo⟩, by omega⟩
    intro m hm
    rw [hfo, hcongr]
    have hno : priv_foundation_matches agent c m = false := by
      have := List.find?_eq_none.1 hfind m hm
      simpa using this
    obtain ⟨k, hk, hkf⟩ := hbelow m hm
    constructor
    · intro h
      rw [hkf] at h
      have := fmt_u_injective _ _ h
      omega
    · intro h
      rw [hno] at h
      cases h

/-- C5, amended: the predicate "any two local candidates of the agent (across all streams
and components) have the same foundation if and only if `priv_assign_foundation` matches
them", that is: same type, same transport and, for candidates that are not relayed, base
addresses equal ignoring the port; for relayed candidates, addresses (not base addresses)
equal ignoring the port, TURN servers with the same address, and a compatibility mode
other than Google (in Google mode no two relayed candidates share a foundation), is
preserved, together with "every foundation is the decimal text of a number below
next_candidate_id", when a new candidate is given its foundation by
`priv_assign_foundation` and handed to `priv_add_local_candidate_pruned`, as long as the
32-bit counter does not wrap and `NICE_CANDIDATE_MAX_FOUNDATION` exceeds 10. -/
theorem assign_foundation_preserves_invariant (mf : Nat) (agent : NiceAgent)
    (stream_id component_id : Nat) (c : NiceCandidate)
    (hmax : 10 < mf) (hwrap : agent.next_candidate_id + 1 < 2 ^ 32)
    (hinv : code_foundation_invariant agent) (hbelow : foundations_below_counter agent) :
    code_foundation_invariant (assign_foundation_and_add mf agent stream_id component_id c) ∧
    foundations_below_counter (assign_foundation_and_add mf agent stream_id component_id c) := by
  obtain ⟨hrel, ⟨k, hk, hkf⟩, hle⟩ := assign_foundation_related mf agent c hmax hwrap hinv hbelow
  obtain ⟨-, -, -, -, -, hstreams, hcompat⟩ := assign_foundation_fields mf agent c
  have hL : agent_local_candidates (priv_assign_foundation mf agent c).2 =
      agent_local_candidates agent := by
    unfold agent_local_candidates
    rw [hstreams]
  have hsymm : Symmetric (fun a b : NiceCandidate =>
      a.foundation = b.foundation ↔ priv_foundation_matches agent a b = true) := by
    intro a b hab
    constructor
    · intro h
      exact foundation_matches_symm _ _ _ (hab.1 h.symm)
    · intro h
      exact (hab.2 (foundation_matches_symm _ _ _ h)).symm
  have hR : ∀ a b, priv_foundation_matches
      (assign_foundation_and_add mf agent stream_id component_id c) a b =
      priv_foundation_matches agent a b := by
    intro a b
    exact foundation_matches_congr _ _ _ _ _ rfl rfl rfl rfl rfl hcompat
  have hnext : (assign_foundation_and_add mf agent stream_id component_id c).next_candidate_id =
      (priv_assign_foundation mf agent c).2.next_candidate_id := rfl
  have hcases := agent_local_candidates_add (priv_assign_foundation mf agent c).2 stream_id
    component_id (priv_assign_foundation mf agent c).1
  rw [hL] at hcases
  have hpair : (c' : List NiceCandidate) → c' = agent_local_candidates
      (assign_foundation_and_add mf agent stream_id component_id c) →
      c'.Pairwise (fun a b => a.foundation = b.foundation ↔
        priv_foundation_matches agent a b = true) ∧
      ∀ m ∈ c', ∃ k, k < (priv_assign_foundation mf agent c).2.next_candidate_id ∧
        m.foundation = fmt_u k := by
    intro c' hc'
    have hold : ∀ m ∈ agent_local_candidates agent,
        ∃ k, k < (priv_assign_foundation mf agent c).2.next_candidate_id ∧
          m.foundation = fmt_u k := by
      intro m hm
      obtain ⟨j, hj, hjf⟩ := hbelow m hm
      exact ⟨j, by omega, hjf⟩
    rcases hcases with h | h
    · have : c' = agent_local_candidates agent := hc'.trans h
      rw [this]
      exact ⟨hinv, hold⟩
    · have hperm : c'.Perm ((priv_assign_foundation mf agent c).1 ::
          agent_local_candidates agent) := hc' ▸ h
      constructor
      · rw [hperm.pairwise_iff (fun {a b} hab => hsymm hab)]
        exact List.pairwise_cons.2 ⟨hrel, hinv⟩
      · intro m hm
        rcases List.mem_cons.1 (hperm.mem_iff.1 hm) with rfl | hm
        · exact ⟨k, hk, hkf⟩
        · exact hold m hm
  obtain ⟨h1, h2⟩ := hpair _ rfl
  constructor
  · unfold code_foundation_invariant
    simp only [hR]
    exact h1
  · intro m hm
    rw [hnext]
    exact h2 m hm

/-- C5, as stated, fails in Google compatibility mode: component 1 holds a relayed
candidate with foundation "1"; a relayed candidate for component 2 with the same
transport, the same base IP address and the same TURN server is given the fresh
foundation "2" (relayed candidates never share a foundation in this mode), so the two
candidates are in the same class of the stated rule and have different foundations. -/
theorem foundation_rule_fails_google :
    spec_foundation_invariant (agent_with_relay .GOOGLE) ∧
    agent_local_candidates
        (assign_foundation_and_add 33 (agent_with_relay .GOOGLE) 1 2 relay_candidate_two) =
      [relay_candidate_one, { relay_candidate_two with foundation := "2".toList }] ∧
    spec_same_foundation_class relay_candidate_one
      { relay_candidate_two with foundation := "2".toList } ∧
    ¬ spec_foundation_invariant
        (assign_foundation_and_add 33 (agent_with_relay .GOOGLE) 1 2 relay_candidate_two) := by
  have hl : agent_local_candidates
        (assign_foundation_and_add 33 (agent_with_relay .GOOGLE) 1 2 relay_candidate_two) =
      [relay_candidate_one, { relay_candidate_two with foundation := "2".toList }] := by
    decide
  have hc : spec_same_foundation_class relay_candidate_one
      { relay_candidate_two with foundation := "2".toList } := by
    refine ⟨rfl, rfl, by decide, fun _ _ => by decide⟩
  refine ⟨?_, hl, hc, ?_⟩
  · have h1 : agent_local_candidates (agent_with_relay .GOOGLE) = [relay_candidate_one] := by
      decide
    unfold spec_foundation_invariant
    rw [h1]
    exact List.pairwise_singleton _ _
  · unfold spec_foundation_invariant
    rw [hl]
    intro h
    have h2 := (List.pairwise_pair.1 h).2 hc
    exact absurd h2 (by decide)

/-- The amended C5 at the same agent in RFC 5245 mode: the relayed candidate for
component 2 receives the foundation "1" of the candidate it matches and both predicates
hold afterwards. -/
theorem assign_foundation_preserves_invariant_witness :
    agent_local_candidates
        (assign_foundation_and_add 33 (agent_with_relay .RFC5245) 1 2 relay_candidate_two) =
      [relay_candidate_one, { relay_candidate_two with foundation := "1".toList }] ∧
    code_foundation_invariant
      (assign_foundation_and_add 33 (agent_with_relay .RFC5245) 1 2 relay_candidate_two) ∧
    foundations_below_counter
      (assign_foundation_and_add 33 (agent_with_relay .RFC5245) 1 2 relay_candidate_two) := by
  have h1 : agent_local_candidates (agent_with_relay .RFC5245) = [relay_candidate_one] := by
    decide
  refine ⟨by decide,
    assign_foundation_preserves_invariant 33 (agent_with_relay .RFC5245) 1 2
      relay_candidate_two (by decide) (by decide) ?_ ?_⟩
  · unfold code_foundation_invariant
    rw [h1]
    exact List.pairwise_singleton _ _
  · intro m hm
    rw [h1] at hm
    rw [List.mem_singleton.1 hm]
    exact ⟨1, by decide, by decide⟩

/-! ### Pruning of local candidates -/

theorem pruned_true_iff (component : NiceComponent) (candidate : NiceCandidate) :
    (priv_add_local_candidate_pruned component candidate).1 = true →
      (∀ c ∈ component.local_candidates,
        ¬ (c.transport = candidate.transport ∧ c.addr = candidate.addr ∧
           c.base_addr = candidate.base_addr)) ∧
      (priv_add_local_candidate_pruned component candidate).2 =
        { component with local_candidates := component.local_candidates ++ [candidate] } := by
  unfold priv_add_local_candidate_pruned
  simp only
  split
  · intro h; cases h
  · rename_i hany
    intro _
    refine ⟨?_, rfl⟩
    intro c hc hsame
    apply hany
    rw [List.any_eq_true]
    refine ⟨c, hc, ?_⟩
    simp [nice_address_equal, hsame.1, hsame.2.1, hsame.2.2]

theorem pruned_redundant (component : NiceComponent) (candidate : NiceCandidate)
    (h : ∃ c ∈ component.local_candidates, c.transport = candidate.transport ∧
      c.addr = candidate.addr ∧ c.base_addr = candidate.base_addr) :
    priv_add_local_candidate_pruned component candidate = (false, component) := by
  obtain ⟨c, hc, hsame⟩ := h
  unfold priv_add_local_candidate_pruned
  simp only
  rw [if_pos]
  rw [List.any_eq_true]
  refine ⟨c, hc, ?_⟩
  simp [nice_address_equal, hsame.1, hsame.2.1, hsame.2.2]

theorem pruned_false_unchanged (component : NiceComponent) (candidate : NiceCandidate)
    (h : (priv_add_local_candidate_pruned component candidate).1 = false) :
    (priv_add_local_candidate_pruned component candidate).2 = component := by
  unfold priv_add_local_candidate_pruned at *
  simp only at *
  split
  · rfl
  · rename_i hany
    rw [if_neg hany] at h
    cases h

theorem pruned_keeps_distinct (component : NiceComponent) (candidate : NiceCandidate)
    (h : component.local_candidates.Pairwise (fun a b => ¬ same_local_candidate a b)) :
    (priv_add_local_candidate_pruned component candidate).2.local_candidates.Pairwise
      (fun a b => ¬ same_local_candidate a b) := by
  cases hres : (priv_add_local_candidate_pruned component candidate).1 with
  | false => rw [pruned_false_unchanged component candidate hres]; exact h
  | true =>
    obtain ⟨hno, heq⟩ := pruned_true_iff component candidate hres
    rw [heq]
    simp only
    rw [List.pairwise_append]
    refine ⟨h, List.pairwise_singleton _ _, ?_⟩
    intro a ha b hb
    rw [List.mem_singleton.1 hb]
    intro hsame
    exact hno a ha ⟨hsame.2.1, hsame.2.2.1, hsame.2.2.2⟩

theorem reachable_local_candidates_distinct (component : NiceComponent)
    (h : LocalCandidatesReachable component) :
    component.local_candidates.Pairwise (fun a b => ¬ same_local_candidate a b) := by
  induction h with
  | init component h0 => rw [h0]; exact List.Pairwise.nil
  | step component component' _ s ih =>
    cases s with
    | add candidate => exact pruned_keeps_distinct component candidate ih
    | remove i => exact ih.sublist (List.eraseIdx_sublist _ _)
    | clear => exact List.Pairwise.nil

/-- C6: in every reachable state of a component no two of its local candidates have equal
(type, transport, addr, base_addr).  `priv_add_local_candidate_pruned`, the only place
that inserts into the list, returns TRUE and appends the new candidate only when no
candidate already in the component has the same transport, address and base address; when
one has, it returns FALSE and leaves the component unchanged (as it does whenever it
returns FALSE); the state after the call is reachable again. -/
theorem local_candidates_pruned_invariant (component : NiceComponent)
    (candidate : NiceCandidate) (hreach : LocalCandidatesReachable component) :
    component.local_candidates.Pairwise (fun a b => ¬ same_local_candidate a b) ∧
    ((priv_add_local_candidate_pruned component candidate).1 = true →
      (∀ c ∈ component.local_candidates,
        ¬ (c.transport = candidate.transport ∧ c.addr = candidate.addr ∧
           c.base_addr = candidate.base_addr)) ∧
      (priv_add_local_candidate_pruned component candidate).2 =
        { component with local_candidates := component.local_candidates ++ [candidate] }) ∧
    ((∃ c ∈ component.local_candidates, c.transport = candidate.transport ∧
        c.addr = candidate.addr ∧ c.base_addr = candidate.base_addr) →
      priv_add_local_candidate_pruned component candidate = (false, component)) ∧
    ((priv_add_local_candidate_pruned component candidate).1 = false →
      (priv_add_local_candidate_pruned component candidate).2 = component) ∧
    LocalCandidatesReachable (priv_add_local_candidate_pruned component candidate).2 ∧
    (priv_add_local_candidate_pruned component candidate).2.local_candidates.Pairwise
      (fun a b => ¬ same_local_candidate a b) :=
  ⟨reachable_local_candidates_distinct component hreach,
   pruned_true_iff component candidate,
   pruned_redundant component candidate,
   pruned_false_unchanged component candidate,
   LocalCandidatesReachable.step _ _ hreach (LocalCandidatesStep.add component candidate),
   pruned_keeps_distinct component candidate
     (reachable_local_candidates_distinct component hreach)⟩

/-- C6 at a concrete component: after the UDP host candidate 192.168.1.1:5000 has been
added to an empty component, adding it again returns FALSE and leaves the list alone. -/
theorem local_candidates_pruned_invariant_witness :
    LocalCandidatesReachable (priv_add_local_candidate_pruned empty_component
      host_candidate_udp).2 ∧
    priv_add_local_candidate_pruned
        (priv_add_local_candidate_pruned empty_component host_candidate_udp).2
        host_candidate_udp =
      (false, { empty_component with local_candidates := [host_candidate_udp] }) :=
  have hreach : LocalCandidatesReachable
      (priv_add_local_candidate_pruned empty_component host_candidate_udp).2 :=
    LocalCandidatesReachable.step _ _ (LocalCandidatesReachable.init empty_component rfl)
      (LocalCandidatesStep.add empty_component host_candidate_udp)
  ⟨hreach,
   (local_candidates_pruned_invariant _ host_candidate_udp hreach).2.2.1
     ⟨host_candidate_udp, by decide, rfl, rfl, rfl⟩⟩

/-- C7 (code defect): in an agent with two streams, two peer-reflexive candidates from
different addresses learned on component 1 of stream 1 both receive the foundation
"remote1".  Neither matches an existing remote candidate; `priv_assign_remote_foundation`
then takes the free number from the last component with id 1 of any stream, here the one
of stream 2, which holds no remote candidate, instead of the candidate's own component. -/
theorem remote_foundation_collides_across_streams :
    learn_first.1.foundation = "remote1".toList ∧
    remote_candidates_of learn_first.2 1 1 = [learn_first.1] ∧
    (((agent_components learn_first.2).flatMap (fun c => c.remote_candidates)).find?
      (priv_remote_foundation_matches
        { learn_second.1 with foundation := [] })) = none ∧
    learn_second.1.stream_id = 1 ∧ learn_second.1.component_id = 1 ∧
    learn_second.1.foundation = "remote1".toList ∧
    remote_candidates_of learn_second.2 1 1 = [learn_first.1, learn_second.1] ∧
    learn_first.1.addr ≠ learn_second.1.addr := by
  decide

/-! ### Reading the local candidates -/

theorem get_local_candidates_loop_eq (copy : NiceCandidate → NiceCandidate)
    (force_relay : Bool) (l ret : List NiceCandidate) :
    get_local_candidates_loop copy force_relay l ret =
      ret ++ (l.filter (fun c => !force_relay || decide (c.type = .RELAYED))).map copy := by
  induction l generalizing ret with
  | nil => simp [get_local_candidates_loop]
  | cons cand rest ih =>
    unfold get_local_candidates_loop
    by_cases h : force_relay = true ∧ cand.type ≠ .RELAYED
    · rw [if_pos h, ih]
      have : (!force_relay || decide (cand.type = .RELAYED)) = false := by
        simp [h.1, h.2]
      simp [List.filter_cons, this]
    · rw [if_neg h, ih]
      have : (!force_relay || decide (cand.type = .RELAYED)) = true := by
        cases force_relay <;> simp_all
      simp [List.filter_cons, this]

/-- C9: for a stream and component that exist (ids at least 1, as every stream and
component has), `nice_agent_get_local_candidates` returns the copies of the component's
local candidates in list order; with force-relay set the result is exactly the copies of
the sub-list of candidates of type relayed, in the same relative order; and for an
unknown stream or component the result is empty. -/
theorem get_local_candidates_result (copy : NiceCandidate → NiceCandidate)
    (agent : NiceAgent) (stream_id component_id : Nat) :
    (agent_find_component agent stream_id component_id = none →
      nice_agent_get_local_candidates copy agent stream_id component_id = []) ∧
    (∀ s c, agent_find_component agent stream_id component_id = some (s, c) →
      1 ≤ stream_id → 1 ≤ component_id →
      (agent.force_relay = false →
        nice_agent_get_local_candidates copy agent stream_id component_id =
          c.local_candidates.map copy) ∧
      (agent.force_relay = true →
        nice_agent_get_local_candidates copy agent stream_id component_id =
          (c.local_candidates.filter (fun x => decide (x.type = .RELAYED))).map copy)) := by
  constructor
  · intro h
    unfold nice_agent_get_local_candidates
    rw [h]
    split_ifs <;> rfl
  · intro s c h h1 h2
    have hres : nice_agent_get_local_candidates copy agent stream_id component_id =
        (c.local_candidates.filter
          (fun x => !agent.force_relay || decide (x.type = .RELAYED))).map copy := by
      unfold nice_agent_get_local_candidates
      rw [h, if_neg (by omega), if_neg (by omega)]
      simp [get_local_candidates_loop_eq]
    constructor
    · intro hf
      rw [hres, hf]
      simp
    · intro hf
      rw [hres, hf]
      simp

/-- C9 at a component holding a host and a relayed candidate, with force-relay set: only
the relayed candidate is returned. -/
theorem get_local_candidates_result_witness :
    nice_agent_get_local_candidates (fun c => c) (agent_host_and_relay true) 1 1 =
      [relay_candidate_one] :=
  ((get_local_candidates_result (fun c => c) (agent_host_and_relay true) 1 1).2 _ _ rfl
    (by decide) (by decide)).2 rfl

/-! ### Receiving with force-relay -/

theorem recv_read_message_socket (env : RecvEnv) (stream : NiceStream)
    (component : NiceComponent) (nicesock : NiceSocket) (provided_length : Nat)
    (hsock : nicesock.type ≠ .UDP_TURN ∧ nicesock.type ≠ .UDP_TURN_OVER_TCP) :
    (recv_read_message env stream component nicesock provided_length).nicesock = nicesock := by
  unfold recv_read_message
  have h : ¬ (nicesock.type = .UDP_TURN_OVER_TCP ∨ nicesock.type = .UDP_TURN) := by
    intro h
    rcases h with h | h
    · exact hsock.2 h
    · exact hsock.1 h
  simp only [h, if_false]
  split_ifs <;> rfl

theorem recv_turn_message_not_turn (env : RecvEnv) (stream : NiceStream)
    (component : NiceComponent) (message : ReceivedMessage) (recv_status : RecvStatus)
    (hsock : message.nicesock.type ≠ .UDP_TURN)
    (hcand : ∀ tc turn, component.turn_candidate = some tc → tc.turn = some turn →
      message.source ≠ turn.server)
    (hturn : ∀ turn ∈ component.turn_servers, message.source ≠ turn.server) :
    _agent_recv_turn_message_unlocked env stream component message recv_status =
      (false, message, recv_status, none) := by
  have hfilter : component.turn_servers.filter
      (fun turn => nice_address_equal message.source turn.server) = [] := by
    rw [List.filter_eq_nil_iff]
    intro turn ht
    simpa [nice_address_equal] using hturn turn ht
  have hby : turn_candidate_socket env component message = none := by
    unfold turn_candidate_socket
    cases htc : component.turn_candidate with
    | none => rfl
    | some tc =>
      cases hs : tc.sockptr with
      | none => simp [hs]
      | some s =>
        cases ht : tc.turn with
        | none => simp [hs, ht]
        | some turn =>
          have := hcand tc turn htc ht
          simp [hs, ht, nice_address_equal, this]
  unfold _agent_recv_turn_message_unlocked
  rw [if_neg hsock]
  simp only [hby, hfilter]
  rfl

theorem recv_force_relay_result (env : RecvEnv) (agent : NiceAgent) (stream : NiceStream)
    (component : NiceComponent) (nicesock : NiceSocket) (provided_length : Nat)
    (hforce : agent.force_relay = true)
    (hsock : nicesock.type ≠ .UDP_TURN ∧ nicesock.type ≠ .UDP_TURN_OVER_TCP)
    (hcand : ∀ tc turn, component.turn_candidate = some tc → tc.turn = some turn →
      (recv_read_message env stream component nicesock provided_length).source ≠ turn.server)
    (hturn : ∀ turn ∈ component.turn_servers,
      (recv_read_message env stream component nicesock provided_length).source ≠
        turn.server) :
    agent_recv_message_unlocked env agent stream component nicesock provided_length =
      ((if (recv_read_message env stream component nicesock provided_length).sockret = 0
          then RecvStatus.RECV_WOULD_BLOCK
        else if (recv_read_message env stream component nicesock provided_length).sockret < 0
          then RecvStatus.RECV_ERROR
        else if (recv_read_message env stream component nicesock provided_length).length = 0
          then RecvStatus.RECV_OOB
        else RecvStatus.RECV_WOULD_BLOCK),
       (if (recv_read_message env stream component nicesock
            provided_length).is_rfc4571_message = true
          then [RecvEvent.rfc4571_consume false] else [])) := by
  have hs := recv_read_message_socket env stream component nicesock provided_length hsock
  have hnt := recv_turn_message_not_turn env stream component
    (recv_read_message env stream component nicesock provided_length) .RECV_SUCCESS
    (by rw [hs]; exact hsock.1) hcand hturn
  unfold agent_recv_message_unlocked
  simp only [hnt]
  generalize recv_read_message env stream component nicesock provided_length = m
  by_cases h0 : m.sockret = 0
  · simp only [h0, if_true]
    cases m.is_rfc4571_message <;> simp
  · by_cases h1 : m.sockret < 0
    · simp only [h0, h1, if_true, if_false]
      cases m.is_rfc4571_message <;> simp
    · by_cases h2 : m.length = 0
      · simp only [h0, h1, h2, if_true, if_false]
        cases m.is_rfc4571_message <;> simp
      · simp only [h0, h1, h2, hforce, if_true, if_false, Bool.false_eq_true, not_false_eq_true,
          and_self]
        cases m.is_rfc4571_message <;> simp

/-- C10, amended: with force-relay set, for every read of `agent_recv_message_unlocked` on
a socket that is not a TURN socket (type neither UDP_TURN nor UDP_TURN_OVER_TCP) whose
source address equals neither the server of the component's `turn_candidate` nor any TURN
server configured for the component, nothing is delivered: neither the STUN handler,
pseudo-TCP nor the user receives the message (the result is never RECV_SUCCESS and an
RFC 4571 frame is only discarded).  When a message was read (socket result positive) the
result is RECV_WOULD_BLOCK if the message is not empty and RECV_OOB if it is empty. -/
theorem force_relay_drops_non_turn (env : RecvEnv) (agent : NiceAgent) (stream : NiceStream)
    (component : NiceComponent) (nicesock : NiceSocket) (provided_length : Nat)
    (hforce : agent.force_relay = true)
    (hsock : nicesock.type ≠ .UDP_TURN ∧ nicesock.type ≠ .UDP_TURN_OVER_TCP)
    (hcand : ∀ tc turn, component.turn_candidate = some tc → tc.turn = some turn →
      (recv_read_message env stream component nicesock provided_length).source ≠ turn.server)
    (hturn : ∀ turn ∈ component.turn_servers,
      (recv_read_message env stream component nicesock provided_length).source ≠
        turn.server) :
    (∀ e ∈ (agent_recv_message_unlocked env agent stream component nicesock
        provided_length).2, e.delivers = false) ∧
    (agent_recv_message_unlocked env agent stream component nicesock provided_length).1 ≠
      .RECV_SUCCESS ∧
    ((recv_read_message env stream component nicesock provided_length).sockret > 0 →
      ((recv_read_message env stream component nicesock provided_length).length ≠ 0 →
        (agent_recv_message_unlocked env agent stream component nicesock
          provided_length).1 = .RECV_WOULD_BLOCK) ∧
      ((recv_read_message env stream component nicesock provided_length).length = 0 →
        (agent_recv_message_unlocked env agent stream component nicesock
          provided_length).1 = .RECV_OOB)) := by
  rw [recv_force_relay_result env agent stream component nicesock provided_length hforce hsock
    hcand hturn]
  generalize recv_read_message env stream component nicesock provided_length = m
  refine ⟨?_, ?_, ?_⟩
  · intro e he
    simp only at he
    split_ifs at he
    · rw [List.mem_singleton.1 he]; rfl
    · cases he
  · simp only
    split_ifs <;> simp
  · intro hpos
    have h0 : ¬ m.sockret = 0 := by omega
    have h1 : ¬ m.sockret < 0 := by omega
    simp only [h0, h1, if_false]
    constructor
    · intro h2; rw [if_neg h2]
    · intro h2; rw [if_pos h2]

/-- C10, as stated, fails for an empty message: with force-relay set, an empty datagram
read on a UDP socket from 198.51.100.1:6000, which is not a TURN server of the component,
gives RECV_OOB, not RECV_WOULD_BLOCK (the test for an empty message comes first). -/
theorem force_relay_empty_message_is_oob :
    (agent_host_and_relay true).force_relay = true ∧
    udp_socket.type ≠ .UDP_TURN ∧ udp_socket.type ≠ .UDP_TURN_OVER_TCP ∧
    component_host_and_relay.turn_candidate = none ∧
    (∀ turn ∈ component_host_and_relay.turn_servers,
      (recv_read_message recv_env_empty_datagram stream_host_and_relay
        component_host_and_relay udp_socket 0).source ≠ turn.server) ∧
    (recv_read_message recv_env_empty_datagram stream_host_and_relay
        component_host_and_relay udp_socket 0).sockret = 1 ∧
    agent_recv_message_unlocked recv_env_empty_datagram (agent_host_and_relay true)
        stream_host_and_relay component_host_and_relay udp_socket 0 =
      (.RECV_OOB, []) := by
  decide

/-- The amended C10 at a 100-byte datagram from 198.51.100.1:6000 that the STUN handler
would accept: it is dropped with RECV_WOULD_BLOCK and nothing is handed on. -/
theorem force_relay_drops_non_turn_witness :
    (agent_recv_message_unlocked recv_env_stun_datagram (agent_host_and_relay true)
        stream_host_and_relay component_host_and_relay udp_socket 0).1 =
      .RECV_WOULD_BLOCK :=
  ((force_relay_drops_non_turn recv_env_stun_datagram (agent_host_and_relay true)
      stream_host_and_relay component_host_and_relay udp_socket 0 rfl (by decide)
      (by intro tc turn h; cases h) (by decide)).2.2 (by decide)).1 (by decide)

/-! ### Gathering with force-relay -/

theorem gather_step_refl (a : NiceAgent) : GatherStep a a :=
  ⟨rfl, ⟨[], by simp, by intro c h; cases h⟩, fun c h => Or.inl h⟩

theorem gather_step_trans {a b c : NiceAgent} (h1 : GatherStep a b) (h2 : GatherStep b c) :
    GatherStep a c := by
  obtain ⟨f1, ⟨e1, s1, r1⟩, l1⟩ := h1
  obtain ⟨f2, ⟨e2, s2, r2⟩, l2⟩ := h2
  refine ⟨f2.trans f1, ⟨e1 ++ e2, by rw [s2, s1, List.append_assoc], ?_⟩, ?_⟩
  · intro x hx hf
    rcases List.mem_append.1 hx with hx | hx
    · exact r1 x hx hf
    · exact r2 x hx (f1.trans hf)
  · intro x hx
    rcases l2 x hx with hx | hx
    · exact l1 x hx
    · exact Or.inr hx

theorem mem_flatMap_update_first {α β : Type} (p : α → Bool) (f : α → α) (g : α → List β)
    (Q : β → Prop) (l : List α)
    (h : ∀ x ∈ l, ∀ y ∈ g (f x), y ∈ g x ∨ Q y) :
    ∀ y ∈ (update_first p f l).flatMap g, y ∈ l.flatMap g ∨ Q y := by
  induction l with
  | nil => intro y hy; exact Or.inl hy
  | cons x xs ih =>
    intro y hy
    unfold update_first at hy
    by_cases hp : p x = true
    · simp only [hp, if_true, List.flatMap_cons, List.mem_append] at hy
      rcases hy with hy | hy
      · rcases h x (List.mem_cons_self _ _) y hy with h1 | h1
        · exact Or.inl (by simp [h1])
        · exact Or.inr h1
      · exact Or.inl (by simp only [List.flatMap_cons, List.mem_append]; exact Or.inr hy)
    · simp only [hp, if_false, List.flatMap_cons, List.mem_append, Bool.false_eq_true] at hy
      rcases hy with hy | hy
      · exact Or.inl (by simp only [List.flatMap_cons, List.mem_append]; exact Or.inl hy)
      · rcases ih (fun x hx => h x (List.mem_cons_of_mem _ hx)) y hy with h1 | h1
        · exact Or.inl (by simp only [List.flatMap_cons, List.mem_append]; exact Or.inr h1)
        · exact Or.inr h1

theorem local_candidates_update_component (a : NiceAgent) (stream_id component_id : Nat)
    (f : NiceComponent → NiceComponent) (Q : NiceCandidate → Prop)
    (h : ∀ comp, ∀ c ∈ (f comp).local_candidates, c ∈ comp.local_candidates ∨ Q c) :
    ∀ c ∈ agent_local_candidates (agent_update_component a stream_id component_id f),
      c ∈ agent_local_candidates a ∨ Q c := by
  unfold agent_local_candidates agent_update_component
  simp only
  apply mem_flatMap_update_first
  intro s _
  simp only
  apply mem_flatMap_update_first
  intro comp _
  exact h comp

theorem local_candidates_update_stream (a : NiceAgent) (stream_id : Nat)
    (f : NiceStream → NiceStream) (h : ∀ s, (f s).components = s.components) :
    ∀ c ∈ agent_local_candidates (agent_update_stream a stream_id f),
      c ∈ agent_local_candidates a ∨ c.type = .HOST := by
  unfold agent_local_candidates agent_update_stream
  simp only
  apply mem_flatMap_update_first
  intro s _ y hy
  rw [h s] at hy
  exact Or.inl hy

theorem gather_step_of_same (a b : NiceAgent) (h1 : b.force_relay = a.force_relay)
    (h2 : b.signals = a.signals) (h3 : b.streams = a.streams) : GatherStep a b := by
  refine ⟨h1, ⟨[], by simp [h2], by intro c h; cases h⟩, ?_⟩
  intro c hc
  unfold agent_local_candidates at *
  rw [h3] at hc
  exact Or.inl hc

theorem gather_step_of_local (a b : NiceAgent) (h1 : b.force_relay = a.force_relay)
    (h2 : b.signals = a.signals)
    (h3 : ∀ c ∈ agent_local_candidates b, c ∈ agent_local_candidates a ∨ c.type = .HOST) :
    GatherStep a b :=
  ⟨h1, ⟨[], by simp [h2], by intro c h; cases h⟩, h3⟩

theorem assign_foundation_agent (mf : Nat) (a : NiceAgent) (c : NiceCandidate) :
    (priv_assign_foundation mf a c).2.force_relay = a.force_relay ∧
    (priv_assign_foundation mf a c).2.signals = a.signals ∧
    (priv_assign_foundation mf a c).2.streams = a.streams := by
  unfold priv_assign_foundation
  split <;> simp

theorem update_component_fields (a : NiceAgent) (stream_id component_id : Nat)
    (f : NiceComponent → NiceComponent) :
    (agent_update_component a stream_id component_id f).force_relay = a.force_relay ∧
    (agent_update_component a stream_id component_id f).signals = a.signals := by
  unfold agent_update_component
  simp

theorem credentials_type (env : GatherEnv) (a : NiceAgent) (c : NiceCandidate) :
    (priv_generate_candidate_credentials env a c).type = c.type := by
  unfold priv_generate_candidate_credentials
  split_ifs <;> rfl

theorem host_candidate_store_step (a : NiceAgent) (stream_id component_id : Nat)
    (candidate : NiceCandidate) (nicesock : NiceSocket) (accept_duplicate : Bool)
    (htype : candidate.type = .HOST) :
    GatherStep a (host_candidate_store a stream_id component_id candidate nicesock
      accept_duplicate).2.2 := by
  unfold host_candidate_store
  simp only
  split_ifs
  · exact gather_step_refl a
  · cases hfind : agent_find_component a stream_id component_id with
    | none => exact gather_step_refl a
    | some sc =>
      simp only
      split_ifs
      · refine gather_step_of_local _ _
          (update_component_fields _ _ _ _).1 (update_component_fields _ _ _ _).2 ?_
        apply local_candidates_update_component
        intro comp c hc
        rcases pruned_local_candidates comp _ with h | h
        · rw [h] at hc; exact Or.inl hc
        · rw [h] at hc
          rcases List.mem_append.1 hc with hc | hc
          · exact Or.inl hc
          · rw [List.mem_singleton.1 hc]
            exact Or.inr htype
      · exact gather_step_refl a

theorem add_local_host_candidate_step (mf : Nat) (env : GatherEnv) (a : NiceAgent)
    (stream_id component_id : Nat) (address : NiceAddress)
    (transport : NiceCandidateTransport) (accept_duplicate : Bool) :
    GatherStep a (discovery_add_local_host_candidate mf env a stream_id component_id address
      transport accept_duplicate).2.2 := by
  unfold discovery_add_local_host_candidate
  cases hfind : agent_find_component a stream_id component_id with
  | none => exact gather_step_refl a
  | some sc =>
    simp only
    have htype0 : (host_candidate_new env a stream_id component_id address transport).type =
        .HOST := by
      unfold host_candidate_new
      simp only [credentials_type]
      rfl
    obtain ⟨t1, -, -, -, -, -, -⟩ := assign_foundation_fields mf a
      (host_candidate_new env a stream_id component_id address transport)
    obtain ⟨g1, g2, g3⟩ := assign_foundation_agent mf a
      (host_candidate_new env a stream_id component_id address transport)
    have hbase : GatherStep a (priv_assign_foundation mf a
        (host_candidate_new env a stream_id component_id address transport)).2 :=
      gather_step_of_same _ _ g1 g2 g3
    cases host_socket_new env address transport with
    | error e => cases e <;> exact hbase
    | ok nicesock =>
      exact gather_step_trans hbase
        (host_candidate_store_step _ _ _ _ _ _ (t1.trans htype0))

theorem add_discovery_turn_step (env : GatherEnv) (a : NiceAgent) (nicesock : NiceSocket)
    (turn : TurnServer) (stream_id component_id : Nat) (turn_tcp : Bool) :
    GatherStep a (priv_add_new_candidate_discovery_turn env a nicesock turn stream_id
      component_id turn_tcp) := by
  unfold priv_add_new_candidate_discovery_turn
  simp only
  split
  · exact gather_step_refl a
  · exact gather_step_of_same _ _ rfl rfl rfl

theorem gather_turn_servers_step (env : GatherEnv) (stream_id cid : Nat)
    (host_candidate : NiceCandidate) (nicesock : NiceSocket) (turns : List TurnServer) :
    ∀ st : GatherState,
      GatherStep st.agent
        (gather_turn_servers env stream_id cid host_candidate nicesock turns st).agent ∧
      (gather_turn_servers env stream_id cid host_candidate nicesock turns st).failed =
        st.failed := by
  induction turns with
  | nil => intro st; exact ⟨gather_step_refl _, rfl⟩
  | cons turn rest ih =>
    intro st
    unfold gather_turn_servers
    split_ifs
    all_goals first
      | exact ih _
      | exact ⟨gather_step_trans (add_discovery_turn_step _ _ _ _ _ _ _) (ih _).1, (ih _).2⟩

theorem gather_port_loop_step (mf : Nat) (env : GatherEnv) (stream_id cid : Nat)
    (addr : NiceAddress) (transport : NiceCandidateTransport)
    (min_port max_port start_port : Nat) (fuel : Nat) :
    ∀ (a : NiceAgent) (current_port : Nat) (accept_duplicate : Bool)
      (r : HostCandidateResult × Option NiceCandidate × NiceAgent),
      gather_port_loop mf env stream_id cid addr transport min_port max_port start_port fuel
        a current_port accept_duplicate = some r →
      GatherStep a r.2.2 := by
  induction fuel with
  | zero => intro a cp ad r h; cases h
  | succ fuel ih =>
    intro a cp ad r h
    unfold gather_port_loop at h
    simp only at h
    have hstep := add_local_host_candidate_step mf env a stream_id cid
      (nice_address_set_port addr cp) transport ad
    split_ifs at h
    all_goals first
      | (cases h; exact hstep)
      | exact gather_step_trans hstep (ih _ _ _ _ h)

theorem gather_host_candidate_step (mf : Nat) (env : GatherEnv) (fuel : Nat)
    (stream_id cid : Nat) (addr : NiceAddress) (transport : NiceCandidateTransport)
    (st st' : GatherState)
    (h : gather_host_candidate mf env fuel stream_id cid addr transport st = some st') :
    GatherStep st.agent st'.agent := by
  unfold gather_host_candidate at h
  cases hfind : agent_find_component st.agent stream_id cid with
  | none =>
    rw [hfind] at h
    cases h
    exact gather_step_refl _
  | some sc =>
    rw [hfind] at h
    simp only at h
    generalize hloop : gather_port_loop mf env stream_id cid addr transport sc.2.min_port
      sc.2.max_port _ fuel st.agent _ false = loop at h
    cases loop with
    | none => cases h
    | some r =>
      have hstep := gather_port_loop_step mf env stream_id cid addr transport _ _ _ fuel _ _ _ r
        hloop
      simp only at h
      split_ifs at h
      · cases h; exact hstep
      · cases h; exact hstep
      · cases hout : r.2.1 with
        | none =>
          rw [hout] at h
          cases h
          exact hstep
        | some host_candidate =>
          rw [hout] at h
          simp only at h
          split at h
          · cases h
            exact gather_step_trans hstep (gather_turn_servers_step _ _ _ _ _ _ _).1
          · cases h; exact hstep
      · cases hout : r.2.1 with
        | none =>
          rw [hout] at h
          cases h
          exact hstep
        | some host_candidate =>
          rw [hout] at h
          simp only at h
          split at h
          · cases h; exact hstep
          · cases h; exact hstep

theorem gather_add_types_step (mf : Nat) (env : GatherEnv) (fuel : Nat)
    (stream_id cid : Nat) (addr : NiceAddress) (transports : List NiceCandidateTransport) :
    ∀ st st' : GatherState,
      gather_add_types mf env fuel stream_id cid addr transports st = some st' →
      GatherStep st.agent st'.agent := by
  induction transports with
  | nil => intro st st' h; rw [gather_add_types] at h; cases h; exact gather_step_refl _
  | cons transport rest ih =>
    intro st st' h
    unfold gather_add_types at h
    split_ifs at h
    · cases h; exact gather_step_refl _
    · exact ih _ _ h
    · cases hone : gather_host_candidate mf env fuel stream_id cid addr transport st with
      | none => rw [hone] at h; cases h
      | some st1 =>
        rw [hone] at h
        exact gather_step_trans (gather_host_candidate_step _ _ _ _ _ _ _ _ _ hone)
          (ih _ _ h)

theorem gather_addresses_step (mf ml : Nat) (env : GatherEnv) (fuel : Nat)
    (stream_id cid : Nat) (addrs : List NiceAddress) :
    ∀ (length : Nat) (st st' : GatherState),
      gather_addresses mf ml env fuel stream_id cid addrs length st = some st' →
      GatherStep st.agent st'.agent := by
  induction addrs with
  | nil => intro length st st' h; rw [gather_addresses] at h; cases h; exact gather_step_refl _
  | cons addr rest ih =>
    intro length st st' h
    unfold gather_addresses at h
    split_ifs at h
    · cases h; exact gather_step_refl _
    · cases hone : gather_add_types mf env fuel stream_id cid addr
          [.UDP, .TCP_ACTIVE, .TCP_PASSIVE] st with
      | none => rw [hone] at h; cases h
      | some st1 =>
        rw [hone] at h
        exact gather_step_trans (gather_add_types_step _ _ _ _ _ _ _ _ _ hone) (ih _ _ _ h)
    · cases h; exact gather_step_refl _

theorem state_change_step (a b : NiceAgent) (stream_id component_id : Nat)
    (new_state : NiceComponentState)
    (h : agent_signal_component_state_change a stream_id component_id new_state = some b) :
    GatherStep a b := by
  unfold agent_signal_component_state_change at h
  cases hfind : agent_find_component a stream_id component_id with
  | none =>
    rw [hfind] at h
    split_ifs at h <;> cases h <;> exact gather_step_refl _
  | some sc =>
    rw [hfind] at h
    simp only at h
    split_ifs at h
    all_goals cases h
    all_goals first
      | exact gather_step_refl _
      | skip
    refine ⟨?_, ⟨[Signal.COMPONENT_STATE_CHANGED stream_id component_id new_state], ?_, ?_⟩,
      ?_⟩
    · simp [agent_queue_signal, agent_update_component]
    · simp [agent_queue_signal, agent_update_component]
    · intro c hc
      simp at hc
    · intro c hc
      have : agent_local_candidates (agent_queue_signal (agent_update_component a stream_id
          component_id (fun c => { c with state := new_state }))
          (Signal.COMPONENT_STATE_CHANGED stream_id component_id new_state)) =
          agent_local_candidates (agent_update_component a stream_id
            component_id (fun c => { c with state := new_state })) := rfl
      rw [this] at hc
      exact local_candidates_update_component a stream_id component_id
        (fun c => { c with state := new_state }) (fun c => c.type = .HOST)
        (fun comp c hc => Or.inl hc) c hc

theorem gather_components_step (mf ml : Nat) (env : GatherEnv) (fuel : Nat)
    (stream_id : Nat) (local_addresses : List NiceAddress) (cids : List Nat) :
    ∀ st st' : GatherState,
      gather_components mf ml env fuel stream_id local_addresses cids st = some st' →
      GatherStep st.agent st'.agent := by
  induction cids with
  | nil => intro st st' h; rw [gather_components] at h; cases h; exact gather_step_refl _
  | cons cid rest ih =>
    intro st st' h
    unfold gather_components at h
    by_cases hf : st.failed = true
    · rw [if_pos hf] at h; cases h; exact gather_step_refl _
    rw [if_neg hf] at h
    cases hfind : agent_find_component st.agent stream_id cid with
    | none => rw [hfind] at h; exact ih _ _ h
    | some sc =>
      rw [hfind] at h
      simp only at h
      cases hone : gather_addresses mf ml env fuel stream_id cid local_addresses 0
          { st with found_local_address := false } with
      | none => rw [hone] at h; cases h
      | some st1 =>
        rw [hone] at h
        have h1 : GatherStep st.agent st1.agent :=
          gather_addresses_step _ _ _ _ _ _ _ _ { st with found_local_address := false } _ hone
        simp only at h
        by_cases hf1 : st1.failed = true
        · rw [if_pos hf1] at h; cases h; exact h1
        rw [if_neg hf1] at h
        by_cases hfl : ¬ st1.found_local_address = true
        · rw [if_pos hfl] at h; cases h; exact h1
        rw [if_neg hfl] at h
        cases hfind2 : agent_find_component st1.agent stream_id cid with
        | none => rw [hfind2] at h; cases h; exact h1
        | some sc2 =>
          rw [hfind2] at h
          simp only at h
          split_ifs at h
          · cases hsig : agent_signal_component_state_change st1.agent stream_id cid
                .GATHERING with
            | none => rw [hsig] at h; cases h
            | some a2 =>
              rw [hsig] at h
              exact gather_step_trans h1
                (gather_step_trans (state_change_step _ _ _ _ _ hsig) (ih _ _ h))
          · exact gather_step_trans h1 (ih _ _ h)

theorem mem_flatMap_map {α β : Type} (f : α → α) (g : α → List β) (l : List α)
    (h : ∀ x ∈ l, ∀ y ∈ g (f x), y ∈ g x) :
    ∀ y ∈ (l.map f).flatMap g, y ∈ l.flatMap g := by
  intro y hy
  simp only [List.mem_flatMap, List.mem_map] at hy ⊢
  obtain ⟨x, ⟨x0, hx0, rfl⟩, hy⟩ := hy
  exact ⟨x0, hx0, h x0 hx0 y hy⟩

theorem update_stream_step (a : NiceAgent) (stream_id : Nat) (f : NiceStream → NiceStream)
    (h : ∀ s, (f s).components = s.components) :
    GatherStep a (agent_update_stream a stream_id f) :=
  gather_step_of_local _ _ rfl rfl (local_candidates_update_stream a stream_id f h)

theorem signal_candidates_step (cands : List NiceCandidate) :
    ∀ a : NiceAgent, GatherStep a (gather_signal_candidates cands a) := by
  induction cands with
  | nil => intro a; exact gather_step_refl a
  | cons candidate rest ih =>
    intro a
    unfold gather_signal_candidates
    split_ifs with hc
    · exact ih a
    · refine gather_step_trans ?_ (ih _)
      refine ⟨rfl, ⟨[Signal.NEW_CANDIDATE_FULL candidate,
        Signal.NEW_CANDIDATE candidate.stream_id candidate.component_id candidate.foundation],
        ?_, ?_⟩, fun c h => Or.inl h⟩
      · simp [agent_signal_new_candidate, agent_queue_signal]
      · intro c hmem hf
        simp only [List.mem_cons, Signal.NEW_CANDIDATE_FULL.injEq, List.mem_singleton,
          List.mem_nil_iff, or_false, reduceCtorEq] at hmem
        subst hmem
        by_contra hne
        exact hc ⟨hf, hne⟩

theorem signal_components_step (stream_id : Nat) (cids : List Nat) :
    ∀ a : NiceAgent, GatherStep a (gather_signal_components stream_id cids a) := by
  induction cids with
  | nil => intro a; exact gather_step_refl a
  | cons cid rest ih =>
    intro a
    unfold gather_signal_components
    cases agent_find_component a stream_id cid with
    | none => exact ih a
    | some sc => exact gather_step_trans (signal_candidates_step _ a) (ih _)

theorem local_candidates_map_streams (a b : NiceAgent) (f : NiceStream → NiceStream)
    (hb : b.streams = a.streams.map f)
    (h : ∀ s, ∀ y ∈ (f s).components.flatMap (fun c => c.local_candidates),
      y ∈ s.components.flatMap (fun c => c.local_candidates)) :
    ∀ c ∈ agent_local_candidates b, c ∈ agent_local_candidates a ∨ c.type = .HOST := by
  intro c hc
  unfold agent_local_candidates at hc ⊢
  rw [hb] at hc
  exact Or.inl (mem_flatMap_map f _ a.streams (fun s _ => h s) c hc)

theorem signal_gathering_done_step (a : NiceAgent) :
    GatherStep a (agent_signal_gathering_done a) := by
  refine ⟨rfl, ⟨(a.streams.filter (fun s => s.gathering)).map
    (fun s => Signal.CANDIDATE_GATHERING_DONE s.id), ?_, ?_⟩, ?_⟩
  · simp [agent_signal_gathering_done]
  · intro c hc
    simp at hc
  · exact local_candidates_map_streams a _ (fun s => { s with gathering := false }) rfl
      (fun s y hy => hy)

theorem gathering_done_filter_step (env : GatherEnv) (a b : NiceAgent)
    (f : NiceCandidate → Bool) (h1 : b.force_relay = a.force_relay)
    (h2 : b.signals = a.signals)
    (h3 : b.streams = a.streams.map (fun s =>
      if s.gathering = true then
        { s with
          components :=
            s.components.map (fun comp =>
              if env.nice_component_resolving_turn comp = true then comp
              else { comp with local_candidates := comp.local_candidates.filter f }) }
      else s)) :
    GatherStep a b := by
  refine gather_step_of_local _ _ h1 h2 (local_candidates_map_streams a b _ h3 ?_)
  intro s y hy
  split_ifs at hy
  · refine mem_flatMap_map _ _ s.components ?_ y hy
    intro comp _ z hz
    split_ifs at hz
    · exact hz
    · exact (List.mem_filter.1 hz).1
  · exact hy

theorem gathering_done_step (env : GatherEnv) (a : NiceAgent) :
    GatherStep a (agent_gathering_done env a) := by
  unfold agent_gathering_done
  simp only
  split_ifs
  · refine gather_step_trans ?_ (signal_gathering_done_step _)
    exact gathering_done_filter_step env a _ _ rfl rfl rfl
  · exact gathering_done_filter_step env a _ _ rfl rfl rfl

theorem discovery_free_step (a : NiceAgent) : GatherStep a (discovery_free a) :=
  gather_step_of_same _ _ rfl rfl rfl

theorem discovery_schedule_step (env : GatherEnv) (a b : NiceAgent)
    (h : discovery_schedule env a = some b) : GatherStep a b := by
  unfold discovery_schedule at h
  simp only at h
  split_ifs at h
  all_goals cases h
  all_goals first
    | exact gather_step_refl _
    | exact gather_step_of_same _ _ rfl rfl rfl
    | exact gather_step_trans (gather_step_of_same _ _ rfl rfl rfl) (gathering_done_step env _)

theorem discovery_prune_stream_step (a : NiceAgent) (stream_id : Nat) :
    GatherStep a (discovery_prune_stream a stream_id) := by
  unfold discovery_prune_stream
  simp only
  split_ifs
  all_goals exact gather_step_of_same _ _ rfl rfl rfl

theorem free_candidates_step (stream_id : Nat) (cids : List Nat) :
    ∀ a : NiceAgent, GatherStep a (gather_free_candidates stream_id cids a) := by
  induction cids with
  | nil => intro a; exact gather_step_refl a
  | cons cid rest ih =>
    intro a
    unfold gather_free_candidates
    refine gather_step_trans ?_ (ih _)
    refine gather_step_of_local _ _
      (update_component_fields _ _ _ _).1 (update_component_fields _ _ _ _).2 ?_
    apply local_candidates_update_component
    intro comp c hc
    cases hc

theorem gather_candidates_step (mf ml : Nat) (env : GatherEnv) (fuel : Nat)
    (agent : NiceAgent) (stream_id : Nat) (r : Bool × NiceAgent)
    (h : nice_agent_gather_candidates mf ml env fuel agent stream_id = some r) :
    GatherStep agent r.2 := by
  unfold nice_agent_gather_candidates at h
  by_cases h1 : ¬ (stream_id ≥ 1)
  · rw [if_pos h1] at h; cases h; exact gather_step_refl _
  rw [if_neg h1] at h
  cases hfind : agent_find_stream agent stream_id with
  | none => rw [hfind] at h; cases h; exact gather_step_refl _
  | some stream =>
    rw [hfind] at h
    simp only at h
    by_cases hs : stream.gathering_started = true
    · rw [if_pos hs] at h; cases h; exact gather_step_refl _
    rw [if_neg hs] at h
    generalize hst0 : (if agent.full_mode = true ∧ agent.stun_server_ip ≠ none ∧
        ¬ agent.force_relay = true then
        { agent with stun_resolving_list := stream_id :: agent.stun_resolving_list }
        else agent) = agent0 at h
    have h0 : GatherStep agent agent0 := by
      rw [← hst0]
      split_ifs
      · exact gather_step_of_same _ _ rfl rfl rfl
      · exact gather_step_refl _
    generalize hcomp : gather_components mf ml env fuel stream.id _ _ _ = res at h
    cases res with
    | none => cases h
    | some st =>
      have hc := gather_components_step _ _ _ _ _ _ _ _ _ hcomp
      simp only at hc h
      by_cases hf : st.failed = true
      · rw [if_pos hf] at h
        cases h
        exact gather_step_trans h0 (gather_step_trans hc
          (gather_step_trans (free_candidates_step _ _ _) (discovery_prune_stream_step _ _)))
      rw [if_neg hf] at h
      have hsig : GatherStep agent (gather_signal_components stream.id
          ((List.range stream.n_components).map (fun i => i + 1))
          (agent_update_stream st.agent stream.id
            (fun s => { s with gathering := true, gathering_started := true }))) := by
        refine gather_step_trans h0 (gather_step_trans hc
          (gather_step_trans ?_ (signal_components_step _ _ _)))
        exact update_stream_step _ _ _ (fun _ => rfl)
      split_ifs at h
      · cases h
        exact gather_step_trans hsig (gathering_done_step env _)
      · cases hd : discovery_schedule env (gather_signal_components stream.id
          ((List.range stream.n_components).map (fun i => i + 1))
          (agent_update_stream st.agent stream.id
            (fun s => { s with gathering := true, gathering_started := true }))) with
        | none => rw [hd] at h; cases h
        | some b =>
          rw [hd] at h
          cases h
          exact gather_step_trans hsig (discovery_schedule_step env _ _ hd)
      · cases h
        exact hsig

theorem new_candidate_signals_of_step (a b : NiceAgent) (h : GatherStep a b)
    (hf : a.force_relay = true) :
    ∀ c ∈ new_candidate_signals a b, c.type = .RELAYED := by
  obtain ⟨-, ⟨extra, hs, hr⟩, -⟩ := h
  intro c hc
  unfold new_candidate_signals at hc
  rw [hs, List.drop_left] at hc
  rw [List.mem_filterMap] at hc
  obtain ⟨sig, hsig, hsome⟩ := hc
  cases sig with
  | NEW_CANDIDATE_FULL c0 =>
    simp only [Option.some.injEq] at hsome
    subst hsome
    exact hr _ hsig hf
  | _ => simp at hsome

/-- C8, amended: when force-relay is set and `nice_agent_gather_candidates` returns,
force-relay is still set, every new-candidate signal that the call queued carries a
relayed candidate, and every candidate then stored in a `local_candidates` list was
stored there before the call or is a host candidate.  Host candidates are stored (they
are the bases of the relayed ones) and only hidden from signals. -/
theorem gather_force_relay_signals (max_foundation max_local_addresses : Nat)
    (env : GatherEnv) (fuel : Nat) (agent : NiceAgent) (stream_id : Nat)
    (r : Bool × NiceAgent) (hforce : agent.force_relay = true)
    (hret : nice_agent_gather_candidates max_foundation max_local_addresses env fuel agent
      stream_id = some r) :
    r.2.force_relay = true ∧
    (∀ c ∈ new_candidate_signals agent r.2, c.type = .RELAYED) ∧
    (∀ c ∈ agent_local_candidates r.2,
      c ∈ agent_local_candidates agent ∨ c.type = .HOST) := by
  have h := gather_candidates_step _ _ _ _ _ _ _ hret
  exact ⟨h.1.trans hforce, new_candidate_signals_of_step _ _ h hforce, h.2.2⟩

/-- C8, as stated, fails: with force-relay set, one component, no TURN server and one
local address 192.168.1.1, `nice_agent_gather_candidates` returns TRUE and force-relay is
still set, but the component's local candidates are one candidate of type host; the same
holds after `discovery_add_local_host_candidate` alone. -/
theorem force_relay_gather_stores_host :
    agent_force_relay.force_relay = true ∧
    (nice_agent_gather_candidates 33 64 gather_env_udp 10 agent_force_relay 1).map
      (fun r => (r.1, r.2.force_relay, (agent_local_candidates r.2).map (fun c => c.type))) =
      some (true, true, [NiceCandidateType.HOST]) ∧
    (agent_local_candidates (discovery_add_local_host_candidate 33 gather_env_udp
      agent_force_relay 1 1 ⟨.AF_INET, 3232235777, 0⟩ .UDP false).2.2).map (fun c => c.type) =
      [NiceCandidateType.HOST] := by
  refine ⟨rfl, ?_, ?_⟩ <;> decide

/-- The amended C8 at the agent with force-relay set and one local address: gathering
returns, and no new-candidate signal was queued for the stored host candidate. -/
theorem gather_force_relay_signals_witness :
    ∃ r, nice_agent_gather_candidates 33 64 gather_env_udp 10 agent_force_relay 1 = some r ∧
      r.2.force_relay = true ∧
      (∀ c ∈ new_candidate_signals agent_force_relay r.2, c.type = .RELAYED) ∧
      (∀ c ∈ agent_local_candidates r.2,
        c ∈ agent_local_candidates agent_force_relay ∨ c.type = .HOST) :=
  have h : nice_agent_gather_candidates 33 64 gather_env_udp 10 agent_force_relay 1 =
      some ((nice_agent_gather_candidates 33 64 gather_env_udp 10 agent_force_relay 1).getD
        (false, agent_force_relay)) := by decide
  ⟨_, h, gather_force_relay_signals 33 64 gather_env_udp 10 agent_force_relay 1 _ rfl h⟩

/-! ### Properties, streams and pair priority -/

theorem ice_flags_set_udp_blocked (agent : NiceAgent) (h : agent.use_ice_tcp = false) :
    nice_agent_set_property agent (.ICE_UDP false) = agent := by
  simp [nice_agent_set_property, h]

theorem ice_flags_set_tcp_blocked (agent : NiceAgent) (h : agent.use_ice_udp = false) :
    nice_agent_set_property agent (.ICE_TCP false) = agent := by
  simp [nice_agent_set_property, h]

/-- C15: in every agent reachable from construction by setting "compatibility" while
constructing and then "ice-udp" and "ice-tcp" in any order with any values, at least one
of `use_ice_udp` and `use_ice_tcp` is TRUE; and a set of "ice-udp" to FALSE while
`use_ice_tcp` is FALSE, or of "ice-tcp" to FALSE while `use_ice_udp` is FALSE, leaves the
agent (so both flags, as read back) unchanged. -/
theorem ice_flags_never_both_false (agent : NiceAgent) (hreach : IceFlagsReachable agent) :
    (agent.use_ice_udp = true ∨ agent.use_ice_tcp = true) ∧
    (agent.use_ice_tcp = false →
      nice_agent_set_property agent (.ICE_UDP false) = agent ∧
      nice_agent_get_ice_flags (nice_agent_set_property agent (.ICE_UDP false)) =
        nice_agent_get_ice_flags agent) ∧
    (agent.use_ice_udp = false →
      nice_agent_set_property agent (.ICE_TCP false) = agent ∧
      nice_agent_get_ice_flags (nice_agent_set_property agent (.ICE_TCP false)) =
        nice_agent_get_ice_flags agent) := by
  refine ⟨?_, ?_, ?_⟩
  · induction hreach with
    | constructed compat =>
      left
      simp only [nice_agent_set_property, nice_agent_init]
      split_ifs <;> rfl
    | set_ice_udp a value _ ih =>
      simp only [nice_agent_set_property]
      split_ifs with h
      · cases value
        · rcases h with h | h
          · exact Or.inr h
          · cases h
        · exact Or.inl rfl
      · exact ih
    | set_ice_tcp a value _ ih =>
      simp only [nice_agent_set_property]
      split_ifs with h
      · cases value
        · rcases h.2 with h | h
          · exact Or.inl h
          · cases h
        · exact Or.inr rfl
      · exact ih
  · intro h
    rw [ice_flags_set_udp_blocked agent h]
    exact ⟨rfl, rfl⟩
  · intro h
    rw [ice_flags_set_tcp_blocked agent h]
    exact ⟨rfl, rfl⟩

/-- C15 at a Google-mode agent (where "ice-tcp" is off from construction) after a set of
"ice-udp" to FALSE: the set was refused, so "ice-udp" is still on. -/
theorem ice_flags_never_both_false_witness :
    (nice_agent_set_property
      (nice_agent_set_property nice_agent_init (.COMPATIBILITY .GOOGLE))
      (.ICE_UDP false)).use_ice_udp = true ∨
    (nice_agent_set_property
      (nice_agent_set_property nice_agent_init (.COMPATIBILITY .GOOGLE))
      (.ICE_UDP false)).use_ice_tcp = true :=
  (ice_flags_never_both_false _
    (IceFlagsReachable.set_ice_udp _ false (IceFlagsReachable.constructed .GOOGLE))).1

/-- C20: after the controlling-mode property is set to `v`, the property reads back `v`;
the agent's `controlling_mode` is `v` when every component of every stream is
Disconnected, and is what it was when some component is not Disconnected. -/
theorem controlling_mode_property (agent : NiceAgent) (v : Bool) :
    nice_agent_get_controlling_mode (nice_agent_set_property agent (.CONTROLLING_MODE v)) = v ∧
    ((∀ s ∈ agent.streams, ∀ c ∈ s.components, c.state = .DISCONNECTED) →
      (nice_agent_set_property agent (.CONTROLLING_MODE v)).controlling_mode = v) ∧
    ((∃ s ∈ agent.streams, ∃ c ∈ s.components, c.state ≠ .DISCONNECTED) →
      (nice_agent_set_property agent (.CONTROLLING_MODE v)).controlling_mode =
        agent.controlling_mode) := by
  refine ⟨?_, ?_, ?_⟩
  · simp only [nice_agent_set_property, priv_update_controlling_mode,
      nice_agent_get_controlling_mode]
    split_ifs <;> rfl
  · intro hall
    simp only [nice_agent_set_property, priv_update_controlling_mode]
    have hflag : (agent.streams.all (fun stream =>
        stream.components.all (fun component =>
          !decide (component.state.toNat > NiceComponentState.DISCONNECTED.toNat)))) = true := by
      rw [List.all_eq_true]
      intro s hs
      rw [List.all_eq_true]
      intro c hc
      rw [hall s hs c hc]
      decide
    by_cases hne : agent.controlling_mode = v
    · simp [hne]
    · simp [hne, hflag]
  · rintro ⟨s, hs, c, hc, hstate⟩
    simp only [nice_agent_set_property, priv_update_controlling_mode]
    have hflag : (agent.streams.all (fun stream =>
        stream.components.all (fun component =>
          !decide (component.state.toNat > NiceComponentState.DISCONNECTED.toNat)))) = false := by
      rw [Bool.eq_false_iff]
      intro hcon
      rw [List.all_eq_true] at hcon
      have h1 := hcon s hs
      rw [List.all_eq_true] at h1
      have h2 := h1 c hc
      revert h2 hstate
      cases c.state <;> simp [NiceComponentState.toNat]
    by_cases hne : agent.controlling_mode = v
    · simp [hne]
    · simp [hne, hflag]

/-- C20 at an agent (controlling by default) whose only component is Connecting: setting
the property to FALSE reads back FALSE and leaves the role controlling. -/
theorem controlling_mode_property_witness :
    nice_agent_get_controlling_mode
      (nice_agent_set_property (agent_one_component .CONNECTING)
        (.CONTROLLING_MODE false)) = false ∧
    (nice_agent_set_property (agent_one_component .CONNECTING)
      (.CONTROLLING_MODE false)).controlling_mode =
      (agent_one_component .CONNECTING).controlling_mode :=
  ⟨(controlling_mode_property (agent_one_component .CONNECTING) false).1,
   (controlling_mode_property (agent_one_component .CONNECTING) false).2.2
     ⟨_, List.mem_cons_self _ _, _, List.mem_cons_self _ _, by decide⟩⟩

theorem stream_ids_below_counter (agent : NiceAgent) (hreach : StreamIdsReachable agent) :
    1 ≤ agent.next_stream_id ∧ agent.next_stream_id < 2 ^ 32 ∧
    ∀ s ∈ agent.streams, s.id < agent.next_stream_id := by
  induction hreach with
  | init => exact ⟨by decide, by decide, by intro s hs; cases hs⟩
  | add_stream a n _ hlt ih =>
    unfold nice_agent_add_stream
    by_cases hn : n ≥ 1
    · rw [if_neg (not_not.2 hn)]
      simp only
      rw [Nat.mod_eq_of_lt hlt]
      refine ⟨by omega, hlt, ?_⟩
      intro s hs
      rcases List.mem_append.1 hs with hs | hs
      · have := ih.2.2 s hs
        omega
      · rw [List.mem_singleton] at hs
        subst hs
        simp [nice_stream_new]
    · rw [if_pos hn]
      exact ih
  | other a b _ hcount hsub ih =>
    rw [hcount]
    refine ⟨ih.1, ih.2.1, ?_⟩
    intro s hs
    obtain ⟨t, ht, hid⟩ := hsub s hs
    rw [← hid]
    exact ih.2.2 t ht

theorem find_stream_append_new (agent : NiceAgent) (stream : NiceStream)
    (hfresh : ∀ s ∈ agent.streams, s.id ≠ stream.id) (after : NiceAgent)
    (hafter : after.streams = agent.streams ++ [stream]) :
    agent_find_stream after stream.id = some stream := by
  unfold agent_find_stream
  rw [hafter, List.find?_append]
  have hnone : List.find? (fun s => s.id == stream.id) agent.streams = none := by
    rw [List.find?_eq_none]
    intro s hs
    simpa using hfresh s hs
  rw [hnone]
  simp

/-- C16: a call of `nice_agent_add_stream` with `n_components >= 1` returns the current
value of the stream-id counter and increments the 32-bit counter by one; the counter
starts at 1.  In an agent reachable without a wrap of the counter the returned id is at
least 1, differs from the id of every stream already in the agent, and `agent_find_stream`
with that id then returns the new stream. -/
theorem add_stream_fresh_id (agent : NiceAgent) (n_components : Nat)
    (hn : n_components ≥ 1) (hreach : StreamIdsReachable agent) :
    nice_agent_init.next_stream_id = 1 ∧
    (nice_agent_add_stream agent n_components).1 = agent.next_stream_id ∧
    (nice_agent_add_stream agent n_components).2.next_stream_id =
      (agent.next_stream_id + 1) % 2 ^ 32 ∧
    1 ≤ (nice_agent_add_stream agent n_components).1 ∧
    (∀ s ∈ agent.streams, s.id ≠ (nice_agent_add_stream agent n_components).1) ∧
    agent_find_stream (nice_agent_add_stream agent n_components).2
      (nice_agent_add_stream agent n_components).1 =
      some (nice_stream_new agent.next_stream_id n_components) ∧
    (nice_agent_add_stream agent n_components).2.streams =
      agent.streams ++ [nice_stream_new agent.next_stream_id n_components] := by
  have hinv := stream_ids_below_counter agent hreach
  have hfresh : ∀ s ∈ agent.streams, s.id ≠ agent.next_stream_id := by
    intro s hs
    have := hinv.2.2 s hs
    omega
  have hres : nice_agent_add_stream agent n_components =
      (agent.next_stream_id,
        { agent with
          next_stream_id := (agent.next_stream_id + 1) % 2 ^ 32
          streams := agent.streams ++ [nice_stream_new agent.next_stream_id n_components] }) := by
    unfold nice_agent_add_stream
    rw [if_neg (by omega)]
    rfl
  rw [hres]
  refine ⟨rfl, rfl, rfl, hinv.1, hfresh, ?_, rfl⟩
  exact find_stream_append_new agent (nice_stream_new agent.next_stream_id n_components)
    hfresh _ rfl

/-- C16 on the new agent: the first call returns 1 and the stream is then found. -/
theorem add_stream_fresh_id_witness :
    (nice_agent_add_stream nice_agent_init 2).1 = nice_agent_init.next_stream_id ∧
    agent_find_stream (nice_agent_add_stream nice_agent_init 2).2
      (nice_agent_add_stream nice_agent_init 2).1 = some (nice_stream_new 1 2) :=
  ⟨(add_stream_fresh_id nice_agent_init 2 (by decide) StreamIdsReachable.init).2.1,
   (add_stream_fresh_id nice_agent_init 2 (by decide) StreamIdsReachable.init).2.2.2.2.2.1⟩

/-- C17: `agent_candidate_pair_priority` is 2^32 * min(G,D) + 2 * max(G,D) + (G > D ? 1 : 0)
with G the local and D the remote priority when the agent is controlling, and G the
remote and D the local priority otherwise; an agent in the other role that holds the
same two candidates with local and remote exchanged computes the same value. -/
theorem pair_priority_formula (agent : NiceAgent) (loc remote : NiceCandidate) :
    (agent.controlling_mode = true →
      agent_candidate_pair_priority agent loc remote =
        2 ^ 32 * min loc.priority remote.priority + 2 * max loc.priority remote.priority +
          (if loc.priority > remote.priority then 1 else 0)) ∧
    (agent.controlling_mode = false →
      agent_candidate_pair_priority agent loc remote =
        2 ^ 32 * min remote.priority loc.priority + 2 * max remote.priority loc.priority +
          (if remote.priority > loc.priority then 1 else 0)) ∧
    (∀ peer : NiceAgent, peer.controlling_mode = !agent.controlling_mode →
      agent_candidate_pair_priority peer remote loc =
        agent_candidate_pair_priority agent loc remote) := by
  refine ⟨?_, ?_, ?_⟩
  · intro h
    simp [agent_candidate_pair_priority, nice_candidate_pair_priority, h]
  · intro h
    simp [agent_candidate_pair_priority, nice_candidate_pair_priority, h]
  · intro peer hp
    unfold agent_candidate_pair_priority
    rw [hp]
    cases agent.controlling_mode <;> simp

/-- C17 at a controlling agent with local priority 100 and remote priority 7: the pair
priority is 2^32 * 7 + 2 * 100 + 1. -/
theorem pair_priority_formula_witness :
    agent_candidate_pair_priority (agent_one_component .CONNECTING)
      { host_candidate_udp with priority := 100 }
      { host_candidate_udp with priority := 7 } = 2 ^ 32 * 7 + 2 * 100 + 1 :=
  (pair_priority_formula (agent_one_component .CONNECTING)
    { host_candidate_udp with priority := 100 }
    { host_candidate_udp with priority := 7 }).1 rfl

theorem find_update_first {α : Type} (p : α → Bool) (f : α → α)
    (hp : ∀ x, p x = true → p (f x) = true) (l : List α) :
    (update_first p f l).find? p = (l.find? p).map f := by
  induction l with
  | nil => rfl
  | cons x xs ih =>
    unfold update_first
    by_cases hx : p x = true
    · simp [hx, hp x hx]
    · simp [hx, ih]

theorem find_component_update (agent : NiceAgent) (stream_id component_id : Nat)
    (f : NiceComponent → NiceComponent) (hid : ∀ c, (f c).id = c.id)
    (s : NiceStream) (c : NiceComponent)
    (hfind : agent_find_component agent stream_id component_id = some (s, c)) :
    ∃ s', agent_find_component (agent_update_component agent stream_id component_id f)
      stream_id component_id = some (s', f c) := by
  unfold agent_find_component agent_find_stream at hfind ⊢
  unfold agent_update_component
  simp only
  rw [find_update_first]
  · cases hs : List.find? (fun s => s.id == stream_id) agent.streams with
    | none => rw [hs] at hfind; cases hfind
    | some s0 =>
      rw [hs] at hfind
      simp only [Option.map_some'] at hfind ⊢
      unfold nice_stream_find_component_by_id at hfind ⊢
      simp only
      rw [find_update_first]
      · cases hc : List.find? (fun c => c.id == component_id) s0.components with
        | none => rw [hc] at hfind; cases hfind
        | some c0 =>
          rw [hc] at hfind
          simp only [Option.some.injEq, Prod.mk.injEq] at hfind
          obtain ⟨-, rfl⟩ := hfind
          exact ⟨_, rfl⟩
      · intro x hx
        rw [hid]
        exact hx
  · intro x hx
    exact hx

/-- C18: for an existing component in a state other than Failed, the validity assertion
of `agent_signal_component_state_change (..., Failed)` passes, the call returns, the
component's state is Failed afterwards and exactly one signal, component-state-changed
carrying Failed, was queued; and a request for the state the component already has
(Failed to Failed included) returns the agent unchanged, with no signal queued. -/
theorem state_change_to_failed (agent : NiceAgent) (stream_id component_id : Nat)
    (s : NiceStream) (c : NiceComponent)
    (hfind : agent_find_component agent stream_id component_id = some (s, c)) :
    (c.state ≠ .FAILED →
      valid_state_transition c.state .FAILED = true ∧
      ∃ after, agent_signal_component_state_change agent stream_id component_id .FAILED =
          some after ∧
        (∃ s' c', agent_find_component after stream_id component_id = some (s', c') ∧
          c'.state = .FAILED) ∧
        after.signals =
          agent.signals ++ [Signal.COMPONENT_STATE_CHANGED stream_id component_id .FAILED]) ∧
    agent_signal_component_state_change agent stream_id component_id c.state = some agent := by
  constructor
  · intro hne
    have hres : agent_signal_component_state_change agent stream_id component_id .FAILED =
        some (agent_queue_signal
          (agent_update_component agent stream_id component_id
            (fun c => { c with state := .FAILED }))
          (Signal.COMPONENT_STATE_CHANGED stream_id component_id .FAILED)) := by
      unfold agent_signal_component_state_change
      rw [if_neg (by decide), hfind]
      simp only
      rw [if_neg (fun h => hne h.symm)]
      simp [valid_state_transition]
    refine ⟨by simp [valid_state_transition], _, hres, ?_, rfl⟩
    obtain ⟨s', hs'⟩ := find_component_update agent stream_id component_id
      (fun c => { c with state := .FAILED }) (fun _ => rfl) s c hfind
    exact ⟨s', _, hs', rfl⟩
  · unfold agent_signal_component_state_change
    by_cases hlast : c.state.toNat < NiceComponentState.LAST.toNat
    · rw [if_neg (not_not.2 hlast), hfind]
      simp
    · rw [if_pos hlast]

/-- C18 at the agent with one Connecting component: the change to Failed is made and
signalled. -/
theorem state_change_to_failed_witness :
    ∃ after, agent_signal_component_state_change (agent_one_component .CONNECTING) 1 1
        .FAILED = some after ∧
      (∃ s' c', agent_find_component after 1 1 = some (s', c') ∧ c'.state = .FAILED) ∧
      after.signals = (agent_one_component .CONNECTING).signals ++
        [Signal.COMPONENT_STATE_CHANGED 1 1 .FAILED] :=
  ((state_change_to_failed (agent_one_component .CONNECTING) 1 1 _ _ rfl).1
    (by decide)).2

/-! ### Calls that name no stream or component; sending; the TURN server list -/

theorem find_component_none_of_stream (agent : NiceAgent) (stream_id component_id : Nat)
    (h : agent_find_stream agent stream_id = none) :
    agent_find_component agent stream_id component_id = none := by
  simp [agent_find_component, h]

/-- C11, as stated, fails: component 1 of stream 0 does not exist in the agent with the
single stream 1, and `nice_agent_set_remote_candidates` returns 0 for it (its argument
check `stream_id >= 1` returns 0), not -1. -/
theorem set_remote_candidates_stream_zero_returns_zero :
    agent_find_component (agent_one_component .DISCONNECTED) 0 1 = none ∧
    nice_agent_set_remote_candidates 33 conncheck_idle (agent_one_component .DISCONNECTED)
      0 1 remote_host_and_srflx = (0, agent_one_component .DISCONNECTED) := by
  constructor <;> decide

/-- C11, amended: when the ids name no existing component,
`nice_agent_set_remote_candidates` returns -1 if both ids are at least 1 and 0 otherwise,
`nice_agent_set_relay_info` returns FALSE, and `nice_agent_send`,
`nice_agent_send_messages_nonblocking` and the function behind them return -1 and hand
nothing to a socket; when the stream id names no existing stream,
`nice_agent_gather_candidates` returns FALSE.  In each case the agent is unchanged. -/
theorem missing_component_fails_unchanged (agent : NiceAgent) (stream_id component_id : Nat)
    (hfind : agent_find_component agent stream_id component_id = none) :
    (∀ max_foundation cc candidates,
      nice_agent_set_remote_candidates max_foundation cc agent stream_id component_id
        candidates = (if stream_id ≥ 1 ∧ component_id ≥ 1 then -1 else 0, agent)) ∧
    (∀ max_turn_servers env server_ip server_port username password type,
      nice_agent_set_relay_info max_turn_servers env agent stream_id component_id server_ip
        server_port username password type = some (false, agent)) ∧
    (∀ env messages allow_partial, (messages.length = 1 ∨ allow_partial = false) →
      nice_agent_send_messages_nonblocking_internal env agent stream_id component_id
        messages allow_partial = some ⟨-1, some .BROKEN_PIPE, [], agent⟩) ∧
    (∀ env len buf, ∃ error,
      nice_agent_send env agent stream_id component_id len buf =
        some ⟨-1, error, [], agent⟩) ∧
    (∀ env messages cancelled, ∃ error,
      nice_agent_send_messages_nonblocking env agent stream_id component_id messages
        cancelled = some ⟨-1, error, [], agent⟩) ∧
    (agent_find_stream agent stream_id = none →
      ∀ max_foundation max_local_addresses env fuel,
        nice_agent_gather_candidates max_foundation max_local_addresses env fuel agent
          stream_id = some (false, agent)) := by
  have hinternal : ∀ (env : SendEnv) (messages : List NiceOutputMessage)
      ( allow_partial : Bool), (messages.length = 1 ∨ allow_partial = false) →
      nice_agent_send_messages_nonblocking_internal env agent stream_id component_id
        messages allow_partial = some ⟨-1, some .BROKEN_PIPE, [], agent⟩ := by
    intro env messages allow_partial hm
    unfold nice_agent_send_messages_nonblocking_internal
    rw [if_neg (not_not.2 hm), hfind]
    simp [send_assertions]
  refine ⟨?_, ?_, hinternal, ?_, ?_, ?_⟩
  · intro mf cc candidates
    unfold nice_agent_set_remote_candidates
    by_cases hs : stream_id ≥ 1
    · by_cases hc : component_id ≥ 1
      · rw [if_neg (not_not.2 hs), if_neg (not_not.2 hc), hfind, if_pos ⟨hs, hc⟩]
      · rw [if_neg (not_not.2 hs), if_pos hc, if_neg (fun h => hc h.2)]
    · rw [if_pos hs, if_neg (fun h => hs h.1)]
  · intro mt env server_ip server_port username password type
    unfold nice_agent_set_relay_info
    by_cases hs : stream_id ≥ 1
    · by_cases hc : component_id ≥ 1
      · rw [if_neg (not_not.2 hs), if_neg (not_not.2 hc)]
        cases server_ip <;> cases username <;> cases password <;> simp [hfind]
      · rw [if_neg (not_not.2 hs), if_pos hc]
    · rw [if_pos hs]
  · intro env len buf
    unfold nice_agent_send
    by_cases hs : stream_id ≥ 1
    · by_cases hc : component_id ≥ 1
      · by_cases hb : buf = 0
        · rw [if_neg (not_not.2 hs), if_neg (not_not.2 hc), if_pos hb]
          exact ⟨_, rfl⟩
        · rw [if_neg (not_not.2 hs), if_neg (not_not.2 hc), if_neg hb]
          exact ⟨_, hinternal env _ true (Or.inl rfl)⟩
      · rw [if_neg (not_not.2 hs), if_pos hc]
        exact ⟨_, rfl⟩
    · rw [if_pos hs]
      exact ⟨_, rfl⟩
  · intro env messages cancelled
    unfold nice_agent_send_messages_nonblocking
    by_cases hs : stream_id ≥ 1
    · by_cases hc : component_id ≥ 1
      · by_cases hb : cancelled = true
        · rw [if_neg (not_not.2 hs), if_neg (not_not.2 hc), if_pos hb]
          exact ⟨_, rfl⟩
        · rw [if_neg (not_not.2 hs), if_neg (not_not.2 hc), if_neg hb]
          exact ⟨_, hinternal env _ false (Or.inr rfl)⟩
      · rw [if_neg (not_not.2 hs), if_pos hc]
        exact ⟨_, rfl⟩
    · rw [if_pos hs]
      exact ⟨_, rfl⟩
  · intro hstream mf ml env fuel
    unfold nice_agent_gather_candidates
    by_cases hs : stream_id ≥ 1
    · rw [if_neg (not_not.2 hs), hstream]
    · rw [if_pos hs]

/-- The amended C11 at component 3 of stream 2 of the agent with the single stream 1:
the four calls fail and leave the agent as it was. -/
theorem missing_component_fails_unchanged_witness :
    nice_agent_set_remote_candidates 33 conncheck_idle (agent_one_component .DISCONNECTED)
      2 3 remote_host_and_srflx = (-1, agent_one_component .DISCONNECTED) ∧
    nice_agent_set_relay_info 8 relay_env_names (agent_one_component .DISCONNECTED) 2 3
      (some ['t']) 3478 (some ['u']) (some ['p']) .TURN_UDP =
      some (false, agent_one_component .DISCONNECTED) ∧
    nice_agent_gather_candidates 33 64 gather_env_udp 10 (agent_one_component .DISCONNECTED)
      2 = some (false, agent_one_component .DISCONNECTED) :=
  ⟨(missing_component_fails_unchanged (agent_one_component .DISCONNECTED) 2 3 rfl).1
      33 conncheck_idle remote_host_and_srflx,
   (missing_component_fails_unchanged (agent_one_component .DISCONNECTED) 2 3 rfl).2.1
      8 relay_env_names (some ['t']) 3478 (some ['u']) (some ['p']) .TURN_UDP,
   (missing_component_fails_unchanged (agent_one_component .DISCONNECTED) 2 3
      rfl).2.2.2.2.2 rfl 33 64 gather_env_udp 10⟩

theorem send_checked_assertions (messages : List NiceOutputMessage) ( allow_partial : Bool)
    (result : Option SendResult) (r : SendResult)
    (h : (match result with
      | none => none
      | some r => if send_assertions messages allow_partial r then some r else none) =
      some r) :
    send_assertions messages allow_partial r = true := by
  cases result with
  | none => cases h
  | some r0 =>
    simp only at h
    by_cases ha : send_assertions messages allow_partial r0 = true
    · rw [if_pos ha] at h
      cases h
      exact ha
    · rw [if_neg ha] at h
      cases h

theorem send_internal_assertions (env : SendEnv) (agent : NiceAgent)
    (stream_id component_id : Nat) (messages : List NiceOutputMessage)
    ( allow_partial : Bool) (r : SendResult)
    (h : nice_agent_send_messages_nonblocking_internal env agent stream_id component_id
      messages allow_partial = some r) :
    send_assertions messages allow_partial r = true := by
  unfold nice_agent_send_messages_nonblocking_internal at h
  by_cases hm : messages.length = 1 ∨ allow_partial = false
  · rw [if_neg (not_not.2 hm)] at h
    exact send_checked_assertions messages allow_partial _ r h
  · rw [if_pos hm] at h
    cases h

theorem send_result_of_assertions (messages : List NiceOutputMessage) ( allow_partial : Bool)
    (r : SendResult) (h : send_assertions messages allow_partial r = true) :
    r.n_sent ≠ 0 ∧ (r.n_sent = -1 ↔ r.error.isSome = true) := by
  unfold send_assertions at h
  simp only [Bool.and_eq_true, beq_iff_eq, decide_eq_true_eq] at h
  refine ⟨h.1.2, ?_⟩
  rw [h.1.1]
  simp

theorem send_internal_without_consent (env : SendEnv) (agent : NiceAgent)
    (stream_id component_id : Nat) (s : NiceStream) (c : NiceComponent)
    (hfind : agent_find_component agent stream_id component_id = some (s, c))
    (hpair : c.selected_pair_local ≠ none) (hconsent : c.remote_consent_have = false)
    (messages : List NiceOutputMessage) ( allow_partial : Bool)
    (hm : messages.length = 1 ∨ allow_partial = false) :
    nice_agent_send_messages_nonblocking_internal env agent stream_id component_id
      messages allow_partial = some ⟨-1, some .PERMISSION_DENIED, [], agent⟩ := by
  unfold nice_agent_send_messages_nonblocking_internal
  rw [if_neg (not_not.2 hm), hfind]
  simp only
  rw [if_pos ⟨hpair, hconsent⟩]
  simp [send_assertions]

/-- C12, as stated, fails: on a component with a selected pair and no remote consent,
`nice_agent_send_messages_nonblocking` called with a cancelled cancellable returns -1
with the error Cancelled, not Permission-denied. -/
theorem send_cancelled_without_consent_is_cancelled :
    nice_agent_send_messages_nonblocking send_env_accepting (agent_selected_pair false) 1 1
      [[⟨1000, 5⟩]] true =
      some ⟨-1, some .CANCELLED, [], agent_selected_pair false⟩ := by
  decide

/-- C12, amended: on a component with a selected pair whose remote consent is not held,
the function behind both sends returns -1 with the error Permission-denied, hands
nothing to a socket or to pseudo-TCP and leaves the agent unchanged; so do
`nice_agent_send` (ids at least 1, buffer not NULL) and
`nice_agent_send_messages_nonblocking` (ids at least 1, cancellable not cancelled), while
a cancelled cancellable gives -1 with the error Cancelled.  On any component, a send
that returns never returns 0; the function behind both returns -1 exactly when an error
is set, and the two sends set an error only when they return -1. -/
theorem send_without_consent (env : SendEnv) (agent : NiceAgent)
    (stream_id component_id : Nat) (hs : stream_id ≥ 1) (hc : component_id ≥ 1) :
    (∀ s c, agent_find_component agent stream_id component_id = some (s, c) →
      c.selected_pair_local ≠ none → c.remote_consent_have = false →
      (∀ messages allow_partial, (messages.length = 1 ∨ allow_partial = false) →
        nice_agent_send_messages_nonblocking_internal env agent stream_id component_id
          messages allow_partial = some ⟨-1, some .PERMISSION_DENIED, [], agent⟩) ∧
      (∀ len buf, buf ≠ 0 →
        nice_agent_send env agent stream_id component_id len buf =
          some ⟨-1, some .PERMISSION_DENIED, [], agent⟩) ∧
      (∀ messages,
        nice_agent_send_messages_nonblocking env agent stream_id component_id messages
          false = some ⟨-1, some .PERMISSION_DENIED, [], agent⟩ ∧
        nice_agent_send_messages_nonblocking env agent stream_id component_id messages
          true = some ⟨-1, some .CANCELLED, [], agent⟩)) ∧
    (∀ messages allow_partial r,
      nice_agent_send_messages_nonblocking_internal env agent stream_id component_id
        messages allow_partial = some r →
      r.n_sent ≠ 0 ∧ (r.n_sent = -1 ↔ r.error.isSome = true)) ∧
    (∀ len buf r, nice_agent_send env agent stream_id component_id len buf = some r →
      r.n_sent ≠ 0 ∧ (r.error.isSome = true → r.n_sent = -1) ∧
      (buf ≠ 0 → r.n_sent = -1 → r.error.isSome = true)) ∧
    (∀ messages cancelled r,
      nice_agent_send_messages_nonblocking env agent stream_id component_id messages
        cancelled = some r →
      r.n_sent ≠ 0 ∧ (r.n_sent = -1 ↔ r.error.isSome = true)) := by
  have hgen : ∀ (messages : List NiceOutputMessage) ( allow_partial : Bool) (r : SendResult),
      nice_agent_send_messages_nonblocking_internal env agent stream_id component_id
        messages allow_partial = some r →
      r.n_sent ≠ 0 ∧ (r.n_sent = -1 ↔ r.error.isSome = true) := by
    intro messages allow_partial r h
    exact send_result_of_assertions messages allow_partial r
      (send_internal_assertions env agent stream_id component_id messages allow_partial r h)
  refine ⟨?_, hgen, ?_, ?_⟩
  · intro s c hfind hpair hconsent
    have hint := send_internal_without_consent env agent stream_id component_id s c hfind
      hpair hconsent
    refine ⟨hint, ?_, ?_⟩
    · intro len buf hbuf
      unfold nice_agent_send
      rw [if_neg (not_not.2 hs), if_neg (not_not.2 hc), if_neg hbuf]
      exact hint _ true (Or.inl rfl)
    · intro messages
      unfold nice_agent_send_messages_nonblocking
      rw [if_neg (not_not.2 hs), if_neg (not_not.2 hc), if_neg (not_not.2 hs),
        if_neg (not_not.2 hc)]
      exact ⟨hint _ false (Or.inr rfl), rfl⟩
  · intro len buf r h
    unfold nice_agent_send at h
    rw [if_neg (not_not.2 hs), if_neg (not_not.2 hc)] at h
    by_cases hb : buf = 0
    · rw [if_pos hb] at h
      cases h
      exact ⟨by simp, fun _ => rfl, fun hne => absurd hb hne⟩
    · rw [if_neg hb] at h
      have := hgen _ _ r h
      exact ⟨this.1, this.2.2, fun _ => this.2.1⟩
  · intro messages cancelled r h
    unfold nice_agent_send_messages_nonblocking at h
    rw [if_neg (not_not.2 hs), if_neg (not_not.2 hc)] at h
    by_cases hb : cancelled = true
    · rw [if_pos hb] at h
      cases h
      exact ⟨by simp, by simp⟩
    · rw [if_neg hb] at h
      exact hgen _ _ r h

/-- The amended C12 at the agent whose Ready component has a selected pair and no remote
consent: `nice_agent_send` of 5 bytes returns -1 with Permission-denied and hands nothing
to the socket. -/
theorem send_without_consent_witness :
    nice_agent_send send_env_accepting (agent_selected_pair false) 1 1 5 1000 =
      some ⟨-1, some .PERMISSION_DENIED, [], agent_selected_pair false⟩ :=
  ((send_without_consent send_env_accepting (agent_selected_pair false) 1 1 (by decide)
    (by decide)).1 _ _ rfl (by decide) rfl).2.1 5 1000 (by decide)

/-! ### The TURN server list -/

/-- C14 (code defect): with the cap 8, eight calls of `nice_agent_set_relay_info` fill
the TURN server list of a component and a ninth call is refused, leaving the agent
unchanged; then `turn_server_resolved_cb` for the eighth server, resolved to two IPv4
addresses, appends a copy without looking at the cap, so the list holds 9 servers; and
as the cap is tested with `==`, a further `nice_agent_set_relay_info` is then accepted
and the list holds 10. -/
theorem turn_server_list_exceeds_cap :
    (set_relay_info_ports 8 relay_env_names [1, 2, 3, 4, 5, 6, 7, 8]
      (agent_one_component .DISCONNECTED)).map
      (fun r => (r.1, (turn_servers_of r.2 1 1).length)) =
      some ([true, true, true, true, true, true, true, true], 8) ∧
    (turn_servers_of agent_eight_turn_servers 1 1).length = 8 ∧
    nice_agent_set_relay_info 8 relay_env_names agent_eight_turn_servers 1 1 (some ['t']) 9
      (some ['u']) (some ['p']) .TURN_UDP = some (false, agent_eight_turn_servers) ∧
    (turn_server_resolved_cb relay_env_names agent_eight_turn_servers 1 1 8
      [.IPV4 167772161, .IPV4 167772162]).map
      (fun a => (turn_servers_of a 1 1).map (fun t => (t.handle, t.server.ip))) =
      some [(1, 0), (2, 0), (3, 0), (4, 0), (5, 0), (6, 0), (7, 0), (8, 167772161),
        (1008, 167772162)] ∧
    ((turn_server_resolved_cb relay_env_names agent_eight_turn_servers 1 1 8
      [.IPV4 167772161, .IPV4 167772162]).bind
      (fun a => nice_agent_set_relay_info 8 relay_env_names a 1 1 (some ['t']) 9
        (some ['u']) (some ['p']) .TURN_UDP)).map
      (fun r => (r.1, (turn_servers_of r.2 1 1).length)) = some (true, 10) := by
  refine ⟨?_, ?_, ?_, ?_, ?_⟩ <;> decide

/-! ### What gathering keeps: transports, stream ids and flags -/

theorem gather_adds_refl (Q : NiceCandidate → Prop) (a : NiceAgent) : GatherAdds Q a a :=
  ⟨rfl, rfl, rfl, fun _ h => Or.inl h⟩

theorem gather_adds_trans {Q : NiceCandidate → Prop} {a b c : NiceAgent}
    (h1 : GatherAdds Q a b) (h2 : GatherAdds Q b c) : GatherAdds Q a c := by
  obtain ⟨u1, t1, s1, l1⟩ := h1
  obtain ⟨u2, t2, s2, l2⟩ := h2
  refine ⟨u2.trans u1, t2.trans t1, s2.trans s1, ?_⟩
  intro x hx
  rcases l2 x hx with hx | hx
  · exact l1 x hx
  · exact Or.inr hx

theorem gather_adds_mono {Q R : NiceCandidate → Prop} {a b : NiceAgent}
    (hQR : ∀ c, Q c → R c) (h : GatherAdds Q a b) : GatherAdds R a b :=
  ⟨h.1, h.2.1, h.2.2.1, fun c hc => (h.2.2.2 c hc).imp id (hQR c)⟩

theorem map_update_first {α β : Type} (p : α → Bool) (f : α → α) (g : α → β)
    (hg : ∀ x, g (f x) = g x) (l : List α) :
    (update_first p f l).map g = l.map g := by
  induction l with
  | nil => rfl
  | cons x xs ih =>
    unfold update_first
    split_ifs
    · simp [hg]
    · simp [ih]

theorem gather_adds_of_same (Q : NiceCandidate → Prop) (a b : NiceAgent)
    (h1 : b.use_ice_udp = a.use_ice_udp) (h2 : b.use_ice_tcp = a.use_ice_tcp)
    (h3 : b.streams = a.streams) : GatherAdds Q a b := by
  refine ⟨h1, h2, by rw [h3], ?_⟩
  intro c hc
  unfold agent_local_candidates at *
  rw [h3] at hc
  exact Or.inl hc

theorem gather_adds_update_component (Q : NiceCandidate → Prop) (a : NiceAgent)
    (stream_id component_id : Nat) (f : NiceComponent → NiceComponent)
    (h : ∀ comp, ∀ c ∈ (f comp).local_candidates, c ∈ comp.local_candidates ∨ Q c) :
    GatherAdds Q a (agent_update_component a stream_id component_id f) := by
  refine ⟨rfl, rfl, ?_, local_candidates_update_component a stream_id component_id f Q h⟩
  unfold agent_update_component
  simp only
  apply map_update_first
  intro s
  rfl

theorem gather_adds_update_stream (Q : NiceCandidate → Prop) (a : NiceAgent)
    (stream_id : Nat) (f : NiceStream → NiceStream)
    (hid : ∀ s, (f s).id = s.id) (hc : ∀ s, (f s).components = s.components) :
    GatherAdds Q a (agent_update_stream a stream_id f) := by
  refine ⟨rfl, rfl, ?_, ?_⟩
  · unfold agent_update_stream
    simp only
    exact map_update_first _ _ _ hid _
  · unfold agent_local_candidates agent_update_stream
    simp only
    apply mem_flatMap_update_first
    intro s _ y hy
    rw [hc s] at hy
    exact Or.inl hy

theorem assign_foundation_flags (mf : Nat) (a : NiceAgent) (c : NiceCandidate) :
    (priv_assign_foundation mf a c).2.use_ice_udp = a.use_ice_udp ∧
    (priv_assign_foundation mf a c).2.use_ice_tcp = a.use_ice_tcp := by
  unfold priv_assign_foundation
  split <;> simp

theorem credentials_transport (env : GatherEnv) (a : NiceAgent) (c : NiceCandidate) :
    (priv_generate_candidate_credentials env a c).transport = c.transport := by
  unfold priv_generate_candidate_credentials
  split_ifs <;> rfl

theorem host_candidate_store_adds (a : NiceAgent) (stream_id component_id : Nat)
    (candidate : NiceCandidate) (nicesock : NiceSocket) (accept_duplicate : Bool) :
    GatherAdds (fun c => c.transport = candidate.transport) a
      (host_candidate_store a stream_id component_id candidate nicesock
        accept_duplicate).2.2 := by
  unfold host_candidate_store
  simp only
  split_ifs
  · exact gather_adds_refl _ a
  · cases hfind : agent_find_component a stream_id component_id with
    | none => exact gather_adds_refl _ a
    | some sc =>
      simp only
      split_ifs
      · apply gather_adds_update_component
        intro comp c hc
        rcases pruned_local_candidates comp _ with h | h
        · rw [h] at hc; exact Or.inl hc
        · rw [h] at hc
          rcases List.mem_append.1 hc with hc | hc
          · exact Or.inl hc
          · rw [List.mem_singleton.1 hc]
            exact Or.inr rfl
      · exact gather_adds_refl _ a

theorem add_local_host_candidate_adds (mf : Nat) (env : GatherEnv) (a : NiceAgent)
    (stream_id component_id : Nat) (address : NiceAddress)
    (transport : NiceCandidateTransport) (accept_duplicate : Bool) :
    GatherAdds (fun c => c.transport = transport) a
      (discovery_add_local_host_candidate mf env a stream_id component_id address
        transport accept_duplicate).2.2 := by
  unfold discovery_add_local_host_candidate
  cases hfind : agent_find_component a stream_id component_id with
  | none => exact gather_adds_refl _ a
  | some sc =>
    simp only
    have htr0 : (host_candidate_new env a stream_id component_id address
        transport).transport = transport := by
      unfold host_candidate_new
      simp only [credentials_transport]
    obtain ⟨-, t1, -, -, -, g3, -⟩ := assign_foundation_fields mf a
      (host_candidate_new env a stream_id component_id address transport)
    obtain ⟨g1, g2⟩ := assign_foundation_flags mf a
      (host_candidate_new env a stream_id component_id address transport)
    have hbase : GatherAdds (fun c => c.transport = transport) a (priv_assign_foundation mf a
        (host_candidate_new env a stream_id component_id address transport)).2 :=
      gather_adds_of_same _ _ _ g1 g2 g3
    cases host_socket_new env address transport with
    | error e => cases e <;> exact hbase
    | ok nicesock =>
      refine gather_adds_trans hbase ?_
      have := host_candidate_store_adds (priv_assign_foundation mf a
        (host_candidate_new env a stream_id component_id address transport)).2
        stream_id component_id (priv_assign_foundation mf a
        (host_candidate_new env a stream_id component_id address transport)).1 nicesock
        accept_duplicate
      rw [t1, htr0] at this
      exact this

theorem add_discovery_turn_adds (Q : NiceCandidate → Prop) (env : GatherEnv) (a : NiceAgent)
    (nicesock : NiceSocket) (turn : TurnServer) (stream_id component_id : Nat)
    (turn_tcp : Bool) :
    GatherAdds Q a (priv_add_new_candidate_discovery_turn env a nicesock turn stream_id
      component_id turn_tcp) := by
  unfold priv_add_new_candidate_discovery_turn
  simp only
  split
  · exact gather_adds_refl _ a
  · exact gather_adds_of_same _ _ _ rfl rfl rfl

theorem gather_turn_servers_adds (Q : NiceCandidate → Prop) (env : GatherEnv)
    (stream_id cid : Nat) (host_candidate : NiceCandidate) (nicesock : NiceSocket)
    (turns : List TurnServer) :
    ∀ st : GatherState,
      GatherAdds Q st.agent
        (gather_turn_servers env stream_id cid host_candidate nicesock turns st).agent := by
  induction turns with
  | nil => intro st; exact gather_adds_refl _ _
  | cons turn rest ih =>
    intro st
    unfold gather_turn_servers
    split_ifs
    all_goals first
      | exact ih _
      | exact gather_adds_trans (add_discovery_turn_adds Q _ _ _ _ _ _ _) (ih _)

theorem gather_port_loop_adds (mf : Nat) (env : GatherEnv) (stream_id cid : Nat)
    (addr : NiceAddress) (transport : NiceCandidateTransport)
    (min_port max_port start_port : Nat) (fuel : Nat) :
    ∀ (a : NiceAgent) (current_port : Nat) (accept_duplicate : Bool)
      (r : HostCandidateResult × Option NiceCandidate × NiceAgent),
      gather_port_loop mf env stream_id cid addr transport min_port max_port start_port fuel
        a current_port accept_duplicate = some r →
      GatherAdds (fun c => c.transport = transport) a r.2.2 := by
  induction fuel with
  | zero => intro a cp ad r h; cases h
  | succ fuel ih =>
    intro a cp ad r h
    unfold gather_port_loop at h
    simp only at h
    have hstep := add_local_host_candidate_adds mf env a stream_id cid
      (nice_address_set_port addr cp) transport ad
    split_ifs at h
    all_goals first
      | (cases h; exact hstep)
      | exact gather_adds_trans hstep (ih _ _ _ _ h)

theorem gather_host_candidate_adds (mf : Nat) (env : GatherEnv) (fuel : Nat)
    (stream_id cid : Nat) (addr : NiceAddress) (transport : NiceCandidateTransport)
    (st st' : GatherState)
    (h : gather_host_candidate mf env fuel stream_id cid addr transport st = some st') :
    GatherAdds (fun c => c.transport = transport) st.agent st'.agent := by
  unfold gather_host_candidate at h
  cases hfind : agent_find_component st.agent stream_id cid with
  | none =>
    rw [hfind] at h
    cases h
    exact gather_adds_refl _ _
  | some sc =>
    rw [hfind] at h
    simp only at h
    generalize hloop : gather_port_loop mf env stream_id cid addr transport sc.2.min_port
      sc.2.max_port _ fuel st.agent _ false = loop at h
    cases loop with
    | none => cases h
    | some r =>
      have hstep := gather_port_loop_adds mf env stream_id cid addr transport _ _ _ fuel _ _ _ r
        hloop
      simp only at h
      split_ifs at h
      · cases h; exact hstep
      · cases h; exact hstep
      · cases hout : r.2.1 with
        | none =>
          rw [hout] at h
          cases h
          exact hstep
        | some host_candidate =>
          rw [hout] at h
          simp only at h
          split at h
          · cases h
            exact gather_adds_trans hstep (gather_turn_servers_adds _ _ _ _ _ _ _ _)
          · cases h; exact hstep
      · cases hout : r.2.1 with
        | none =>
          rw [hout] at h
          cases h
          exact hstep
        | some host_candidate =>
          rw [hout] at h
          simp only at h
          split at h
          · cases h; exact hstep
          · cases h; exact hstep

theorem gather_add_types_adds (mf : Nat) (env : GatherEnv) (fuel : Nat)
    (stream_id cid : Nat) (addr : NiceAddress) (transports : List NiceCandidateTransport) :
    ∀ st st' : GatherState,
      gather_add_types mf env fuel stream_id cid addr transports st = some st' →
      GatherAdds (fun c => st.agent.use_ice_udp = false → c.transport ≠ .UDP)
        st.agent st'.agent := by
  induction transports with
  | nil =>
    intro st st' h
    rw [gather_add_types] at h
    cases h
    exact gather_adds_refl _ _
  | cons transport rest ih =>
    intro st st' h
    unfold gather_add_types at h
    by_cases hf : st.failed = true
    · rw [if_pos hf] at h
      cases h
      exact gather_adds_refl _ _
    rw [if_neg hf] at h
    by_cases hskip : (st.agent.use_ice_udp = false ∧ transport = .UDP) ∨
        (st.agent.use_ice_tcp = false ∧ transport ≠ .UDP)
    · rw [if_pos hskip] at h
      exact ih _ _ h
    rw [if_neg hskip] at h
    cases hone : gather_host_candidate mf env fuel stream_id cid addr transport st with
    | none => rw [hone] at h; cases h
    | some st1 =>
      rw [hone] at h
      have h1 := gather_host_candidate_adds _ _ _ _ _ _ _ _ _ hone
      have h2 := ih _ _ h
      rw [h1.1] at h2
      refine gather_adds_trans (gather_adds_mono ?_ h1) h2
      intro c hc hu hudp
      rw [hc] at hudp
      exact hskip (Or.inl ⟨hu, hudp⟩)

theorem gather_addresses_adds (mf ml : Nat) (env : GatherEnv) (fuel : Nat)
    (stream_id cid : Nat) (addrs : List NiceAddress) :
    ∀ (length : Nat) (st st' : GatherState),
      gather_addresses mf ml env fuel stream_id cid addrs length st = some st' →
      GatherAdds (fun c => st.agent.use_ice_udp = false → c.transport ≠ .UDP)
        st.agent st'.agent := by
  induction addrs with
  | nil =>
    intro length st st' h
    rw [gather_addresses] at h
    cases h
    exact gather_adds_refl _ _
  | cons addr rest ih =>
    intro length st st' h
    unfold gather_addresses at h
    by_cases hf : st.failed = true
    · rw [if_pos hf] at h
      cases h
      exact gather_adds_refl _ _
    rw [if_neg hf] at h
    by_cases hl : ¬ (length < ml)
    · rw [if_pos hl] at h
      cases h
      exact gather_adds_refl _ _
    rw [if_neg hl] at h
    cases hone : gather_add_types mf env fuel stream_id cid addr
        [.UDP, .TCP_ACTIVE, .TCP_PASSIVE] st with
    | none => rw [hone] at h; cases h
    | some st1 =>
      rw [hone] at h
      have h1 := gather_add_types_adds _ _ _ _ _ _ _ _ _ hone
      have h2 := ih _ _ _ h
      rw [h1.1] at h2
      exact gather_adds_trans h1 h2

theorem state_change_adds (Q : NiceCandidate → Prop) (a b : NiceAgent)
    (stream_id component_id : Nat) (new_state : NiceComponentState)
    (h : agent_signal_component_state_change a stream_id component_id new_state = some b) :
    GatherAdds Q a b := by
  unfold agent_signal_component_state_change at h
  cases hfind : agent_find_component a stream_id component_id with
  | none =>
    rw [hfind] at h
    split_ifs at h <;> cases h <;> exact gather_adds_refl _ _
  | some sc =>
    rw [hfind] at h
    simp only at h
    split_ifs at h
    all_goals cases h
    all_goals first
      | exact gather_adds_refl _ _
      | skip
    have hupd := gather_adds_update_component Q a stream_id component_id
      (fun c => { c with state := new_state }) (fun comp c hc => Or.inl hc)
    exact ⟨hupd.1, hupd.2.1, hupd.2.2.1, hupd.2.2.2⟩

theorem gather_components_adds (mf ml : Nat) (env : GatherEnv) (fuel : Nat)
    (stream_id : Nat) (local_addresses : List NiceAddress) (cids : List Nat) :
    ∀ st st' : GatherState,
      gather_components mf ml env fuel stream_id local_addresses cids st = some st' →
      GatherAdds (fun c => st.agent.use_ice_udp = false → c.transport ≠ .UDP)
        st.agent st'.agent := by
  induction cids with
  | nil =>
    intro st st' h
    rw [gather_components] at h
    cases h
    exact gather_adds_refl _ _
  | cons cid rest ih =>
    intro st st' h
    unfold gather_components at h
    by_cases hf : st.failed = true
    · rw [if_pos hf] at h; cases h; exact gather_adds_refl _ _
    rw [if_neg hf] at h
    cases hfind : agent_find_component st.agent stream_id cid with
    | none => rw [hfind] at h; exact ih _ _ h
    | some sc =>
      rw [hfind] at h
      simp only at h
      cases hone : gather_addresses mf ml env fuel stream_id cid local_addresses 0
          { st with found_local_address := false } with
      | none => rw [hone] at h; cases h
      | some st1 =>
        rw [hone] at h
        have h1 : GatherAdds (fun c => st.agent.use_ice_udp = false → c.transport ≠ .UDP)
            st.agent st1.agent :=
          gather_addresses_adds _ _ _ _ _ _ _ _ { st with found_local_address := false } _
            hone
        simp only at h
        by_cases hf1 : st1.failed = true
        · rw [if_pos hf1] at h; cases h; exact h1
        rw [if_neg hf1] at h
        by_cases hfl : ¬ st1.found_local_address = true
        · rw [if_pos hfl] at h; cases h; exact h1
        rw [if_neg hfl] at h
        cases hfind2 : agent_find_component st1.agent stream_id cid with
        | none => rw [hfind2] at h; cases h; exact h1
        | some sc2 =>
          rw [hfind2] at h
          simp only at h
          split_ifs at h
          · cases hsig : agent_signal_component_state_change st1.agent stream_id cid
                .GATHERING with
            | none => rw [hsig] at h; cases h
            | some a2 =>
              rw [hsig] at h
              have h2 := state_change_adds
                (fun c => st.agent.use_ice_udp = false → c.transport ≠ .UDP) _ _ _ _ _ hsig
              have h3 := ih _ _ h
              simp only at h3
              rw [h2.1, h1.1] at h3
              exact gather_adds_trans h1 (gather_adds_trans h2 h3)
          · have h3 := ih _ _ h
            rw [h1.1] at h3
            exact gather_adds_trans h1 h3

theorem gather_adds_map_streams (Q : NiceCandidate → Prop) (a b : NiceAgent)
    (f : NiceStream → NiceStream)
    (h1 : b.use_ice_udp = a.use_ice_udp) (h2 : b.use_ice_tcp = a.use_ice_tcp)
    (hb : b.streams = a.streams.map f) (hid : ∀ s, (f s).id = s.id)
    (h : ∀ s, ∀ y ∈ (f s).components.flatMap (fun c => c.local_candidates),
      y ∈ s.components.flatMap (fun c => c.local_candidates)) :
    GatherAdds Q a b := by
  refine ⟨h1, h2, ?_, ?_⟩
  · rw [hb, List.map_map]
    apply List.map_congr_left
    intro s _
    exact hid s
  · intro c hc
    unfold agent_local_candidates at hc ⊢
    rw [hb] at hc
    exact Or.inl (mem_flatMap_map f _ a.streams (fun s _ => h s) c hc)

theorem signal_candidates_adds (Q : NiceCandidate → Prop) (cands : List NiceCandidate) :
    ∀ a : NiceAgent, GatherAdds Q a (gather_signal_candidates cands a) := by
  induction cands with
  | nil => intro a; exact gather_adds_refl _ a
  | cons candidate rest ih =>
    intro a
    unfold gather_signal_candidates
    split_ifs
    · exact ih a
    · exact gather_adds_trans (gather_adds_of_same Q _ _ rfl rfl rfl) (ih _)

theorem signal_components_adds (Q : NiceCandidate → Prop) (stream_id : Nat)
    (cids : List Nat) :
    ∀ a : NiceAgent, GatherAdds Q a (gather_signal_components stream_id cids a) := by
  induction cids with
  | nil => intro a; exact gather_adds_refl _ a
  | cons cid rest ih =>
    intro a
    unfold gather_signal_components
    cases agent_find_component a stream_id cid with
    | none => exact ih a
    | some sc => exact gather_adds_trans (signal_candidates_adds Q _ a) (ih _)

theorem signal_gathering_done_adds (Q : NiceCandidate → Prop) (a : NiceAgent) :
    GatherAdds Q a (agent_signal_gathering_done a) :=
  gather_adds_map_streams Q a _ (fun s => { s with gathering := false }) rfl rfl rfl
    (fun _ => rfl) (fun _ _ hy => hy)

theorem gathering_done_filter_adds (Q : NiceCandidate → Prop) (env : GatherEnv)
    (a b : NiceAgent) (f : NiceCandidate → Bool)
    (h1 : b.use_ice_udp = a.use_ice_udp) (h2 : b.use_ice_tcp = a.use_ice_tcp)
    (h3 : b.streams = a.streams.map (fun s =>
      if s.gathering = true then
        { s with
          components :=
            s.components.map (fun comp =>
              if env.nice_component_resolving_turn comp = true then comp
              else { comp with local_candidates := comp.local_candidates.filter f }) }
      else s)) :
    GatherAdds Q a b := by
  refine gather_adds_map_streams Q a b _ h1 h2 h3 ?_ ?_
  · intro s
    split_ifs <;> rfl
  · intro s y hy
    split_ifs at hy
    · refine mem_flatMap_map _ _ s.components ?_ y hy
      intro comp _ z hz
      split_ifs at hz
      · exact hz
      · exact (List.mem_filter.1 hz).1
    · exact hy

theorem gathering_done_adds (Q : NiceCandidate → Prop) (env : GatherEnv) (a : NiceAgent) :
    GatherAdds Q a (agent_gathering_done env a) := by
  unfold agent_gathering_done
  simp only
  split_ifs
  · refine gather_adds_trans ?_ (signal_gathering_done_adds Q _)
    exact gathering_done_filter_adds Q env a _ _ rfl rfl rfl
  · exact gathering_done_filter_adds Q env a _ _ rfl rfl rfl

theorem discovery_schedule_adds (Q : NiceCandidate → Prop) (env : GatherEnv)
    (a b : NiceAgent) (h : discovery_schedule env a = some b) : GatherAdds Q a b := by
  unfold discovery_schedule at h
  simp only at h
  split_ifs at h
  all_goals cases h
  all_goals first
    | exact gather_adds_refl _ _
    | exact gather_adds_of_same Q _ _ rfl rfl rfl
    | exact gather_adds_trans (gather_adds_of_same Q _ _ rfl rfl rfl)
        (gathering_done_adds Q env _)

theorem discovery_prune_stream_adds (Q : NiceCandidate → Prop) (a : NiceAgent)
    (stream_id : Nat) : GatherAdds Q a (discovery_prune_stream a stream_id) := by
  unfold discovery_prune_stream
  simp only
  split_ifs
  all_goals exact gather_adds_of_same Q _ _ rfl rfl rfl

theorem free_candidates_adds (Q : NiceCandidate → Prop) (stream_id : Nat)
    (cids : List Nat) :
    ∀ a : NiceAgent, GatherAdds Q a (gather_free_candidates stream_id cids a) := by
  induction cids with
  | nil => intro a; exact gather_adds_refl _ a
  | cons cid rest ih =>
    intro a
    unfold gather_free_candidates
    refine gather_adds_trans ?_ (ih _)
    apply gather_adds_update_component
    intro comp c hc
    cases hc

theorem gather_candidates_adds (mf ml : Nat) (env : GatherEnv) (fuel : Nat)
    (agent : NiceAgent) (stream_id : Nat) (r : Bool × NiceAgent)
    (h : nice_agent_gather_candidates mf ml env fuel agent stream_id = some r) :
    GatherAdds (fun c => agent.use_ice_udp = false → c.transport ≠ .UDP) agent r.2 := by
  unfold nice_agent_gather_candidates at h
  by_cases h1 : ¬ (stream_id ≥ 1)
  · rw [if_pos h1] at h; cases h; exact gather_adds_refl _ _
  rw [if_neg h1] at h
  cases hfind : agent_find_stream agent stream_id with
  | none => rw [hfind] at h; cases h; exact gather_adds_refl _ _
  | some stream =>
    rw [hfind] at h
    simp only at h
    by_cases hs : stream.gathering_started = true
    · rw [if_pos hs] at h; cases h; exact gather_adds_refl _ _
    rw [if_neg hs] at h
    generalize hst0 : (if agent.full_mode = true ∧ agent.stun_server_ip ≠ none ∧
        ¬ agent.force_relay = true then
        { agent with stun_resolving_list := stream_id :: agent.stun_resolving_list }
        else agent) = agent0 at h
    have h0 : GatherAdds (fun c => agent.use_ice_udp = false → c.transport ≠ .UDP)
        agent agent0 := by
      rw [← hst0]
      split_ifs
      · exact gather_adds_of_same _ _ _ rfl rfl rfl
      · exact gather_adds_refl _ _
    generalize hcomp : gather_components mf ml env fuel stream.id _ _ _ = res at h
    cases res with
    | none => cases h
    | some st =>
      have hc := gather_components_adds _ _ _ _ _ _ _ _ _ hcomp
      simp only at hc h
      rw [h0.1] at hc
      by_cases hf : st.failed = true
      · rw [if_pos hf] at h
        cases h
        exact gather_adds_trans h0 (gather_adds_trans hc
          (gather_adds_trans (free_candidates_adds _ _ _ _)
            (discovery_prune_stream_adds _ _ _)))
      rw [if_neg hf] at h
      have hsig : GatherAdds (fun c => agent.use_ice_udp = false → c.transport ≠ .UDP) agent
          (gather_signal_components stream.id
            ((List.range stream.n_components).map (fun i => i + 1))
            (agent_update_stream st.agent stream.id
              (fun s => { s with gathering := true, gathering_started := true }))) := by
        refine gather_adds_trans h0 (gather_adds_trans hc
          (gather_adds_trans ?_ (signal_components_adds _ _ _ _)))
        exact gather_adds_update_stream _ _ _ _ (fun _ => rfl) (fun _ => rfl)
      split_ifs at h
      · cases h
        exact gather_adds_trans hsig (gathering_done_adds _ env _)
      · cases hd : discovery_schedule env (gather_signal_components stream.id
          ((List.range stream.n_components).map (fun i => i + 1))
          (agent_update_stream st.agent stream.id
            (fun s => { s with gathering := true, gathering_started := true }))) with
        | none => rw [hd] at h; cases h
        | some b =>
          rw [hd] at h
          cases h
          exact gather_adds_trans hsig (discovery_schedule_adds _ env _ _ hd)
      · cases h
        exact hsig

theorem find_map_of_keys {α β γ : Type} (key : α → β) (p : β → Bool) (g : β → γ) :
    ∀ (l1 l2 : List α), l1.map key = l2.map key →
      (l1.find? (fun x => p (key x))).map (fun x => g (key x)) =
        (l2.find? (fun x => p (key x))).map (fun x => g (key x)) := by
  intro l1
  induction l1 with
  | nil =>
    intro l2 h
    cases l2 with
    | nil => rfl
    | cons y ys => simp at h
  | cons x xs ih =>
    intro l2 h
    cases l2 with
    | nil => simp at h
    | cons y ys =>
      simp only [List.map_cons, List.cons.injEq] at h
      simp only [List.find?_cons]
      rw [h.1]
      cases p (key y)
      · exact ih ys h.2
      · simp [h.1]

theorem find_stream_started_of_keys (a b : NiceAgent) (h : stream_keys b = stream_keys a)
    (stream_id : Nat) :
    (agent_find_stream b stream_id).map (fun s => s.gathering_started) =
      (agent_find_stream a stream_id).map (fun s => s.gathering_started) :=
  find_map_of_keys (fun s : NiceStream => (s.id, s.gathering_started))
    (fun k => k.1 == stream_id) (fun k => k.2) b.streams a.streams h

theorem find_stream_some_of_ids (a b : NiceAgent)
    (h : b.streams.map (fun s => s.id) = a.streams.map (fun s => s.id)) (stream_id : Nat) :
    (agent_find_stream b stream_id).isSome = (agent_find_stream a stream_id).isSome := by
  have := find_map_of_keys (fun s : NiceStream => s.id) (fun k => k == stream_id)
    (fun _ => ()) b.streams a.streams h
  unfold agent_find_stream
  cases h1 : List.find? (fun s => s.id == stream_id) b.streams <;>
    cases h2 : List.find? (fun s => s.id == stream_id) a.streams <;>
    simp [h1, h2] at this ⊢

theorem signal_candidates_streams (cands : List NiceCandidate) :
    ∀ a : NiceAgent, (gather_signal_candidates cands a).streams = a.streams := by
  induction cands with
  | nil => intro a; rfl
  | cons candidate rest ih =>
    intro a
    unfold gather_signal_candidates
    split_ifs
    · exact ih a
    · rw [ih]
      rfl

theorem signal_components_streams (stream_id : Nat) (cids : List Nat) :
    ∀ a : NiceAgent, (gather_signal_components stream_id cids a).streams = a.streams := by
  induction cids with
  | nil => intro a; rfl
  | cons cid rest ih =>
    intro a
    unfold gather_signal_components
    cases agent_find_component a stream_id cid with
    | none => exact ih a
    | some sc =>
      simp only
      rw [ih, signal_candidates_streams]

theorem gathering_done_keys (env : GatherEnv) (a : NiceAgent) :
    stream_keys (agent_gathering_done env a) = stream_keys a := by
  unfold agent_gathering_done agent_signal_gathering_done stream_keys
  simp only
  split_ifs
  · simp only [List.map_map]
    apply List.map_congr_left
    intro s _
    simp only [Function.comp]
    split_ifs <;> rfl
  · simp only [List.map_map]
    apply List.map_congr_left
    intro s _
    simp only [Function.comp]
    split_ifs <;> rfl

theorem discovery_schedule_keys (env : GatherEnv) (a b : NiceAgent)
    (h : discovery_schedule env a = some b) : stream_keys b = stream_keys a := by
  unfold discovery_schedule at h
  simp only at h
  split_ifs at h
  all_goals cases h
  all_goals first
    | rfl
    | exact gathering_done_keys env _

theorem find_stream_update (a : NiceAgent) (stream_id : Nat) (f : NiceStream → NiceStream)
    (hid : ∀ s, (f s).id = s.id) :
    agent_find_stream (agent_update_stream a stream_id f) stream_id =
      (agent_find_stream a stream_id).map f := by
  unfold agent_find_stream agent_update_stream
  simp only
  apply find_update_first
  intro x hx
  rw [hid]
  exact hx

theorem gather_success_started (mf ml : Nat) (env : GatherEnv) (fuel : Nat)
    (agent : NiceAgent) (stream_id : Nat) (after : NiceAgent)
    (h : nice_agent_gather_candidates mf ml env fuel agent stream_id = some (true, after)) :
    stream_id ≥ 1 ∧
    (agent_find_stream after stream_id).map (fun s => s.gathering_started) = some true := by
  have hadds := gather_candidates_adds mf ml env fuel agent stream_id _ h
  unfold nice_agent_gather_candidates at h
  by_cases h1 : ¬ (stream_id ≥ 1)
  · rw [if_pos h1] at h; cases h
  rw [if_neg h1] at h
  refine ⟨not_not.1 h1, ?_⟩
  cases hfind : agent_find_stream agent stream_id with
  | none => rw [hfind] at h; cases h
  | some stream =>
    rw [hfind] at h
    simp only at h
    have hsid : stream.id = stream_id := by
      have := List.find?_some hfind
      simpa using this
    by_cases hs : stream.gathering_started = true
    · rw [if_pos hs] at h
      cases h
      rw [hfind]
      simp [hs]
    rw [if_neg hs] at h
    generalize hst0 : (if agent.full_mode = true ∧ agent.stun_server_ip ≠ none ∧
        ¬ agent.force_relay = true then
        { agent with stun_resolving_list := stream_id :: agent.stun_resolving_list }
        else agent) = agent0 at h
    have h0 : agent0.streams = agent.streams := by
      rw [← hst0]
      split_ifs <;> rfl
    generalize hcomp : gather_components mf ml env fuel stream.id _ _ _ = res at h
    cases res with
    | none => cases h
    | some st =>
      have hc := gather_components_adds _ _ _ _ _ _ _ _ _ hcomp
      simp only at hc h
      by_cases hf : st.failed = true
      · rw [if_pos hf] at h
        cases h
      rw [if_neg hf] at h
      have hsome : (agent_find_stream st.agent stream_id).isSome = true := by
        rw [find_stream_some_of_ids agent st.agent (by rw [hc.2.2.1, h0]), hfind]
        rfl
      have hY : (agent_find_stream (gather_signal_components stream.id
          ((List.range stream.n_components).map (fun i => i + 1))
          (agent_update_stream st.agent stream.id
            (fun s => { s with gathering := true, gathering_started := true })))
          stream_id).map (fun s => s.gathering_started) = some true := by
        have hstreams := signal_components_streams stream.id
          ((List.range stream.n_components).map (fun i => i + 1))
          (agent_update_stream st.agent stream.id
            (fun s => { s with gathering := true, gathering_started := true }))
        have hfu := find_stream_update st.agent stream_id
          (fun s => { s with gathering := true, gathering_started := true }) (fun _ => rfl)
        unfold agent_find_stream at hfu hsome ⊢
        rw [hstreams, hsid, hfu]
        cases hx : List.find? (fun s => s.id == stream_id) st.agent.streams with
        | none => rw [hx] at hsome; cases hsome
        | some s1 => rfl
      split_ifs at h
      · cases h
        rw [find_stream_started_of_keys _ _ (gathering_done_keys env _)]
        exact hY
      · cases hd : discovery_schedule env (gather_signal_components stream.id
          ((List.range stream.n_components).map (fun i => i + 1))
          (agent_update_stream st.agent stream.id
            (fun s => { s with gathering := true, gathering_started := true }))) with
        | none => rw [hd] at h; cases h
        | some b =>
          rw [hd] at h
          cases h
          rw [find_stream_started_of_keys _ _ (discovery_schedule_keys env _ _ hd)]
          exact hY
      · cases h
        exact hY

theorem gather_started_noop (mf ml : Nat) (env : GatherEnv) (fuel : Nat)
    (agent : NiceAgent) (stream_id : Nat) (hid : stream_id ≥ 1)
    (hstarted : (agent_find_stream agent stream_id).map (fun s => s.gathering_started) =
      some true) :
    nice_agent_gather_candidates mf ml env fuel agent stream_id = some (true, agent) := by
  unfold nice_agent_gather_candidates
  rw [if_neg (not_not.2 hid)]
  cases hfind : agent_find_stream agent stream_id with
  | none => rw [hfind] at hstarted; cases hstarted
  | some stream =>
    rw [hfind] at hstarted
    simp only [Option.map_some', Option.some.injEq] at hstarted
    simp only
    rw [if_pos hstarted]

/-- C13: a call of `nice_agent_gather_candidates` on a stream (id at least 1) whose
`gathering_started` flag is set returns TRUE and leaves the agent as it was, whatever the
surroundings would answer: no candidate, socket or discovery item is created, no
component changes state and no signal is queued.  The flag is set by every call that
returned TRUE, so a call after a successful call on the same stream is such a call. -/
theorem gather_again_is_noop (max_foundation max_local_addresses : Nat) (env : GatherEnv)
    (fuel : Nat) (agent : NiceAgent) (stream_id : Nat) :
    (∀ stream, stream_id ≥ 1 → agent_find_stream agent stream_id = some stream →
      stream.gathering_started = true →
      nice_agent_gather_candidates max_foundation max_local_addresses env fuel agent
        stream_id = some (true, agent)) ∧
    (∀ max_foundation0 max_local_addresses0 env0 fuel0 before,
      nice_agent_gather_candidates max_foundation0 max_local_addresses0 env0 fuel0 before
        stream_id = some (true, agent) →
      nice_agent_gather_candidates max_foundation max_local_addresses env fuel agent
        stream_id = some (true, agent)) := by
  constructor
  · intro stream hid hfind hstarted
    apply gather_started_noop _ _ _ _ _ _ hid
    rw [hfind]
    simp [hstarted]
  · intro mf0 ml0 env0 fuel0 before h
    have := gather_success_started mf0 ml0 env0 fuel0 before stream_id agent h
    exact gather_started_noop _ _ _ _ _ _ this.1 this.2

theorem host_socket_new_with_sockets (env : GatherEnv)
    (f : NiceAddress → NiceCandidateTransport → Except SocketError NiceSocket)
    (hf : ∀ a t, t ≠ .UDP → f a t = env.socket_new a t) (address : NiceAddress)
    (transport : NiceCandidateTransport) (ht : transport ≠ .UDP) :
    host_socket_new (gather_env_with_sockets env f) address transport =
      host_socket_new env address transport := by
  unfold host_socket_new gather_env_with_sockets
  cases transport with
  | UDP => exact absurd rfl ht
  | TCP_ACTIVE => simp only; rw [hf _ _ (by decide)]
  | TCP_PASSIVE => simp only; rw [hf _ _ (by decide)]
  | TCP_SO => rfl

theorem add_local_host_candidate_with_sockets (mf : Nat) (env : GatherEnv)
    (f : NiceAddress → NiceCandidateTransport → Except SocketError NiceSocket)
    (hf : ∀ a t, t ≠ .UDP → f a t = env.socket_new a t) (a : NiceAgent)
    (stream_id component_id : Nat) (address : NiceAddress)
    (transport : NiceCandidateTransport) (ht : transport ≠ .UDP) (accept_duplicate : Bool) :
    discovery_add_local_host_candidate mf (gather_env_with_sockets env f) a stream_id
      component_id address transport accept_duplicate =
    discovery_add_local_host_candidate mf env a stream_id component_id address transport
      accept_duplicate := by
  unfold discovery_add_local_host_candidate
  rw [host_socket_new_with_sockets env f hf address transport ht]
  rfl

theorem add_discovery_turn_with_sockets (env : GatherEnv)
    (f : NiceAddress → NiceCandidateTransport → Except SocketError NiceSocket)
    (a : NiceAgent) (nicesock : NiceSocket) (turn : TurnServer)
    (stream_id component_id : Nat) (turn_tcp : Bool) :
    priv_add_new_candidate_discovery_turn (gather_env_with_sockets env f) a nicesock turn
      stream_id component_id turn_tcp =
    priv_add_new_candidate_discovery_turn env a nicesock turn stream_id component_id
      turn_tcp := rfl

theorem gather_turn_servers_with_sockets (env : GatherEnv)
    (f : NiceAddress → NiceCandidateTransport → Except SocketError NiceSocket)
    (stream_id cid : Nat) (host_candidate : NiceCandidate) (nicesock : NiceSocket)
    (turns : List TurnServer) :
    ∀ st : GatherState,
      gather_turn_servers (gather_env_with_sockets env f) stream_id cid host_candidate
        nicesock turns st =
      gather_turn_servers env stream_id cid host_candidate nicesock turns st := by
  induction turns with
  | nil => intro st; rfl
  | cons turn rest ih =>
    intro st
    unfold gather_turn_servers
    simp only [ih, add_discovery_turn_with_sockets]

theorem gather_port_loop_with_sockets (mf : Nat) (env : GatherEnv)
    (f : NiceAddress → NiceCandidateTransport → Except SocketError NiceSocket)
    (hf : ∀ a t, t ≠ .UDP → f a t = env.socket_new a t) (stream_id cid : Nat)
    (addr : NiceAddress) (transport : NiceCandidateTransport) (ht : transport ≠ .UDP)
    (min_port max_port start_port : Nat) (fuel : Nat) :
    ∀ (a : NiceAgent) (current_port : Nat) (accept_duplicate : Bool),
      gather_port_loop mf (gather_env_with_sockets env f) stream_id cid addr transport
        min_port max_port start_port fuel a current_port accept_duplicate =
      gather_port_loop mf env stream_id cid addr transport min_port max_port start_port fuel
        a current_port accept_duplicate := by
  induction fuel with
  | zero => intro a cp ad; rfl
  | succ fuel ih =>
    intro a cp ad
    unfold gather_port_loop
    simp only [add_local_host_candidate_with_sockets mf env f hf _ _ _ _ _ ht, ih]

theorem gather_host_candidate_with_sockets (mf : Nat) (env : GatherEnv)
    (f : NiceAddress → NiceCandidateTransport → Except SocketError NiceSocket)
    (hf : ∀ a t, t ≠ .UDP → f a t = env.socket_new a t) (fuel : Nat)
    (stream_id cid : Nat) (addr : NiceAddress) (transport : NiceCandidateTransport)
    (ht : transport ≠ .UDP) (st : GatherState) :
    gather_host_candidate mf (gather_env_with_sockets env f) fuel stream_id cid addr
      transport st =
    gather_host_candidate mf env fuel stream_id cid addr transport st := by
  unfold gather_host_candidate
  simp only [gather_port_loop_with_sockets mf env f hf _ _ _ _ ht,
    gather_turn_servers_with_sockets]
  rfl

theorem gather_add_types_with_sockets (mf : Nat) (env : GatherEnv)
    (f : NiceAddress → NiceCandidateTransport → Except SocketError NiceSocket)
    (hf : ∀ a t, t ≠ .UDP → f a t = env.socket_new a t) (fuel : Nat)
    (stream_id cid : Nat) (addr : NiceAddress) (transports : List NiceCandidateTransport) :
    ∀ st : GatherState, st.agent.use_ice_udp = false →
      gather_add_types mf (gather_env_with_sockets env f) fuel stream_id cid addr
        transports st =
      gather_add_types mf env fuel stream_id cid addr transports st := by
  induction transports with
  | nil => intro st _; rfl
  | cons transport rest ih =>
    intro st hu
    unfold gather_add_types
    by_cases hf1 : st.failed = true
    · rw [if_pos hf1, if_pos hf1]
    rw [if_neg hf1, if_neg hf1]
    by_cases hskip : (st.agent.use_ice_udp = false ∧ transport = .UDP) ∨
        (st.agent.use_ice_tcp = false ∧ transport ≠ .UDP)
    · rw [if_pos hskip, if_pos hskip]
      exact ih st hu
    rw [if_neg hskip, if_neg hskip]
    have ht : transport ≠ .UDP := fun h => hskip (Or.inl ⟨hu, h⟩)
    rw [gather_host_candidate_with_sockets mf env f hf _ _ _ _ _ ht]
    cases hone : gather_host_candidate mf env fuel stream_id cid addr transport st with
    | none => rfl
    | some st1 =>
      simp only
      apply ih
      rw [(gather_host_candidate_adds _ _ _ _ _ _ _ _ _ hone).1]
      exact hu

theorem gather_addresses_with_sockets (mf ml : Nat) (env : GatherEnv)
    (f : NiceAddress → NiceCandidateTransport → Except SocketError NiceSocket)
    (hf : ∀ a t, t ≠ .UDP → f a t = env.socket_new a t) (fuel : Nat)
    (stream_id cid : Nat) (addrs : List NiceAddress) :
    ∀ (length : Nat) (st : GatherState), st.agent.use_ice_udp = false →
      gather_addresses mf ml (gather_env_with_sockets env f) fuel stream_id cid addrs
        length st =
      gather_addresses mf ml env fuel stream_id cid addrs length st := by
  induction addrs with
  | nil => intro length st _; rfl
  | cons addr rest ih =>
    intro length st hu
    unfold gather_addresses
    rw [gather_add_types_with_sockets mf env f hf _ _ _ _ _ st hu]
    by_cases hf1 : st.failed = true
    · rw [if_pos hf1, if_pos hf1]
    rw [if_neg hf1, if_neg hf1]
    by_cases hl : ¬ (length < ml)
    · rw [if_pos hl, if_pos hl]
    rw [if_neg hl, if_neg hl]
    cases hone : gather_add_types mf env fuel stream_id cid addr
        [.UDP, .TCP_ACTIVE, .TCP_PASSIVE] st with
    | none => rfl
    | some st1 =>
      simp only
      apply ih
      rw [(gather_add_types_adds _ _ _ _ _ _ _ _ _ hone).1]
      exact hu

theorem gather_components_with_sockets (mf ml : Nat) (env : GatherEnv)
    (f : NiceAddress → NiceCandidateTransport → Except SocketError NiceSocket)
    (hf : ∀ a t, t ≠ .UDP → f a t = env.socket_new a t) (fuel : Nat)
    (stream_id : Nat) (local_addresses : List NiceAddress) (cids : List Nat) :
    ∀ st : GatherState, st.agent.use_ice_udp = false →
      gather_components mf ml (gather_env_with_sockets env f) fuel stream_id
        local_addresses cids st =
      gather_components mf ml env fuel stream_id local_addresses cids st := by
  induction cids with
  | nil => intro st _; rfl
  | cons cid rest ih =>
    intro st hu
    unfold gather_components
    by_cases hf1 : st.failed = true
    · rw [if_pos hf1, if_pos hf1]
    rw [if_neg hf1, if_neg hf1]
    cases hfind : agent_find_component st.agent stream_id cid with
    | none =>
      simp only
      exact ih st hu
    | some sc =>
      simp only
      rw [gather_addresses_with_sockets mf ml env f hf _ _ _ _ _
        { st with found_local_address := false } hu]
      cases hone : gather_addresses mf ml env fuel stream_id cid local_addresses 0
          { st with found_local_address := false } with
      | none => rfl
      | some st1 =>
        simp only
        have hu1 : st1.agent.use_ice_udp = false := by
          rw [(gather_addresses_adds _ _ _ _ _ _ _ _
            { st with found_local_address := false } _ hone).1]
          exact hu
        by_cases hf2 : st1.failed = true
        · rw [if_pos hf2, if_pos hf2]
        rw [if_neg hf2, if_neg hf2]
        by_cases hfl : ¬ st1.found_local_address = true
        · rw [if_pos hfl, if_pos hfl]
        rw [if_neg hfl, if_neg hfl]
        cases hfind2 : agent_find_component st1.agent stream_id cid with
        | none => rfl
        | some sc2 =>
          simp only
          by_cases hstate : sc2.2.state = .DISCONNECTED ∨ sc2.2.state = .FAILED
          · rw [if_pos hstate, if_pos hstate]
            cases hsig : agent_signal_component_state_change st1.agent stream_id cid
                .GATHERING with
            | none => rfl
            | some a2 =>
              simp only
              apply ih
              simp only
              rw [(state_change_adds (fun _ => True) _ _ _ _ _ hsig).1]
              exact hu1
          · rw [if_neg hstate, if_neg hstate]
            exact ih st1 hu1

theorem gather_candidates_with_sockets (mf ml : Nat) (env : GatherEnv)
    (f : NiceAddress → NiceCandidateTransport → Except SocketError NiceSocket)
    (hf : ∀ a t, t ≠ .UDP → f a t = env.socket_new a t) (fuel : Nat)
    (agent : NiceAgent) (hu : agent.use_ice_udp = false) (stream_id : Nat) :
    nice_agent_gather_candidates mf ml (gather_env_with_sockets env f) fuel agent
      stream_id =
    nice_agent_gather_candidates mf ml env fuel agent stream_id := by
  unfold nice_agent_gather_candidates
  by_cases h1 : ¬ (stream_id ≥ 1)
  · rw [if_pos h1, if_pos h1]
  rw [if_neg h1, if_neg h1]
  cases hfind : agent_find_stream agent stream_id with
  | none => rfl
  | some stream =>
    simp only
    by_cases hs : stream.gathering_started = true
    · rw [if_pos hs, if_pos hs]
    rw [if_neg hs, if_neg hs]
    rw [gather_components_with_sockets mf ml env f hf]
    · rfl
    · simp only
      split_ifs
      · exact hu
      · exact hu

/-- C13 on the agent left by a first successful call: the second call on stream 1
returns TRUE and the same agent. -/
theorem gather_again_is_noop_witness :
    nice_agent_gather_candidates 33 64 gather_env_udp 10 agent_after_gathering 1 =
      some (true, agent_after_gathering) :=
  (gather_again_is_noop 33 64 gather_env_udp 10 agent_after_gathering 1).2 33 64
    gather_env_udp 10 (agent_one_component .DISCONNECTED) (by decide)

/-- C19: with `use_ice_udp` FALSE (ICE-TCP is then on), `nice_agent_gather_candidates`
never asks for a UDP host socket: its result is the same whatever the UDP socket
constructor would answer; when it returns, `use_ice_udp` is still FALSE and every local
candidate was there before or has a transport other than UDP.
`priv_add_new_candidate_discovery_turn` queues nothing for a UDP TURN server and leaves
the agent as it was, and `priv_add_remote_candidate` returns FALSE and leaves the agent
(so the remote candidate list) as it was for every remote candidate with UDP transport. -/
theorem gather_and_remote_without_udp (agent : NiceAgent)
    (hudp : agent.use_ice_udp = false) :
    (∀ max_foundation max_local_addresses env socket_new fuel stream_id,
      (∀ a t, t ≠ NiceCandidateTransport.UDP → socket_new a t = env.socket_new a t) →
      nice_agent_gather_candidates max_foundation max_local_addresses
        (gather_env_with_sockets env socket_new) fuel agent stream_id =
      nice_agent_gather_candidates max_foundation max_local_addresses env fuel agent
        stream_id) ∧
    (∀ max_foundation max_local_addresses env fuel stream_id r,
      nice_agent_gather_candidates max_foundation max_local_addresses env fuel agent
        stream_id = some r →
      r.2.use_ice_udp = false ∧
      ∀ c ∈ agent_local_candidates r.2,
        c ∈ agent_local_candidates agent ∨ c.transport ≠ .UDP) ∧
    (∀ env nicesock turn stream_id component_id turn_tcp,
      turn.type = NiceRelayType.TURN_UDP →
      priv_add_new_candidate_discovery_turn env agent nicesock turn stream_id component_id
        turn_tcp = agent) ∧
    (∀ max_foundation cc stream_id component_id type addr base_addr priority username
        password foundation,
      priv_add_remote_candidate max_foundation cc agent stream_id component_id type addr
        base_addr .UDP priority username password foundation = (false, agent)) := by
  refine ⟨?_, ?_, ?_, ?_⟩
  · intro mf ml env f fuel stream_id hf
    exact gather_candidates_with_sockets mf ml env f hf fuel agent hudp stream_id
  · intro mf ml env fuel stream_id r h
    have hadds := gather_candidates_adds mf ml env fuel agent stream_id r h
    refine ⟨hadds.1.trans hudp, ?_⟩
    intro c hc
    exact (hadds.2.2.2 c hc).imp id (fun hq => hq hudp)
  · intro env nicesock turn stream_id component_id turn_tcp hturn
    unfold priv_add_new_candidate_discovery_turn
    simp [hturn, hudp]
  · intro mf cc stream_id component_id type addr base_addr priority username password
      foundation
    unfold priv_add_remote_candidate
    by_cases h1 : type = .PEER_REFLEXIVE
    · rw [if_pos h1]
    · rw [if_neg h1, if_pos ⟨rfl, by simp [hudp]⟩]

/-- C19 at the agent with ICE-UDP off: gathering with every socket available creates the
two TCP host candidates and no UDP one, and a remote UDP host candidate is refused. -/
theorem gather_and_remote_without_udp_witness :
    (∀ r, nice_agent_gather_candidates 33 64 gather_env_all_sockets 10 agent_tcp_only 1 =
        some r →
      r.2.use_ice_udp = false ∧
      ∀ c ∈ agent_local_candidates r.2,
        c ∈ agent_local_candidates agent_tcp_only ∨ c.transport ≠ .UDP) ∧
    priv_add_remote_candidate 33 conncheck_idle agent_tcp_only 1 1 .HOST
      ⟨.AF_INET, 3232235778, 6000⟩ none .UDP 100 none none (some ['1']) =
      (false, agent_tcp_only) :=
  ⟨(gather_and_remote_without_udp agent_tcp_only rfl).2.1 33 64 gather_env_all_sockets 10 1,
   (gather_and_remote_without_udp agent_tcp_only rfl).2.2.2 33 conncheck_idle 1 1 .HOST
     ⟨.AF_INET, 3232235778, 6000⟩ none 100 none none (some ['1'])⟩

/-! ### Fresh and copied foundations; server-reflexive candidates -/

theorem strlcpy_short (src : CString) (n : Nat) (h : src.length < n) :
    g_strlcpy src n = src := by
  unfold g_strlcpy
  exact List.take_of_length_le (by omega)

theorem snprintf_fmt_u (max_foundation k : Nat) (hmax : 10 < max_foundation)
    (hk : k < 2 ^ 32) : g_snprintf max_foundation (fmt_u k) = fmt_u k := by
  unfold g_snprintf
  have := fmt_u_length k hk
  exact List.take_of_length_le (by omega)

/-- C27: with `NICE_CANDIDATE_MAX_FOUNDATION` above 10, foundations that fit their array
and a counter that has not reached its last 32-bit value: when some local candidate
matches, `priv_assign_foundation` gives the new candidate the foundation of the first
match in stream, component, candidate order (no candidate before it matches) and leaves
the agent, so `next_candidate_id`, unchanged; when none matches, the foundation is the
decimal rendering of `next_candidate_id`, the counter grows by exactly one, and the
foundation differs from the rendering of every smaller counter value, so from every
foundation assigned fresh before. -/
theorem assign_foundation_copy_or_fresh (max_foundation : Nat) (agent : NiceAgent)
    (candidate : NiceCandidate) (hmax : 10 < max_foundation)
    (hcount : agent.next_candidate_id + 1 < 2 ^ 32)
    (hlen : ∀ n ∈ agent_local_candidates agent, n.foundation.length < max_foundation) :
    (∀ n, (agent_local_candidates agent).find? (priv_foundation_matches agent candidate) =
        some n →
      (∃ before after, agent_local_candidates agent = before ++ n :: after ∧
        priv_foundation_matches agent candidate n = true ∧
        ∀ m ∈ before, priv_foundation_matches agent candidate m = false) ∧
      (priv_assign_foundation max_foundation agent candidate).1.foundation = n.foundation ∧
      (priv_assign_foundation max_foundation agent candidate).2 = agent) ∧
    ((agent_local_candidates agent).find? (priv_foundation_matches agent candidate) = none →
      (∀ m ∈ agent_local_candidates agent,
        priv_foundation_matches agent candidate m = false) ∧
      (priv_assign_foundation max_foundation agent candidate).1.foundation =
        fmt_u agent.next_candidate_id ∧
      decimal_value (priv_assign_foundation max_foundation agent candidate).1.foundation =
        agent.next_candidate_id ∧
      (priv_assign_foundation max_foundation agent candidate).2.next_candidate_id =
        agent.next_candidate_id + 1 ∧
      ∀ earlier, earlier < agent.next_candidate_id →
        g_snprintf max_foundation (fmt_u earlier) ≠
          (priv_assign_foundation max_foundation agent candidate).1.foundation) := by
  constructor
  · intro n hfind
    have hmem : n ∈ agent_local_candidates agent := List.mem_of_find?_eq_some hfind
    obtain ⟨h1, h2⟩ := assign_foundation_found max_foundation agent candidate n hfind
    refine ⟨?_, ?_, h2⟩
    · obtain ⟨hp, before, after, hsplit, hbefore⟩ := List.find?_eq_some.1 hfind
      refine ⟨before, after, hsplit, hp, ?_⟩
      intro m hm
      simpa using hbefore m hm
    · rw [h1, strlcpy_short _ _ (hlen n hmem)]
  · intro hfind
    obtain ⟨h1, h2⟩ := assign_foundation_fresh max_foundation agent candidate hfind
    have hfresh : (priv_assign_foundation max_foundation agent candidate).1.foundation =
        fmt_u agent.next_candidate_id := by
      rw [h1, snprintf_fmt_u _ _ hmax (by omega)]
    refine ⟨?_, hfresh, ?_, ?_, ?_⟩
    · intro m hm
      have := List.find?_eq_none.1 hfind m hm
      simpa using this
    · rw [hfresh, fmt_u_value]
    · rw [h2, Nat.mod_eq_of_lt hcount]
    · intro earlier hlt heq
      rw [hfresh, snprintf_fmt_u _ _ hmax (by omega)] at heq
      have := fmt_u_injective _ _ heq
      omega

/-- C27 at the agent that holds one relayed candidate with foundation "1" and counter 2:
a host candidate matches nothing and gets the fresh foundation "2", and the counter
becomes 3. -/
theorem assign_foundation_copy_or_fresh_witness :
    (priv_assign_foundation 33 (agent_with_relay .RFC5245) host_candidate_udp).1.foundation =
      fmt_u (agent_with_relay .RFC5245).next_candidate_id ∧
    (priv_assign_foundation 33 (agent_with_relay .RFC5245) host_candidate_udp).2.next_candidate_id =
      (agent_with_relay .RFC5245).next_candidate_id + 1 :=
  ⟨((assign_foundation_copy_or_fresh 33 (agent_with_relay .RFC5245) host_candidate_udp (by decide)
      (by decide) (by decide)).2 (by decide)).2.1,
   ((assign_foundation_copy_or_fresh 33 (agent_with_relay .RFC5245) host_candidate_udp (by decide)
      (by decide) (by decide)).2 (by decide)).2.2.2.1⟩

theorem credentials_addrs (env : GatherEnv) (a : NiceAgent) (c : NiceCandidate) :
    (priv_generate_candidate_credentials env a c).addr = c.addr ∧
    (priv_generate_candidate_credentials env a c).base_addr = c.base_addr := by
  unfold priv_generate_candidate_credentials
  split_ifs <;> exact ⟨rfl, rfl⟩

theorem server_reflexive_candidate_fields (max_foundation : Nat) (env : GatherEnv)
    (agent : NiceAgent) (stream_id component_id : Nat) (address : NiceAddress)
    (transport : NiceCandidateTransport) (base_socket : NiceSocket) (nat_assisted : Bool) :
    (priv_assign_foundation max_foundation agent
      (server_reflexive_candidate_new env agent stream_id component_id address transport
        base_socket nat_assisted)).1.type = .SERVER_REFLEXIVE ∧
    (priv_assign_foundation max_foundation agent
      (server_reflexive_candidate_new env agent stream_id component_id address transport
        base_socket nat_assisted)).1.transport = transport ∧
    (priv_assign_foundation max_foundation agent
      (server_reflexive_candidate_new env agent stream_id component_id address transport
        base_socket nat_assisted)).1.addr = address ∧
    (priv_assign_foundation max_foundation agent
      (server_reflexive_candidate_new env agent stream_id component_id address transport
        base_socket nat_assisted)).1.base_addr = base_socket.addr := by
  obtain ⟨h1, h2, h3, h4, -, -, -⟩ := assign_foundation_fields max_foundation agent
    (server_reflexive_candidate_new env agent stream_id component_id address transport
      base_socket nat_assisted)
  rw [h1, h2, h3, h4]
  unfold server_reflexive_candidate_new
  simp only [credentials_type, credentials_transport, credentials_addrs]
  simp
  rfl

/-- C26: when the mapped address equals the base socket's address and the component holds
a candidate of the same transport whose address and base address are that address (the
host candidate of the socket), `discovery_add_server_reflexive_candidate` leaves every
stream, so every `local_candidates` list, and the signal queue as they were.  In every
case a local candidate of the agent afterwards was there before or is server-reflexive
with `addr` the mapped address and `base_addr` the base socket's address. -/
theorem server_reflexive_redundant_or_added (max_foundation : Nat) (env : GatherEnv)
    (agent : NiceAgent) (stream_id component_id : Nat) (address : NiceAddress)
    (transport : NiceCandidateTransport) (base_socket : NiceSocket) (nat_assisted : Bool) :
    (∀ s component host, agent_find_component agent stream_id component_id =
        some (s, component) →
      host ∈ component.local_candidates → host.transport = transport →
      host.addr = base_socket.addr → host.base_addr = base_socket.addr →
      address = base_socket.addr →
      (discovery_add_server_reflexive_candidate max_foundation env agent stream_id
        component_id address transport base_socket nat_assisted).streams = agent.streams ∧
      (discovery_add_server_reflexive_candidate max_foundation env agent stream_id
        component_id address transport base_socket nat_assisted).signals = agent.signals) ∧
    (∀ c ∈ agent_local_candidates
        (discovery_add_server_reflexive_candidate max_foundation env agent stream_id
          component_id address transport base_socket nat_assisted),
      c ∈ agent_local_candidates agent ∨
      (c.type = .SERVER_REFLEXIVE ∧ c.addr = address ∧ c.base_addr = base_socket.addr)) := by
  obtain ⟨f1, f2, f3, f4⟩ := server_reflexive_candidate_fields max_foundation env agent
    stream_id component_id address transport base_socket nat_assisted
  obtain ⟨-, g2, g3⟩ := assign_foundation_agent max_foundation agent
    (server_reflexive_candidate_new env agent stream_id component_id address transport
      base_socket nat_assisted)
  constructor
  · intro s component host hfind hmem htr haddr hbase hmapped
    unfold discovery_add_server_reflexive_candidate
    rw [hfind]
    simp only
    rw [pruned_redundant component _
      ⟨host, hmem, by rw [f2, htr], by rw [f3, haddr, hmapped], by rw [f4, hbase]⟩]
    simp only [Bool.false_eq_true, if_false]
    exact ⟨g3, g2⟩
  · intro c hc
    unfold discovery_add_server_reflexive_candidate at hc
    cases hfind : agent_find_component agent stream_id component_id with
    | none =>
      rw [hfind] at hc
      exact Or.inl hc
    | some sc =>
      rw [hfind] at hc
      simp only at hc
      have hsame : ∀ x ∈ agent_local_candidates (priv_assign_foundation max_foundation agent
          (server_reflexive_candidate_new env agent stream_id component_id address transport
            base_socket nat_assisted)).2, x ∈ agent_local_candidates agent := by
        intro x hx
        unfold agent_local_candidates at hx ⊢
        rw [g3] at hx
        exact hx
      split_ifs at hc
      · have hc2 : c ∈ agent_local_candidates (agent_update_component
            (priv_assign_foundation max_foundation agent
              (server_reflexive_candidate_new env agent stream_id component_id address
                transport base_socket nat_assisted)).2 stream_id component_id
            (fun comp => (priv_add_local_candidate_pruned comp
              (priv_assign_foundation max_foundation agent
                (server_reflexive_candidate_new env agent stream_id component_id address
                  transport base_socket nat_assisted)).1).2)) := hc
        have hstep : ∀ (comp : NiceComponent), ∀ x ∈ ((priv_add_local_candidate_pruned comp
              (priv_assign_foundation max_foundation agent
                (server_reflexive_candidate_new env agent stream_id component_id address
                  transport base_socket nat_assisted)).1).2).local_candidates,
            x ∈ comp.local_candidates ∨ (x.type = .SERVER_REFLEXIVE ∧ x.addr = address ∧
              x.base_addr = base_socket.addr) := by
          intro comp x hx
          rcases pruned_local_candidates comp (priv_assign_foundation max_foundation agent
                (server_reflexive_candidate_new env agent stream_id component_id address
                  transport base_socket nat_assisted)).1 with h | h
          · rw [h] at hx; exact Or.inl hx
          · rw [h] at hx
            rcases List.mem_append.1 hx with hx | hx
            · exact Or.inl hx
            · rw [List.mem_singleton.1 hx]
              exact Or.inr ⟨f1, f3, f4⟩
        rcases local_candidates_update_component _ stream_id component_id _
          (fun x => x.type = .SERVER_REFLEXIVE ∧ x.addr = address ∧
            x.base_addr = base_socket.addr) hstep c hc2 with h | h
        · exact Or.inl (hsame c h)
        · exact Or.inr h
      · exact Or.inl (hsame c hc)

/-- C26 at the agent whose component holds the UDP host candidate of the socket bound to
192.168.1.1:5000: a mapped address equal to the socket's address adds nothing and queues
no signal. -/
theorem server_reflexive_redundant_or_added_witness :
    (discovery_add_server_reflexive_candidate 33 gather_env_udp agent_with_host_candidate
      1 1 ⟨.AF_INET, 3232235777, 5000⟩ .UDP udp_socket false).streams =
      agent_with_host_candidate.streams ∧
    (discovery_add_server_reflexive_candidate 33 gather_env_udp agent_with_host_candidate
      1 1 ⟨.AF_INET, 3232235777, 5000⟩ .UDP udp_socket false).signals =
      agent_with_host_candidate.signals :=
  (server_reflexive_redundant_or_added 33 gather_env_udp agent_with_host_candidate 1 1
    ⟨.AF_INET, 3232235777, 5000⟩ .UDP udp_socket false).1 _ _ host_candidate_with_socket
    rfl (List.mem_cons_self _ _) rfl rfl rfl rfl

theorem compact_message_loop_eq (buffer_length : Nat) (buffers : List GInputVector) :
    ∀ out : List Nat, out.length ≤ buffer_length →
      compact_message_loop buffer_length buffers out =
        out ++ (buffers_bytes buffers).take (buffer_length - out.length) := by
  induction buffers with
  | nil => intro out _; simp [compact_message_loop, buffers_bytes]
  | cons v rest ih =>
    intro out hout
    unfold compact_message_loop
    have hlen : (out ++ v.buffer.take (min (buffer_length - out.length) v.size)).length ≤
        buffer_length := by
      simp only [List.length_append, List.length_take, GInputVector.size]
      omega
    rw [ih _ hlen]
    simp only [buffers_bytes, List.length_append, List.length_take, GInputVector.size,
      List.append_assoc, List.take_append_eq_append_take]
    congr 1
    by_cases h : buffer_length - out.length ≤ v.buffer.length
    · have h1 : min (buffer_length - out.length) v.buffer.length =
          buffer_length - out.length := Nat.min_eq_left h
      rw [h1, Nat.min_eq_left h]
      have h2 : buffer_length - (out.length + (buffer_length - out.length)) = 0 := by omega
      have h3 : buffer_length - out.length - v.buffer.length = 0 := by omega
      rw [h2, h3]
    · have h' : v.buffer.length ≤ buffer_length - out.length := by omega
      have h1 : min (buffer_length - out.length) v.buffer.length = v.buffer.length :=
        Nat.min_eq_right h'
      rw [h1, Nat.min_self]
      have h2 : buffer_length - (out.length + v.buffer.length) =
          buffer_length - out.length - v.buffer.length := by omega
      rw [h2, List.take_of_length_le h', List.take_of_length_le (le_refl _)]

theorem memcpy_buffer_loop_spec (buffers : List GInputVector) :
    ∀ (buffer : List Nat) (length : Nat),
      (memcpy_buffer_loop buffers buffer length).2 =
        length + min buffer.length ((buffers.map (fun b => b.size)).sum) ∧
      (memcpy_buffer_loop buffers buffer length).1.map (fun b => b.size) =
        buffers.map (fun b => b.size) ∧
      ∃ tail, buffers_bytes (memcpy_buffer_loop buffers buffer length).1 =
        buffer.take (min buffer.length ((buffers.map (fun b => b.size)).sum)) ++ tail := by
  induction buffers with
  | nil =>
    intro buffer length
    simp [memcpy_buffer_loop, buffers_bytes]
  | cons v rest ih =>
    intro buffer length
    unfold memcpy_buffer_loop
    by_cases hpos : buffer.length > 0
    · rw [if_pos hpos]
      obtain ⟨i1, i2, tail, i3⟩ := ih (buffer.drop (min v.size buffer.length))
        (length + min v.size buffer.length)
      simp only [List.map_cons, List.sum_cons, buffers_bytes, memcpy_at, List.take_zero,
        List.nil_append, Nat.zero_add, GInputVector.size, List.length_append,
        List.length_take, List.length_drop] at i1 i2 i3 ⊢
      refine ⟨?_, ?_, ?_⟩
      · rw [i1]; omega
      · rw [i2]
        refine congrArg₂ _ ?_ rfl
        omega
      · rw [i3]
        by_cases hfit : buffer.length ≤ v.buffer.length
        · refine ⟨v.buffer.drop buffer.length ++ tail, ?_⟩
          have h1 : min v.buffer.length buffer.length = buffer.length := Nat.min_eq_right hfit
          have h2 : min buffer.length (v.buffer.length +
              (rest.map (fun b => b.buffer.length)).sum) = buffer.length :=
            Nat.min_eq_left (by omega)
          rw [h1, h2]
          simp
        · refine ⟨tail, ?_⟩
          have hfit' : v.buffer.length ≤ buffer.length := by omega
          have h1 : min v.buffer.length buffer.length = v.buffer.length :=
            Nat.min_eq_left hfit'
          rw [h1]
          have h2 : min buffer.length (v.buffer.length +
              (rest.map (fun b => b.buffer.length)).sum) = v.buffer.length +
              min (buffer.length - v.buffer.length)
                ((rest.map (fun b => b.buffer.length)).sum) := by
            omega
          rw [h2, List.take_add, List.drop_length, List.append_nil]
          simp only [List.append_assoc]
    · rw [if_neg hpos]
      have h0 : buffer.length = 0 := by omega
      refine ⟨?_, rfl, buffers_bytes (v :: rest), ?_⟩
      · rw [h0]; simp
      · rw [h0]; simp

/-- C30: `memcpy_buffer_to_input_message` returns the minimum of the buffer's length and
the total size of the message's buffers, sets `message.length` to that value and keeps the
sizes of the message's buffers; afterwards the bytes of the message's buffers start with
that many first bytes of the buffer, and `compact_input_message` on the filled message
gives back exactly these bytes, with `*buffer_length` their number. -/
theorem memcpy_then_compact_roundtrip (message : NiceInputMessage) (buffer : List Nat) :
    (memcpy_buffer_to_input_message message buffer).1 =
      min buffer.length (input_message_get_size message) ∧
    (memcpy_buffer_to_input_message message buffer).2.length =
      min buffer.length (input_message_get_size message) ∧
    input_message_get_size (memcpy_buffer_to_input_message message buffer).2 =
      input_message_get_size message ∧
    (buffers_bytes (memcpy_buffer_to_input_message message buffer).2.buffers).take
        (min buffer.length (input_message_get_size message)) =
      buffer.take (min buffer.length (input_message_get_size message)) ∧
    compact_input_message (memcpy_buffer_to_input_message message buffer).2 =
      (buffer.take (min buffer.length (input_message_get_size message)),
        min buffer.length (input_message_get_size message)) := by
  obtain ⟨h1, h2, tail, h3⟩ := memcpy_buffer_loop_spec message.buffers buffer 0
  have hlen : (buffer.take (min buffer.length (input_message_get_size message))).length =
      min buffer.length (input_message_get_size message) := by
    rw [List.length_take]; omega
  have htake : (buffers_bytes (memcpy_buffer_loop message.buffers buffer 0).1).take
      (min buffer.length (input_message_get_size message)) =
      buffer.take (min buffer.length (input_message_get_size message)) := by
    unfold input_message_get_size
    rw [h3]
    unfold input_message_get_size at hlen
    rw [List.take_append_eq_append_take, hlen, Nat.sub_self, List.take_zero, List.append_nil,
      List.take_take, Nat.min_self]
  rw [Nat.zero_add] at h1
  refine ⟨h1, h1, ?_, htake, ?_⟩
  · unfold input_message_get_size memcpy_buffer_to_input_message
    exact congrArg List.sum h2
  · unfold compact_input_message compact_message memcpy_buffer_to_input_message
    simp only
    rw [compact_message_loop_eq _ _ [] (Nat.zero_le _)]
    simp only [List.length_nil, Nat.sub_zero, List.nil_append]
    unfold input_message_get_size at htake ⊢
    rw [h1, htake]

theorem tick_running_cases (env : TickEnv) (index : Nat) (cand : CandidateDiscovery)
    (st : TickState) :
    (discovery_tick_running env index cand st).1.pending = cand.pending ∧
    (discovery_tick_running env index cand st).2.discovery_unsched_items =
      st.discovery_unsched_items ∧
    (((discovery_tick_running env index cand st).2.need_pacing = st.need_pacing ∧
      (discovery_tick_running env index cand st).2.events = st.events ∧
      (((discovery_tick_running env index cand st).1.done = true ∧
        (discovery_tick_running env index cand st).2.not_done = st.not_done) ∨
       ((discovery_tick_running env index cand st).1.done = false ∧
        (discovery_tick_running env index cand st).2.not_done = st.not_done + 1))) ∨
     ((discovery_tick_running env index cand st).2.need_pacing = st.need_pacing + 1 ∧
      (discovery_tick_running env index cand st).2.events =
        st.events ++ [.retransmission index] ∧
      (discovery_tick_running env index cand st).1.done = false ∧
      (discovery_tick_running env index cand st).2.not_done = st.not_done + 1)) := by
  unfold discovery_tick_running
  by_cases hdone : cand.done = true
  · simp [hdone]
  · have hd : cand.done = false := by simpa using hdone
    by_cases hbuf : cand.stun_message_buffer = false
    · simp [hd, hbuf]
    · by_cases hnow : env.g_get_monotonic_time cand ≥ cand.next_tick
      · cases href : env.stun_timer_refresh cand <;> simp [hd, hbuf, hnow, href]
      · simp [hd, hbuf, hnow]

theorem tick_loop_cons_pending (env : TickEnv) (compat : NiceCompatibility)
    (cand : CandidateDiscovery) (rest : List CandidateDiscovery) (index : Nat) (st : TickState)
    (hp : cand.pending = true) (hst : st.need_pacing = 0) :
    discovery_tick_loop env compat (cand :: rest) index st =
      if (discovery_tick_running env index cand st).2.need_pacing ≠ 0 then
        some ((discovery_tick_running env index cand st).1 :: rest,
          (discovery_tick_running env index cand st).2)
      else
        (discovery_tick_loop env compat rest (index + 1)
          (discovery_tick_running env index cand st).2).map
          (fun more => ((discovery_tick_running env index cand st).1 :: more.1, more.2)) := by
  rw [discovery_tick_loop]
  simp [hp, hst]

theorem tick_loop_events (env : TickEnv) (compat : NiceCompatibility) :
    ∀ (l : List CandidateDiscovery) (index : Nat) (st : TickState)
      (l' : List CandidateDiscovery) (st' : TickState),
      discovery_tick_loop env compat l index st = some (l', st') → st.need_pacing = 0 →
      ∃ new, st'.events = st.events ++ new ∧ (∀ e ∈ new, index ≤ e.index) ∧
        ((st'.need_pacing = 0 ∧ ∀ e ∈ new, e.transmitted = false) ∨
         (1 ≤ st'.not_done ∧ ∃ quiet e, new = quiet ++ [e] ∧
            (∀ q ∈ quiet, q.transmitted = false ∧ q.index ≤ e.index) ∧
            e.transmitted = true ∧
            l'.drop (e.index - index + 1) = l.drop (e.index - index + 1))) := by
  intro l
  induction l with
  | nil =>
    intro index st l' st' h hst
    rw [discovery_tick_loop] at h
    cases h
    exact ⟨[], by simp, by simp, Or.inl ⟨hst, by simp⟩⟩
  | cons cand rest ih =>
    intro index st l' st' h hst
    -- how a result on `rest` from position `index + 1` is carried over
    have carry : ∀ (c : CandidateDiscovery) (st1 : TickState) (pre : List TickEvent)
        (r : List CandidateDiscovery × TickState),
        discovery_tick_loop env compat rest (index + 1) st1 = some r →
        st1.need_pacing = 0 → st1.events = st.events ++ pre →
        (∀ e ∈ pre, e.index = index ∧ e.transmitted = false) →
        ∃ new, r.2.events = st.events ++ new ∧ (∀ e ∈ new, index ≤ e.index) ∧
          ((r.2.need_pacing = 0 ∧ ∀ e ∈ new, e.transmitted = false) ∨
           (1 ≤ r.2.not_done ∧ ∃ quiet e, new = quiet ++ [e] ∧
              (∀ q ∈ quiet, q.transmitted = false ∧ q.index ≤ e.index) ∧
              e.transmitted = true ∧
              (c :: r.1).drop (e.index - index + 1) =
                (cand :: rest).drop (e.index - index + 1))) := by
      intro c st1 pre r hr hst1 hev hpre
      obtain ⟨new, h1, h2, h3⟩ := ih (index + 1) st1 r.1 r.2 hr hst1
      refine ⟨pre ++ new, ?_, ?_, ?_⟩
      · rw [h1, hev, List.append_assoc]
      · intro e he
        rcases List.mem_append.1 he with he | he
        · exact le_of_eq (hpre e he).1.symm
        · have := h2 e he; omega
      · rcases h3 with ⟨h3a, h3b⟩ | ⟨h3a, quiet, e, h3b, h3c, h3d, h3e⟩
        · left
          refine ⟨h3a, ?_⟩
          intro e he
          rcases List.mem_append.1 he with he | he
          · exact (hpre e he).2
          · exact h3b e he
        · right
          have hidx : index + 1 ≤ e.index := h2 e (by rw [h3b]; simp)
          refine ⟨h3a, pre ++ quiet, e, by rw [h3b, List.append_assoc], ?_, h3d, ?_⟩
          · intro q hq
            rcases List.mem_append.1 hq with hq | hq
            · exact ⟨(hpre q hq).2, by rw [(hpre q hq).1]; omega⟩
            · exact h3c q hq
          · have h4 : e.index - index + 1 = (e.index - (index + 1) + 1) + 1 := by omega
            rw [h4, List.drop_succ_cons, List.drop_succ_cons]
            exact h3e
    by_cases hp : cand.pending = true
    · rw [tick_loop_cons_pending env compat cand rest index st hp hst] at h
      obtain ⟨-, -, hrun⟩ := tick_running_cases env index cand st
      rcases hrun with ⟨r1, r2, -⟩ | ⟨r1, r2, r3, r4⟩
      · rw [hst] at r1
        rw [if_neg (not_not.2 r1)] at h
        cases hr : discovery_tick_loop env compat rest (index + 1)
            (discovery_tick_running env index cand st).2 with
        | none => rw [hr] at h; cases h
        | some r =>
          rw [hr] at h
          simp only [Option.map_some'] at h
          cases h
          exact carry _ _ [] r hr r1 (by rw [r2]; simp) (by simp)
      · rw [hst] at r1
        rw [if_pos (by omega)] at h
        cases h
        refine ⟨[.retransmission index], r2, by simp [TickEvent.index], Or.inr ⟨by omega,
          [], .retransmission index, rfl, by simp, rfl, ?_⟩⟩
        simp [TickEvent.index]
    · rw [discovery_tick_loop] at h
      have hp2 : (cand.pending != true) = true := by simpa using hp
      rw [if_pos hp2] at h
      simp only at h
      have hst2 : (tick_item_scheduled st).need_pacing = 0 := hst
      have hev2 : (tick_item_scheduled st).events = st.events := rfl
      split_ifs at h with hvalid hlen hsend
      · cases h
        refine ⟨[.first_request index true], by simp [hev2], by simp [TickEvent.index],
          Or.inr ⟨by simp, [], .first_request index true, rfl, by simp, rfl, ?_⟩⟩
        simp [TickEvent.index]
      · cases hr : discovery_tick_loop env compat rest (index + 1)
            { tick_item_scheduled st with
              events := (tick_item_scheduled st).events ++ [.first_request index false] } with
        | none => rw [hr] at h; cases h
        | some r =>
          rw [hr] at h
          simp only [Option.map_some'] at h
          cases h
          exact carry _ _ [.first_request index false] r hr hst rfl
            (by simp [TickEvent.index, TickEvent.transmitted, TickEvent.first_sent,
              TickEvent.retransmitted])
      · cases hr : discovery_tick_loop env compat rest (index + 1) (tick_item_scheduled st) with
        | none => rw [hr] at h; cases h
        | some r =>
          rw [hr] at h
          simp only [Option.map_some'] at h
          cases h
          exact carry _ _ [] r hr hst (by simp [hev2]) (by simp)

theorem tick_loop_not_done (env : TickEnv) (compat : NiceCompatibility) :
    ∀ (l : List CandidateDiscovery) (index : Nat) (st : TickState)
      (l' : List CandidateDiscovery) (st' : TickState),
      discovery_tick_loop env compat l index st = some (l', st') → st.need_pacing = 0 →
      (∀ c ∈ l, c.done = true → c.pending = true) →
      st.not_done ≤ st'.not_done ∧
      (st'.not_done = st.not_done ↔ ∀ c ∈ l', c.done = true) ∧
      (∀ c ∈ l', c.done = true → c.pending = true) := by
  intro l
  induction l with
  | nil =>
    intro index st l' st' h hst hinv
    rw [discovery_tick_loop] at h
    cases h
    simp
  | cons cand rest ih =>
    intro index st l' st' h hst hinv
    have hinv_rest : ∀ c ∈ rest, c.done = true → c.pending = true :=
      fun c hc => hinv c (List.mem_cons_of_mem _ hc)
    -- an item that is done and pending in front of the result on `rest`
    have carry_done : ∀ (c : CandidateDiscovery) (st1 : TickState)
        (r : List CandidateDiscovery × TickState),
        discovery_tick_loop env compat rest (index + 1) st1 = some r →
        st1.need_pacing = 0 → st1.not_done = st.not_done → c.done = true →
        c.pending = true →
        st.not_done ≤ r.2.not_done ∧
        (r.2.not_done = st.not_done ↔ ∀ x ∈ c :: r.1, x.done = true) ∧
        (∀ x ∈ c :: r.1, x.done = true → x.pending = true) := by
      intro c st1 r hr hst1 hnd hcd hcp
      obtain ⟨h1, h2, h3⟩ := ih (index + 1) st1 r.1 r.2 hr hst1 hinv_rest
      rw [hnd] at h1 h2
      refine ⟨h1, ?_, ?_⟩
      · rw [h2]
        simp [hcd]
      · intro x hx hxd
        rcases List.mem_cons.1 hx with hx | hx
        · rw [hx]; exact hcp
        · exact h3 x hx hxd
    by_cases hp : cand.pending = true
    · rw [tick_loop_cons_pending env compat cand rest index st hp hst] at h
      obtain ⟨hpend, -, hrun⟩ := tick_running_cases env index cand st
      rw [hp] at hpend
      rcases hrun with ⟨r1, -, r3⟩ | ⟨r1, -, r3, r4⟩
      · rw [hst] at r1
        rw [if_neg (not_not.2 r1)] at h
        cases hr : discovery_tick_loop env compat rest (index + 1)
            (discovery_tick_running env index cand st).2 with
        | none => rw [hr] at h; cases h
        | some r =>
          rw [hr] at h
          simp only [Option.map_some'] at h
          cases h
          rcases r3 with ⟨r3a, r3b⟩ | ⟨r3a, r3b⟩
          · exact carry_done _ _ r hr r1 r3b r3a hpend
          · obtain ⟨h1, -, h3⟩ := ih (index + 1) _ r.1 r.2 hr r1 hinv_rest
            rw [r3b] at h1
            refine ⟨by omega, ⟨fun heq => by omega, fun hall => ?_⟩, ?_⟩
            · have := hall _ (List.mem_cons_self _ _)
              rw [r3a] at this
              cases this
            · intro x hx hxd
              rcases List.mem_cons.1 hx with hx | hx
              · rw [hx]; exact hpend
              · exact h3 x hx hxd
      · rw [hst] at r1
        rw [if_pos (by omega)] at h
        cases h
        refine ⟨by omega, ⟨fun heq => by omega, fun hall => ?_⟩, ?_⟩
        · have := hall _ (List.mem_cons_self _ _)
          rw [r3] at this
          cases this
        · intro x hx hxd
          rcases List.mem_cons.1 hx with hx | hx
          · rw [hx]; exact hpend
          · exact hinv_rest x hx hxd
    · have hnotdone : cand.done = false := by
        cases hd : cand.done
        · rfl
        · exact absurd (hinv cand (List.mem_cons_self _ _) hd) hp
      rw [discovery_tick_loop] at h
      have hp2 : (cand.pending != true) = true := by simpa using hp
      rw [if_pos hp2] at h
      simp only at h
      have hst2 : (tick_item_scheduled st).need_pacing = 0 := hst
      have hnd2 : (tick_item_scheduled st).not_done = st.not_done := rfl
      split_ifs at h with hvalid hlen hsend
      · cases h
        refine ⟨by simp [hnd2], ⟨fun heq => ?_, fun hall => ?_⟩, ?_⟩
        · simp [hnd2] at heq
        · have := hall _ (List.mem_cons_self _ _)
          simp [hnotdone] at this
        · intro x hx hxd
          rcases List.mem_cons.1 hx with hx | hx
          · rw [hx]
          · exact hinv_rest x hx hxd
      · cases hr : discovery_tick_loop env compat rest (index + 1)
            { tick_item_scheduled st with
              events := (tick_item_scheduled st).events ++ [.first_request index false] } with
        | none => rw [hr] at h; cases h
        | some r =>
          rw [hr] at h
          simp only [Option.map_some'] at h
          cases h
          exact carry_done _ _ r hr hst rfl rfl rfl
      · cases hr : discovery_tick_loop env compat rest (index + 1) (tick_item_scheduled st) with
        | none => rw [hr] at h; cases h
        | some r =>
          rw [hr] at h
          simp only [Option.map_some'] at h
          cases h
          exact carry_done _ _ r hr hst rfl rfl rfl

theorem tick_loop_total (env : TickEnv) (compat : NiceCompatibility) :
    ∀ (l : List CandidateDiscovery) (index : Nat) (st : TickState),
      (∀ c ∈ l, discovery_item_schedulable c = true) →
      ∃ r, discovery_tick_loop env compat l index st = some r := by
  intro l
  induction l with
  | nil =>
    intro index st _
    exact ⟨([], st), by rw [discovery_tick_loop]⟩
  | cons cand rest ih =>
    intro index st hs
    have hs_rest : ∀ c ∈ rest, discovery_item_schedulable c = true :=
      fun c hc => hs c (List.mem_cons_of_mem _ hc)
    have hc := hs cand (List.mem_cons_self _ _)
    rw [discovery_tick_loop]
    by_cases hp : cand.pending = true
    · have hp2 : ¬ (cand.pending != true) = true := by simp [hp]
      rw [if_neg hp2]
      simp only
      split_ifs
      · exact ⟨_, rfl⟩
      · exact ⟨_, rfl⟩
      · obtain ⟨r, hr⟩ := ih (index + 1) (discovery_tick_running env index cand st).2 hs_rest
        rw [hr]
        exact ⟨_, rfl⟩
    · have hp2 : (cand.pending != true) = true := by simpa using hp
      rw [if_pos hp2]
      simp only
      have hvalid : nice_address_is_valid cand.server = true ∧
          (cand.type = .SERVER_REFLEXIVE ∨ cand.type = .RELAYED) := by
        unfold discovery_item_schedulable at hc
        simpa [hp] using hc
      rw [if_pos hvalid]
      split_ifs
      · exact ⟨_, rfl⟩
      · obtain ⟨r, hr⟩ := ih (index + 1)
          { tick_item_scheduled st with
            events := (tick_item_scheduled st).events ++ [.first_request index false] } hs_rest
        rw [hr]
        exact ⟨_, rfl⟩
      · obtain ⟨r, hr⟩ := ih (index + 1) (tick_item_scheduled st) hs_rest
        rw [hr]
        exact ⟨_, rfl⟩

theorem tick_loop_failed_goes_on (env : TickEnv) (compat : NiceCompatibility)
    (cand : CandidateDiscovery) (rest : List CandidateDiscovery) (index : Nat) (st : TickState)
    (hp : cand.pending = false) (hs : discovery_item_schedulable cand = true)
    (hfail : tick_request_length env compat (discovery_item_pending cand) = 0 ∨
      env.agent_socket_send (discovery_item_pending cand) < 0) :
    ∃ st1, st1.not_done = st.not_done ∧ st1.need_pacing = st.need_pacing ∧
      discovery_tick_loop env compat (cand :: rest) index st =
        (discovery_tick_loop env compat rest (index + 1) st1).map
          (fun r => (discovery_item_failed cand :: r.1, r.2)) := by
  have hvalid : nice_address_is_valid cand.server = true ∧
      (cand.type = .SERVER_REFLEXIVE ∨ cand.type = .RELAYED) := by
    unfold discovery_item_schedulable at hs
    simpa [hp] using hs
  have hp2 : (cand.pending != true) = true := by simp [hp]
  rw [discovery_tick_loop, if_pos hp2]
  simp only
  rw [if_pos hvalid]
  unfold discovery_item_pending at hfail
  by_cases hlen : tick_request_length env compat { cand with pending := true } > 0
  · rw [if_pos hlen]
    have hsend : ¬ env.agent_socket_send { cand with pending := true } ≥ 0 := by
      rcases hfail with h | h
      · omega
      · omega
    rw [if_neg hsend]
    exact ⟨{ tick_item_scheduled st with
      events := (tick_item_scheduled st).events ++ [.first_request index false] },
      rfl, rfl, rfl⟩
  · rw [if_neg hlen]
    exact ⟨tick_item_scheduled st, rfl, rfl, rfl⟩

theorem tick_loop_timeout_goes_on (env : TickEnv) (compat : NiceCompatibility)
    (cand : CandidateDiscovery) (rest : List CandidateDiscovery) (index : Nat) (st : TickState)
    (hp : cand.pending = true) (hd : cand.done = false) (hb : cand.stun_message_buffer = true)
    (hst : st.need_pacing = 0) (hnow : env.g_get_monotonic_time cand ≥ cand.next_tick)
    (htimer : env.stun_timer_refresh cand = .TIMEOUT) :
    discovery_tick_loop env compat (cand :: rest) index st =
      (discovery_tick_loop env compat rest (index + 1) st).map
        (fun r => (discovery_item_timed_out cand :: r.1, r.2)) := by
  have hrun : discovery_tick_running env index cand st = (discovery_item_timed_out cand, st) := by
    unfold discovery_tick_running discovery_item_timed_out
    simp [hd, hb, hnow, htimer]
  rw [tick_loop_cons_pending env compat cand rest index st hp hst, hrun]
  simp only
  rw [if_neg (not_not.2 hst)]

/-- C21: in one run of `priv_discovery_tick_unlocked` that returns, the first requests
sent with success and the retransmissions are together at most one; the call that
transmits is the last call of the tick, no call is made for an item behind it, the tick
returns TRUE, and the items of the discovery list behind it are as they were. -/
theorem tick_transmits_at_most_once (tick : TickEnv) (env : GatherEnv) (agent : NiceAgent)
    (ret : Bool) (after : NiceAgent) (events : List TickEvent)
    (h : priv_discovery_tick_unlocked tick env agent = some (ret, after, events)) :
    (events.filter TickEvent.first_sent).length +
      (events.filter TickEvent.retransmitted).length ≤ 1 ∧
    ∀ e ∈ events, e.transmitted = true →
      events.getLast? = some e ∧ (∀ q ∈ events, q.index ≤ e.index) ∧ ret = true ∧
      after.discovery_list.drop (e.index + 1) = agent.discovery_list.drop (e.index + 1) := by
  unfold priv_discovery_tick_unlocked at h
  cases hl : discovery_tick_loop tick agent.compatibility agent.discovery_list 0
      (tick_state_init agent) with
  | none => rw [hl] at h; cases h
  | some r =>
    obtain ⟨l', st'⟩ := r
    rw [hl] at h
    simp only at h
    obtain ⟨new, h1, -, h3⟩ := tick_loop_events tick agent.compatibility agent.discovery_list 0
      (tick_state_init agent) l' st' hl rfl
    have hev : st'.events = new := by rw [h1]; rfl
    have hquiet : ∀ (quiet : List TickEvent), (∀ q ∈ quiet, q.transmitted = false) →
        quiet.filter TickEvent.first_sent = [] ∧ quiet.filter TickEvent.retransmitted = [] := by
      intro quiet hq
      constructor
      · rw [List.filter_eq_nil_iff]
        intro q hmem hfs
        have := hq q hmem
        unfold TickEvent.transmitted at this
        rw [hfs] at this
        simp at this
      · rw [List.filter_eq_nil_iff]
        intro q hmem hfs
        have := hq q hmem
        unfold TickEvent.transmitted at this
        rw [hfs] at this
        simp at this
    have hevents : events = new := by
      split_ifs at h <;> cases h <;> exact hev
    rw [hevents]
    rcases h3 with ⟨-, h3b⟩ | ⟨h3a, quiet, e, h3b, h3c, h3d, h3e⟩
    · obtain ⟨q1, q2⟩ := hquiet new h3b
      rw [q1, q2]
      refine ⟨by simp, ?_⟩
      intro e he het
      rw [h3b e he] at het
      cases het
    · obtain ⟨q1, q2⟩ := hquiet quiet (fun q hq => (h3c q hq).1)
      have hret : ret = true ∧ after.discovery_list = l' := by
        rw [if_neg (by omega)] at h
        cases h
        exact ⟨rfl, rfl⟩
      refine ⟨?_, ?_⟩
      · rw [h3b, List.filter_append, List.filter_append, q1, q2]
        cases e with
        | first_request i sent => cases sent <;> simp [TickEvent.first_sent, TickEvent.retransmitted]
        | retransmission i => simp [TickEvent.first_sent, TickEvent.retransmitted]
      · intro e2 he2 het
        have he2e : e2 = e := by
          rw [h3b] at he2
          rcases List.mem_append.1 he2 with hm | hm
          · rw [(h3c e2 hm).1] at het
            cases het
          · exact List.mem_singleton.1 hm
        subst he2e
        refine ⟨by rw [h3b]; simp, ?_, hret.1, ?_⟩
        · intro q hq
          rw [h3b] at hq
          rcases List.mem_append.1 hq with hm | hm
          · exact (h3c q hm).2
          · rw [List.mem_singleton.1 hm]
        · rw [hret.2]
          simpa using h3e

/-- C21 at the agent with two fresh discovery items, where every send succeeds: the
tick sends the first request of the first item and nothing else, and the second item is
as it was. -/
theorem tick_transmits_at_most_once_witness :
    priv_discovery_tick_unlocked tick_env_sending gather_env_udp agent_two_discoveries =
      some (true, agent_first_discovery_sent, [.first_request 0 true]) ∧
    ([TickEvent.first_request 0 true].filter TickEvent.first_sent).length +
      ([TickEvent.first_request 0 true].filter TickEvent.retransmitted).length ≤ 1 :=
  ⟨by decide, (tick_transmits_at_most_once tick_env_sending gather_env_udp
    agent_two_discoveries true agent_first_discovery_sent [.first_request 0 true]
    (by decide)).1⟩

/-- C25: when every item of the discovery list can be scheduled and every item marked
done is pending, the loop of `priv_discovery_tick_unlocked` returns, and the tick returns
FALSE exactly when every item of the list the loop leaves is marked done; it then frees the
discovery list, takes the discovery timer away and calls `agent_gathering_done`, and
otherwise it returns TRUE with the list kept.  An item whose first request cannot be
created or sent, or whose timer reports a timeout, is marked done and the loop goes on
with the items behind it. -/
theorem tick_false_iff_all_done (tick : TickEnv) (env : GatherEnv) (agent : NiceAgent)
    (hsched : ∀ c ∈ agent.discovery_list, discovery_item_schedulable c = true)
    (hinv : ∀ c ∈ agent.discovery_list, c.done = true → c.pending = true) :
    (∃ r, discovery_tick_loop tick agent.compatibility agent.discovery_list 0
      (tick_state_init agent) = some r) ∧
    (∀ list st, discovery_tick_loop tick agent.compatibility agent.discovery_list 0
        (tick_state_init agent) = some (list, st) →
      (((priv_discovery_tick_unlocked tick env agent).map (fun r => r.1) = some false) ↔
        ∀ c ∈ list, c.done = true) ∧
      ((∀ c ∈ list, c.done = true) →
        priv_discovery_tick_unlocked tick env agent =
          some (false,
            agent_gathering_done env (discovery_free (agent_after_tick_loop agent list st)),
            st.events)) ∧
      (¬ (∀ c ∈ list, c.done = true) →
        priv_discovery_tick_unlocked tick env agent =
          some (true, agent_after_tick_loop agent list st, st.events)) ∧
      (discovery_free (agent_after_tick_loop agent list st)).discovery_list = [] ∧
      (discovery_free (agent_after_tick_loop agent list st)).discovery_timer_source = false ∧
      (∀ c ∈ list, c.done = true → c.pending = true)) ∧
    (∀ cand rest index st, cand.pending = false → discovery_item_schedulable cand = true →
      (tick_request_length tick agent.compatibility (discovery_item_pending cand) = 0 ∨
        tick.agent_socket_send (discovery_item_pending cand) < 0) →
      ∃ st1, st1.not_done = st.not_done ∧ st1.need_pacing = st.need_pacing ∧
        discovery_tick_loop tick agent.compatibility (cand :: rest) index st =
          (discovery_tick_loop tick agent.compatibility rest (index + 1) st1).map
            (fun r => (discovery_item_failed cand :: r.1, r.2))) ∧
    (∀ cand rest index st, cand.pending = true → cand.done = false →
      cand.stun_message_buffer = true → st.need_pacing = 0 →
      tick.g_get_monotonic_time cand ≥ cand.next_tick →
      tick.stun_timer_refresh cand = .TIMEOUT →
      discovery_tick_loop tick agent.compatibility (cand :: rest) index st =
        (discovery_tick_loop tick agent.compatibility rest (index + 1) st).map
          (fun r => (discovery_item_timed_out cand :: r.1, r.2))) := by
  refine ⟨tick_loop_total tick agent.compatibility agent.discovery_list 0 _ hsched, ?_,
    fun cand rest index st hp hs hfail =>
      tick_loop_failed_goes_on tick agent.compatibility cand rest index st hp hs hfail,
    fun cand rest index st hp hd hb hst hnow htimer =>
      tick_loop_timeout_goes_on tick agent.compatibility cand rest index st hp hd hb hst hnow
        htimer⟩
  intro list st hl
  obtain ⟨-, h2, h3⟩ := tick_loop_not_done tick agent.compatibility agent.discovery_list 0
    (tick_state_init agent) list st hl rfl hinv
  have h2 : st.not_done = 0 ↔ ∀ c ∈ list, c.done = true := h2
  have hF : (∀ c ∈ list, c.done = true) →
      priv_discovery_tick_unlocked tick env agent =
        some (false,
          agent_gathering_done env (discovery_free (agent_after_tick_loop agent list st)),
          st.events) := by
    intro hall
    unfold priv_discovery_tick_unlocked
    rw [hl]
    simp only
    rw [if_pos (h2.2 hall)]
  have hT : ¬ (∀ c ∈ list, c.done = true) →
      priv_discovery_tick_unlocked tick env agent =
        some (true, agent_after_tick_loop agent list st, st.events) := by
    intro hall
    unfold priv_discovery_tick_unlocked
    rw [hl]
    simp only
    rw [if_neg (fun h0 => hall (h2.1 h0))]
  refine ⟨⟨fun hret => ?_, fun hall => by rw [hF hall]; rfl⟩, hF, hT, rfl, rfl, h3⟩
  by_contra hall
  rw [hT hall] at hret
  simp at hret

/-- C25 at the agent with two fresh discovery items, where no send succeeds: both items
are marked done and the tick returns FALSE. -/
theorem tick_false_iff_all_done_witness :
    (priv_discovery_tick_unlocked tick_env_failing gather_env_udp agent_two_discoveries).map
      (fun r => (r.1, r.2.1.discovery_list, r.2.1.discovery_timer_source, r.2.2)) =
      some (false, [], false, [.first_request 0 false, .first_request 1 false]) ∧
    (priv_discovery_tick_unlocked tick_env_failing gather_env_udp agent_two_discoveries).map
      (fun r => r.1) = some false :=
  ⟨by decide,
    ((tick_false_iff_all_done tick_env_failing gather_env_udp agent_two_discoveries
      (by decide) (by decide)).2.1
        [discovery_item_failed discovery_item_stun, discovery_item_failed discovery_item_stun]
        ⟨0, 0, 0, [.first_request 0 false, .first_request 1 false]⟩ (by decide)).1.2
      (by decide)⟩

/-- C28 (code defect): on an interface with the link-local address 169.254.1.1 and a
resolved TURN server set before gathering, `nice_agent_gather_candidates` stores the host
candidate 169.254.1.1:5000 and queues no relay discovery, and `turn_server_resolved_cb`
for a server resolved afterwards queues none either; but `nice_agent_set_relay_info` for
a second resolved server on the same agent queues a relay discovery on the socket of that
link-local host candidate, as its loop does not call `nice_address_is_linklocal`. -/
theorem relay_info_queues_for_link_local_host :
    gather_env_link_local.nice_address_is_linklocal ⟨.AF_INET, 2851995905, 5000⟩ = true ∧
    agent_gathered_link_local.map
      (fun a => ((agent_local_candidates a).map (fun c => (c.type, c.transport, c.addr)),
        a.discovery_list.length,
        (agent_find_stream a 1).map (fun s => s.gathering_started))) =
      some ([(.HOST, .UDP, ⟨.AF_INET, 2851995905, 5000⟩)], 0, some true) ∧
    (agent_gathered_link_local.bind (fun a =>
      turn_server_resolved_cb relay_env_link_local a 1 1 3478 [.IPV4 167772170])).map
      (fun a => a.discovery_list.length) = some 0 ∧
    (agent_gathered_link_local.bind (fun a =>
      nice_agent_set_relay_info 8 relay_env_link_local a 1 1 (some ['t']) 3479 (some ['u'])
        (some ['p']) .TURN_UDP)).map
      (fun r => (r.1, r.2.discovery_list.map
        (fun d => (d.type, d.nicesock.map (fun s => s.addr), d.server)))) =
      some (true, [(.RELAYED, some ⟨.AF_INET, 2851995905, 5000⟩,
        ⟨.AF_INET, 167772169, 3479⟩)]) := by
  refine ⟨?_, ?_, ?_, ?_⟩ <;> decide

/-- C24 (code defect): in bytestream mode, with a frame of one payload byte and a frame
with an empty payload buffered, a first receive call returns one valid message holding the
byte and leaves the empty frame as the current whole frame.  On the next call
`agent_try_consume_next_rfc4571_chunk` returns TRUE but copies nothing and leaves the
iterator at the start, so `n_valid_messages` is 0 and the assertion
`n_valid_messages != 0 || reached_eos` fails.  In packetized mode the same call returns
one valid message of length 0. -/
theorem recv_empty_frame_fails_assertion :
    nice_agent_recv_messages_buffered rfc4571_headroom_buffered true component_two_frames
      one_message_four_bytes =
      some (.returned 1 component_empty_frame [⟨[⟨[170, 0, 0, 0]⟩], 1⟩]) ∧
    rfc4571_headroom_buffered component_empty_frame ≥
      component_empty_frame.rfc4571_frame_size ∧
    (agent_try_consume_next_rfc4571_chunk rfc4571_headroom_buffered true
      component_empty_frame (some one_message_four_bytes) ⟨0, 0, 0⟩).map
      (fun r => (r.1, r.2.2.2, nice_input_message_iter_get_n_valid_messages r.2.2.2)) =
      some (true, ⟨0, 0, 0⟩, 0) ∧
    nice_agent_recv_messages_buffered rfc4571_headroom_buffered true component_empty_frame
      one_message_four_bytes = some (.assertion_failed 0) ∧
    (nice_agent_recv_messages_buffered rfc4571_headroom_buffered false component_empty_frame
      one_message_four_bytes).map
      (fun r => match r with
        | .returned n _ msgs => some (n, msgs.map (fun m => m.length))
        | _ => none) = some (some (1, [0])) := by
  refine ⟨?_, ?_, ?_, ?_, ?_⟩ <;> decide

theorem gsize_sub (a b : Nat) (hb : b ≤ a) (ha : a < 2 ^ 64) :
    (a + 2 ^ 64 - b) % 2 ^ 64 = a - b := by
  have h : a + 2 ^ 64 - b = (a - b) + 2 ^ 64 := by omega
  rw [h, Nat.add_mod_right, Nat.mod_eq_of_lt (by omega)]

theorem buffers_bytes_length (vs : List GInputVector) :
    (buffers_bytes vs).length = (vs.map (fun b => b.size)).sum := by
  induction vs with
  | nil => rfl
  | cons v rest ih =>
    simp only [buffers_bytes, List.length_append, ih, List.map_cons, List.sum_cons,
      GInputVector.size]

theorem buffers_bytes_append (xs ys : List GInputVector) :
    buffers_bytes (xs ++ ys) = buffers_bytes xs ++ buffers_bytes ys := by
  induction xs with
  | nil => rfl
  | cons v rest ih =>
    show v.buffer ++ buffers_bytes (rest ++ ys) =
      (v.buffer ++ buffers_bytes rest) ++ buffers_bytes ys
    rw [ih, List.append_assoc]

theorem append_buffer_loop_spec (buffer : List Nat) :
    ∀ (vs : List GInputVector) (ib off length bo : Nat),
      (∀ v, vs.head? = some v → off ≤ v.size) → (vs = [] → off = 0) →
      (∀ v ∈ vs, v.size < 2 ^ 64) → bo ≤ buffer.length →
      (append_buffer_loop buffer vs ib off length bo).2.2.2.2 =
        bo + min (buffer.length - bo) ((vs.map (fun b => b.size)).sum - off) ∧
      (append_buffer_loop buffer vs ib off length bo).2.2.2.1 =
        length + min (buffer.length - bo) ((vs.map (fun b => b.size)).sum - off) ∧
      buffers_bytes (append_buffer_loop buffer vs ib off length bo).1 =
        (buffers_bytes vs).take off ++
          (buffer.drop bo).take
            (min (buffer.length - bo) ((vs.map (fun b => b.size)).sum - off)) ++
          (buffers_bytes vs).drop
            (off + min (buffer.length - bo) ((vs.map (fun b => b.size)).sum - off)) ∧
      (append_buffer_loop buffer vs ib off length bo).1.map (fun b => b.size) =
        vs.map (fun b => b.size) ∧
      ib ≤ (append_buffer_loop buffer vs ib off length bo).2.1 ∧
      ((vs.drop ((append_buffer_loop buffer vs ib off length bo).2.1 - ib)).map
          (fun b => b.size)).sum +
        min (buffer.length - bo) ((vs.map (fun b => b.size)).sum - off) + off =
        (vs.map (fun b => b.size)).sum +
          (append_buffer_loop buffer vs ib off length bo).2.2.1 ∧
      (append_buffer_loop buffer vs ib off length bo).2.2.1 ≤
        ((vs.drop ((append_buffer_loop buffer vs ib off length bo).2.1 - ib)).map
          (fun b => b.size)).sum := by
  intro vs
  induction vs with
  | nil =>
    intro ib off length bo _ hnil _ _
    have h0 : off = 0 := hnil rfl
    subst h0
    simp [append_buffer_loop, buffers_bytes]
  | cons v rest ih =>
    intro ib off length bo hhead _ hsz hbo
    have hoff : off ≤ v.size := hhead v rfl
    have hv : v.size < 2 ^ 64 := hsz v (List.mem_cons_self _ _)
    have hoff2 : off ≤ v.buffer.length := hoff
    rw [append_buffer_loop]
    simp only
    rw [gsize_sub v.size off hoff hv]
    simp only [List.map_cons, List.sum_cons]
    generalize hS : (rest.map (fun b => b.size)).sum = S
    have hvs : v.size = v.buffer.length := rfl
    by_cases hbreak : bo + min (buffer.length - bo) (v.size - off) = buffer.length
    · rw [if_pos hbreak]
      dsimp only
      have hlen : min (buffer.length - bo) (v.size - off) = buffer.length - bo := by omega
      have hk : min (buffer.length - bo) (v.size + S - off) = buffer.length - bo := by omega
      rw [hlen, hk]
      refine ⟨rfl, rfl, ?_, ?_, le_refl _, ?_, ?_⟩
      · simp only [buffers_bytes, memcpy_at]
        have h1 : off + (buffer.length - bo) ≤ v.buffer.length := by omega
        rw [List.take_append_of_le_length hoff2, List.drop_append_of_le_length h1]
        simp only [List.append_assoc]
      · simp only [List.map_cons, GInputVector.size, memcpy_at, List.length_append,
          List.length_take, List.length_drop]
        congr 1
        omega
      · simp only [Nat.sub_self, List.drop_zero, List.map_cons, List.sum_cons, hS]
        omega
      · simp only [Nat.sub_self, List.drop_zero, List.map_cons, List.sum_cons, hS]
        omega
    · rw [if_neg hbreak]
      dsimp only
      have hlen : min (buffer.length - bo) (v.size - off) = v.size - off := by omega
      rw [hlen]
      have hlt : v.size - off < buffer.length - bo := by omega
      obtain ⟨i1, i2, i3, i4, i5, i6, i7⟩ := ih (ib + 1) 0 (length + (v.size - off))
        (bo + (v.size - off)) (fun w _ => Nat.zero_le _) (fun _ => rfl)
        (fun w hw => hsz w (List.mem_cons_of_mem _ hw)) (by omega)
      rw [hS] at i1 i2 i3 i6
      simp only [Nat.sub_zero, Nat.zero_add, List.take_zero, List.nil_append, Nat.add_zero]
        at i1 i2 i3 i6
      have hk : min (buffer.length - bo) (v.size + S - off) =
          (v.size - off) + min (buffer.length - (bo + (v.size - off))) S := by omega
      rw [hk]
      have hdrop : ∀ n, ib + 1 ≤ n → (v :: rest).drop (n - ib) = rest.drop (n - (ib + 1)) := by
        intro n hn
        have : n - ib = (n - (ib + 1)) + 1 := by omega
        rw [this, List.drop_succ_cons]
      refine ⟨by rw [i1]; omega, by rw [i2]; omega, ?_, ?_, by omega, ?_, ?_⟩
      · simp only [buffers_bytes, memcpy_at]
        rw [i3, List.take_append_of_le_length hoff2]
        have h1 : off + (v.size - off) = v.buffer.length := by omega
        have h2 : off + (v.size - off + min (buffer.length - (bo + (v.size - off))) S) =
            v.buffer.length + min (buffer.length - (bo + (v.size - off))) S := by omega
        rw [h1, h2, List.drop_length, List.append_nil, List.drop_append, List.take_add,
          List.drop_drop]
        simp only [List.append_assoc]
      · simp only [List.map_cons, i4]
        congr 1
        simp only [GInputVector.size, memcpy_at, List.length_append, List.length_take,
          List.length_drop]
        omega
      · rw [hdrop _ i5]
        omega
      · rw [hdrop _ i5]
        exact i7

theorem sum_sizes_take_drop (bs : List GInputVector) (n : Nat) :
    ((bs.take n).map (fun b => b.size)).sum + ((bs.drop n).map (fun b => b.size)).sum =
      (bs.map (fun b => b.size)).sum := by
  rw [← List.sum_append, ← List.map_append, List.take_append_drop]

theorem size_le_sum (bs : List GInputVector) (v : GInputVector) (hv : v ∈ bs) :
    v.size ≤ (bs.map (fun b => b.size)).sum := by
  induction bs with
  | nil => cases hv
  | cons w rest ih =>
    simp only [List.map_cons, List.sum_cons]
    rcases List.mem_cons.1 hv with h | h
    · rw [h]; omega
    · have := ih h; omega

theorem append_buffer_spec (bytestream_tcp : Bool) (messages : List NiceInputMessage)
    (iter : NiceInputMessageIter) (buffer : List Nat) (message : NiceInputMessage)
    (hmsg : messages.get? iter.message = some message)
    (hiter : iter_within_message iter message = true)
    (hsize : input_message_get_size message < 2 ^ 64) :
    ∃ (msgs : List NiceInputMessage) (it : NiceInputMessageIter) (m : NiceInputMessage),
      append_buffer_to_input_messages bytestream_tcp messages iter buffer =
        some (min buffer.length (iter_capacity iter message), msgs, it) ∧
      msgs = messages.set iter.message m ∧
      m.length = iter_start_length iter message +
        min buffer.length (iter_capacity iter message) ∧
      buffers_bytes m.buffers =
        (buffers_bytes message.buffers).take (iter_position iter message) ++
          buffer.take (min buffer.length (iter_capacity iter message)) ++
          (buffers_bytes message.buffers).drop
            (iter_position iter message + min buffer.length (iter_capacity iter message)) ∧
      m.buffers.map (fun b => b.size) = message.buffers.map (fun b => b.size) := by
  unfold iter_within_message at hiter
  simp only [Bool.and_eq_true, decide_eq_true_eq] at hiter
  obtain ⟨hib, hoffs⟩ := hiter
  have hhead : ∀ v, (message.buffers.drop iter.buffer).head? = some v → iter.offset ≤ v.size := by
    intro v hv
    cases hd : message.buffers.drop iter.buffer with
    | nil => rw [hd] at hv; cases hv
    | cons w rest =>
      rw [hd] at hv hoffs
      simp only [List.head?_cons, Option.some.injEq] at hv
      subst hv
      simpa using hoffs
  have hnil : message.buffers.drop iter.buffer = [] → iter.offset = 0 := by
    intro hd
    rw [hd] at hoffs
    simpa using hoffs
  have hsz : ∀ v ∈ message.buffers.drop iter.buffer, v.size < 2 ^ 64 := by
    intro v hv
    have := size_le_sum message.buffers v (List.mem_of_mem_drop hv)
    unfold input_message_get_size at hsize
    omega
  obtain ⟨l1, l2, l3, l4, l5, l6, l7⟩ := append_buffer_loop_spec buffer
    (message.buffers.drop iter.buffer) iter.buffer iter.offset
    (iter_start_length iter message) 0 hhead hnil hsz (Nat.zero_le _)
  simp only [Nat.sub_zero, Nat.zero_add, List.drop_zero] at l1 l2 l3 l6
  have hcap : ((message.buffers.drop iter.buffer).map (fun b => b.size)).sum - iter.offset =
      iter_capacity iter message := rfl
  rw [hcap] at l1 l2 l3 l6
  have htakelen : (message.buffers.take iter.buffer).length = iter.buffer := by
    rw [List.length_take]; omega
  have hsplit := sum_sizes_take_drop message.buffers iter.buffer
  have hsumdrop : ((message.buffers.drop iter.buffer).map (fun b => b.size)).sum < 2 ^ 64 := by
    unfold input_message_get_size at hsize
    omega
  unfold append_buffer_to_input_messages
  rw [hmsg]
  simp only
  have hstart : (if iter.buffer = 0 ∧ iter.offset = 0 then 0 else message.length) =
      iter_start_length iter message := rfl
  rw [hstart]
  generalize hr : append_buffer_loop buffer (message.buffers.drop iter.buffer) iter.buffer
    iter.offset (iter_start_length iter message) 0 = r at l1 l2 l3 l4 l5 l6 l7 ⊢
  have hlt : iter.message < messages.length := by
    rcases List.get?_eq_some.1 hmsg with ⟨h, -⟩
    exact h
  have hcapacity : nice_input_message_iter_get_message_capacity
      { message := iter.message, buffer := r.2.1, offset := r.2.2.1 }
      (messages.set iter.message
        { buffers := message.buffers.take iter.buffer ++ r.1, length := r.2.2.2.1 }) =
      some (iter_capacity iter message - min buffer.length (iter_capacity iter message)) := by
    unfold nice_input_message_iter_get_message_capacity
    simp only [List.length_set]
    rw [if_neg (by omega)]
    rw [List.get?_eq_getElem?, List.getElem?_set_eq_of_lt _ hlt]
    simp only
    have hdrop : (message.buffers.take iter.buffer ++ r.1).drop r.2.1 =
        r.1.drop (r.2.1 - iter.buffer) := by
      rw [List.drop_append_eq_append_drop, htakelen, List.drop_of_length_le (by omega),
        List.nil_append]
    rw [hdrop, List.map_drop, l4, ← List.map_drop]
    rw [gsize_sub _ _ l7 (by
      have := sum_sizes_take_drop (message.buffers.drop iter.buffer) (r.2.1 - iter.buffer)
      omega)]
    congr 1
    unfold iter_capacity at l6 ⊢
    omega
  rw [hcapacity]
  simp only
  have hbytes : buffers_bytes (message.buffers.take iter.buffer ++ r.1) =
      (buffers_bytes message.buffers).take (iter_position iter message) ++
        buffer.take (min buffer.length (iter_capacity iter message)) ++
        (buffers_bytes message.buffers).drop
          (iter_position iter message + min buffer.length (iter_capacity iter message)) := by
    rw [buffers_bytes_append, l3]
    have hpos : iter_position iter message =
        (buffers_bytes (message.buffers.take iter.buffer)).length + iter.offset := by
      rw [buffers_bytes_length]; rfl
    have hold : buffers_bytes message.buffers =
        buffers_bytes (message.buffers.take iter.buffer) ++
          buffers_bytes (message.buffers.drop iter.buffer) := by
      rw [← buffers_bytes_append, List.take_append_drop]
    rw [hold, hpos, List.take_append, Nat.add_assoc, List.drop_append]
    simp only [List.append_assoc]
  have hsizes : (message.buffers.take iter.buffer ++ r.1).map (fun b => b.size) =
      message.buffers.map (fun b => b.size) := by
    rw [List.map_append, l4, ← List.map_append, List.take_append_drop]
  by_cases hc : ¬ bytestream_tcp = true ∨
      iter_capacity iter message - min buffer.length (iter_capacity iter message) = 0
  · rw [if_pos hc, l1]
    exact ⟨_, _, { buffers := message.buffers.take iter.buffer ++ r.1, length := r.2.2.2.1 },
      rfl, rfl, l2, hbytes, hsizes⟩
  · rw [if_neg hc, l1]
    exact ⟨_, _, { buffers := message.buffers.take iter.buffer ++ r.1, length := r.2.2.2.1 },
      rfl, rfl, l2, hbytes, hsizes⟩

theorem rfc4571_unconsumed_eq (component : Rfc4571Reassembly)
    (hframe : 2 ≤ component.rfc4571_frame_size) (hfs : component.rfc4571_frame_size < 2 ^ 64)
    (hwhole : component.rfc4571_frame_offset + component.rfc4571_frame_size ≤
      component.rfc4571_buffer.length)
    (hconsumed : component.rfc4571_consumed_size ≤ component.rfc4571_frame_size - 2) :
    rfc4571_bytes_unconsumed component =
      component.rfc4571_frame_size - 2 - component.rfc4571_consumed_size ∧
    rfc4571_unconsumed component =
      (rfc4571_frame_payload component).drop component.rfc4571_consumed_size ∧
    (rfc4571_unconsumed component).length =
      component.rfc4571_frame_size - 2 - component.rfc4571_consumed_size := by
  have h1 : rfc4571_bytes_unconsumed component =
      component.rfc4571_frame_size - 2 - component.rfc4571_consumed_size := by
    unfold rfc4571_bytes_unconsumed
    have h : component.rfc4571_frame_size + 2 ^ 64 - 2 + 2 ^ 64 -
        component.rfc4571_consumed_size =
        (component.rfc4571_frame_size - 2 - component.rfc4571_consumed_size) +
          2 ^ 64 + 2 ^ 64 := by omega
    rw [h, Nat.add_mod_right, Nat.add_mod_right, Nat.mod_eq_of_lt (by omega)]
  have h2 : rfc4571_unconsumed component =
      (rfc4571_frame_payload component).drop component.rfc4571_consumed_size := by
    unfold rfc4571_unconsumed rfc4571_frame_payload
    rw [h1, List.drop_take, List.drop_drop]
    have h : component.rfc4571_frame_offset + component.rfc4571_frame_size -
        (component.rfc4571_frame_size - 2 - component.rfc4571_consumed_size) =
        component.rfc4571_frame_offset + 2 + component.rfc4571_consumed_size := by omega
    rw [h]
  refine ⟨h1, h2, ?_⟩
  unfold rfc4571_unconsumed
  rw [h1, List.length_take, List.length_drop]
  omega

theorem rfc4571_chunk_step (headroom : Rfc4571Reassembly → Nat) (component : Rfc4571Reassembly)
    (messages : List NiceInputMessage) (iter : NiceInputMessageIter)
    (message : NiceInputMessage)
    (hframe : 2 ≤ component.rfc4571_frame_size) (hfs : component.rfc4571_frame_size < 2 ^ 64)
    (hwhole : component.rfc4571_frame_offset + component.rfc4571_frame_size ≤
      component.rfc4571_buffer.length)
    (hconsumed : component.rfc4571_consumed_size ≤ component.rfc4571_frame_size - 2)
    (hmsg : messages.get? iter.message = some message)
    (hiter : iter_within_message iter message = true)
    (hsize : input_message_get_size message < 2 ^ 64) :
    ∃ (after : Rfc4571Reassembly) (msgs : List NiceInputMessage) (it : NiceInputMessageIter)
      (m : NiceInputMessage),
      agent_consume_next_rfc4571_chunk headroom true component (some messages) iter =
        some (after, some msgs, it) ∧
      msgs = messages.set iter.message m ∧
      m.length = iter_start_length iter message + rfc4571_chunk_length component iter message ∧
      buffers_bytes m.buffers =
        (buffers_bytes message.buffers).take (iter_position iter message) ++
          ((rfc4571_frame_payload component).drop component.rfc4571_consumed_size).take
            (rfc4571_chunk_length component iter message) ++
          (buffers_bytes message.buffers).drop
            (iter_position iter message + rfc4571_chunk_length component iter message) ∧
      component.rfc4571_consumed_size + rfc4571_chunk_length component iter message ≤
        component.rfc4571_frame_size - 2 ∧
      after.rfc4571_buffer = component.rfc4571_buffer ∧
      after.rfc4571_buffer_offset = component.rfc4571_buffer_offset ∧
      (component.rfc4571_consumed_size + rfc4571_chunk_length component iter message <
          component.rfc4571_frame_size - 2 →
        after.rfc4571_consumed_size =
          component.rfc4571_consumed_size + rfc4571_chunk_length component iter message ∧
        after.rfc4571_frame_offset = component.rfc4571_frame_offset ∧
        after.rfc4571_frame_size = component.rfc4571_frame_size ∧
        after.rfc4571_wakeup_needed = true) ∧
      (component.rfc4571_consumed_size + rfc4571_chunk_length component iter message =
          component.rfc4571_frame_size - 2 →
        after.rfc4571_frame_offset =
          component.rfc4571_frame_offset + component.rfc4571_frame_size ∧
        after.rfc4571_consumed_size = 0 ∧
        after.rfc4571_frame_size =
          if headroom (rfc4571_frame_done component) ≥ 2 then
            2 + ntohs_at component.rfc4571_buffer
              (component.rfc4571_frame_offset + component.rfc4571_frame_size)
          else 0) := by
  obtain ⟨u1, u2, u3⟩ := rfc4571_unconsumed_eq component hframe hfs hwhole hconsumed
  obtain ⟨msgs, it, m, a1, a2, a3, a4, -⟩ := append_buffer_spec true messages iter
    (rfc4571_unconsumed component) message hmsg hiter hsize
  rw [u3] at a1 a3 a4
  have hK : min (component.rfc4571_frame_size - 2 - component.rfc4571_consumed_size)
      (iter_capacity iter message) = rfc4571_chunk_length component iter message := rfl
  rw [hK] at a1 a3 a4
  rw [u2] at a4
  have hle : rfc4571_chunk_length component iter message ≤
      component.rfc4571_frame_size - 2 - component.rfc4571_consumed_size := by
    rw [← hK]; exact Nat.min_le_left _ _
  unfold agent_consume_next_rfc4571_chunk
  simp only
  rw [a1]
  simp only
  rw [u1]
  by_cases hfull : rfc4571_chunk_length component iter message =
      component.rfc4571_frame_size - 2 - component.rfc4571_consumed_size
  · rw [if_pos (Or.inl hfull)]
    refine ⟨_, msgs, it, m, rfl, a2, a3, a4, by omega, ?_, ?_, fun hlt => by omega,
      fun _ => ?_⟩
    · unfold rfc4571_next_frame rfc4571_frame_done
      simp only
      split_ifs <;> rfl
    · unfold rfc4571_next_frame rfc4571_frame_done
      simp only
      split_ifs <;> rfl
    · have hdone : rfc4571_frame_done
          { component with
            rfc4571_consumed_size := component.rfc4571_consumed_size +
              rfc4571_chunk_length component iter message } =
          rfc4571_frame_done component := rfl
      unfold rfc4571_next_frame
      simp only
      rw [hdone]
      by_cases hroom : headroom (rfc4571_frame_done component) ≥ 2
      · rw [if_pos hroom, if_pos hroom]
        exact ⟨rfl, rfl, rfl⟩
      · rw [if_neg hroom, if_neg hroom]
        exact ⟨rfl, rfl, rfl⟩
  · have hnot : ¬ (rfc4571_chunk_length component iter message =
        component.rfc4571_frame_size - 2 - component.rfc4571_consumed_size ∨
        ¬ True) := by
      intro h
      rcases h with h | h
      · exact hfull h
      · exact h trivial
    rw [if_neg hnot]
    exact ⟨_, msgs, it, m, rfl, a2, a3, a4, by omega, rfl, rfl,
      fun _ => ⟨rfl, rfl, rfl, rfl⟩, fun heq => by omega⟩

theorem iter_position_capacity (iter : NiceInputMessageIter) (message : NiceInputMessage)
    (hiter : iter_within_message iter message = true) :
    iter_position iter message + iter_capacity iter message =
      (buffers_bytes message.buffers).length := by
  unfold iter_within_message at hiter
  simp only [Bool.and_eq_true, decide_eq_true_eq] at hiter
  obtain ⟨-, hoffs⟩ := hiter
  have hsplit := sum_sizes_take_drop message.buffers iter.buffer
  rw [buffers_bytes_length]
  unfold iter_position iter_capacity
  cases hd : message.buffers.drop iter.buffer with
  | nil =>
    rw [hd] at hoffs hsplit
    have h0 : iter.offset = 0 := by simpa using hoffs
    simp only [List.map_nil, List.sum_nil] at hsplit ⊢
    omega
  | cons v rest =>
    rw [hd] at hoffs hsplit
    have h0 : iter.offset ≤ v.size := by simpa using hoffs
    simp only [List.map_cons, List.sum_cons] at hsplit ⊢
    omega

theorem rfc4571_payload_length (component : Rfc4571Reassembly)
    (hwhole : component.rfc4571_frame_offset + component.rfc4571_frame_size ≤
      component.rfc4571_buffer.length) :
    (rfc4571_frame_payload component).length = component.rfc4571_frame_size - 2 := by
  unfold rfc4571_frame_payload
  rw [List.length_take, List.length_drop]
  omega

theorem bytes_appended_chunk (messages : List NiceInputMessage) (iter : NiceInputMessageIter)
    (message m : NiceInputMessage) (chunk : List Nat)
    (hmsg : messages.get? iter.message = some message)
    (hiter : iter_within_message iter message = true)
    (hlen : m.length = iter_start_length iter message + chunk.length)
    (hbytes : buffers_bytes m.buffers =
      (buffers_bytes message.buffers).take (iter_position iter message) ++ chunk ++
        (buffers_bytes message.buffers).drop (iter_position iter message + chunk.length)) :
    bytes_appended messages (messages.set iter.message m) iter = chunk := by
  have hlt : iter.message < messages.length := by
    rcases List.get?_eq_some.1 hmsg with ⟨h, -⟩
    exact h
  have hget : (messages.set iter.message m).get? iter.message = some m := by
    rw [List.get?_eq_getElem?, List.getElem?_set_eq_of_lt _ hlt]
  have hpos := iter_position_capacity iter message hiter
  unfold bytes_appended
  rw [hmsg, hget]
  simp only
  rw [hbytes, hlen, Nat.add_sub_cancel_left, List.append_assoc]
  have htl : ((buffers_bytes message.buffers).take (iter_position iter message)).length =
      iter_position iter message := by
    rw [List.length_take]; omega
  rw [List.drop_append_eq_append_drop, htl, Nat.sub_self, List.drop_zero,
    List.drop_of_length_le (by omega), List.nil_append, List.take_append_of_le_length (le_refl _),
    List.take_length]

theorem rfc4571_calls_deliver (headroom : Rfc4571Reassembly → Nat) :
    ∀ (calls : List (List NiceInputMessage × NiceInputMessageIter))
      (component : Rfc4571Reassembly),
      2 ≤ component.rfc4571_frame_size → component.rfc4571_frame_size < 2 ^ 64 →
      component.rfc4571_frame_offset + component.rfc4571_frame_size ≤
        component.rfc4571_buffer.length →
      component.rfc4571_consumed_size ≤ component.rfc4571_frame_size - 2 →
      (∀ call ∈ calls, recv_call_valid call = true) →
      ∃ (delivered : List Nat) (after : Rfc4571Reassembly),
        rfc4571_consume_calls headroom component calls = some (delivered, after) ∧
        delivered =
          ((rfc4571_frame_payload component).drop component.rfc4571_consumed_size).take
            delivered.length ∧
        component.rfc4571_consumed_size + delivered.length ≤
          component.rfc4571_frame_size - 2 ∧
        (∀ messages iter rest message, calls = (messages, iter) :: rest →
          messages.get? iter.message = some message →
          rfc4571_chunk_length component iter message ≤ delivered.length) ∧
        after.rfc4571_buffer = component.rfc4571_buffer ∧
        after.rfc4571_buffer_offset = component.rfc4571_buffer_offset ∧
        (after.rfc4571_frame_offset = component.rfc4571_frame_offset →
          after.rfc4571_consumed_size = component.rfc4571_consumed_size + delivered.length ∧
          after.rfc4571_frame_size = component.rfc4571_frame_size) ∧
        (after.rfc4571_frame_offset ≠ component.rfc4571_frame_offset →
          component.rfc4571_consumed_size + delivered.length =
            component.rfc4571_frame_size - 2 ∧
          after.rfc4571_frame_offset =
            component.rfc4571_frame_offset + component.rfc4571_frame_size ∧
          after.rfc4571_consumed_size = 0 ∧
          ∃ last : Rfc4571Reassembly,
            last.rfc4571_buffer = component.rfc4571_buffer ∧
            last.rfc4571_buffer_offset = component.rfc4571_buffer_offset ∧
            last.rfc4571_frame_offset = component.rfc4571_frame_offset ∧
            last.rfc4571_frame_size = component.rfc4571_frame_size ∧
            after.rfc4571_frame_size =
              if headroom (rfc4571_frame_done last) ≥ 2 then
                2 + ntohs_at component.rfc4571_buffer
                  (component.rfc4571_frame_offset + component.rfc4571_frame_size)
              else 0) := by
  intro calls
  induction calls with
  | nil =>
    intro component _ _ _ hconsumed _
    refine ⟨[], component, rfl, by simp, by simpa using hconsumed,
      (fun _ _ _ _ h => List.noConfusion h), rfl, rfl,
      fun _ => ⟨by simp, rfl⟩, fun h => absurd rfl h⟩
  | cons call rest ih =>
    intro component hframe hfs hwhole hconsumed hcalls
    obtain ⟨messages, iter⟩ := call
    have hvalid := hcalls (messages, iter) (List.mem_cons_self _ _)
    unfold recv_call_valid at hvalid
    simp only at hvalid
    cases hmsg : messages.get? iter.message with
    | none => rw [hmsg] at hvalid; cases hvalid
    | some message =>
      rw [hmsg] at hvalid
      simp only [Bool.and_eq_true, decide_eq_true_eq] at hvalid
      obtain ⟨hiter, hsize⟩ := hvalid
      obtain ⟨after, msgs, it, m, s1, s2, s3, s4, s5, s6, s7, s8, s9⟩ :=
        rfc4571_chunk_step headroom component messages iter message hframe hfs hwhole
          hconsumed hmsg hiter hsize
      have hplen := rfc4571_payload_length component hwhole
      have hchunk : (((rfc4571_frame_payload component).drop
          component.rfc4571_consumed_size).take
            (rfc4571_chunk_length component iter message)).length =
          rfc4571_chunk_length component iter message := by
        rw [List.length_take, List.length_drop, hplen]
        omega
      have hdel : bytes_appended messages ((some msgs).getD messages) iter =
          ((rfc4571_frame_payload component).drop component.rfc4571_consumed_size).take
            (rfc4571_chunk_length component iter message) := by
        show bytes_appended messages msgs iter = _
        rw [s2]
        apply bytes_appended_chunk messages iter message m _ hmsg hiter
        · rw [hchunk]; exact s3
        · rw [hchunk]; exact s4
      rw [rfc4571_consume_calls, s1]
      simp only
      rw [hdel]
      by_cases hfin : component.rfc4571_consumed_size +
          rfc4571_chunk_length component iter message = component.rfc4571_frame_size - 2
      · obtain ⟨f1, f2, f3⟩ := s9 hfin
        have hmoved : after.rfc4571_frame_offset ≠ component.rfc4571_frame_offset := by
          rw [f1]; omega
        rw [if_pos hmoved]
        have hfirst : ∀ messages2 iter2 rest2 message2,
            (messages, iter) :: rest = (messages2, iter2) :: rest2 →
            messages2.get? iter2.message = some message2 →
            rfc4571_chunk_length component iter2 message2 =
              rfc4571_chunk_length component iter message := by
          intro messages2 iter2 rest2 message2 heq hget
          simp only [List.cons.injEq, Prod.mk.injEq] at heq
          obtain ⟨⟨e1, e2⟩, -⟩ := heq
          subst e1 e2
          rw [hmsg] at hget
          cases hget
          rfl
        refine ⟨_, after, rfl, by rw [hchunk], by rw [hchunk]; omega,
          fun a b c d h1 h2 => by rw [hfirst a b c d h1 h2, hchunk], s6, s7,
          fun h => absurd h hmoved, fun _ => ⟨by rw [hchunk]; exact hfin, f1, f2,
            component, rfl, rfl, rfl, rfl, f3⟩⟩
      · have hlt : component.rfc4571_consumed_size +
            rfc4571_chunk_length component iter message <
            component.rfc4571_frame_size - 2 := by omega
        obtain ⟨g1, g2, g3, -⟩ := s8 hlt
        rw [if_neg (not_not.2 g2)]
        have hfirst : ∀ messages2 iter2 rest2 message2,
            (messages, iter) :: rest = (messages2, iter2) :: rest2 →
            messages2.get? iter2.message = some message2 →
            rfc4571_chunk_length component iter2 message2 =
              rfc4571_chunk_length component iter message := by
          intro messages2 iter2 rest2 message2 heq hget
          simp only [List.cons.injEq, Prod.mk.injEq] at heq
          obtain ⟨⟨e1, e2⟩, -⟩ := heq
          subst e1 e2
          rw [hmsg] at hget
          cases hget
          rfl
        obtain ⟨delivered, final, r1, r2, r3, -, r4, r5, r6, r7⟩ := ih after
          (by rw [g3]; exact hframe) (by rw [g3]; exact hfs)
          (by rw [g2, g3, s6]; exact hwhole) (by rw [g1, g3]; omega)
          (fun c hc => hcalls c (List.mem_cons_of_mem _ hc))
        have hpay : rfc4571_frame_payload after = rfc4571_frame_payload component := by
          unfold rfc4571_frame_payload
          rw [s6, g2, g3]
        rw [hpay, g1] at r2
        rw [g1, g3] at r3
        rw [r1]
        simp only [Option.map_some']
        refine ⟨_, final, rfl, ?_, ?_, ?_, by rw [r4, s6], by rw [r5, s7], ?_, ?_⟩
        · rw [List.length_append, hchunk, List.take_add, List.drop_drop]
          congr 1
        · rw [List.length_append, hchunk]
          omega
        · intro a b c d h1 h2
          rw [hfirst a b c d h1 h2, List.length_append, hchunk]
          omega
        · intro h
          have h' : final.rfc4571_frame_offset = after.rfc4571_frame_offset := by rw [h, g2]
          obtain ⟨q1, q2⟩ := r6 h'
          rw [List.length_append, hchunk]
          refine ⟨by rw [q1, g1]; omega, by rw [q2, g3]⟩
        · intro h
          have h' : final.rfc4571_frame_offset ≠ after.rfc4571_frame_offset := by
            rw [g2]; exact h
          obtain ⟨q1, q2, q3, last, q4, q5, q6, q7, q8⟩ := r7 h'
          rw [List.length_append, hchunk]
          refine ⟨by rw [g1, g3] at q1; omega, by rw [q2, g2, g3], q3, last, by rw [q4, s6],
            by rw [q5, s7], by rw [q6, g2], by rw [q7, g3], ?_⟩
          rw [q8, s6, g2, g3]

/-- C23: in bytestream mode, for a whole frame buffered in the component (at least the
two bytes of the prefix, all of it inside the receive buffer, `consumed_size` at most the
payload length), successive calls of `agent_consume_next_rfc4571_chunk`, each with valid
messages and iterator of its caller, all return; the bytes they put into the messages
are, in order, the payload bytes from `consumed_size` on, so none is left out or handed
out twice, and the first call hands out as many as fit its message.  `consumed_size`
grows by that number and stays at most `frame_size - 2` while the frame offset stands;
once the last payload byte is handed out the frame offset has advanced by `frame_size`,
`consumed_size` is 0 and `frame_size` is 2 plus the big-endian prefix of the next frame
when the headroom is at least two bytes and 0 otherwise. -/
theorem rfc4571_frame_delivered_in_order (headroom : Rfc4571Reassembly → Nat)
    (component : Rfc4571Reassembly)
    (calls : List (List NiceInputMessage × NiceInputMessageIter))
    (hframe : 2 ≤ component.rfc4571_frame_size)
    (hfs : component.rfc4571_frame_size < 2 ^ 64)
    (hwhole : component.rfc4571_frame_offset + component.rfc4571_frame_size ≤
      component.rfc4571_buffer.length)
    (hconsumed : component.rfc4571_consumed_size ≤ component.rfc4571_frame_size - 2)
    (hcalls : ∀ call ∈ calls, recv_call_valid call = true) :
    ∃ (delivered : List Nat) (after : Rfc4571Reassembly),
      rfc4571_consume_calls headroom component calls = some (delivered, after) ∧
      delivered =
        ((rfc4571_frame_payload component).drop component.rfc4571_consumed_size).take
          delivered.length ∧
      component.rfc4571_consumed_size + delivered.length ≤
        component.rfc4571_frame_size - 2 ∧
      (∀ messages iter rest message, calls = (messages, iter) :: rest →
        messages.get? iter.message = some message →
        rfc4571_chunk_length component iter message ≤ delivered.length) ∧
      after.rfc4571_buffer = component.rfc4571_buffer ∧
      after.rfc4571_buffer_offset = component.rfc4571_buffer_offset ∧
      (after.rfc4571_frame_offset = component.rfc4571_frame_offset →
        after.rfc4571_consumed_size = component.rfc4571_consumed_size + delivered.length ∧
        after.rfc4571_frame_size = component.rfc4571_frame_size) ∧
      (after.rfc4571_frame_offset ≠ component.rfc4571_frame_offset →
        component.rfc4571_consumed_size + delivered.length =
          component.rfc4571_frame_size - 2 ∧
        after.rfc4571_frame_offset =
          component.rfc4571_frame_offset + component.rfc4571_frame_size ∧
        after.rfc4571_consumed_size = 0 ∧
        ∃ last : Rfc4571Reassembly,
          last.rfc4571_buffer = component.rfc4571_buffer ∧
          last.rfc4571_buffer_offset = component.rfc4571_buffer_offset ∧
          last.rfc4571_frame_offset = component.rfc4571_frame_offset ∧
          last.rfc4571_frame_size = component.rfc4571_frame_size ∧
          after.rfc4571_frame_size =
            if headroom (rfc4571_frame_done last) ≥ 2 then
              2 + ntohs_at component.rfc4571_buffer
                (component.rfc4571_frame_offset + component.rfc4571_frame_size)
            else 0) :=
  rfc4571_calls_deliver headroom calls component hframe hfs hwhole hconsumed hcalls

/-- C23 at a frame with the payload 1 .. 5 followed by the prefix of a frame of 7 bytes:
a call with a message of two bytes and a call with a message of four bytes hand out
1, 2 and then 3, 4, 5; afterwards the frame offset is 7 and the frame size is 9. -/
theorem rfc4571_frame_delivered_in_order_witness :
    rfc4571_consume_calls rfc4571_headroom_buffered component_frame_of_five
      [(one_message_two_bytes, ⟨0, 0, 0⟩), (one_message_four_bytes, ⟨0, 0, 0⟩)] =
      some ([1, 2, 3, 4, 5],
        { component_frame_of_five with
          rfc4571_frame_offset := 7, rfc4571_frame_size := 9, rfc4571_wakeup_needed := false }) ∧
    ∃ (delivered : List Nat) (after : Rfc4571Reassembly),
      rfc4571_consume_calls rfc4571_headroom_buffered component_frame_of_five
        [(one_message_two_bytes, ⟨0, 0, 0⟩), (one_message_four_bytes, ⟨0, 0, 0⟩)] =
        some (delivered, after) ∧
      delivered =
        ((rfc4571_frame_payload component_frame_of_five).drop
          component_frame_of_five.rfc4571_consumed_size).take delivered.length :=
  ⟨by decide,
    let ⟨delivered, after, h1, h2, _⟩ :=
      rfc4571_frame_delivered_in_order rfc4571_headroom_buffered component_frame_of_five
        [(one_message_two_bytes, ⟨0, 0, 0⟩), (one_message_four_bytes, ⟨0, 0, 0⟩)]
        (by decide) (by decide) (by decide) (by decide) (by decide)
    ⟨delivered, after, h1, h2⟩⟩

theorem refresh_find_of_mem (l : List CandidateRefresh) (c : CandidateRefresh)
    (hnodup : (l.map (fun x => x.handle)).Nodup) (hc : c ∈ l) :
    l.find? (fun x => x.handle == c.handle) = some c := by
  induction l with
  | nil => cases hc
  | cons x rest ih =>
    simp only [List.map_cons, List.nodup_cons] at hnodup
    rcases List.mem_cons.1 hc with h | h
    · subst h
      simp
    · have hne : x.handle ≠ c.handle := by
        intro heq
        exact hnodup.1 (heq ▸ List.mem_map_of_mem (fun x => x.handle) h)
      rw [List.find?_cons]
      have : (x.handle == c.handle) = false := by simpa using hne
      rw [this]
      exact ih hnodup.2 h

theorem refresh_find_update_other (l : List CandidateRefresh) (h k : Nat)
    (f : CandidateRefresh → CandidateRefresh) (hf : ∀ x, (f x).handle = x.handle)
    (hne : k ≠ h) :
    (l.map (fun x => if x.handle == h then f x else x)).find? (fun x => x.handle == k) =
      l.find? (fun x => x.handle == k) := by
  induction l with
  | nil => rfl
  | cons x rest ih =>
    simp only [List.map_cons, List.find?_cons]
    by_cases hx : x.handle = h
    · have h1 : (x.handle == h) = true := by simpa using hx
      have h2 : ((f x).handle == k) = false := by
        rw [hf x, hx]; simpa using (fun e => hne e.symm)
      have h3 : (x.handle == k) = false := by
        rw [hx]; simpa using (fun e => hne e.symm)
      simp only [h1, if_true, h2, h3]
      exact ih
    · have h1 : (x.handle == h) = false := by simpa using hx
      simp only [h1, Bool.false_eq_true, if_false]
      rw [ih]

theorem refresh_update_handles (l : List CandidateRefresh) (h : Nat)
    (f : CandidateRefresh → CandidateRefresh) (hf : ∀ x, (f x).handle = x.handle) :
    (l.map (fun x => if x.handle == h then f x else x)).map (fun x => x.handle) =
      l.map (fun x => x.handle) := by
  rw [List.map_map]
  apply List.map_congr_left
  intro x _
  simp only [Function.comp]
  split_ifs
  · exact hf x
  · rfl

theorem refresh_update_mem (l : List CandidateRefresh) (h : Nat)
    (f : CandidateRefresh → CandidateRefresh) (c : CandidateRefresh) (hc : c ∈ l) :
    (c.handle ≠ h → c ∈ l.map (fun x => if x.handle == h then f x else x)) ∧
    (c.handle = h → f c ∈ l.map (fun x => if x.handle == h then f x else x)) := by
  constructor
  · intro hne
    refine List.mem_map.2 ⟨c, hc, ?_⟩
    have : (c.handle == h) = false := by simpa using hne
    simp [this]
  · intro heq
    refine List.mem_map.2 ⟨c, hc, ?_⟩
    have : (c.handle == h) = true := by simpa using heq
    simp [this]

theorem refresh_prune_loop_spec (data : Nat) :
    ∀ (refreshes : List Nat) (agent : RefreshAgent) (timeout items : Nat),
      refreshes.Nodup →
      (∀ h ∈ refreshes, ∃ c ∈ agent.refresh_list, c.handle = h) →
      (agent.refresh_list.map (fun c => c.handle)).Nodup →
      timeout + (refreshes_to_prune agent refreshes).length * agent.timer_ta < 2 ^ 32 →
      ∃ after : RefreshAgent,
        refresh_prune_loop data refreshes agent timeout items =
          some (after, items + (refreshes_to_prune agent refreshes).length) ∧
        after.refresh_list.map (fun c => c.handle) =
          agent.refresh_list.map (fun c => c.handle) ∧
        after.callbacks = agent.callbacks ∧ after.prune_data = agent.prune_data ∧
        after.next_data = agent.next_data ∧ after.timer_ta = agent.timer_ta ∧
        after.pruning_refreshes =
          agent.pruning_refreshes ++ refreshes_to_prune agent refreshes ∧
        (∀ i h, (refreshes_to_prune agent refreshes).get? i = some h →
          ∃ c ∈ after.refresh_list, c.handle = h ∧ c.disposing = true ∧
            c.destroy_cb_data = some data ∧
            c.destroy_source = some (timeout + (i + 1) * agent.timer_ta)) ∧
        (∀ c ∈ agent.refresh_list, c.handle ∉ refreshes_to_prune agent refreshes →
          c ∈ after.refresh_list) ∧
        (refreshes_to_prune agent refreshes = [] → after = agent) := by
  intro refreshes
  induction refreshes with
  | nil =>
    intro agent timeout items _ _ _ _
    refine ⟨agent, rfl, rfl, rfl, rfl, rfl, rfl, by simp [refreshes_to_prune], ?_,
      fun c hc _ => hc, fun _ => rfl⟩
    intro i h hget
    simp [refreshes_to_prune] at hget
  | cons h rest ih =>
    intro agent timeout items hnodup hlive hlist hwrap
    obtain ⟨hnotin, hrest⟩ := List.nodup_cons.1 hnodup
    obtain ⟨c0, hc0, hc0h⟩ := hlive h (List.mem_cons_self _ _)
    have hfind : refresh_of agent h = some c0 := by
      unfold refresh_of
      rw [← hc0h]
      exact refresh_find_of_mem _ _ hlist hc0
    rw [refresh_prune_loop, hfind]
    simp only
    by_cases hdisp : c0.disposing = true
    · have hcount : refreshes_to_prune agent (h :: rest) = refreshes_to_prune agent rest := by
        unfold refreshes_to_prune
        rw [List.filter_cons, hfind]
        simp [hdisp]
      rw [if_pos hdisp, hcount]
      rw [hcount] at hwrap
      exact ih agent timeout items hrest
        (fun k hk => hlive k (List.mem_cons_of_mem _ hk)) hlist hwrap
    · have hd : c0.disposing = false := by simpa using hdisp
      rw [if_neg hdisp]
      -- the agent after this refresh was marked
      generalize ha1 : ({ agent with
          pruning_refreshes := agent.pruning_refreshes ++ [h]
          refresh_list := agent.refresh_list.map (fun x =>
            if x.handle == h then
              refresh_mark_disposing data ((timeout + agent.timer_ta) % 2 ^ 32) x
            else x) } : RefreshAgent) = a1
      have hupd : ∀ x : CandidateRefresh,
          (refresh_mark_disposing data ((timeout + agent.timer_ta) % 2 ^ 32) x).handle =
            x.handle := fun _ => rfl
      have ha1list : a1.refresh_list = agent.refresh_list.map (fun x =>
            if x.handle == h then
              refresh_mark_disposing data ((timeout + agent.timer_ta) % 2 ^ 32) x
            else x) := by rw [← ha1]
      have ha1prune : a1.pruning_refreshes = agent.pruning_refreshes ++ [h] := by rw [← ha1]
      have ha1ta : a1.timer_ta = agent.timer_ta := by rw [← ha1]
      have ha1cb : a1.callbacks = agent.callbacks := by rw [← ha1]
      have ha1pd : a1.prune_data = agent.prune_data := by rw [← ha1]
      have ha1nd : a1.next_data = agent.next_data := by rw [← ha1]
      have ha1handles : a1.refresh_list.map (fun c => c.handle) =
          agent.refresh_list.map (fun c => c.handle) := by
        rw [ha1list]
        exact refresh_update_handles _ _ _ hupd
      have hother : ∀ k, k ≠ h → refresh_of a1 k = refresh_of agent k := by
        intro k hk
        unfold refresh_of
        rw [ha1list]
        exact refresh_find_update_other _ _ _ _ hupd hk
      have hcount_rest : refreshes_to_prune a1 rest = refreshes_to_prune agent rest := by
        unfold refreshes_to_prune
        apply List.filter_congr
        intro k hk
        have hne : k ≠ h := fun e => hnotin (e ▸ hk)
        rw [hother k hne]
      have hcount : refreshes_to_prune agent (h :: rest) =
          h :: refreshes_to_prune agent rest := by
        unfold refreshes_to_prune
        rw [List.filter_cons, hfind]
        simp [hd]
      rw [hcount] at hwrap ⊢
      simp only [List.length_cons] at hwrap ⊢
      have hta : (timeout + agent.timer_ta) % 2 ^ 32 = timeout + agent.timer_ta := by
        apply Nat.mod_eq_of_lt
        have : (refreshes_to_prune agent rest).length * agent.timer_ta + agent.timer_ta =
            ((refreshes_to_prune agent rest).length + 1) * agent.timer_ta := by ring
        omega
      have hlive1 : ∀ k ∈ rest, ∃ c ∈ a1.refresh_list, c.handle = k := by
        intro k hk
        obtain ⟨c, hc, hck⟩ := hlive k (List.mem_cons_of_mem _ hk)
        have hmem : k ∈ a1.refresh_list.map (fun c => c.handle) := by
          rw [ha1handles, ← hck]
          exact List.mem_map_of_mem (fun c => c.handle) hc
        obtain ⟨c', hc', hc'k⟩ := List.mem_map.1 hmem
        exact ⟨c', hc', hc'k⟩
      obtain ⟨after, i1, i2, i3, i4, i5, i6, i7, i8, i9, -⟩ := ih a1
        ((timeout + agent.timer_ta) % 2 ^ 32) (items + 1) hrest hlive1
        (by rw [ha1handles]; exact hlist)
        (by
          rw [hcount_rest, ha1ta, hta]
          have : ((refreshes_to_prune agent rest).length + 1) * agent.timer_ta =
              (refreshes_to_prune agent rest).length * agent.timer_ta + agent.timer_ta := by
            ring
          omega)
      rw [hcount_rest] at i1 i7 i8 i9
      rw [ha1ta] at i6 i8
      have hc0' : refresh_mark_disposing data ((timeout + agent.timer_ta) % 2 ^ 32) c0 ∈
          a1.refresh_list := by
        rw [ha1list]
        exact (refresh_update_mem agent.refresh_list h _ c0 hc0).2 hc0h
      have hnotcounted : h ∉ refreshes_to_prune agent rest := by
        intro hm
        unfold refreshes_to_prune at hm
        exact hnotin (List.mem_filter.1 hm).1
      refine ⟨after, ?_, by rw [i2, ha1handles], by rw [i3, ha1cb], by rw [i4, ha1pd],
        by rw [i5, ha1nd], i6, ?_, ?_, ?_, fun hnil => by cases hnil⟩
      · rw [i1]
        congr 2
        omega
      · rw [i7, ha1prune, List.append_assoc]
        rfl
      · intro i k hget
        cases i with
        | zero =>
          simp only [List.get?_cons_zero, Option.some.injEq] at hget
          subst hget
          have hnc : (refresh_mark_disposing data ((timeout + agent.timer_ta) % 2 ^ 32)
              c0).handle ∉ refreshes_to_prune agent rest := by
            show c0.handle ∉ _
            rw [hc0h]
            exact hnotcounted
          refine ⟨_, i9 _ hc0' hnc, hc0h, rfl, rfl, ?_⟩
          show some ((timeout + agent.timer_ta) % 2 ^ 32) = _
          rw [hta]
          congr 1
          omega
        | succ j =>
          simp only [List.get?_cons_succ] at hget
          obtain ⟨c, hc, q1, q2, q3, q4⟩ := i8 j k hget
          refine ⟨c, hc, q1, q2, q3, ?_⟩
          rw [q4, hta]
          congr 1
          ring
      · intro c hc hnot
        have hne : c.handle ≠ h := fun e => hnot (e ▸ List.mem_cons_self _ _)
        have hc1 : c ∈ a1.refresh_list := by
          rw [ha1list]
          exact (refresh_update_mem agent.refresh_list h _ c hc).1 hne
        exact i9 c hc1 (fun hm => hnot (List.mem_cons_of_mem _ hm))

theorem prune_data_find_decrement (l : List RefreshPruneAsyncData) (d : Nat) :
    (l.map (fun x =>
      if x.handle == d then { x with items_to_free := x.items_to_free - 1 } else x)).find?
        (fun x => x.handle == d) =
      (l.find? (fun x => x.handle == d)).map
        (fun x => { x with items_to_free := x.items_to_free - 1 }) := by
  induction l with
  | nil => rfl
  | cons x rest ih =>
    simp only [List.map_cons, List.find?_cons]
    by_cases hx : x.handle = d
    · have h1 : (x.handle == d) = true := by simpa using hx
      simp [h1]
    · have h1 : (x.handle == d) = false := by simpa using hx
      simp only [h1, Bool.false_eq_true, if_false]
      exact ih

theorem refresh_free_all_counts (d ud : Nat) (base : List Nat) :
    ∀ (frees : List Nat) (w : RefreshAgent) (S : List Nat),
      S ≠ [] → S.Nodup → frees.Nodup → (∀ h ∈ frees, h ∈ S) →
      (w.refresh_list.map (fun c => c.handle)).Nodup →
      (∀ h ∈ S, ∃ c ∈ w.refresh_list, c.handle = h ∧ c.destroy_cb_data = some d) →
      w.prune_data.find? (fun x => x.handle == d) = some ⟨d, ud, S.length⟩ →
      w.callbacks = base →
      ∃ final, refresh_free_all frees w = some final ∧
        final.callbacks = base ++ (if frees.length = S.length then [ud] else []) := by
  intro frees
  induction frees with
  | nil =>
    intro w S hS _ _ _ _ _ _ hcb
    refine ⟨w, rfl, ?_⟩
    have : ¬ ([] : List Nat).length = S.length := by
      intro h
      exact hS (List.length_eq_zero.1 h.symm)
    rw [if_neg this, List.append_nil]
    exact hcb
  | cons h rest ih =>
    intro w S hS hSnodup hfrees hsub hlist hdata hblock hcb
    obtain ⟨hnotin, hrest⟩ := List.nodup_cons.1 hfrees
    have hhS : h ∈ S := hsub h (List.mem_cons_self _ _)
    obtain ⟨c, hc, hch, hcd⟩ := hdata h hhS
    have hfind : refresh_of w h = some c := by
      unfold refresh_of
      rw [← hch]
      exact refresh_find_of_mem _ _ hlist hc
    have hlen : S.length = (S.erase h).length + 1 := by
      rw [List.length_erase_of_mem hhS]
      have : 0 < S.length := List.length_pos.2 hS
      omega
    rw [refresh_free_all]
    unfold refresh_free
    rw [hfind]
    simp only
    rw [hcd]
    simp only
    unfold on_refresh_removed
    simp only
    rw [hblock]
    simp only
    by_cases hlast : S.length = 0 ∨ S.length - 1 = 0
    · rw [if_pos hlast]
      simp only
      have hS1 : (S.erase h).length = 0 := by omega
      have hrestnil : rest = [] := by
        cases rest with
        | nil => rfl
        | cons k more =>
          exfalso
          have hk : k ∈ S := hsub k (List.mem_cons_of_mem _ (List.mem_cons_self _ _))
          have hkh : k ≠ h := fun e => hnotin (e ▸ List.mem_cons_self _ _)
          have : k ∈ S.erase h := (List.mem_erase_of_ne hkh).2 hk
          rw [List.length_eq_zero.1 hS1] at this
          cases this
      subst hrestnil
      refine ⟨_, rfl, ?_⟩
      simp only [List.length_singleton]
      rw [if_pos (by omega), hcb]
    · rw [if_neg hlast]
      simp only
      obtain ⟨final, f1, f2⟩ := ih
        { refresh_list := w.refresh_list.eraseP (fun x => x.handle == h),
          pruning_refreshes := w.pruning_refreshes.erase h, timer_ta := w.timer_ta,
          prune_data := w.prune_data.map (fun x =>
            if x.handle == d then { x with items_to_free := x.items_to_free - 1 } else x),
          next_data := w.next_data, callbacks := w.callbacks }
        (S.erase h)
        (by
          intro hnil
          rw [hnil] at hlen
          simp at hlen
          omega)
        (hSnodup.erase h) hrest
        (by
          intro k hk
          have hkh : k ≠ h := fun e => hnotin (e ▸ hk)
          exact (List.mem_erase_of_ne hkh).2 (hsub k (List.mem_cons_of_mem _ hk)))
        (hlist.sublist ((List.eraseP_sublist _).map _))
        (by
          intro k hk
          have hkS : k ∈ S := List.mem_of_mem_erase hk
          have hkh : k ≠ h := by
            intro e
            subst e
            exact (List.Nodup.not_mem_erase hSnodup) hk
          obtain ⟨c', hc', hc'k, hc'd⟩ := hdata k hkS
          refine ⟨c', ?_, hc'k, hc'd⟩
          apply (List.mem_eraseP_of_neg _).2 hc'
          simp only [beq_iff_eq]
          rw [hc'k]
          exact hkh)
        (by
          simp only
          rw [prune_data_find_decrement, hblock]
          simp only [Option.map_some']
          congr 2
          omega)
        hcb
      refine ⟨final, f1, ?_⟩
      rw [f2]
      congr 1
      simp only [List.length_cons]
      by_cases heq : rest.length = (S.erase h).length
      · rw [if_pos heq, if_pos (by omega)]
      · rw [if_neg heq, if_neg (by omega)]

theorem prune_data_find_new (l : List RefreshPruneAsyncData) (b : RefreshPruneAsyncData)
    (hfresh : ∀ x ∈ l, x.handle ≠ b.handle) :
    (l ++ [b]).find? (fun x => x.handle == b.handle) = some b ∧
    (l ++ [b]).filter (fun x => x.handle != b.handle) = l := by
  induction l with
  | nil => simp
  | cons x rest ih =>
    have hx : x.handle ≠ b.handle := hfresh x (List.mem_cons_self _ _)
    obtain ⟨i1, i2⟩ := ih (fun y hy => hfresh y (List.mem_cons_of_mem _ hy))
    have h1 : (x.handle == b.handle) = false := by simpa using hx
    have h2 : (x.handle != b.handle) = true := by simpa using hx
    constructor
    · rw [List.cons_append, List.find?_cons, h1]
      exact i1
    · rw [List.cons_append, List.filter_cons, h2, if_pos rfl, i2]

/-- C29: for a list of distinct refreshes of the agent, of which those not disposing yet
are `refreshes_to_prune`, `refresh_prune_async` returns.  When none is left to prune the
completion callback is called at once and nothing else changes; otherwise it is not called
yet.  The i-th refresh to prune is marked disposing with its removal scheduled
`i * timer_ta` milliseconds ahead and joins `pruning_refreshes`; the refreshes that were
disposing already, like every other refresh, stay as they were.  Then, however calls of
`refresh_free` for refreshes to prune follow one another, the completion callback has
been called once exactly when all of them were freed, and not before. -/
theorem refresh_prune_callback_once (agent : RefreshAgent) (refreshes : List Nat)
    (user_data : Nat) (hnodup : refreshes.Nodup)
    (hlive : ∀ h ∈ refreshes, ∃ c ∈ agent.refresh_list, c.handle = h)
    (hlist : (agent.refresh_list.map (fun c => c.handle)).Nodup)
    (hfresh : ∀ b ∈ agent.prune_data, b.handle ≠ agent.next_data)
    (hwrap : (refreshes_to_prune agent refreshes).length * agent.timer_ta < 2 ^ 32) :
    ∃ after : RefreshAgent,
      refresh_prune_async agent refreshes user_data = some after ∧
      (refreshes_to_prune agent refreshes = [] →
        after.callbacks = agent.callbacks ++ [user_data] ∧
        after.refresh_list = agent.refresh_list ∧ after.prune_data = agent.prune_data) ∧
      (refreshes_to_prune agent refreshes ≠ [] → after.callbacks = agent.callbacks) ∧
      after.pruning_refreshes =
        agent.pruning_refreshes ++ refreshes_to_prune agent refreshes ∧
      (∀ i h, (refreshes_to_prune agent refreshes).get? i = some h →
        ∃ c ∈ after.refresh_list, c.handle = h ∧ c.disposing = true ∧
          c.destroy_source = some ((i + 1) * agent.timer_ta)) ∧
      (∀ c ∈ agent.refresh_list, c.handle ∉ refreshes_to_prune agent refreshes →
        c ∈ after.refresh_list) ∧
      (∀ frees : List Nat, frees.Nodup →
        (∀ h ∈ frees, h ∈ refreshes_to_prune agent refreshes) →
        ∃ final, refresh_free_all frees after = some final ∧
          final.callbacks = agent.callbacks ++
            (if frees.length = (refreshes_to_prune agent refreshes).length then [user_data]
              else [])) := by
  have hcount : refreshes_to_prune
      { agent with next_data := agent.next_data + 1 } refreshes =
      refreshes_to_prune agent refreshes := rfl
  obtain ⟨mid, l1, l2, l3, l4, -, -, l7, l8, l9, l10⟩ := refresh_prune_loop_spec
    agent.next_data refreshes { agent with next_data := agent.next_data + 1 } 0 0 hnodup
    hlive hlist (by rw [hcount]; simpa using hwrap)
  rw [hcount] at l1 l7 l8 l9 l10
  simp only [Nat.zero_add] at l1 l8
  have hl3 : mid.callbacks = agent.callbacks := l3
  have hl4 : mid.prune_data = agent.prune_data := l4
  have hl7 : mid.pruning_refreshes =
      agent.pruning_refreshes ++ refreshes_to_prune agent refreshes := l7
  obtain ⟨n1, n2⟩ := prune_data_find_new mid.prune_data
    ⟨agent.next_data, user_data, (refreshes_to_prune agent refreshes).length⟩
    (by rw [hl4]; exact hfresh)
  unfold refresh_prune_async
  simp only
  rw [l1]
  simp only
  by_cases hnone : refreshes_to_prune agent refreshes = []
  · have hlen : (refreshes_to_prune agent refreshes).length = 0 := by rw [hnone]; rfl
    have hmid : mid = { agent with next_data := agent.next_data + 1 } := l10 hnone
    rw [if_pos hlen]
    unfold on_refresh_removed
    simp only
    rw [n1]
    simp only
    rw [if_pos (Or.inl hlen), n2]
    refine ⟨_, rfl, fun _ => ⟨by rw [hl3], by rw [hmid], hl4⟩, fun h => absurd hnone h,
      by rw [hl7], ?_, ?_, ?_⟩
    · intro i h hget
      rw [hnone] at hget
      simp at hget
    · intro c hc _
      show c ∈ mid.refresh_list
      rw [hmid]
      exact hc
    · intro frees _ hsub
      have hfrees : frees = [] := by
        cases frees with
        | nil => rfl
        | cons k more =>
          have := hsub k (List.mem_cons_self _ _)
          rw [hnone] at this
          cases this
      subst hfrees
      refine ⟨_, rfl, ?_⟩
      show mid.callbacks ++ [user_data] = _
      rw [hlen, hl3]
      rfl
  · have hlen : ¬ (refreshes_to_prune agent refreshes).length = 0 := by
      intro h
      exact hnone (List.length_eq_zero.1 h)
    rw [if_neg hlen]
    refine ⟨_, rfl, fun h => absurd h hnone, fun _ => hl3, hl7, ?_, l9, ?_⟩
    · intro i h hget
      obtain ⟨c, hc, q1, q2, -, q4⟩ := l8 i h hget
      exact ⟨c, hc, q1, q2, q4⟩
    · intro frees hfrees hsub
      have hSnodup : (refreshes_to_prune agent refreshes).Nodup := by
        unfold refreshes_to_prune
        exact hnodup.filter _
      apply refresh_free_all_counts agent.next_data user_data agent.callbacks frees _
        (refreshes_to_prune agent refreshes) hnone hSnodup hfrees hsub
      · show (mid.refresh_list.map (fun c => c.handle)).Nodup
        rw [l2]
        exact hlist
      · intro h hh
        obtain ⟨i, hi⟩ := List.get?_of_mem hh
        obtain ⟨c, hc, q1, -, q3, -⟩ := l8 i h hi
        exact ⟨c, hc, q1, q3⟩
      · exact n1
      · exact hl3

/-- C29 at the agent with three refreshes of stream 1, the second disposing already,
pruned by `refresh_prune_stream_async`: the first and the third get their removal 20 and
40 milliseconds ahead, the callback is not called by the freeing of one of them and is
called once after the freeing of both. -/
theorem refresh_prune_callback_once_witness :
    (refresh_prune_stream_async agent_three_refreshes 1).map
      (fun a => (a.callbacks, a.refresh_list.map (fun c => (c.handle, c.destroy_source)))) =
      some ([], [(1, some 20), (2, none), (3, some 40)]) ∧
    ((refresh_prune_stream_async agent_three_refreshes 1).bind
      (refresh_free_all [3])).map (fun a => a.callbacks) = some [] ∧
    ((refresh_prune_stream_async agent_three_refreshes 1).bind
      (refresh_free_all [3, 1])).map (fun a => a.callbacks) = some [1] ∧
    ∃ after : RefreshAgent,
      refresh_prune_async agent_three_refreshes [1, 2, 3] 1 = some after ∧
      after.pruning_refreshes = agent_three_refreshes.pruning_refreshes ++
        refreshes_to_prune agent_three_refreshes [1, 2, 3] :=
  ⟨by decide, by decide, by decide,
    let ⟨after, h1, _, _, h4, _⟩ :=
      refresh_prune_callback_once agent_three_refreshes [1, 2, 3] 1 (by decide) (by decide)
        (by decide) (by decide) (by decide)
    ⟨after, h1, h4⟩⟩

/-- The guard `g_return_val_if_fail (stream_id >= 1, NULL)` of
`nice_agent_parse_remote_candidate_sdp`: with stream id 0 no line is parsed. -/
theorem parse_candidate_sdp_stream_zero (max_foundation : Nat)
    (from_string : CString → Option NiceAddress) (sdp : CString) :
    nice_agent_parse_remote_candidate_sdp max_foundation from_string 0 sdp = none := by
  unfold nice_agent_parse_remote_candidate_sdp
  rw [if_pos (by omega)]

end Nice
